import Mathlib

/-!
# Terraform provider for the Wazuh REST API: a shallow embedding

The Go package `internal` is embedded as pure Lean functions.

* A handler that talks to the API is a value of `Prog`: a tree whose nodes are
  the HTTP requests the handler issues and whose branches are indexed by what
  `HTTPClient.Do` (followed by `io.ReadAll`) hands back.
* `Prog.run` executes such a tree against a `Transport` (the server seen from
  the client) and records every request that was sent.
* Library functions the package calls but does not define (`http.NewRequest`,
  `json.Marshal`, `json.Unmarshal`, `url.PathEscape`, `time.Now`, ...) are the
  fields of `Lib`; every handler takes them as a parameter.
-/

namespace Wazuh

/-! ## Go runtime values -/

/-- Go `error` values, identified with the text of `err.Error()`. -/
abbrev GoError := String

/-- JSON documents handed to `json.Marshal`. -/
inductive Json where
  | null
  | bool (b : Bool)
  | num (n : Int)
  | str (s : String)
  | raw (bytes : String)
  | arr (items : List Json)
  | obj (fields : List (String × Json))

/-- HTTP request as assembled by `http.NewRequest` and `req.Header.Set`. -/
structure Request where
  Method : String
  URL : String
  Header : List (String × String)
  Body : Option String
deriving DecidableEq, Repr

/-- Go `req.Header.Set(key, value)`: the key is bound to exactly this value. -/
def Request.HeaderSet (req : Request) (key value : String) : Request :=
  { req with Header := (key, value) :: req.Header.filter (fun kv => kv.1 != key) }

/-- Go `req.Header.Get(key)`, with `none` for an absent key. -/
def Request.HeaderGet (req : Request) (key : String) : Option String :=
  (req.Header.find? (fun kv => kv.1 == key)).map Prod.snd

/-- HTTP response as seen by a handler: the status code and what
`io.ReadAll(resp.Body)` is going to return. -/
structure Response where
  StatusCode : Int
  Body : String
  ReadErr : Option GoError
deriving DecidableEq, Repr

/-- Go `io.ReadAll(resp.Body)`: the bytes read and the error, if any. -/
def ioReadAll (resp : Response) : String × Option GoError :=
  (resp.Body, resp.ReadErr)

/-- Result of `HTTPClient.Do(req)`: a transport error or a response. -/
abbrev Outcome := Except GoError Response

/-- Decoded struct together with the error `json.Unmarshal` returned. -/
abbrev Decoded (T : Type) := T × Option GoError

/-! ## Terraform plugin SDK values -/

/-- Element of a `[]interface{}` as a type switch of the package sees it: an
`int`, an `int64`, a `string`, or a value of another type, given by the name of
its type and by its `%v` text. -/
inductive Elem where
  | int (v : Int)
  | int64 (v : Int)
  | str (v : String)
  | other (typeName text : String)
deriving DecidableEq, Repr

/-- Go `fmt.Sprintf("%v", v)` for an element of a `[]interface{}`. -/
def Elem.format : Elem → String
  | .int v => toString v
  | .int64 v => toString v
  | .str v => v
  | .other _ text => text

/-- Attribute values held by a `schema.ResourceData`; `list` is a Go
`[]interface{}` whose elements are strings, `none` standing for an element that
is not a string; `elems` is a `[]interface{}` with elements of any type; `maps`
is a `[]map[string]interface{}` whose values are strings or ints. -/
inductive Value where
  | str (s : String)
  | int (n : Int)
  | bool (b : Bool)
  | list (items : List (Option String))
  | maps (items : List (List (String × (String ⊕ Int))))
  | elems (items : List Elem)
deriving DecidableEq, Repr

/-- Zero value test used by `d.GetOk`. -/
def Value.isZero : Value → Bool
  | .str s => s == ""
  | .int n => n == 0
  | .bool b => !b
  | .list items => items.isEmpty
  | .maps items => items.isEmpty
  | .elems items => items.isEmpty

/-- Go `*schema.ResourceData`: the resource ID, the attribute values `d.Get`
reads (schema defaults applied) and `d.Set` writes, and the prior state
`d.GetChange` compares with. -/
structure ResourceData where
  id : String
  attrs : List (String × Value)
  prior : List (String × Value)
deriving DecidableEq, Repr

/-- Go `d.Id()`. -/
def ResourceData.Id (d : ResourceData) : String := d.id

/-- Go `d.SetId(v)`. -/
def ResourceData.SetId (d : ResourceData) (v : String) : ResourceData :=
  { d with id := v }

/-- Go `d.Get(key)`. -/
def ResourceData.Get (d : ResourceData) (key : String) : Option Value :=
  d.attrs.lookup key

/-- Go `d.Get(key).(string)`. -/
def ResourceData.GetString (d : ResourceData) (key : String) : String :=
  match d.Get key with
  | some (.str s) => s
  | _ => ""

/-- Go `d.Get(key).(bool)`. -/
def ResourceData.GetBool (d : ResourceData) (key : String) : Bool :=
  match d.Get key with
  | some (.bool b) => b
  | _ => false

/-- Go `d.Get(key).(int)`. -/
def ResourceData.GetInt (d : ResourceData) (key : String) : Int :=
  match d.Get key with
  | some (.int n) => n
  | _ => 0

/-- Go `d.Get(key).([]interface{})`. -/
def ResourceData.GetList (d : ResourceData) (key : String) : List (Option String) :=
  match d.Get key with
  | some (.list items) => items
  | _ => []

/-- Go `d.Get(key).([]interface{})` for a list whose elements a type switch
inspects. -/
def ResourceData.GetElems (d : ResourceData) (key : String) : List Elem :=
  match d.Get key with
  | some (.elems items) => items
  | _ => []

/-- Go `d.GetOk(key)`: the value and whether it is set to a non-zero value. -/
def ResourceData.GetOk (d : ResourceData) (key : String) : Option Value × Bool :=
  match d.Get key with
  | some v => (some v, !v.isZero)
  | none => (none, false)

/-- Go `d.GetOkExists(key)`: the value and whether the attribute is set at all,
be it to its zero value. -/
def ResourceData.GetOkExists (d : ResourceData) (key : String) : Option Value × Bool :=
  match d.Get key with
  | some v => (some v, true)
  | none => (none, false)

/-- Go `d.Set(key, value)`. -/
def ResourceData.Set (d : ResourceData) (key : String) (v : Value) : ResourceData :=
  { d with attrs := (key, v) :: d.attrs.filter (fun kv => kv.1 != key) }

/-- Go `d.GetChange(key)`: the old and the new value. -/
def ResourceData.GetChange (d : ResourceData) (key : String) : Option Value × Option Value :=
  (d.prior.lookup key, d.attrs.lookup key)

/-- Go `d.HasChange(key)`. -/
def ResourceData.HasChange (d : ResourceData) (key : String) : Bool :=
  d.prior.lookup key != d.attrs.lookup key

/-- Severity of a diagnostic. -/
inductive Severity where
  | Error
  | Warning
deriving DecidableEq, Repr

/-- Go `diag.Diagnostic`. -/
structure Diagnostic where
  Severity : Severity
  Summary : String
deriving DecidableEq, Repr

/-- Go `diag.Diagnostics`; the nil value of `var diags diag.Diagnostics` is `[]`. -/
abbrev Diagnostics := List Diagnostic

/-- Go `diag.FromErr(err)` for a non-nil `err`. -/
def diag.FromErr (err : GoError) : Diagnostics :=
  [{ Severity := .Error, Summary := err }]

/-- Go `diag.Errorf(format, args...)`, applied to the formatted message. -/
def diag.Errorf (msg : String) : Diagnostics :=
  [{ Severity := .Error, Summary := msg }]

/-- Go `diags.HasError()`. -/
def Diagnostics.HasError (diags : Diagnostics) : Bool :=
  diags.any (fun dg => dg.Severity == .Error)

/-- Go `unicode.IsSpace`. -/
def unicode.IsSpace (r : Char) : Bool :=
  r.toNat ∈ [0x09, 0x0A, 0x0B, 0x0C, 0x0D, 0x20, 0x85, 0xA0, 0x1680, 0x2028, 0x2029, 0x202F,
    0x205F, 0x3000] || (0x2000 ≤ r.toNat && r.toNat ≤ 0x200A)

/-- Go `strings.TrimSpace(s)`. -/
def strings.TrimSpace (s : String) : String :=
  ⟨(s.data.dropWhile unicode.IsSpace).rdropWhile unicode.IsSpace⟩

/-- Go `len(s)` for a string: its length in bytes. -/
def len (s : String) : Nat := s.utf8ByteSize

/-- Go `fmt.Sprintf("%v", items)` for a `[]string`. -/
def fmtSlice (items : List String) : String :=
  "[" ++ " ".intercalate items ++ "]"

/-- Go `strconv.FormatBool(b)` and `fmt.Sprintf("%t", b)`. -/
def formatBool (b : Bool) : String :=
  if b then "true" else "false"

/-- Go `strings.SplitN(s, sep, 2)` for a separator of one character: `s` cut
at the first occurrence of `sep`. -/
def strings.SplitN2 (s : String) (sep : Char) : List String :=
  match s.data.splitOn sep with
  | [] => [s]
  | [a] => [⟨a⟩]
  | a :: rest => [⟨a⟩, ⟨[sep].intercalate rest⟩]

/-- Go `strings.Split(s, sep)` for a separator of one character. -/
def strings.Split (s : String) (sep : Char) : List String :=
  (s.data.splitOn sep).map String.mk

/-- Go `strings.Join(items, sep)`. -/
def strings.Join (items : List String) (sep : String) : String :=
  sep.intercalate items

/-! ## Programs that issue HTTP requests -/

/-- Handler body: either it has returned, or it sends a request through
`HTTPClient.Do` and continues with the outcome. -/
inductive Prog (α : Type) where
  | ret (a : α)
  | call (req : Request) (k : Outcome → Prog α)

/-- Sequencing of two handler bodies (a Go function calling another). -/
def Prog.bind {α β : Type} : Prog α → (α → Prog β) → Prog β
  | .ret a, f => f a
  | .call req k, f => .call req (fun o => (k o).bind f)

/-- One request together with what `HTTPClient.Do` returned for it. -/
abbrev Exchange := Request × Outcome

/-- The server as seen from the client: what the next request is answered
with, given the exchanges that took place before it. -/
abbrev Transport := List Exchange → Request → Outcome

/-- Run a handler body against a transport; `log` holds the exchanges that
already took place, the result carries all exchanges in the order they
happened. -/
def Prog.run {α : Type} (t : Transport) : Prog α → List Exchange → α × List Exchange
  | .ret a, log => (a, log)
  | .call req k, log => (k (t log req)).run t (log ++ [(req, t log req)])

/-- Exchanges of a handler body started with an empty log. -/
def Prog.trace {α : Type} (t : Transport) (p : Prog α) : List Exchange :=
  (p.run t []).2

/-- Requests a handler body sends when started with an empty log. -/
def Prog.requests {α : Type} (t : Transport) (p : Prog α) : List Request :=
  (p.trace t).map Prod.fst

/-- Value a handler body returns when started with an empty log. -/
def Prog.result {α : Type} (t : Transport) (p : Prog α) : α :=
  (p.run t []).1

/-- Every request the handler body can send, whatever the server answers,
satisfies `P`. -/
def Prog.AllRequests {α : Type} (P : Request → Prop) : Prog α → Prop
  | .ret _ => True
  | .call req k => P req ∧ ∀ o, (k o).AllRequests P

/-- Every way the handler body can return satisfies `Q n a`, where `n` is the
number of requests sent on the way and `a` the value returned. -/
def Prog.Leaves {α : Type} (Q : Nat → α → Prop) : Prog α → Prop
  | .ret a => Q 0 a
  | .call _ k => ∀ o, (k o).Leaves (fun n => Q (n + 1))

/-- Outcome the claims call a failure: a transport error, or a response whose
status code lies outside 200..299. -/
def Outcome.failed : Outcome → Prop
  | .error _ => True
  | .ok resp => resp.StatusCode < 200 ∨ resp.StatusCode ≥ 300

/-- After an exchange whose outcome `o` satisfies `bad` the handler body
returns at once, with a result `a` satisfying `E o a`; this holds at every
request it can send. -/
def Prog.StopsOn {α : Type} (bad : Outcome → Prop) (E : Outcome → α → Prop) : Prog α → Prop
  | .ret _ => True
  | .call _ k => ∀ o, (bad o → ∃ a, k o = .ret a ∧ E o a) ∧ (k o).StopsOn bad E

/-- The response has the given status code. -/
def Outcome.hasStatus (o : Outcome) (code : Int) : Prop :=
  ∃ resp, o = .ok resp ∧ resp.StatusCode = code

/-! ## Library functions taken as parameters -/

/-- Field `data` of the struct decoded by `authenticate`. -/
structure AuthResultData where
  Token : String
deriving DecidableEq, Repr

/-- Struct decoded by `authenticate`. -/
structure AuthResult where
  Data : AuthResultData
  Error : Int
deriving DecidableEq, Repr

/-- Field `data` of the struct decoded by `resourceGroupRead`. -/
structure GroupReadData where
  AffectedItems : List Json
  TotalAffected : Int

/-- Struct decoded by `resourceGroupRead`. -/
structure GroupReadResult where
  Data : GroupReadData
  Error : Int

/-- Field `data` of the struct decoded by `resourceGroupDelete`. -/
structure GroupDeleteData where
  Error : Int
deriving DecidableEq, Repr

/-- Struct decoded by `resourceGroupDelete`. -/
structure GroupDeleteResult where
  Data : GroupDeleteData
deriving DecidableEq, Repr

/-- Struct decoded by `resourceGroupConfigurationUpdate`. -/
structure GroupConfigurationResult where
  Message : String
  Error : Int
deriving DecidableEq, Repr

/-- Field `data` of the struct decoded by `resourceActiveResponseCreate`. -/
structure ActiveResponseData where
  TotalAffected : Int
deriving DecidableEq, Repr

/-- Struct decoded by `resourceActiveResponseCreate`. -/
structure ActiveResponseResult where
  Message : String
  Error : Int
  Data : ActiveResponseData
deriving DecidableEq, Repr

/-- Element of `affected_items` in the structs decoded by `resourceRoleRead`
and `findRoleIDByName`; `ID` is a `json.Number`, kept as its text. -/
structure RoleItem where
  ID : String
  Name : String
deriving DecidableEq, Repr

/-- Field `data` of the structs decoded by `resourceRoleRead` and
`findRoleIDByName`. -/
structure RoleListData where
  AffectedItems : List RoleItem
  TotalAffected : Int
deriving DecidableEq, Repr

/-- Struct decoded by `resourceRoleRead` and by `findRoleIDByName` (the two
functions declare the same anonymous struct). -/
structure RoleListResult where
  Data : RoleListData
  Error : Int
deriving DecidableEq, Repr

/-- Field `data` of Go `wazuhRoleUserResponse`. -/
structure wazuhRoleUserResponseData where
  TotalAffected : Int
  TotalFailed : Int
deriving DecidableEq, Repr

/-- Go `wazuhRoleUserResponse`. -/
structure wazuhRoleUserResponse where
  Data : wazuhRoleUserResponseData
  Message : String
  Error : Int
deriving DecidableEq, Repr

/-- Field `data` of the struct decoded by `resourceAgentCreate`. -/
structure AgentCreateData where
  ID : String
  Key : String
deriving DecidableEq, Repr

/-- Struct decoded by `resourceAgentCreate`. -/
structure AgentCreateResult where
  Data : AgentCreateData
  Error : Int
deriving DecidableEq, Repr

/-- Element of `affected_items` in the struct decoded by `resourceAgentRead`. -/
structure AgentItem where
  ID : String
  Name : String
  IP : String
  RegisterIP : String
  Status : String
  Manager : String
  Version : String
  NodeName : String
deriving DecidableEq, Repr

/-- Field `data` of the struct decoded by `resourceAgentRead`. -/
structure AgentReadData where
  AffectedItems : List AgentItem
  TotalAffected : Int
deriving DecidableEq, Repr

/-- Struct decoded by `resourceAgentRead`. -/
structure AgentReadResult where
  Data : AgentReadData
  Error : Int
deriving DecidableEq, Repr

/-- Element of `affected_items` in the structs decoded by `resourceUserRead`
and `findUserIDByUsername`; `ID` is a `json.Number`, kept as its text. -/
structure UserItem where
  ID : String
  Username : String
deriving DecidableEq, Repr

/-- Field `data` of the structs decoded by `resourceUserRead` and
`findUserIDByUsername`. -/
structure UserListData where
  AffectedItems : List UserItem
  TotalAffected : Int
deriving DecidableEq, Repr

/-- Struct decoded by `resourceUserRead` and by `findUserIDByUsername` (the two
functions declare the same anonymous struct). -/
structure UserListResult where
  Data : UserListData
  Error : Int
deriving DecidableEq, Repr

/-- Element of `affected_items` in Go `wazuhPolicyListResponse`; `Policy` is a
`json.RawMessage`, kept as its bytes. -/
structure PolicyItem where
  ID : Int
  Name : String
  Policy : String
deriving DecidableEq, Repr

/-- Field `data` of Go `wazuhPolicyListResponse`. -/
structure wazuhPolicyListResponseData where
  AffectedItems : List PolicyItem
  TotalAffected : Int
deriving DecidableEq, Repr

/-- Go `wazuhPolicyListResponse`. -/
structure wazuhPolicyListResponse where
  Data : wazuhPolicyListResponseData
  Message : String
  Error : Int
deriving DecidableEq, Repr

/-- Element of `affected_items` in the struct decoded by
`resourceSecurityRuleRead`; a nil `Rule` is `Json.null`. -/
structure SecurityRuleItem where
  ID : Int
  Name : String
  Rule : Json

/-- Field `data` of the struct decoded by `resourceSecurityRuleRead`. -/
structure SecurityRuleReadData where
  AffectedItems : List SecurityRuleItem
  TotalAffected : Int

/-- Struct decoded by `resourceSecurityRuleRead`. -/
structure SecurityRuleReadResult where
  Data : SecurityRuleReadData
  Error : Int

/-- Element of `affected_items` in the struct decoded by
`lookupSecurityRuleIDByName`. -/
structure SecurityRuleLookupItem where
  ID : Int
  Name : String
deriving DecidableEq, Repr

/-- Field `data` of the struct decoded by `lookupSecurityRuleIDByName`. -/
structure SecurityRuleLookupData where
  AffectedItems : List SecurityRuleLookupItem
  TotalAffected : Int
deriving DecidableEq, Repr

/-- Struct decoded by `lookupSecurityRuleIDByName`. -/
structure SecurityRuleLookupResult where
  Data : SecurityRuleLookupData
  Error : Int
deriving DecidableEq, Repr

/-- Field `data` of `SummaryResult`. -/
structure SummaryData where
  TotalAffected : Int
  TotalFailed : Int
deriving DecidableEq, Repr

/-- Anonymous struct that several functions declare with the same fields and
tags: `data.total_affected_items`, `data.total_failed_items`, `message` and
`error`. -/
structure SummaryResult where
  Data : SummaryData
  Message : String
  Error : Int
deriving DecidableEq, Repr

/-- Struct decoded by `resourceSecurityConfigCreate`. -/
structure SecurityConfigPutResult where
  Message : String
  Error : Int
deriving DecidableEq, Repr

/-- Field `data` of the struct decoded by `resourceSecurityConfigRead`. -/
structure SecurityConfigData where
  AuthTokenExpTimeout : Int
  RBACMode : String
deriving DecidableEq, Repr

/-- Struct decoded by `resourceSecurityConfigRead`. -/
structure SecurityConfigReadResult where
  Data : SecurityConfigData
  Error : Int
deriving DecidableEq, Repr

/-- Element of `affected_items` in the structs decoded by
`resourceAgentUpgradeCreate` and `resourceAgentUpgradeCustomCreate`. -/
structure AgentUpgradeItem where
  Agent : String
  TaskID : Int
deriving DecidableEq, Repr

/-- Field `data` of the structs decoded by `resourceAgentUpgradeCreate` and
`resourceAgentUpgradeCustomCreate`. -/
structure AgentUpgradeData where
  AffectedItems : List AgentUpgradeItem
  TotalAffected : Int
  TotalFailed : Int
deriving DecidableEq, Repr

/-- Struct decoded by `resourceAgentUpgradeCreate` and by
`resourceAgentUpgradeCustomCreate`. -/
structure AgentUpgradeResult where
  Data : AgentUpgradeData
  Message : String
  Error : Int
deriving DecidableEq, Repr

/-- Field `data` of the struct decoded by `resourceLogtestCreate`; a nil
`Output` map is `none`. -/
structure LogtestData where
  Messages : List String
  Token : String
  Output : Option Json
  Alert : Bool
  Codemsg : Int

/-- Struct decoded by `resourceLogtestCreate`. -/
structure LogtestResult where
  Error : Int
  Data : LogtestData

/-- Struct decoded by `upsertManagerConfiguration`. -/
structure ManagerConfigurationResult where
  Message : String
  Error : Int
deriving DecidableEq, Repr

/-- Field `data` of the structs decoded by `resourceAgentGroupCreate` and
`resourceAgentGroupDelete`. -/
structure AgentGroupData where
  TotalAffected : Int
  TotalFailed : Int
  Message : String
  Error : Int
deriving DecidableEq, Repr

/-- Struct decoded by `resourceAgentGroupCreate` and by
`resourceAgentGroupDelete`. -/
structure AgentGroupResult where
  Data : AgentGroupData
  Message : String
  Error : Int
deriving DecidableEq, Repr

/-- Field `data` of the struct decoded by `resourceAgentRestartGroupCreate`. -/
structure AgentRestartGroupData where
  TotalAffected : Int
  TotalFailed : Int
  Message : String
  Error : Int
deriving DecidableEq, Repr

/-- Struct decoded by `resourceAgentRestartGroupCreate`. -/
structure AgentRestartGroupResult where
  Data : AgentRestartGroupData
deriving DecidableEq, Repr

/-- Functions of the Go standard library and of the clock that the package
calls. -/
structure Lib where
  /-- Error returned by `http.NewRequest(method, url, body)`, if any. -/
  newRequestErr : String → String → Option GoError
  /-- `json.Marshal`. -/
  marshal : Json → Except GoError String
  /-- Base64 encoding used by `req.SetBasicAuth`. -/
  base64 : String → String
  /-- `json.Unmarshal` into the result struct of `authenticate`. -/
  unmarshalAuth : String → Decoded AuthResult
  /-- `json.Unmarshal` into the result struct of `resourceGroupRead`. -/
  unmarshalGroupRead : String → Decoded GroupReadResult
  /-- `json.Unmarshal` into the result struct of `resourceGroupDelete`. -/
  unmarshalGroupDelete : String → Decoded GroupDeleteResult
  /-- `json.Unmarshal` into the result struct of `resourceGroupConfigurationUpdate`. -/
  unmarshalGroupConfiguration : String → Decoded GroupConfigurationResult
  /-- `json.Unmarshal` into the result struct of `resourceActiveResponseCreate`. -/
  unmarshalActiveResponse : String → Decoded ActiveResponseResult
  /-- `json.Unmarshal` into the result struct of `resourceRoleRead` and of
  `findRoleIDByName`. -/
  unmarshalRoleList : String → Decoded RoleListResult
  /-- `json.Unmarshal` into a `wazuhRoleUserResponse`. -/
  unmarshalRoleUser : String → Decoded wazuhRoleUserResponse
  /-- `json.Unmarshal` into the result struct of `resourceAgentCreate`. -/
  unmarshalAgentCreate : String → Decoded AgentCreateResult
  /-- `json.Unmarshal` into the result struct of `resourceAgentRead`. -/
  unmarshalAgentRead : String → Decoded AgentReadResult
  /-- `json.Unmarshal` into the result struct of `resourceUserRead` and of
  `findUserIDByUsername`. -/
  unmarshalUserList : String → Decoded UserListResult
  /-- `json.Unmarshal` into a `json.RawMessage`: the bytes themselves, or an
  error when they are not JSON. -/
  unmarshalRaw : String → Decoded String
  /-- `json.Unmarshal` into an `interface{}`. -/
  unmarshalAny : String → Decoded Json
  /-- `json.Unmarshal` into a `wazuhPolicyListResponse`. -/
  unmarshalPolicyList : String → Decoded wazuhPolicyListResponse
  /-- `json.Unmarshal` into the result struct of `resourceSecurityRuleRead`. -/
  unmarshalSecurityRuleRead : String → Decoded SecurityRuleReadResult
  /-- `json.Unmarshal` into the result struct of `lookupSecurityRuleIDByName`. -/
  unmarshalSecurityRuleLookup : String → Decoded SecurityRuleLookupResult
  /-- `json.Unmarshal` into a struct with the fields of `SummaryResult`. -/
  unmarshalSummary : String → Decoded SummaryResult
  /-- `json.Unmarshal` into the result struct of `resourceSecurityConfigCreate`. -/
  unmarshalSecurityConfigPut : String → Decoded SecurityConfigPutResult
  /-- `json.Unmarshal` into the result struct of `resourceSecurityConfigRead`. -/
  unmarshalSecurityConfigRead : String → Decoded SecurityConfigReadResult
  /-- `json.Unmarshal` into the result struct of `resourceAgentRestartGroupCreate`. -/
  unmarshalAgentRestartGroup : String → Decoded AgentRestartGroupResult
  /-- `json.Unmarshal` into the result struct of `resourceAgentGroupCreate` and of
  `resourceAgentGroupDelete`. -/
  unmarshalAgentGroup : String → Decoded AgentGroupResult
  /-- `json.Unmarshal` into the result struct of `upsertManagerConfiguration`. -/
  unmarshalManagerConfiguration : String → Decoded ManagerConfigurationResult
  /-- `json.Unmarshal` into the result struct of `resourceAgentUpgradeCreate` and
  of `resourceAgentUpgradeCustomCreate`. -/
  unmarshalAgentUpgrade : String → Decoded AgentUpgradeResult
  /-- `json.Unmarshal` into the result struct of `resourceLogtestCreate`. -/
  unmarshalLogtest : String → Decoded LogtestResult
  /-- Order in which a `for v := range m` loop visits the keys of a map whose
  keys are the given ones; Go leaves it unspecified. -/
  rangeKeys : List String → List String
  /-- `url.PathEscape`. -/
  pathEscape : String → String
  /-- `url.QueryEscape`, applied by `url.Values.Encode` to keys and values. -/
  queryEscape : String → String
  /-- `time.Now()` at the clock reading numbered `n`, as an instant; the
  readings of a handler are numbered in source order. -/
  now : Nat → Int
  /-- `t.Unix()` of an instant. -/
  timeUnix : Int → Int
  /-- `t.UTC().Format(layout)` of an instant. -/
  timeFormat : String → Int → String
  /-- `fmt.Sprintf("%q", s)`: the string as a quoted Go literal. -/
  quote : String → String

/-- Go `time.RFC3339`. -/
def time.RFC3339 : String := "2006-01-02T15:04:05Z07:00"

/-- Go `http.NewRequest(method, url, body)`. -/
def http.NewRequest (lib : Lib) (method url : String) (body : Option String) :
    Except GoError Request :=
  match lib.newRequestErr method url with
  | some err => .error err
  | none => .ok { Method := method, URL := url, Header := [], Body := body }

/-- Go `url.Values` as the package uses it: every key holds one value. -/
structure url.Values where
  entries : List (String × String)
deriving DecidableEq, Repr

/-- Go `url.Values{}`. -/
def url.Values.empty : url.Values := ⟨[]⟩

/-- Go `query.Set(key, value)`. -/
def url.Values.Set (q : url.Values) (key value : String) : url.Values :=
  ⟨(key, value) :: q.entries.filter (fun kv => kv.1 != key)⟩

/-- Go `query.Encode()`: `key=value` pairs, escaped, sorted by key and joined
by `&`. -/
def url.Values.Encode (lib : Lib) (q : url.Values) : String :=
  "&".intercalate ((q.entries.insertionSort (fun a b => a.1 ≤ b.1)).map
    (fun kv => lib.queryEscape kv.1 ++ "=" ++ lib.queryEscape kv.2))

/-- Go `req.SetBasicAuth(username, password)`. -/
def Request.SetBasicAuth (lib : Lib) (req : Request) (username password : String) : Request :=
  req.HeaderSet "Authorization" ("Basic " ++ lib.base64 (username ++ ":" ++ password))

/-! ## provider.go -/

/-- Go `APIClient`. -/
structure APIClient where
  Endpoint : String
  User : String
  Password : String
  AuthToken : String
deriving DecidableEq, Repr

/-- Authorization header value of the requests the resources send. -/
def bearer (c : APIClient) (req : Request) : Prop :=
  req.HeaderGet "Authorization" = some ("Bearer " ++ c.AuthToken)

/-- The request carries HTTP basic credentials: its Authorization header
starts with `Basic `. -/
def Request.hasBasicCredentials (req : Request) : Bool :=
  match req.HeaderGet "Authorization" with
  | some v => "Basic ".data.isPrefixOf v.data
  | none => false

/-- Go `func (c *APIClient) authenticate() (string, error)`. -/
def authenticate (lib : Lib) (c : APIClient) : Prog (String × Option GoError) :=
  match http.NewRequest lib "POST" (c.Endpoint ++ "/security/user/authenticate") none with
  | .error err => .ret ("", some ("failed to build auth request: " ++ err))
  | .ok req =>
    let req := req.SetBasicAuth lib c.User c.Password
    let req := req.HeaderSet "Content-Type" "application/json"
    .call req fun
      | .error err => .ret ("", some ("failed to perform authentication request: " ++ err))
      | .ok resp =>
        match ioReadAll resp with
        | (_, some err) => .ret ("", some err)
        | (body, none) =>
          if resp.StatusCode < 200 ∨ resp.StatusCode ≥ 300 then
            .ret ("", some ("authentication failed: status " ++ toString resp.StatusCode
              ++ ", body: " ++ body))
          else
            match lib.unmarshalAuth body with
            | (_, some err) => .ret ("", some ("failed to parse auth response: " ++ err))
            | (result, none) =>
              if result.Error ≠ 0 ∨ result.Data.Token = "" then
                .ret ("", some ("authentication failed: " ++ body))
              else
                .ret (result.Data.Token, none)

/-- Tail of `doRequest` once the request body is known. -/
def doRequestSend (lib : Lib) (c : APIClient) (method path : String) (reqBody : Option String) :
    Prog (Option String × Option GoError) :=
  match http.NewRequest lib method (c.Endpoint ++ "/" ++ path) reqBody with
  | .error err => .ret (none, some err)
  | .ok req =>
    let req := req.HeaderSet "Content-Type" "application/json"
    let req := req.HeaderSet "Authorization" ("Bearer " ++ c.AuthToken)
    .call req fun
      | .error err => .ret (none, some err)
      | .ok resp =>
        match ioReadAll resp with
        | (_, some err) => .ret (none, some err)
        | (respBody, none) =>
          if resp.StatusCode < 200 ∨ resp.StatusCode ≥ 300 then
            .ret (none, some ("status " ++ toString resp.StatusCode ++ ": " ++ respBody))
          else
            .ret (some respBody, none)

/-- Go `func (c *APIClient) doRequest(method, path string, body interface{}) ([]byte, error)`;
a nil `body` is `none`, nil bytes are `none`. -/
def doRequest (lib : Lib) (c : APIClient) (method path : String) (body : Option Json) :
    Prog (Option String × Option GoError) :=
  match body with
  | some b =>
    match lib.marshal b with
    | .error err => .ret (none, some err)
    | .ok data => doRequestSend lib c method path (some data)
  | none => doRequestSend lib c method path none

/-- Go `configureProvider`: the client handed to the resources, or diagnostics. -/
def configureProvider (lib : Lib) (d : ResourceData) : Prog (Option APIClient × Diagnostics) :=
  let diags : Diagnostics := []
  let endpoint := d.GetString "endpoint"
  let user := d.GetString "user"
  let password := d.GetString "password"
  let client : APIClient :=
    { Endpoint := endpoint, User := user, Password := password, AuthToken := "" }
  (authenticate lib client).bind fun r =>
    match r with
    | (_, some err) => .ret (none, diag.FromErr err)
    | (token, none) => .ret (some { client with AuthToken := token }, diags)

/-- Go signature shared by the Create, Read, Update and Delete functions: the
diagnostics returned and the resource data as the function leaves it. -/
abbrev Handler := Lib → APIClient → ResourceData → Prog (Diagnostics × ResourceData)

/-- What a lifecycle function returns after a failed exchange: an error
diagnostic, unless the failure was a 404 response. -/
def errorUnless404 (o : Outcome) (r : Diagnostics × ResourceData) : Prop :=
  r.1.HasError = true ∨ o.hasStatus 404

/-! ## resource_group.go -/

/-- Go `resourceGroupCreate`. -/
def resourceGroupCreate : Handler := fun lib client d =>
  let diags : Diagnostics := []
  let groupID := d.GetString "group_id"
  let payload := Json.obj [("group_id", .str groupID)]
  match lib.marshal payload with
  | .error err => .ret (diag.FromErr err, d)
  | .ok body =>
    let url := client.Endpoint ++ "/groups"
    match http.NewRequest lib "POST" url (some body) with
    | .error err => .ret (diag.FromErr err, d)
    | .ok req =>
      let req := req.HeaderSet "Content-Type" "application/json"
      let req := req.HeaderSet "Authorization" ("Bearer " ++ client.AuthToken)
      .call req fun
        | .error err => .ret (diag.FromErr err, d)
        | .ok resp =>
          let respBody := (ioReadAll resp).1
          if resp.StatusCode < 200 ∨ resp.StatusCode ≥ 300 then
            .ret (diag.Errorf ("failed to create group '" ++ groupID ++ "': status "
              ++ toString resp.StatusCode ++ ", body: " ++ respBody), d)
          else
            .ret (diags, d.SetId groupID)

/-- Go `resourceGroupRead`. -/
def resourceGroupRead : Handler := fun lib client d =>
  let diags : Diagnostics := []
  let groupID := d.Id
  let url := client.Endpoint ++ "/groups?groups_list=" ++ groupID
  match http.NewRequest lib "GET" url none with
  | .error err => .ret (diag.FromErr err, d)
  | .ok req =>
    let req := req.HeaderSet "Authorization" ("Bearer " ++ client.AuthToken)
    .call req fun
      | .error err => .ret (diag.FromErr err, d)
      | .ok resp =>
        match ioReadAll resp with
        | (_, some err) => .ret (diag.FromErr err, d)
        | (body, none) =>
          if resp.StatusCode = 404 then
            .ret (diags, d.SetId "")
          else if resp.StatusCode < 200 ∨ resp.StatusCode ≥ 300 then
            .ret (diag.Errorf ("failed to read group '" ++ groupID ++ "': status "
              ++ toString resp.StatusCode ++ ", body: " ++ body), d)
          else
            match lib.unmarshalGroupRead body with
            | (_, some err) => .ret (diag.Errorf ("failed to parse response: " ++ err), d)
            | (result, none) =>
              if result.Error ≠ 0 ∨ result.Data.TotalAffected = 0 then
                .ret (diags, d.SetId "")
              else
                .ret (diags, d.Set "group_id" (.str groupID))

/-- Go `resourceGroupDelete`. -/
def resourceGroupDelete : Handler := fun lib client d =>
  let diags : Diagnostics := []
  let groupID := d.Id
  let url := client.Endpoint ++ "/groups?groups_list=" ++ groupID
  match http.NewRequest lib "DELETE" url none with
  | .error err => .ret (diag.FromErr err, d)
  | .ok req =>
    let req := req.HeaderSet "Authorization" ("Bearer " ++ client.AuthToken)
    .call req fun
      | .error err => .ret (diag.FromErr err, d)
      | .ok resp =>
        let respBody := (ioReadAll resp).1
        if resp.StatusCode < 200 ∨ resp.StatusCode ≥ 300 then
          .ret (diag.Errorf ("failed to delete group '" ++ groupID ++ "': status "
            ++ toString resp.StatusCode ++ ", body: " ++ respBody), d)
        else
          let result := (lib.unmarshalGroupDelete respBody).1
          if result.Data.Error ≠ 0 then
            .ret (diag.Errorf ("Wazuh API returned error while deleting group '" ++ groupID
              ++ "': " ++ respBody), d)
          else
            .ret (diags, d.SetId "")

/-! ## resource_group_configuration.go -/

/-- Go `resourceGroupConfigurationUpdate`. -/
def resourceGroupConfigurationUpdate : Handler := fun lib client d =>
  let diags : Diagnostics := []
  let groupID := d.GetString "group_id"
  let xmlData := d.GetString "configuration_xml"
  let url := client.Endpoint ++ "/groups/" ++ groupID ++ "/configuration"
  match http.NewRequest lib "PUT" url (some xmlData) with
  | .error err => .ret (diag.FromErr err, d)
  | .ok req =>
    let req := req.HeaderSet "Authorization" ("Bearer " ++ client.AuthToken)
    let req := req.HeaderSet "Content-Type" "application/xml"
    .call req fun
      | .error err => .ret (diag.FromErr err, d)
      | .ok resp =>
        let body := (ioReadAll resp).1
        if resp.StatusCode < 200 ∨ resp.StatusCode ≥ 300 then
          .ret (diag.Errorf ("failed to update configuration for group '" ++ groupID
            ++ "': status " ++ toString resp.StatusCode ++ ", body: " ++ body), d)
        else
          let result := (lib.unmarshalGroupConfiguration body).1
          if result.Error ≠ 0 then
            .ret (diag.Errorf ("API error updating group configuration '" ++ groupID
              ++ "': " ++ body), d)
          else
            .ret (diags, d.SetId groupID)

/-- Go `resourceGroupConfigurationCreate`. -/
def resourceGroupConfigurationCreate : Handler := fun lib client d =>
  resourceGroupConfigurationUpdate lib client d

/-- Go `resourceGroupConfigurationRead`. -/
def resourceGroupConfigurationRead : Handler := fun lib client d =>
  let diags : Diagnostics := []
  let groupID := d.Id
  let url := client.Endpoint ++ "/groups/" ++ groupID ++ "/configuration"
  match http.NewRequest lib "GET" url none with
  | .error err => .ret (diag.FromErr err, d)
  | .ok req =>
    let req := req.HeaderSet "Authorization" ("Bearer " ++ client.AuthToken)
    .call req fun
      | .error err => .ret (diag.FromErr err, d)
      | .ok resp =>
        match ioReadAll resp with
        | (_, some err) => .ret (diag.FromErr err, d)
        | (body, none) =>
          if resp.StatusCode = 404 then
            .ret (diags, d.SetId "")
          else if resp.StatusCode < 200 ∨ resp.StatusCode ≥ 300 then
            .ret (diag.Errorf ("failed to read group configuration '" ++ groupID
              ++ "': status " ++ toString resp.StatusCode ++ ", body: " ++ body), d)
          else
            .ret (diags, (d.Set "configuration_xml" (.str body)).Set "group_id" (.str groupID))

/-- Go `resourceGroupConfigurationDelete`. -/
def resourceGroupConfigurationDelete : Handler := fun _ _ d =>
  let diags : Diagnostics := []
  .ret (diags, d.SetId "")

/-! ## resource_active_response.go -/

/-- Go `expandStringList`: the non-empty strings of a `[]interface{}`. -/
def expandStringList (list : List (Option String)) : List String :=
  list.filterMap fun v =>
    match v with
    | some s => if s ≠ "" then some s else none
    | none => none

/-- Go `joinComma`: the loop adds a comma before every item but the first. -/
def joinComma (items : List String) : String :=
  items.enum.foldl (fun out iv => (if iv.1 > 0 then out ++ "," else out) ++ iv.2) ""

/-- Go `resourceActiveResponseCreate`. -/
def resourceActiveResponseCreate : Handler := fun lib client d =>
  let diags : Diagnostics := []
  let command := d.GetString "command"
  let args := expandStringList (d.GetList "arguments")
  let agents := expandStringList (d.GetList "agents_list")
  let payload := Json.obj [("command", .str command), ("arguments", .arr (args.map Json.str))]
  match lib.marshal payload with
  | .error err => .ret (diag.FromErr err, d)
  | .ok body =>
    let url := client.Endpoint ++ "/active-response"
    let url := if agents.length > 0 then url ++ "?agents_list=" ++ joinComma agents else url
    match http.NewRequest lib "PUT" url (some body) with
    | .error err => .ret (diag.FromErr err, d)
    | .ok req =>
      let req := req.HeaderSet "Authorization" ("Bearer " ++ client.AuthToken)
      let req := req.HeaderSet "Content-Type" "application/json"
      .call req fun
        | .error err => .ret (diag.FromErr err, d)
        | .ok resp =>
          match ioReadAll resp with
          | (_, some err) => .ret (diag.FromErr err, d)
          | (respBody, none) =>
            if resp.StatusCode < 200 ∨ resp.StatusCode ≥ 300 then
              .ret (diag.Errorf ("failed to execute active response '" ++ command
                ++ "': status " ++ toString resp.StatusCode ++ ", body: " ++ respBody), d)
            else
              let result := (lib.unmarshalActiveResponse respBody).1
              if result.Error ≠ 0 then
                .ret (diag.Errorf ("Wazuh API returned error: " ++ respBody), d)
              else
                let d := d.Set "message" (.str result.Message)
                let d := d.Set "total_affected" (.int result.Data.TotalAffected)
                let d := d.Set "timestamp" (.str (lib.timeFormat time.RFC3339 (lib.now 0)))
                .ret (diags, d.SetId (command ++ "-" ++ toString (lib.timeUnix (lib.now 1))))

/-- Go `resourceActiveResponseRead`. -/
def resourceActiveResponseRead : Handler := fun _ _ d =>
  let diags : Diagnostics := []
  .ret (diags, d)

/-- Go `resourceActiveResponseNoop`. -/
def resourceActiveResponseNoop : Handler := fun _ _ d =>
  let diags : Diagnostics := []
  .ret (diags, d)

/-! ## resource_rule.go -/

/-- Go `resourceRuleDelete`. The schema types `relative_dirname` as a string,
so the type assertion `v.(string)` cannot fail. -/
def resourceRuleDelete : Handler := fun lib client d =>
  let diags : Diagnostics := []
  let filename := d.Id
  let escapedFilename := lib.pathEscape filename
  let urlStr := client.Endpoint ++ "/rules/files/" ++ escapedFilename
  let query := url.Values.empty
  let query :=
    match d.GetOk "relative_dirname" with
    | (some (.str rel), true) => if rel ≠ "" then query.Set "relative_dirname" rel else query
    | _ => query
  let q := query.Encode lib
  let urlStr := if q ≠ "" then urlStr ++ "?" ++ q else urlStr
  match http.NewRequest lib "DELETE" urlStr none with
  | .error err => .ret (diag.FromErr err, d)
  | .ok req =>
    let req := req.HeaderSet "Authorization" ("Bearer " ++ client.AuthToken)
    .call req fun
      | .error err => .ret (diag.FromErr err, d)
      | .ok resp =>
        let respBody := (ioReadAll resp).1
        if resp.StatusCode ≠ 404 ∧ (resp.StatusCode < 200 ∨ resp.StatusCode ≥ 300) then
          .ret (diag.Errorf ("failed to delete rules file '" ++ filename ++ "': status "
            ++ toString resp.StatusCode ++ ", body: " ++ respBody), d)
        else
          .ret (diags, d.SetId "")

/-- Go `upsertRule`. -/
def upsertRule : Handler := fun lib client d =>
  let diags : Diagnostics := []
  let filename := d.GetString "filename"
  let content := d.GetString "content"
  let overwrite := d.GetBool "overwrite"
  let escapedFilename := lib.pathEscape filename
  let urlStr := client.Endpoint ++ "/rules/files/" ++ escapedFilename
  let query := url.Values.empty
  let query := query.Set "overwrite" (formatBool overwrite)
  let query :=
    match d.GetOk "relative_dirname" with
    | (some (.str rel), true) => if rel ≠ "" then query.Set "relative_dirname" rel else query
    | _ => query
  let q := query.Encode lib
  let urlStr := if q ≠ "" then urlStr ++ "?" ++ q else urlStr
  match http.NewRequest lib "PUT" urlStr (some content) with
  | .error err => .ret (diag.FromErr err, d)
  | .ok req =>
    let req := req.HeaderSet "Authorization" ("Bearer " ++ client.AuthToken)
    let req := req.HeaderSet "Content-Type" "application/octet-stream"
    .call req fun
      | .error err => .ret (diag.FromErr err, d)
      | .ok resp =>
        let respBody := (ioReadAll resp).1
        if resp.StatusCode < 200 ∨ resp.StatusCode ≥ 300 then
          .ret (diag.Errorf ("failed to upload rules file '" ++ filename ++ "': status "
            ++ toString resp.StatusCode ++ ", body: " ++ respBody), d)
        else
          .ret (diags, d.SetId filename)

/-- Go `resourceRuleCreate`. -/
def resourceRuleCreate : Handler := fun lib client d =>
  upsertRule lib client d

/-- Go `resourceRuleUpdate`. -/
def resourceRuleUpdate : Handler := fun lib client d =>
  upsertRule lib client d

/-- Go `resourceRuleRead`. -/
def resourceRuleRead : Handler := fun lib client d =>
  let diags : Diagnostics := []
  let filename := d.Id
  let escapedFilename := lib.pathEscape filename
  let urlStr := client.Endpoint ++ "/rules/files/" ++ escapedFilename
  let query := url.Values.empty
  let query := query.Set "raw" "true"
  let query :=
    match d.GetOk "relative_dirname" with
    | (some (.str rel), true) => if rel ≠ "" then query.Set "relative_dirname" rel else query
    | _ => query
  let q := query.Encode lib
  let urlStr := if q ≠ "" then urlStr ++ "?" ++ q else urlStr
  match http.NewRequest lib "GET" urlStr none with
  | .error err => .ret (diag.FromErr err, d)
  | .ok req =>
    let req := req.HeaderSet "Authorization" ("Bearer " ++ client.AuthToken)
    .call req fun
      | .error err => .ret (diag.FromErr err, d)
      | .ok resp =>
        match ioReadAll resp with
        | (_, some err) => .ret (diag.FromErr err, d)
        | (body, none) =>
          if resp.StatusCode = 404 then
            .ret (diags, d.SetId "")
          else if resp.StatusCode < 200 ∨ resp.StatusCode ≥ 300 then
            .ret (diag.Errorf ("failed to read rules file '" ++ filename ++ "': status "
              ++ toString resp.StatusCode ++ ", body: " ++ body), d)
          else
            .ret (diags, (d.Set "content" (.str body)).Set "filename" (.str filename))

/-! ## resource_decoders.go -/

/-- Go `resourceDecoderPut`. -/
def resourceDecoderPut : Handler := fun lib client d =>
  let diags : Diagnostics := []
  let filename := d.GetString "filename"
  let content := d.GetString "content"
  let overwrite := d.GetBool "overwrite"
  let relativeDir := d.GetString "relative_dirname"
  let escapedFilename := lib.pathEscape filename
  let urlStr := client.Endpoint ++ "/decoders/files/" ++ escapedFilename
  let query := url.Values.empty
  let query := query.Set "overwrite" (formatBool overwrite)
  let query := if relativeDir ≠ "" then query.Set "relative_dirname" relativeDir else query
  let q := query.Encode lib
  let urlStr := if q ≠ "" then urlStr ++ "?" ++ q else urlStr
  match http.NewRequest lib "PUT" urlStr (some content) with
  | .error err => .ret (diag.FromErr err, d)
  | .ok req =>
    let req := req.HeaderSet "Authorization" ("Bearer " ++ client.AuthToken)
    let req := req.HeaderSet "Content-Type" "application/octet-stream"
    .call req fun
      | .error err => .ret (diag.FromErr err, d)
      | .ok resp =>
        let respBody := (ioReadAll resp).1
        if resp.StatusCode < 200 ∨ resp.StatusCode ≥ 300 then
          .ret (diag.Errorf ("failed to upload decoder file '" ++ filename ++ "': status "
            ++ toString resp.StatusCode ++ ", body: " ++ respBody), d)
        else
          .ret (diags, d.SetId filename)

/-- Go `resourceDecoderCreate`. -/
def resourceDecoderCreate : Handler := fun lib client d =>
  resourceDecoderPut lib client d

/-- Go `resourceDecoderUpdate`. -/
def resourceDecoderUpdate : Handler := fun lib client d =>
  resourceDecoderPut lib client d

/-- Go `resourceDecoderRead`. -/
def resourceDecoderRead : Handler := fun lib client d =>
  let diags : Diagnostics := []
  let filename := d.Id
  let relativeDir := d.GetString "relative_dirname"
  let escapedFilename := lib.pathEscape filename
  let urlStr := client.Endpoint ++ "/decoders/files/" ++ escapedFilename
  let query := url.Values.empty
  let query := query.Set "raw" "true"
  let query := if relativeDir ≠ "" then query.Set "relative_dirname" relativeDir else query
  let q := query.Encode lib
  let urlStr := if q ≠ "" then urlStr ++ "?" ++ q else urlStr
  match http.NewRequest lib "GET" urlStr none with
  | .error err => .ret (diag.FromErr err, d)
  | .ok req =>
    let req := req.HeaderSet "Authorization" ("Bearer " ++ client.AuthToken)
    .call req fun
      | .error err => .ret (diag.FromErr err, d)
      | .ok resp =>
        match ioReadAll resp with
        | (_, some err) => .ret (diag.FromErr err, d)
        | (body, none) =>
          if resp.StatusCode = 404 then
            .ret (diags, d.SetId "")
          else if resp.StatusCode < 200 ∨ resp.StatusCode ≥ 300 then
            .ret (diag.Errorf ("failed to read decoder file '" ++ filename ++ "': status "
              ++ toString resp.StatusCode ++ ", body: " ++ body), d)
          else
            .ret (diags, (d.Set "content" (.str body)).Set "filename" (.str filename))

/-- Go `resourceDecoderDelete`. -/
def resourceDecoderDelete : Handler := fun lib client d =>
  let diags : Diagnostics := []
  let filename := d.Id
  let relativeDir := d.GetString "relative_dirname"
  let escapedFilename := lib.pathEscape filename
  let urlStr := client.Endpoint ++ "/decoders/files/" ++ escapedFilename
  let query := url.Values.empty
  let query := if relativeDir ≠ "" then query.Set "relative_dirname" relativeDir else query
  let q := query.Encode lib
  let urlStr := if q ≠ "" then urlStr ++ "?" ++ q else urlStr
  match http.NewRequest lib "DELETE" urlStr none with
  | .error err => .ret (diag.FromErr err, d)
  | .ok req =>
    let req := req.HeaderSet "Authorization" ("Bearer " ++ client.AuthToken)
    .call req fun
      | .error err => .ret (diag.FromErr err, d)
      | .ok resp =>
        let respBody := (ioReadAll resp).1
        if resp.StatusCode ≠ 404 ∧ (resp.StatusCode < 200 ∨ resp.StatusCode ≥ 300) then
          .ret (diag.Errorf ("failed to delete decoder file '" ++ filename ++ "': status "
            ++ toString resp.StatusCode ++ ", body: " ++ respBody), d)
        else
          .ret (diags, d.SetId "")

/-! ## resource_cdb_list.go -/

/-- Go `resourceCDBListPut`. -/
def resourceCDBListPut : Handler := fun lib client d =>
  let diags : Diagnostics := []
  let filename := d.GetString "filename"
  let content := d.GetString "content"
  let overwrite := d.GetBool "overwrite"
  let escaped := lib.pathEscape filename
  let urlStr := client.Endpoint ++ "/lists/files/" ++ escaped ++ "?overwrite="
    ++ formatBool overwrite
  match http.NewRequest lib "PUT" urlStr (some content) with
  | .error err => .ret (diag.FromErr err, d)
  | .ok req =>
    let req := req.HeaderSet "Authorization" ("Bearer " ++ client.AuthToken)
    let req := req.HeaderSet "Content-Type" "application/octet-stream"
    .call req fun
      | .error err => .ret (diag.FromErr err, d)
      | .ok resp =>
        let respBody := (ioReadAll resp).1
        if resp.StatusCode < 200 ∨ resp.StatusCode ≥ 300 then
          .ret (diag.Errorf ("failed to upload CDB list file '" ++ filename ++ "': status "
            ++ toString resp.StatusCode ++ ", body: " ++ respBody), d)
        else
          .ret (diags, d.SetId filename)

/-- Go `resourceCDBListCreate`. -/
def resourceCDBListCreate : Handler := fun lib client d =>
  resourceCDBListPut lib client d

/-- Go `resourceCDBListUpdate`. -/
def resourceCDBListUpdate : Handler := fun lib client d =>
  resourceCDBListPut lib client d

/-- Go `resourceCDBListRead`. -/
def resourceCDBListRead : Handler := fun lib client d =>
  let diags : Diagnostics := []
  let filename := d.Id
  let escaped := lib.pathEscape filename
  let urlStr := client.Endpoint ++ "/lists/files/" ++ escaped ++ "?raw=true"
  match http.NewRequest lib "GET" urlStr none with
  | .error err => .ret (diag.FromErr err, d)
  | .ok req =>
    let req := req.HeaderSet "Authorization" ("Bearer " ++ client.AuthToken)
    .call req fun
      | .error err => .ret (diag.FromErr err, d)
      | .ok resp =>
        match ioReadAll resp with
        | (_, some err) => .ret (diag.FromErr err, d)
        | (body, none) =>
          if resp.StatusCode = 404 then
            .ret (diags, d.SetId "")
          else if resp.StatusCode < 200 ∨ resp.StatusCode ≥ 300 then
            .ret (diag.Errorf ("failed to read CDB list file '" ++ filename ++ "': status "
              ++ toString resp.StatusCode ++ ", body: " ++ body), d)
          else
            .ret (diags, (d.Set "content" (.str body)).Set "filename" (.str filename))

/-- Go `resourceCDBListDelete`. -/
def resourceCDBListDelete : Handler := fun lib client d =>
  let diags : Diagnostics := []
  let filename := d.Id
  let escaped := lib.pathEscape filename
  let urlStr := client.Endpoint ++ "/lists/files/" ++ escaped
  match http.NewRequest lib "DELETE" urlStr none with
  | .error err => .ret (diag.FromErr err, d)
  | .ok req =>
    let req := req.HeaderSet "Authorization" ("Bearer " ++ client.AuthToken)
    .call req fun
      | .error err => .ret (diag.FromErr err, d)
      | .ok resp =>
        let respBody := (ioReadAll resp).1
        if resp.StatusCode ≠ 404 ∧ (resp.StatusCode < 200 ∨ resp.StatusCode ≥ 300) then
          .ret (diag.Errorf ("failed to delete CDB list file '" ++ filename ++ "': status "
            ++ toString resp.StatusCode ++ ", body: " ++ respBody), d)
        else
          .ret (diags, d.SetId "")

/-! ## resource_logtest.go -/

/-- Go `resourceLogtestDelete`. -/
def resourceLogtestDelete : Handler := fun lib client d =>
  let diags : Diagnostics := []
  let token := d.Id
  if token = "" then
    .ret (diags, d.SetId "")
  else
    let escapedToken := lib.pathEscape token
    let urlStr := client.Endpoint ++ "/logtest/sessions/" ++ escapedToken
    match http.NewRequest lib "DELETE" urlStr none with
    | .error err => .ret (diag.FromErr err, d)
    | .ok req =>
      let req := req.HeaderSet "Authorization" ("Bearer " ++ client.AuthToken)
      .call req fun
        | .error err => .ret (diag.FromErr err, d)
        | .ok resp =>
          let respBody := (ioReadAll resp).1
          if resp.StatusCode ≠ 404 ∧ (resp.StatusCode < 200 ∨ resp.StatusCode ≥ 300) then
            .ret (diag.Errorf ("failed to delete logtest session '" ++ token ++ "': status "
              ++ toString resp.StatusCode ++ ", body: " ++ respBody), d)
          else
            .ret (diags, d.SetId "")

/-- Go `resourceLogtestCreate`. -/
def resourceLogtestCreate : Handler := fun lib client d =>
  let diags : Diagnostics := []
  let logFormat := d.GetString "log_format"
  let location := d.GetString "location"
  let event := d.GetString "event"
  let payload : List (String × Json) :=
    [("log_format", .str logFormat), ("location", .str location), ("event", .str event)]
  let payload :=
    match d.GetOk "token" with
    | (some (.str tokenStr), true) =>
      if tokenStr ≠ "" then payload ++ [("token", .str tokenStr)] else payload
    | _ => payload
  match lib.marshal (Json.obj payload) with
  | .error err => .ret (diag.FromErr err, d)
  | .ok body =>
    let urlStr := client.Endpoint ++ "/logtest"
    match http.NewRequest lib "PUT" urlStr (some body) with
    | .error err => .ret (diag.FromErr err, d)
    | .ok req =>
      let req := req.HeaderSet "Authorization" ("Bearer " ++ client.AuthToken)
      let req := req.HeaderSet "Content-Type" "application/json"
      .call req fun
        | .error err => .ret (diag.FromErr err, d)
        | .ok resp =>
          match ioReadAll resp with
          | (_, some err) => .ret (diag.FromErr err, d)
          | (respBody, none) =>
            if resp.StatusCode < 200 ∨ resp.StatusCode ≥ 300 then
              .ret (diag.Errorf ("failed to run logtest: status " ++ toString resp.StatusCode
                ++ ", body: " ++ respBody), d)
            else
              match lib.unmarshalLogtest respBody with
              | (_, some err) =>
                .ret (diag.Errorf ("failed to parse logtest response: " ++ err ++ " (body: "
                  ++ respBody ++ ")"), d)
              | (result, none) =>
                if result.Error ≠ 0 then
                  .ret (diag.Errorf ("Wazuh logtest returned error: " ++ respBody), d)
                else
                  let outputJSON :=
                    match result.Data.Output with
                    | some output =>
                      match lib.marshal output with
                      | .ok b => b
                      | .error _ => ""
                    | none => ""
                  let d := d.Set "token" (.str result.Data.Token)
                  let d := d.Set "messages" (.list (result.Data.Messages.map some))
                  let d := d.Set "alert" (.bool result.Data.Alert)
                  let d := d.Set "codemsg" (.int result.Data.Codemsg)
                  let d := d.Set "output" (.str outputJSON)
                  let d := d.Set "timestamp" (.str (lib.timeFormat time.RFC3339 (lib.now 0)))
                  if result.Data.Token ≠ "" then
                    .ret (diags, d.SetId result.Data.Token)
                  else
                    .ret (diags, d.SetId ("logtest-" ++ toString (lib.timeUnix (lib.now 1))))

/-- Go `resourceLogtestRead`. -/
def resourceLogtestRead : Handler := fun _ _ d =>
  let diags : Diagnostics := []
  .ret (diags, d)

/-- Go `resourceLogtestNoop`. -/
def resourceLogtestNoop : Handler := fun _ _ d =>
  let diags : Diagnostics := []
  .ret (diags, d)

/-! ## resource_rootcheck.go -/

/-- Go `resourceRootcheckDelete`. -/
def resourceRootcheckDelete : Handler := fun lib client d =>
  let diags : Diagnostics := []
  let agentID := d.Id
  let urlStr := client.Endpoint ++ "/rootcheck/" ++ agentID
  match http.NewRequest lib "DELETE" urlStr none with
  | .error err => .ret (diag.FromErr err, d)
  | .ok req =>
    let req := req.HeaderSet "Authorization" ("Bearer " ++ client.AuthToken)
    .call req fun
      | .error err => .ret (diag.FromErr err, d)
      | .ok resp =>
        let respBody := (ioReadAll resp).1
        if resp.StatusCode ≠ 404 ∧ (resp.StatusCode < 200 ∨ resp.StatusCode ≥ 300) then
          .ret (diag.Errorf ("failed to clear rootcheck database for agent '" ++ agentID
            ++ "': status " ++ toString resp.StatusCode ++ ", body: " ++ respBody), d)
        else
          .ret (diags, d.SetId "")

/-- Go `resourceRootcheckCreate`. -/
def resourceRootcheckCreate : Handler := fun lib client d =>
  let diags : Diagnostics := []
  let agentID := d.GetString "agent_id"
  let urlStr := client.Endpoint ++ "/rootcheck"
  let query := url.Values.empty
  let query := query.Set "agents_list" agentID
  let q := query.Encode lib
  let urlStr := if q ≠ "" then urlStr ++ "?" ++ q else urlStr
  match lib.marshal (Json.obj []) with
  | .error err => .ret (diag.FromErr err, d)
  | .ok bodyBytes =>
    match http.NewRequest lib "PUT" urlStr (some bodyBytes) with
    | .error err => .ret (diag.FromErr err, d)
    | .ok req =>
      let req := req.HeaderSet "Authorization" ("Bearer " ++ client.AuthToken)
      let req := req.HeaderSet "Content-Type" "application/json"
      .call req fun
        | .error err => .ret (diag.FromErr err, d)
        | .ok resp =>
          match ioReadAll resp with
          | (_, some err) => .ret (diag.FromErr err, d)
          | (respBody, none) =>
            if resp.StatusCode < 200 ∨ resp.StatusCode ≥ 300 then
              .ret (diag.Errorf ("failed to start rootcheck scan for agent '" ++ agentID
                ++ "': status " ++ toString resp.StatusCode ++ ", body: " ++ respBody), d)
            else
              let result := (lib.unmarshalSummary respBody).1
              if result.Error ≠ 0 then
                .ret (diag.Errorf ("Wazuh API returned error while starting rootcheck scan: "
                  ++ respBody), d)
              else
                let d := d.Set "scan_message" (.str result.Message)
                let d := d.Set "scan_total_affected" (.int result.Data.TotalAffected)
                let d := d.Set "scan_total_failed" (.int result.Data.TotalFailed)
                let d := d.Set "last_scan_timestamp" (.str (lib.timeFormat time.RFC3339 (lib.now 0)))
                .ret (diags, d.SetId agentID)

/-- Go `resourceRootcheckRead`. -/
def resourceRootcheckRead : Handler := fun lib client d =>
  let diags : Diagnostics := []
  let agentID := d.Id
  let urlStr := client.Endpoint ++ "/rootcheck/" ++ agentID
  match http.NewRequest lib "GET" urlStr none with
  | .error err => .ret (diag.FromErr err, d)
  | .ok req =>
    let req := req.HeaderSet "Authorization" ("Bearer " ++ client.AuthToken)
    .call req fun
      | .error err => .ret (diag.FromErr err, d)
      | .ok resp =>
        match ioReadAll resp with
        | (_, some err) => .ret (diag.FromErr err, d)
        | (body, none) =>
          if resp.StatusCode = 404 then
            .ret (diags, d.SetId "")
          else if resp.StatusCode < 200 ∨ resp.StatusCode ≥ 300 then
            .ret (diag.Errorf ("failed to read rootcheck results for agent '" ++ agentID
              ++ "': status " ++ toString resp.StatusCode ++ ", body: " ++ body), d)
          else
            match lib.unmarshalSummary body with
            | (_, some err) =>
              .ret (diag.Errorf ("failed to parse rootcheck results for agent '" ++ agentID
                ++ "': " ++ err), d)
            | (result, none) =>
              if result.Error ≠ 0 then
                .ret (diag.Errorf ("Wazuh API returned error when getting rootcheck results: "
                  ++ body), d)
              else
                let d := d.Set "results_message" (.str result.Message)
                let d := d.Set "results_total_affected" (.int result.Data.TotalAffected)
                let d := d.Set "results_total_failed" (.int result.Data.TotalFailed)
                let d := d.Set "agent_id" (.str agentID)
                .ret (diags, d)

/-- Go `resourceRootcheckUpdate` (not wired into the resource). -/
def resourceRootcheckUpdate : Handler := fun lib client d =>
  resourceRootcheckCreate lib client d

/-! ## resource_syscheck.go -/

/-- Go `resourceSyscheckCreate`. -/
def resourceSyscheckCreate : Handler := fun lib client d =>
  let diags : Diagnostics := []
  let agentID := d.GetString "agent_id"
  let urlStr := client.Endpoint ++ "/syscheck"
  let query := url.Values.empty
  let query := query.Set "agents_list" agentID
  let q := query.Encode lib
  let urlStr := if q ≠ "" then urlStr ++ "?" ++ q else urlStr
  match lib.marshal (Json.obj []) with
  | .error err => .ret (diag.FromErr err, d)
  | .ok bodyBytes =>
    match http.NewRequest lib "PUT" urlStr (some bodyBytes) with
    | .error err => .ret (diag.FromErr err, d)
    | .ok req =>
      let req := req.HeaderSet "Authorization" ("Bearer " ++ client.AuthToken)
      let req := req.HeaderSet "Content-Type" "application/json"
      .call req fun
        | .error err => .ret (diag.FromErr err, d)
        | .ok resp =>
          match ioReadAll resp with
          | (_, some err) => .ret (diag.FromErr err, d)
          | (respBody, none) =>
            if resp.StatusCode < 200 ∨ resp.StatusCode ≥ 300 then
              .ret (diag.Errorf ("failed to start syscheck scan for agent '" ++ agentID
                ++ "': status " ++ toString resp.StatusCode ++ ", body: " ++ respBody), d)
            else
              let result := (lib.unmarshalSummary respBody).1
              if result.Error ≠ 0 then
                .ret (diag.Errorf ("Wazuh API returned error while starting syscheck scan: "
                  ++ respBody), d)
              else
                let d := d.Set "scan_message" (.str result.Message)
                let d := d.Set "scan_total_affected" (.int result.Data.TotalAffected)
                let d := d.Set "scan_total_failed" (.int result.Data.TotalFailed)
                let d := d.Set "last_scan_timestamp" (.str (lib.timeFormat time.RFC3339 (lib.now 0)))
                .ret (diags, d.SetId agentID)

/-- Go `resourceSyscheckRead`. -/
def resourceSyscheckRead : Handler := fun lib client d =>
  let diags : Diagnostics := []
  let agentID := d.Id
  let urlStr := client.Endpoint ++ "/syscheck/" ++ agentID
  match http.NewRequest lib "GET" urlStr none with
  | .error err => .ret (diag.FromErr err, d)
  | .ok req =>
    let req := req.HeaderSet "Authorization" ("Bearer " ++ client.AuthToken)
    .call req fun
      | .error err => .ret (diag.FromErr err, d)
      | .ok resp =>
        match ioReadAll resp with
        | (_, some err) => .ret (diag.FromErr err, d)
        | (body, none) =>
          if resp.StatusCode = 404 then
            .ret (diags, d.SetId "")
          else if resp.StatusCode < 200 ∨ resp.StatusCode ≥ 300 then
            .ret (diag.Errorf ("failed to read syscheck results for agent '" ++ agentID
              ++ "': status " ++ toString resp.StatusCode ++ ", body: " ++ body), d)
          else
            match lib.unmarshalSummary body with
            | (_, some err) =>
              .ret (diag.Errorf ("failed to parse syscheck results for agent '" ++ agentID
                ++ "': " ++ err), d)
            | (result, none) =>
              if result.Error ≠ 0 then
                .ret (diag.Errorf ("Wazuh API returned error when getting syscheck results: "
                  ++ body), d)
              else
                let d := d.Set "results_message" (.str result.Message)
                let d := d.Set "results_total_affected" (.int result.Data.TotalAffected)
                let d := d.Set "results_total_failed" (.int result.Data.TotalFailed)
                let d := d.Set "agent_id" (.str agentID)
                .ret (diags, d)

/-- Go `resourceSyscheckDelete`. -/
def resourceSyscheckDelete : Handler := fun lib client d =>
  let diags : Diagnostics := []
  let agentID := d.Id
  let urlStr := client.Endpoint ++ "/syscheck/" ++ agentID
  match http.NewRequest lib "DELETE" urlStr none with
  | .error err => .ret (diag.FromErr err, d)
  | .ok req =>
    let req := req.HeaderSet "Authorization" ("Bearer " ++ client.AuthToken)
    .call req fun
      | .error err => .ret (diag.FromErr err, d)
      | .ok resp =>
        let respBody := (ioReadAll resp).1
        if resp.StatusCode ≠ 404 ∧ (resp.StatusCode < 200 ∨ resp.StatusCode ≥ 300) then
          .ret (diag.Errorf ("failed to clear syscheck database for agent '" ++ agentID
            ++ "': status " ++ toString resp.StatusCode ++ ", body: " ++ respBody), d)
        else
          .ret (diags, d.SetId "")

/-! ## resource_role.go -/

/-- Go `findRoleIDByName`. -/
def findRoleIDByName (lib : Lib) (client : APIClient) (name : String) :
    Prog (String × Option GoError) :=
  let urlStr := client.Endpoint ++ "/security/roles"
  let q := url.Values.empty
  let q := q.Set "search" name
  let q := q.Set "limit" "100"
  let enc := q.Encode lib
  let urlStr := if enc ≠ "" then urlStr ++ "?" ++ enc else urlStr
  match http.NewRequest lib "GET" urlStr none with
  | .error err => .ret ("", some err)
  | .ok req =>
    let req := req.HeaderSet "Authorization" ("Bearer " ++ client.AuthToken)
    .call req fun
      | .error err => .ret ("", some err)
      | .ok resp =>
        match ioReadAll resp with
        | (_, some err) => .ret ("", some err)
        | (body, none) =>
          if resp.StatusCode < 200 ∨ resp.StatusCode ≥ 300 then
            .ret ("", some ("failed to lookup Wazuh role '" ++ name ++ "': status "
              ++ toString resp.StatusCode ++ ", body: " ++ body))
          else
            match lib.unmarshalRoleList body with
            | (_, some err) => .ret ("", some ("failed to parse role lookup response: " ++ err))
            | (result, none) =>
              if result.Error ≠ 0 ∨ result.Data.TotalAffected = 0 then
                .ret ("", some ("no roles found matching name '" ++ name ++ "'"))
              else
                let matchIDs :=
                  (result.Data.AffectedItems.filter (fun item => item.Name = name)).map
                    (fun item => item.ID)
                if matchIDs.length = 0 then
                  .ret ("", some ("no exact role match for name '" ++ name ++ "'"))
                else if matchIDs.length > 1 then
                  .ret ("", some ("multiple roles found with name '" ++ name
                    ++ "'; cannot determine unique role_id"))
                else
                  .ret (matchIDs.headD "", none)

/-- Go `resourceRoleRead`. -/
def resourceRoleRead : Handler := fun lib client d =>
  let diags : Diagnostics := []
  let id := d.Id
  if id = "" then
    .ret (diags, d)
  else
    let urlStr := client.Endpoint ++ "/security/roles"
    let q := url.Values.empty
    let q := q.Set "role_ids" id
    let q := q.Set "limit" "1"
    let enc := q.Encode lib
    let urlStr := if enc ≠ "" then urlStr ++ "?" ++ enc else urlStr
    match http.NewRequest lib "GET" urlStr none with
    | .error err => .ret (diag.FromErr err, d)
    | .ok req =>
      let req := req.HeaderSet "Authorization" ("Bearer " ++ client.AuthToken)
      .call req fun
        | .error err => .ret (diag.FromErr err, d)
        | .ok resp =>
          match ioReadAll resp with
          | (_, some err) => .ret (diag.FromErr err, d)
          | (body, none) =>
            if resp.StatusCode = 404 then
              .ret (diags, d.SetId "")
            else if resp.StatusCode < 200 ∨ resp.StatusCode ≥ 300 then
              .ret (diag.Errorf ("failed to read Wazuh role '" ++ id ++ "': status "
                ++ toString resp.StatusCode ++ ", body: " ++ body), d)
            else
              match lib.unmarshalRoleList body with
              | (_, some err) =>
                .ret (diag.Errorf ("failed to parse Wazuh role read response: " ++ err), d)
              | (result, none) =>
                if result.Error ≠ 0 ∨ result.Data.TotalAffected = 0 ∨
                    result.Data.AffectedItems.length = 0 then
                  .ret (diags, d.SetId "")
                else
                  let item := result.Data.AffectedItems.headD ⟨"", ""⟩
                  let roleID := item.ID
                  let d := d.SetId roleID
                  let d := d.Set "role_id" (.str roleID)
                  let d := d.Set "name" (.str item.Name)
                  .ret (diags, d)

/-- Go `resourceRoleCreate`. -/
def resourceRoleCreate : Handler := fun lib client d =>
  let name := strings.TrimSpace (d.GetString "name")
  if name = "" then
    .ret (diag.Errorf "name must not be empty", d)
  else if len name > 64 then
    .ret (diag.Errorf "role name must be <= 64 characters", d)
  else
    let payload := Json.obj [("name", .str name)]
    match lib.marshal payload with
    | .error err => .ret (diag.FromErr err, d)
    | .ok bodyBytes =>
      let urlStr := client.Endpoint ++ "/security/roles"
      match http.NewRequest lib "POST" urlStr (some bodyBytes) with
      | .error err => .ret (diag.FromErr err, d)
      | .ok req =>
        let req := req.HeaderSet "Authorization" ("Bearer " ++ client.AuthToken)
        let req := req.HeaderSet "Content-Type" "application/json"
        .call req fun
          | .error err => .ret (diag.FromErr err, d)
          | .ok resp =>
            match ioReadAll resp with
            | (_, some err) => .ret (diag.FromErr err, d)
            | (respBody, none) =>
              if resp.StatusCode < 200 ∨ resp.StatusCode ≥ 300 then
                .ret (diag.Errorf ("failed to create Wazuh role '" ++ name ++ "': status "
                  ++ toString resp.StatusCode ++ ", body: " ++ respBody), d)
              else
                (findRoleIDByName lib client name).bind fun found =>
                  match found with
                  | (_, some err) => .ret (diag.FromErr err, d)
                  | (roleID, none) =>
                    if roleID = "" then
                      .ret (diag.Errorf ("role '" ++ name
                        ++ "' created but role_id could not be determined"), d)
                    else
                      let d := d.SetId roleID
                      let d := d.Set "role_id" (.str roleID)
                      resourceRoleRead lib client d

/-- Go `resourceRoleUpdate`. -/
def resourceRoleUpdate : Handler := fun lib client d =>
  let id := d.Id
  if id = "" then
    .ret (diag.Errorf "cannot update Wazuh role: missing ID", d)
  else if d.HasChange "name" then
    let newName := strings.TrimSpace (d.GetString "name")
    if newName = "" then
      .ret (diag.Errorf "role name cannot be empty", d)
    else if len newName > 64 then
      .ret (diag.Errorf "role name must be <= 64 characters", d)
    else
      let payload := Json.obj [("name", .str newName)]
      match lib.marshal payload with
      | .error err => .ret (diag.FromErr err, d)
      | .ok bodyBytes =>
        let urlStr := client.Endpoint ++ "/security/roles/" ++ id
        match http.NewRequest lib "PUT" urlStr (some bodyBytes) with
        | .error err => .ret (diag.FromErr err, d)
        | .ok req =>
          let req := req.HeaderSet "Authorization" ("Bearer " ++ client.AuthToken)
          let req := req.HeaderSet "Content-Type" "application/json"
          .call req fun
            | .error err => .ret (diag.FromErr err, d)
            | .ok resp =>
              match ioReadAll resp with
              | (_, some err) => .ret (diag.FromErr err, d)
              | (respBody, none) =>
                if resp.StatusCode < 200 ∨ resp.StatusCode ≥ 300 then
                  .ret (diag.Errorf ("failed to update Wazuh role '" ++ id ++ "': status "
                    ++ toString resp.StatusCode ++ ", body: " ++ respBody), d)
                else
                  resourceRoleRead lib client d
  else
    resourceRoleRead lib client d

/-- Go `resourceRoleDelete`. -/
def resourceRoleDelete : Handler := fun lib client d =>
  let diags : Diagnostics := []
  let id := d.Id
  if id = "" then
    .ret (diags, d)
  else
    let urlStr := client.Endpoint ++ "/security/roles"
    let q := url.Values.empty
    let q := q.Set "role_ids" id
    let enc := q.Encode lib
    let urlStr := if enc ≠ "" then urlStr ++ "?" ++ enc else urlStr
    match http.NewRequest lib "DELETE" urlStr none with
    | .error err => .ret (diag.FromErr err, d)
    | .ok req =>
      let req := req.HeaderSet "Authorization" ("Bearer " ++ client.AuthToken)
      .call req fun
        | .error err => .ret (diag.FromErr err, d)
        | .ok resp =>
          match ioReadAll resp with
          | (_, some err) => .ret (diag.FromErr err, d)
          | (respBody, none) =>
            if resp.StatusCode < 200 ∨ resp.StatusCode ≥ 300 then
              .ret (diag.Errorf ("failed to delete Wazuh role '" ++ id ++ "': status "
                ++ toString resp.StatusCode ++ ", body: " ++ respBody), d)
            else
              .ret (diags, d.SetId "")

/-! ## resource_role_user.go -/

/-- Go `expandStringToList`: the trimmed non-blank strings of a `[]interface{}`,
nothing for a value of another type. -/
def expandStringToList (v : Option Value) : List String :=
  match v with
  | some (.list raw) =>
    raw.filterMap fun r =>
      match r with
      | some s => if strings.TrimSpace s ≠ "" then some (strings.TrimSpace s) else none
      | none => none
  | _ => []

/-- Go `setRoleUserResponseFields`; `tick` numbers the clock reading. -/
def setRoleUserResponseFields (lib : Lib) (tick : Nat) (d : ResourceData)
    (result : wazuhRoleUserResponse) : ResourceData :=
  let d := d.Set "message" (.str result.Message)
  let d := d.Set "total_affected" (.int result.Data.TotalAffected)
  let d := d.Set "total_failed" (.int result.Data.TotalFailed)
  let d := d.Set "error_code" (.int result.Error)
  d.Set "timestamp" (.str (lib.timeFormat time.RFC3339 (lib.now tick)))

/-- Go `callRoleUserAssign`; `tick` numbers the clock reading it makes. -/
def callRoleUserAssign (lib : Lib) (client : APIClient) (userID : String) (roleIDs : List String)
    (position : Int) (d : ResourceData) (tick : Nat) : Prog (Diagnostics × ResourceData) :=
  let diags : Diagnostics := []
  let urlStr := client.Endpoint ++ "/security/users/" ++ userID ++ "/roles"
  let q := url.Values.empty
  let q := q.Set "role_ids" (strings.Join roleIDs ",")
  let q := if position ≥ 0 then q.Set "position" (toString position) else q
  let enc := q.Encode lib
  let urlStr := if enc ≠ "" then urlStr ++ "?" ++ enc else urlStr
  match lib.marshal (Json.obj []) with
  | .error err => .ret (diag.FromErr err, d)
  | .ok bodyBytes =>
    match http.NewRequest lib "POST" urlStr (some bodyBytes) with
    | .error err => .ret (diag.FromErr err, d)
    | .ok req =>
      let req := req.HeaderSet "Authorization" ("Bearer " ++ client.AuthToken)
      let req := req.HeaderSet "Content-Type" "application/json"
      .call req fun
        | .error err => .ret (diag.FromErr err, d)
        | .ok resp =>
          match ioReadAll resp with
          | (_, some err) => .ret (diag.FromErr err, d)
          | (respBody, none) =>
            if resp.StatusCode < 200 ∨ resp.StatusCode ≥ 300 then
              .ret (diag.Errorf ("failed to add roles " ++ fmtSlice roleIDs ++ " to user '"
                ++ userID ++ "': status " ++ toString resp.StatusCode ++ ", body: "
                ++ respBody), d)
            else
              let result := (lib.unmarshalRoleUser respBody).1
              .ret (diags, setRoleUserResponseFields lib tick d result)

/-- Go `callRoleUserRemove`; `tick` numbers the clock reading it makes. -/
def callRoleUserRemove (lib : Lib) (client : APIClient) (userID : String) (roleIDs : List String)
    (d : ResourceData) (tick : Nat) : Prog (Diagnostics × ResourceData) :=
  let diags : Diagnostics := []
  let urlStr := client.Endpoint ++ "/security/users/" ++ userID ++ "/roles"
  let q := url.Values.empty
  let q := q.Set "role_ids" (strings.Join roleIDs ",")
  let enc := q.Encode lib
  let urlStr := if enc ≠ "" then urlStr ++ "?" ++ enc else urlStr
  match http.NewRequest lib "DELETE" urlStr none with
  | .error err => .ret (diag.FromErr err, d)
  | .ok req =>
    let req := req.HeaderSet "Authorization" ("Bearer " ++ client.AuthToken)
    .call req fun
      | .error err => .ret (diag.FromErr err, d)
      | .ok resp =>
        match ioReadAll resp with
        | (_, some err) => .ret (diag.FromErr err, d)
        | (respBody, none) =>
          if resp.StatusCode < 200 ∨ resp.StatusCode ≥ 300 then
            .ret (diag.Errorf ("failed to remove roles " ++ fmtSlice roleIDs ++ " from user '"
              ++ userID ++ "': status " ++ toString resp.StatusCode ++ ", body: "
              ++ respBody), d)
          else
            let result := (lib.unmarshalRoleUser respBody).1
            .ret (diags, setRoleUserResponseFields lib tick d result)

/-- Go `position := 0; if v, ok := d.GetOk("position"); ok { position = v.(int) }`. -/
def roleUserPosition (d : ResourceData) : Int :=
  match d.GetOk "position" with
  | (some (.int v), true) => v
  | _ => 0

/-- Go `resourceRoleUserCreate`. -/
def resourceRoleUserCreate : Handler := fun lib client d =>
  let userID := strings.TrimSpace (d.GetString "user_id")
  if userID = "" then
    .ret (diag.Errorf "user_id must not be empty", d)
  else
    let roleIDs := expandStringToList (d.Get "role_ids")
    if roleIDs.length = 0 then
      .ret (diag.Errorf "role_ids must not be empty", d)
    else
      let position := roleUserPosition d
      (callRoleUserAssign lib client userID roleIDs position d 0).bind fun r =>
        if r.1.HasError then
          .ret r
        else
          .ret ([], r.2.SetId (userID ++ "|" ++ strings.Join roleIDs ","))

/-- Go `resourceRoleUserRead`. -/
def resourceRoleUserRead : Handler := fun _ _ d =>
  let diags : Diagnostics := []
  .ret (diags, d)

/-- Tail of `resourceRoleUserUpdate` from the comment `// Update ID to reflect
new full set of roles` on. -/
def resourceRoleUserUpdateSetId (userID : String) (d : ResourceData) :
    Prog (Diagnostics × ResourceData) :=
  let roleIDs := expandStringToList (d.Get "role_ids")
  .ret ([], d.SetId (userID ++ "|" ++ strings.Join roleIDs ","))

/-- Part of `resourceRoleUserUpdate` from the comment `// Remove roles` on. -/
def resourceRoleUserUpdateRemove (lib : Lib) (client : APIClient) (userID : String)
    (toRemove : List String) (d : ResourceData) : Prog (Diagnostics × ResourceData) :=
  if toRemove.length > 0 then
    (callRoleUserRemove lib client userID toRemove d 1).bind fun r =>
      if r.1.HasError then .ret r else resourceRoleUserUpdateSetId userID r.2
  else
    resourceRoleUserUpdateSetId userID d

/-- Go `resourceRoleUserUpdate`. The two maps `oldSet` and `newSet` are visited
in the order `lib.rangeKeys` gives. -/
def resourceRoleUserUpdate : Handler := fun lib client d =>
  let userID := strings.TrimSpace (d.GetString "user_id")
  if userID = "" then
    .ret (diag.Errorf "user_id must not be empty", d)
  else if d.HasChange "role_ids" then
    let oldList := expandStringToList (d.GetChange "role_ids").1
    let newList := expandStringToList (d.GetChange "role_ids").2
    let toAdd := (lib.rangeKeys newList.dedup).filter (fun v => v ∉ oldList)
    let toRemove := (lib.rangeKeys oldList.dedup).filter (fun v => v ∉ newList)
    let position := roleUserPosition d
    if toAdd.length > 0 then
      (callRoleUserAssign lib client userID toAdd position d 0).bind fun r =>
        if r.1.HasError then .ret r
        else resourceRoleUserUpdateRemove lib client userID toRemove r.2
    else
      resourceRoleUserUpdateRemove lib client userID toRemove d
  else
    .ret ([], d)

/-- Go `resourceRoleUserDelete`. -/
def resourceRoleUserDelete : Handler := fun lib client d =>
  let diags : Diagnostics := []
  let userID := strings.TrimSpace (d.GetString "user_id")
  if userID = "" then
    .ret (diags, d.SetId "")
  else
    let roleIDs := expandStringToList (d.Get "role_ids")
    if roleIDs.length = 0 then
      .ret (diags, d.SetId "")
    else
      (callRoleUserRemove lib client userID roleIDs d 0).bind fun r =>
        if r.1.HasError then .ret r else .ret (diags, r.2.SetId "")

/-- Go `resourceRoleUserImport`: the resource data handed back, or the error. -/
def resourceRoleUserImport (lib : Lib) (d : ResourceData) : Except GoError (List ResourceData) :=
  let raw := d.Id
  let parts := strings.SplitN2 raw ':'
  if parts.length ≠ 2 then
    .error ("unexpected import ID format " ++ lib.quote raw
      ++ ", expected 'user_id:role_id1,role_id2,...'")
  else
    let userID := strings.TrimSpace (parts.getD 0 "")
    let rolesPart := strings.TrimSpace (parts.getD 1 "")
    let roleIDs : List String :=
      if rolesPart ≠ "" then
        (strings.Split rolesPart ',').filterMap fun r =>
          let r := strings.TrimSpace r
          if r ≠ "" then some r else none
      else []
    let d := d.Set "user_id" (.str userID)
    let d := d.Set "role_ids" (.list (roleIDs.map some))
    .ok [d.SetId (userID ++ "|" ++ strings.Join roleIDs ",")]

/-! ## resource_agent.go -/

/-- Go `resourceAgentRead`. -/
def resourceAgentRead : Handler := fun lib client d =>
  let diags : Diagnostics := []
  let id := d.Id
  if id = "" then
    .ret (diags, d)
  else
    let urlStr := client.Endpoint ++ "/agents"
    let q := url.Values.empty
    let q := q.Set "agents_list" id
    let enc := q.Encode lib
    let urlStr := if enc ≠ "" then urlStr ++ "?" ++ enc else urlStr
    match http.NewRequest lib "GET" urlStr none with
    | .error err => .ret (diag.FromErr err, d)
    | .ok req =>
      let req := req.HeaderSet "Authorization" ("Bearer " ++ client.AuthToken)
      .call req fun
        | .error err => .ret (diag.FromErr err, d)
        | .ok resp =>
          match ioReadAll resp with
          | (_, some err) => .ret (diag.FromErr err, d)
          | (body, none) =>
            if resp.StatusCode = 404 then
              .ret (diags, d.SetId "")
            else if resp.StatusCode < 200 ∨ resp.StatusCode ≥ 300 then
              .ret (diag.Errorf ("failed to read agent '" ++ id ++ "': status "
                ++ toString resp.StatusCode ++ ", body: " ++ body), d)
            else
              match lib.unmarshalAgentRead body with
              | (_, some err) =>
                .ret (diag.Errorf ("failed to parse agent read response: " ++ err), d)
              | (result, none) =>
                if result.Error ≠ 0 ∨ result.Data.TotalAffected = 0 ∨
                    result.Data.AffectedItems.length = 0 then
                  .ret (diags, d.SetId "")
                else
                  let item := result.Data.AffectedItems.headD ⟨"", "", "", "", "", "", "", ""⟩
                  let d := d.Set "agent_id" (.str item.ID)
                  let d := d.Set "name" (.str item.Name)
                  let d := d.Set "ip" (.str item.IP)
                  let d := d.Set "register_ip" (.str item.RegisterIP)
                  let d := d.Set "status" (.str item.Status)
                  let d := d.Set "manager" (.str item.Manager)
                  let d := d.Set "version" (.str item.Version)
                  let d := d.Set "node_name" (.str item.NodeName)
                  .ret (diags, d)

/-- Go `resourceAgentCreate`. -/
def resourceAgentCreate : Handler := fun lib client d =>
  let name := strings.TrimSpace (d.GetString "name")
  if name = "" then
    .ret (diag.Errorf "name must not be empty", d)
  else
    let agentID := strings.TrimSpace (d.GetString "agent_id")
    let ip := strings.TrimSpace (d.GetString "ip")
    let key := strings.TrimSpace (d.GetString "key")
    let payload : List (String × Json) := [("name", .str name)]
    let payload := if agentID ≠ "" then payload ++ [("id", .str agentID)] else payload
    let payload := if ip ≠ "" then payload ++ [("ip", .str ip)] else payload
    let payload := if key ≠ "" then payload ++ [("key", .str key)] else payload
    let forceEnabled := d.GetBool "force_enabled"
    let payload :=
      if forceEnabled then
        let force := Json.obj [("enabled", .bool true),
          ("disconnected_time", .obj [
            ("enabled", .bool (d.GetBool "force_disconnected_time_enabled")),
            ("value", .str (d.GetString "force_disconnected_time_value"))]),
          ("after_registration_time", .str (d.GetString "force_after_registration_time"))]
        payload ++ [("force", force)]
      else payload
    match lib.marshal (Json.obj payload) with
    | .error err => .ret (diag.FromErr err, d)
    | .ok bodyBytes =>
      let urlStr := client.Endpoint ++ "/agents/insert"
      match http.NewRequest lib "POST" urlStr (some bodyBytes) with
      | .error err => .ret (diag.FromErr err, d)
      | .ok req =>
        let req := req.HeaderSet "Authorization" ("Bearer " ++ client.AuthToken)
        let req := req.HeaderSet "Content-Type" "application/json"
        .call req fun
          | .error err => .ret (diag.FromErr err, d)
          | .ok resp =>
            match ioReadAll resp with
            | (_, some err) => .ret (diag.FromErr err, d)
            | (respBody, none) =>
              if resp.StatusCode < 200 ∨ resp.StatusCode ≥ 300 then
                .ret (diag.Errorf ("failed to create agent '" ++ name ++ "': status "
                  ++ toString resp.StatusCode ++ ", body: " ++ respBody), d)
              else
                let result := (lib.unmarshalAgentCreate respBody).1
                let finalID := agentID
                let finalID := if finalID = "" then result.Data.ID else finalID
                if finalID = "" then
                  .ret (diag.Errorf "agent created but no ID returned by Wazuh", d)
                else
                  let d := d.SetId finalID
                  let d := d.Set "agent_id" (.str finalID)
                  let d := if result.Data.Key ≠ "" then d.Set "key" (.str result.Data.Key) else d
                  resourceAgentRead lib client d

/-- Go `resourceAgentDelete`. -/
def resourceAgentDelete : Handler := fun lib client d =>
  let diags : Diagnostics := []
  let id := d.Id
  if id = "" then
    .ret (diags, d)
  else
    let urlStr := client.Endpoint ++ "/agents"
    let purge := d.GetBool "purge_on_destroy"
    let q := url.Values.empty
    let q := q.Set "agents_list" id
    let q := q.Set "status" "all"
    let q := q.Set "older_than" "0s"
    let q := if purge then q.Set "purge" "true" else q.Set "purge" "false"
    let enc := q.Encode lib
    let urlStr := if enc ≠ "" then urlStr ++ "?" ++ enc else urlStr
    match http.NewRequest lib "DELETE" urlStr none with
    | .error err => .ret (diag.FromErr err, d)
    | .ok req =>
      let req := req.HeaderSet "Authorization" ("Bearer " ++ client.AuthToken)
      .call req fun
        | .error err => .ret (diag.FromErr err, d)
        | .ok resp =>
          match ioReadAll resp with
          | (_, some err) => .ret (diag.FromErr err, d)
          | (body, none) =>
            if resp.StatusCode < 200 ∨ resp.StatusCode ≥ 300 then
              .ret (diag.Errorf ("failed to delete agent '" ++ id ++ "': status "
                ++ toString resp.StatusCode ++ ", body: " ++ body), d)
            else
              .ret (diags, d.SetId "")

/-! ## resource_user.go -/

/-- Go `findUserIDByUsername`. -/
def findUserIDByUsername (lib : Lib) (client : APIClient) (username : String) :
    Prog (String × Option GoError) :=
  let urlStr := client.Endpoint ++ "/security/users"
  let q := url.Values.empty
  let q := q.Set "search" username
  let q := q.Set "limit" "100"
  let enc := q.Encode lib
  let urlStr := if enc ≠ "" then urlStr ++ "?" ++ enc else urlStr
  match http.NewRequest lib "GET" urlStr none with
  | .error err => .ret ("", some err)
  | .ok req =>
    let req := req.HeaderSet "Authorization" ("Bearer " ++ client.AuthToken)
    .call req fun
      | .error err => .ret ("", some err)
      | .ok resp =>
        match ioReadAll resp with
        | (_, some err) => .ret ("", some err)
        | (body, none) =>
          if resp.StatusCode < 200 ∨ resp.StatusCode ≥ 300 then
            .ret ("", some ("failed to lookup Wazuh user '" ++ username ++ "': status "
              ++ toString resp.StatusCode ++ ", body: " ++ body))
          else
            match lib.unmarshalUserList body with
            | (_, some err) => .ret ("", some ("failed to parse user lookup response: " ++ err))
            | (result, none) =>
              if result.Error ≠ 0 ∨ result.Data.TotalAffected = 0 then
                .ret ("", some ("no users found matching username '" ++ username ++ "'"))
              else
                let matchIDs :=
                  (result.Data.AffectedItems.filter (fun item => item.Username = username)).map
                    (fun item => item.ID)
                if matchIDs.length = 0 then
                  .ret ("", some ("no exact user match for username '" ++ username ++ "'"))
                else if matchIDs.length > 1 then
                  .ret ("", some ("multiple users found with username '" ++ username
                    ++ "'; cannot determine unique user_id"))
                else
                  .ret (matchIDs.headD "", none)

/-- Go `resourceUserRead`. -/
def resourceUserRead : Handler := fun lib client d =>
  let diags : Diagnostics := []
  let id := d.Id
  if id = "" then
    .ret (diags, d)
  else
    let urlStr := client.Endpoint ++ "/security/users"
    let q := url.Values.empty
    let q := q.Set "user_ids" id
    let q := q.Set "limit" "1"
    let enc := q.Encode lib
    let urlStr := if enc ≠ "" then urlStr ++ "?" ++ enc else urlStr
    match http.NewRequest lib "GET" urlStr none with
    | .error err => .ret (diag.FromErr err, d)
    | .ok req =>
      let req := req.HeaderSet "Authorization" ("Bearer " ++ client.AuthToken)
      .call req fun
        | .error err => .ret (diag.FromErr err, d)
        | .ok resp =>
          match ioReadAll resp with
          | (_, some err) => .ret (diag.FromErr err, d)
          | (body, none) =>
            if resp.StatusCode = 404 then
              .ret (diags, d.SetId "")
            else if resp.StatusCode < 200 ∨ resp.StatusCode ≥ 300 then
              .ret (diag.Errorf ("failed to read Wazuh user '" ++ id ++ "': status "
                ++ toString resp.StatusCode ++ ", body: " ++ body), d)
            else
              match lib.unmarshalUserList body with
              | (_, some err) =>
                .ret (diag.Errorf ("failed to parse Wazuh user read response: " ++ err), d)
              | (result, none) =>
                if result.Error ≠ 0 ∨ result.Data.TotalAffected = 0 ∨
                    result.Data.AffectedItems.length = 0 then
                  .ret (diags, d.SetId "")
                else
                  let item := result.Data.AffectedItems.headD ⟨"", ""⟩
                  let userID := item.ID
                  let d := d.SetId userID
                  let d := d.Set "user_id" (.str userID)
                  let d := d.Set "username" (.str item.Username)
                  .ret (diags, d)

/-- Go `resourceUserCreate`. -/
def resourceUserCreate : Handler := fun lib client d =>
  let username := strings.TrimSpace (d.GetString "username")
  let password := d.GetString "password"
  if username = "" then
    .ret (diag.Errorf "username must not be empty", d)
  else if len username < 4 ∨ len username > 64 then
    .ret (diag.Errorf "username must be between 4 and 64 characters", d)
  else if password = "" then
    .ret (diag.Errorf "password must be provided when creating a Wazuh user", d)
  else
    let payload := Json.obj [("username", .str username), ("password", .str password)]
    match lib.marshal payload with
    | .error err => .ret (diag.FromErr err, d)
    | .ok bodyBytes =>
      let urlStr := client.Endpoint ++ "/security/users"
      match http.NewRequest lib "POST" urlStr (some bodyBytes) with
      | .error err => .ret (diag.FromErr err, d)
      | .ok req =>
        let req := req.HeaderSet "Authorization" ("Bearer " ++ client.AuthToken)
        let req := req.HeaderSet "Content-Type" "application/json"
        .call req fun
          | .error err => .ret (diag.FromErr err, d)
          | .ok resp =>
            match ioReadAll resp with
            | (_, some err) => .ret (diag.FromErr err, d)
            | (respBody, none) =>
              if resp.StatusCode < 200 ∨ resp.StatusCode ≥ 300 then
                .ret (diag.Errorf ("failed to create Wazuh user '" ++ username ++ "': status "
                  ++ toString resp.StatusCode ++ ", body: " ++ respBody), d)
              else
                (findUserIDByUsername lib client username).bind fun found =>
                  match found with
                  | (_, some err) => .ret (diag.FromErr err, d)
                  | (userID, none) =>
                    if userID = "" then
                      .ret (diag.Errorf ("user '" ++ username
                        ++ "' created but user_id could not be determined"), d)
                    else
                      let d := d.SetId userID
                      let d := d.Set "user_id" (.str userID)
                      resourceUserRead lib client d

/-- Go `resourceUserUpdate`. -/
def resourceUserUpdate : Handler := fun lib client d =>
  let id := d.Id
  if id = "" then
    .ret (diag.Errorf "cannot update Wazuh user: missing ID", d)
  else if d.HasChange "password" then
    let newPass := d.GetString "password"
    if newPass = "" then
      .ret (diag.Errorf "password cannot be empty when updating Wazuh user", d)
    else
      let payload := Json.obj [("password", .str newPass)]
      match lib.marshal payload with
      | .error err => .ret (diag.FromErr err, d)
      | .ok bodyBytes =>
        let urlStr := client.Endpoint ++ "/security/users/" ++ id
        match http.NewRequest lib "PUT" urlStr (some bodyBytes) with
        | .error err => .ret (diag.FromErr err, d)
        | .ok req =>
          let req := req.HeaderSet "Authorization" ("Bearer " ++ client.AuthToken)
          let req := req.HeaderSet "Content-Type" "application/json"
          .call req fun
            | .error err => .ret (diag.FromErr err, d)
            | .ok resp =>
              match ioReadAll resp with
              | (_, some err) => .ret (diag.FromErr err, d)
              | (respBody, none) =>
                if resp.StatusCode < 200 ∨ resp.StatusCode ≥ 300 then
                  .ret (diag.Errorf ("failed to update Wazuh user '" ++ id
                    ++ "' password: status " ++ toString resp.StatusCode ++ ", body: "
                    ++ respBody), d)
                else
                  resourceUserRead lib client d
  else
    resourceUserRead lib client d

/-- Go `resourceUserDelete`. -/
def resourceUserDelete : Handler := fun lib client d =>
  let diags : Diagnostics := []
  let id := d.Id
  if id = "" then
    .ret (diags, d)
  else
    let urlStr := client.Endpoint ++ "/security/users"
    let q := url.Values.empty
    let q := q.Set "user_ids" id
    let enc := q.Encode lib
    let urlStr := if enc ≠ "" then urlStr ++ "?" ++ enc else urlStr
    match http.NewRequest lib "DELETE" urlStr none with
    | .error err => .ret (diag.FromErr err, d)
    | .ok req =>
      let req := req.HeaderSet "Authorization" ("Bearer " ++ client.AuthToken)
      .call req fun
        | .error err => .ret (diag.FromErr err, d)
        | .ok resp =>
          match ioReadAll resp with
          | (_, some err) => .ret (diag.FromErr err, d)
          | (respBody, none) =>
            if resp.StatusCode < 200 ∨ resp.StatusCode ≥ 300 then
              .ret (diag.Errorf ("failed to delete Wazuh user '" ++ id ++ "': status "
                ++ toString resp.StatusCode ++ ", body: " ++ respBody), d)
            else
              .ret (diags, d.SetId "")

/-! ## resource_policy.go -/

/-- Go `lookupPolicyIDByName`. -/
def lookupPolicyIDByName (lib : Lib) (client : APIClient) (name : String) :
    Prog (String × Diagnostics) :=
  let diags : Diagnostics := []
  let urlStr := client.Endpoint ++ "/security/policies"
  let q := url.Values.empty
  let q := q.Set "search" name
  let q := q.Set "limit" "100"
  let urlStr := urlStr ++ "?" ++ q.Encode lib
  match http.NewRequest lib "GET" urlStr none with
  | .error err => .ret ("", diag.FromErr err)
  | .ok req =>
    let req := req.HeaderSet "Authorization" ("Bearer " ++ client.AuthToken)
    .call req fun
      | .error err => .ret ("", diag.FromErr err)
      | .ok resp =>
        match ioReadAll resp with
        | (_, some err) => .ret ("", diag.FromErr err)
        | (body, none) =>
          if resp.StatusCode < 200 ∨ resp.StatusCode ≥ 300 then
            .ret ("", diag.Errorf ("failed to lookup policy '" ++ name
              ++ "' after create: status " ++ toString resp.StatusCode ++ ", body: " ++ body))
          else
            match lib.unmarshalPolicyList body with
            | (_, some err) =>
              .ret ("", diag.Errorf ("failed to parse policy lookup response: " ++ err))
            | (result, none) =>
              if result.Error ≠ 0 ∨ result.Data.TotalAffected = 0 ∨
                  result.Data.AffectedItems.length = 0 then
                .ret ("", diag.Errorf ("policy '" ++ name ++ "' not found in list after create"))
              else
                let matched :=
                  (result.Data.AffectedItems.filter (fun item => item.Name = name)).map
                    (fun item => item.ID)
                if matched.length = 0 then
                  .ret ("", diag.Errorf ("no exact policy name match found for '" ++ name
                    ++ "' after create"))
                else if matched.length > 1 then
                  .ret ("", diag.Errorf ("multiple policies with name '" ++ name
                    ++ "' found; please ensure unique policy names"))
                else
                  .ret (toString (matched.headD 0), diags)

/-- The block of `resourcePolicyRead` guarded by `if len(item.Policy) > 0`. -/
def resourcePolicyReadSetPolicy (lib : Lib) (d : ResourceData) (item : PolicyItem) :
    ResourceData :=
  if item.Policy.utf8ByteSize > 0 then
    match lib.unmarshalAny item.Policy with
    | (tmp, none) =>
      match lib.marshal tmp with
      | .ok normalized => d.Set "policy" (.str normalized)
      | .error _ => d.Set "policy" (.str item.Policy)
    | (_, some _) => d.Set "policy" (.str item.Policy)
  else d

/-- Go `resourcePolicyRead`. -/
def resourcePolicyRead : Handler := fun lib client d =>
  let diags : Diagnostics := []
  let id := d.Id
  if id = "" then
    .ret (diags, d)
  else
    let urlStr := client.Endpoint ++ "/security/policies"
    let q := url.Values.empty
    let q := q.Set "policy_ids" id
    let q := q.Set "limit" "1"
    let urlStr := urlStr ++ "?" ++ q.Encode lib
    match http.NewRequest lib "GET" urlStr none with
    | .error err => .ret (diag.FromErr err, d)
    | .ok req =>
      let req := req.HeaderSet "Authorization" ("Bearer " ++ client.AuthToken)
      .call req fun
        | .error err => .ret (diag.FromErr err, d)
        | .ok resp =>
          match ioReadAll resp with
          | (_, some err) => .ret (diag.FromErr err, d)
          | (body, none) =>
            if resp.StatusCode = 404 then
              .ret (diags, d.SetId "")
            else if resp.StatusCode < 200 ∨ resp.StatusCode ≥ 300 then
              .ret (diag.Errorf ("failed to read policy '" ++ id ++ "': status "
                ++ toString resp.StatusCode ++ ", body: " ++ body), d)
            else
              match lib.unmarshalPolicyList body with
              | (_, some err) =>
                .ret (diag.Errorf ("failed to parse policy read response: " ++ err), d)
              | (result, none) =>
                if result.Error ≠ 0 ∨ result.Data.TotalAffected = 0 ∨
                    result.Data.AffectedItems.length = 0 then
                  .ret (diags, d.SetId "")
                else
                  let item := result.Data.AffectedItems.headD ⟨0, "", ""⟩
                  let policyID := toString item.ID
                  let d := d.Set "policy_id" (.str policyID)
                  let d := d.Set "name" (.str item.Name)
                  .ret (diags, resourcePolicyReadSetPolicy lib d item)

/-- Go `resourcePolicyCreate`. -/
def resourcePolicyCreate : Handler := fun lib client d =>
  let name := strings.TrimSpace (d.GetString "name")
  if name = "" then
    .ret (diag.Errorf "name must not be empty", d)
  else
    let policyStr := strings.TrimSpace (d.GetString "policy")
    if policyStr = "" then
      .ret (diag.Errorf "policy must not be empty (JSON string expected)", d)
    else
      match lib.unmarshalRaw policyStr with
      | (_, some err) => .ret (diag.Errorf ("invalid JSON in policy: " ++ err), d)
      | (policyBody, none) =>
        let payload := Json.obj [("name", .str name), ("policy", .raw policyBody)]
        match lib.marshal payload with
        | .error err => .ret (diag.FromErr err, d)
        | .ok bodyBytes =>
          let urlStr := client.Endpoint ++ "/security/policies"
          match http.NewRequest lib "POST" urlStr (some bodyBytes) with
          | .error err => .ret (diag.FromErr err, d)
          | .ok req =>
            let req := req.HeaderSet "Authorization" ("Bearer " ++ client.AuthToken)
            let req := req.HeaderSet "Content-Type" "application/json"
            .call req fun
              | .error err => .ret (diag.FromErr err, d)
              | .ok resp =>
                match ioReadAll resp with
                | (_, some err) => .ret (diag.FromErr err, d)
                | (respBody, none) =>
                  if resp.StatusCode < 200 ∨ resp.StatusCode ≥ 300 then
                    .ret (diag.Errorf ("failed to create policy '" ++ name ++ "': status "
                      ++ toString resp.StatusCode ++ ", body: " ++ respBody), d)
                  else
                    (lookupPolicyIDByName lib client name).bind fun found =>
                      if found.2.HasError then
                        .ret (found.2, d)
                      else if found.1 = "" then
                        .ret (diag.Errorf ("policy '" ++ name
                          ++ "' created but not found during lookup"), d)
                      else
                        let d := d.SetId found.1
                        let d := d.Set "policy_id" (.str found.1)
                        resourcePolicyRead lib client d

/-- Part of `resourcePolicyUpdate` from `if len(payload) == 0` on. -/
def resourcePolicyUpdateSend (lib : Lib) (client : APIClient) (d : ResourceData)
    (policyID : String) (payload : List (String × Json)) : Prog (Diagnostics × ResourceData) :=
  if payload.length = 0 then
    resourcePolicyRead lib client d
  else
    match lib.marshal (Json.obj payload) with
    | .error err => .ret (diag.FromErr err, d)
    | .ok bodyBytes =>
      let urlStr := client.Endpoint ++ "/security/policies/" ++ policyID
      match http.NewRequest lib "PUT" urlStr (some bodyBytes) with
      | .error err => .ret (diag.FromErr err, d)
      | .ok req =>
        let req := req.HeaderSet "Authorization" ("Bearer " ++ client.AuthToken)
        let req := req.HeaderSet "Content-Type" "application/json"
        .call req fun
          | .error err => .ret (diag.FromErr err, d)
          | .ok resp =>
            match ioReadAll resp with
            | (_, some err) => .ret (diag.FromErr err, d)
            | (respBody, none) =>
              if resp.StatusCode < 200 ∨ resp.StatusCode ≥ 300 then
                .ret (diag.Errorf ("failed to update policy '" ++ policyID ++ "': status "
                  ++ toString resp.StatusCode ++ ", body: " ++ respBody), d)
              else
                resourcePolicyRead lib client d

/-- Part of `resourcePolicyUpdate` from `if d.HasChange("policy")` on. -/
def resourcePolicyUpdatePolicy (lib : Lib) (client : APIClient) (d : ResourceData)
    (policyID : String) (payload : List (String × Json)) : Prog (Diagnostics × ResourceData) :=
  if d.HasChange "policy" then
    let policyStr := strings.TrimSpace (d.GetString "policy")
    if policyStr = "" then
      .ret (diag.Errorf "policy must not be empty when changed", d)
    else
      match lib.unmarshalRaw policyStr with
      | (_, some err) => .ret (diag.Errorf ("invalid JSON in policy: " ++ err), d)
      | (policyBody, none) =>
        resourcePolicyUpdateSend lib client d policyID (payload ++ [("policy", .raw policyBody)])
  else
    resourcePolicyUpdateSend lib client d policyID payload

/-- Go `resourcePolicyUpdate`. -/
def resourcePolicyUpdate : Handler := fun lib client d =>
  let policyID := d.Id
  if policyID = "" then
    .ret (diag.Errorf "cannot update policy without ID", d)
  else
    let payload : List (String × Json) := []
    if d.HasChange "name" then
      let name := strings.TrimSpace (d.GetString "name")
      if name = "" then
        .ret (diag.Errorf "name must not be empty", d)
      else
        resourcePolicyUpdatePolicy lib client d policyID (payload ++ [("name", .str name)])
    else
      resourcePolicyUpdatePolicy lib client d policyID payload

/-- Go `resourcePolicyDelete`. -/
def resourcePolicyDelete : Handler := fun lib client d =>
  let diags : Diagnostics := []
  let id := d.Id
  if id = "" then
    .ret (diags, d)
  else
    let urlStr := client.Endpoint ++ "/security/policies"
    let q := url.Values.empty
    let q := q.Set "policy_ids" id
    let urlStr := urlStr ++ "?" ++ q.Encode lib
    match http.NewRequest lib "DELETE" urlStr none with
    | .error err => .ret (diag.FromErr err, d)
    | .ok req =>
      let req := req.HeaderSet "Authorization" ("Bearer " ++ client.AuthToken)
      .call req fun
        | .error err => .ret (diag.FromErr err, d)
        | .ok resp =>
          match ioReadAll resp with
          | (_, some err) => .ret (diag.FromErr err, d)
          | (body, none) =>
            if resp.StatusCode < 200 ∨ resp.StatusCode ≥ 300 then
              .ret (diag.Errorf ("failed to delete policy '" ++ id ++ "': status "
                ++ toString resp.StatusCode ++ ", body: " ++ body), d)
            else
              .ret (diags, d.SetId "")

/-! ## resource_security_rule.go -/

/-- Go `lookupSecurityRuleIDByName`. -/
def lookupSecurityRuleIDByName (lib : Lib) (client : APIClient) (name : String) :
    Prog (String × Option GoError) :=
  let urlStr := client.Endpoint ++ "/security/rules"
  let q := url.Values.empty
  let q := q.Set "search" name
  let q := q.Set "limit" "100"
  let enc := q.Encode lib
  let urlStr := if enc ≠ "" then urlStr ++ "?" ++ enc else urlStr
  match http.NewRequest lib "GET" urlStr none with
  | .error err => .ret ("", some err)
  | .ok req =>
    let req := req.HeaderSet "Authorization" ("Bearer " ++ client.AuthToken)
    .call req fun
      | .error err => .ret ("", some err)
      | .ok resp =>
        match ioReadAll resp with
        | (_, some err) => .ret ("", some err)
        | (body, none) =>
          if resp.StatusCode < 200 ∨ resp.StatusCode ≥ 300 then
            .ret ("", some ("failed to lookup security rule by name '" ++ name ++ "': status "
              ++ toString resp.StatusCode ++ ", body: " ++ body))
          else
            match lib.unmarshalSecurityRuleLookup body with
            | (_, some err) => .ret ("", some ("failed to parse lookup response: " ++ err))
            | (result, none) =>
              if result.Error ≠ 0 ∨ result.Data.TotalAffected = 0 ∨
                  result.Data.AffectedItems.length = 0 then
                .ret ("", some ("no security rule found with name '" ++ name ++ "'"))
              else
                let matched :=
                  (result.Data.AffectedItems.filter (fun item => item.Name = name)).map
                    (fun item => item.ID)
                if matched.length = 0 then
                  .ret ("", some ("no exact security rule name match found for '" ++ name
                    ++ "'"))
                else if matched.length > 1 then
                  .ret ("", some ("multiple security rules found with name '" ++ name
                    ++ "', cannot determine unique rule_id"))
                else
                  .ret (toString (matched.headD 0), none)

/-- The block of `resourceSecurityRuleRead` guarded by `if item.Rule != nil`. -/
def resourceSecurityRuleReadSetRule (lib : Lib) (d : ResourceData) (item : SecurityRuleItem) :
    ResourceData :=
  match item.Rule with
  | .null => d
  | rule =>
    match lib.marshal rule with
    | .ok rb => d.Set "rule" (.str rb)
    | .error _ => d

/-- Go `resourceSecurityRuleRead`. -/
def resourceSecurityRuleRead : Handler := fun lib client d =>
  let diags : Diagnostics := []
  let id := d.Id
  if id = "" then
    .ret (diags, d)
  else
    let urlStr := client.Endpoint ++ "/security/rules"
    let q := url.Values.empty
    let q := q.Set "rule_ids" id
    let q := q.Set "limit" "1"
    let enc := q.Encode lib
    let urlStr := if enc ≠ "" then urlStr ++ "?" ++ enc else urlStr
    match http.NewRequest lib "GET" urlStr none with
    | .error err => .ret (diag.FromErr err, d)
    | .ok req =>
      let req := req.HeaderSet "Authorization" ("Bearer " ++ client.AuthToken)
      .call req fun
        | .error err => .ret (diag.FromErr err, d)
        | .ok resp =>
          match ioReadAll resp with
          | (_, some err) => .ret (diag.FromErr err, d)
          | (body, none) =>
            if resp.StatusCode = 404 then
              .ret (diags, d.SetId "")
            else if resp.StatusCode < 200 ∨ resp.StatusCode ≥ 300 then
              .ret (diag.Errorf ("failed to read security rule '" ++ id ++ "': status "
                ++ toString resp.StatusCode ++ ", body: " ++ body), d)
            else
              match lib.unmarshalSecurityRuleRead body with
              | (_, some err) =>
                .ret (diag.Errorf ("failed to parse security rule read response: " ++ err), d)
              | (result, none) =>
                if result.Error ≠ 0 ∨ result.Data.TotalAffected = 0 ∨
                    result.Data.AffectedItems.length = 0 then
                  .ret (diags, d.SetId "")
                else
                  let item := result.Data.AffectedItems.headD ⟨0, "", .null⟩
                  let d := d.Set "rule_id" (.str (toString item.ID))
                  let d := d.Set "name" (.str item.Name)
                  .ret (diags, resourceSecurityRuleReadSetRule lib d item)

/-- Go `resourceSecurityRuleCreate`. -/
def resourceSecurityRuleCreate : Handler := fun lib client d =>
  let name := strings.TrimSpace (d.GetString "name")
  if name = "" then
    .ret (diag.Errorf "name must not be empty", d)
  else
    let ruleStr := strings.TrimSpace (d.GetString "rule")
    if ruleStr = "" then
      .ret (diag.Errorf "rule must not be empty (JSON string expected)", d)
    else
      match lib.unmarshalAny ruleStr with
      | (_, some err) => .ret (diag.Errorf ("invalid rule JSON: " ++ err), d)
      | (ruleBody, none) =>
        let payload := Json.obj [("name", .str name), ("rule", ruleBody)]
        match lib.marshal payload with
        | .error err => .ret (diag.FromErr err, d)
        | .ok bodyBytes =>
          let urlStr := client.Endpoint ++ "/security/rules"
          match http.NewRequest lib "POST" urlStr (some bodyBytes) with
          | .error err => .ret (diag.FromErr err, d)
          | .ok req =>
            let req := req.HeaderSet "Authorization" ("Bearer " ++ client.AuthToken)
            let req := req.HeaderSet "Content-Type" "application/json"
            .call req fun
              | .error err => .ret (diag.FromErr err, d)
              | .ok resp =>
                match ioReadAll resp with
                | (_, some err) => .ret (diag.FromErr err, d)
                | (respBody, none) =>
                  if resp.StatusCode < 200 ∨ resp.StatusCode ≥ 300 then
                    .ret (diag.Errorf ("failed to create security rule '" ++ name
                      ++ "': status " ++ toString resp.StatusCode ++ ", body: " ++ respBody), d)
                  else
                    (lookupSecurityRuleIDByName lib client name).bind fun found =>
                      match found with
                      | (_, some err) => .ret (diag.FromErr err, d)
                      | (ruleID, none) =>
                        let d := d.SetId ruleID
                        let d := d.Set "rule_id" (.str ruleID)
                        resourceSecurityRuleRead lib client d

/-- Part of `resourceSecurityRuleUpdate` from `if len(payload) == 0` on. -/
def resourceSecurityRuleUpdateSend (lib : Lib) (client : APIClient) (d : ResourceData)
    (id : String) (payload : List (String × Json)) : Prog (Diagnostics × ResourceData) :=
  if payload.length = 0 then
    resourceSecurityRuleRead lib client d
  else
    match lib.marshal (Json.obj payload) with
    | .error err => .ret (diag.FromErr err, d)
    | .ok bodyBytes =>
      let urlStr := client.Endpoint ++ "/security/rules/" ++ id
      match http.NewRequest lib "PUT" urlStr (some bodyBytes) with
      | .error err => .ret (diag.FromErr err, d)
      | .ok req =>
        let req := req.HeaderSet "Authorization" ("Bearer " ++ client.AuthToken)
        let req := req.HeaderSet "Content-Type" "application/json"
        .call req fun
          | .error err => .ret (diag.FromErr err, d)
          | .ok resp =>
            match ioReadAll resp with
            | (_, some err) => .ret (diag.FromErr err, d)
            | (respBody, none) =>
              if resp.StatusCode < 200 ∨ resp.StatusCode ≥ 300 then
                .ret (diag.Errorf ("failed to update security rule '" ++ id ++ "': status "
                  ++ toString resp.StatusCode ++ ", body: " ++ respBody), d)
              else
                resourceSecurityRuleRead lib client d

/-- Go `resourceSecurityRuleUpdate`. -/
def resourceSecurityRuleUpdate : Handler := fun lib client d =>
  let id := d.Id
  if id = "" then
    .ret (diag.Errorf "cannot update security rule: missing ID", d)
  else
    let name := strings.TrimSpace (d.GetString "name")
    let ruleStr := strings.TrimSpace (d.GetString "rule")
    let payload : List (String × Json) := []
    let payload := if name ≠ "" then payload ++ [("name", .str name)] else payload
    if ruleStr ≠ "" then
      match lib.unmarshalAny ruleStr with
      | (_, some err) => .ret (diag.Errorf ("invalid rule JSON during update: " ++ err), d)
      | (ruleBody, none) =>
        resourceSecurityRuleUpdateSend lib client d id (payload ++ [("rule", ruleBody)])
    else
      resourceSecurityRuleUpdateSend lib client d id payload

/-- Go `resourceSecurityRuleDelete`. -/
def resourceSecurityRuleDelete : Handler := fun lib client d =>
  let diags : Diagnostics := []
  let id := d.Id
  if id = "" then
    .ret (diags, d)
  else
    let urlStr := client.Endpoint ++ "/security/rules"
    let q := url.Values.empty
    let q := q.Set "rule_ids" id
    let enc := q.Encode lib
    let urlStr := if enc ≠ "" then urlStr ++ "?" ++ enc else urlStr
    match http.NewRequest lib "DELETE" urlStr none with
    | .error err => .ret (diag.FromErr err, d)
    | .ok req =>
      let req := req.HeaderSet "Authorization" ("Bearer " ++ client.AuthToken)
      .call req fun
        | .error err => .ret (diag.FromErr err, d)
        | .ok resp =>
          match ioReadAll resp with
          | (_, some err) => .ret (diag.FromErr err, d)
          | (body, none) =>
            if resp.StatusCode < 200 ∨ resp.StatusCode ≥ 300 then
              .ret (diag.Errorf ("failed to delete security rule '" ++ id ++ "': status "
                ++ toString resp.StatusCode ++ ", body: " ++ body), d)
            else
              .ret (diags, d.SetId "")

/-! ## resource_security_config.go -/

/-- Go `buildSecurityConfigPayload`: the payload and whether it has fields. The
schema types `auth_token_exp_timeout` as an int and `rbac_mode` as a string. -/
def buildSecurityConfigPayload (d : ResourceData) : List (String × Json) × Bool :=
  let payload : List (String × Json) := []
  let payload :=
    match d.GetOk "auth_token_exp_timeout" with
    | (some (.int timeout), true) =>
      if timeout > 0 then payload ++ [("auth_token_exp_timeout", .num timeout)] else payload
    | _ => payload
  let payload :=
    match d.GetOk "rbac_mode" with
    | (some (.str mode), true) =>
      if mode ≠ "" then payload ++ [("rbac_mode", .str mode)] else payload
    | _ => payload
  (payload, payload.length > 0)

/-- Go `resourceSecurityConfigRead`. -/
def resourceSecurityConfigRead : Handler := fun lib client d =>
  let diags : Diagnostics := []
  let urlStr := client.Endpoint ++ "/security/config"
  match http.NewRequest lib "GET" urlStr none with
  | .error err => .ret (diag.FromErr err, d)
  | .ok req =>
    let req := req.HeaderSet "Authorization" ("Bearer " ++ client.AuthToken)
    .call req fun
      | .error err => .ret (diag.FromErr err, d)
      | .ok resp =>
        match ioReadAll resp with
        | (_, some err) => .ret (diag.FromErr err, d)
        | (body, none) =>
          if resp.StatusCode < 200 ∨ resp.StatusCode ≥ 300 then
            .ret (diag.Errorf ("failed to read security config: status "
              ++ toString resp.StatusCode ++ ", body: " ++ body), d)
          else
            match lib.unmarshalSecurityConfigRead body with
            | (_, some err) =>
              .ret (diag.Errorf ("failed to parse security config response: " ++ err), d)
            | (result, none) =>
              if result.Error ≠ 0 then
                .ret (diag.Errorf ("security config returned error code "
                  ++ toString result.Error), d)
              else
                let d := d.Set "auth_token_exp_timeout" (.int result.Data.AuthTokenExpTimeout)
                let d := d.Set "rbac_mode" (.str result.Data.RBACMode)
                let d := if d.Id = "" then d.SetId "security_config" else d
                .ret (diags, d)

/-- The two `if v, ok := payload[...]; ok` blocks that end
`resourceSecurityConfigCreate`. -/
def resourceSecurityConfigCreateSet (d : ResourceData) (payload : List (String × Json)) :
    ResourceData :=
  let d :=
    match payload.lookup "auth_token_exp_timeout" with
    | some (.num v) => d.Set "auth_token_exp_timeout" (.int v)
    | _ => d
  match payload.lookup "rbac_mode" with
  | some (.str v) => d.Set "rbac_mode" (.str v)
  | _ => d

/-- Go `resourceSecurityConfigCreate`. -/
def resourceSecurityConfigCreate : Handler := fun lib client d =>
  let payload := (buildSecurityConfigPayload d).1
  let hasFields := (buildSecurityConfigPayload d).2
  if ¬ hasFields then
    let d := d.SetId "security_config"
    resourceSecurityConfigRead lib client d
  else
    match lib.marshal (Json.obj payload) with
    | .error err => .ret (diag.FromErr err, d)
    | .ok bodyBytes =>
      let urlStr := client.Endpoint ++ "/security/config"
      match http.NewRequest lib "PUT" urlStr (some bodyBytes) with
      | .error err => .ret (diag.FromErr err, d)
      | .ok req =>
        let req := req.HeaderSet "Authorization" ("Bearer " ++ client.AuthToken)
        let req := req.HeaderSet "Content-Type" "application/json"
        .call req fun
          | .error err => .ret (diag.FromErr err, d)
          | .ok resp =>
            match ioReadAll resp with
            | (_, some err) => .ret (diag.FromErr err, d)
            | (respBody, none) =>
              if resp.StatusCode < 200 ∨ resp.StatusCode ≥ 300 then
                .ret (diag.Errorf ("failed to update security config: status "
                  ++ toString resp.StatusCode ++ ", body: " ++ respBody), d)
              else
                let result := (lib.unmarshalSecurityConfigPut respBody).1
                if result.Error ≠ 0 then
                  .ret (diag.Errorf ("security config returned error code "
                    ++ toString result.Error ++ " (" ++ result.Message ++ ")"), d)
                else
                  let d := d.SetId "security_config"
                  .ret ([], resourceSecurityConfigCreateSet d payload)

/-- Go `resourceSecurityConfigUpdate`. -/
def resourceSecurityConfigUpdate : Handler := fun lib client d =>
  resourceSecurityConfigCreate lib client d

/-- Go `resourceSecurityConfigDelete`. -/
def resourceSecurityConfigDelete : Handler := fun lib client d =>
  let diags : Diagnostics := []
  let urlStr := client.Endpoint ++ "/security/config"
  match http.NewRequest lib "DELETE" urlStr none with
  | .error err => .ret (diag.FromErr err, d)
  | .ok req =>
    let req := req.HeaderSet "Authorization" ("Bearer " ++ client.AuthToken)
    .call req fun
      | .error err => .ret (diag.FromErr err, d)
      | .ok resp =>
        match ioReadAll resp with
        | (_, some err) => .ret (diag.FromErr err, d)
        | (body, none) =>
          if resp.StatusCode < 200 ∨ resp.StatusCode ≥ 300 then
            .ret (diag.Errorf ("failed to restore default security config: status "
              ++ toString resp.StatusCode ++ ", body: " ++ body), d)
          else
            .ret (diags, d.SetId "")

/-! ## resource_agent_node_restart.go -/

/-- The loop `for _, r := range raw` that several Create functions write out:
the strings of a `[]interface{}` that are not blank, each trimmed. -/
def trimmedNonBlank (raw : List (Option String)) : List String :=
  raw.filterMap fun r =>
    match r with
    | some s => if strings.TrimSpace s ≠ "" then some (strings.TrimSpace s) else none
    | none => none

/-- Go `resourceAgentNodeRestartCreate`. -/
def resourceAgentNodeRestartCreate : Handler := fun lib client d =>
  let diags : Diagnostics := []
  let nodeID := d.GetString "node_id"
  let urlStr := client.Endpoint ++ "/agents/node/" ++ nodeID ++ "/restart"
  match lib.marshal (Json.obj []) with
  | .error err => .ret (diag.FromErr err, d)
  | .ok bodyBytes =>
    match http.NewRequest lib "PUT" urlStr (some bodyBytes) with
    | .error err => .ret (diag.FromErr err, d)
    | .ok req =>
      let req := req.HeaderSet "Authorization" ("Bearer " ++ client.AuthToken)
      let req := req.HeaderSet "Content-Type" "application/json"
      .call req fun
        | .error err => .ret (diag.FromErr err, d)
        | .ok resp =>
          match ioReadAll resp with
          | (_, some err) => .ret (diag.FromErr err, d)
          | (respBody, none) =>
            if resp.StatusCode < 200 ∨ resp.StatusCode ≥ 300 then
              .ret (diag.Errorf ("failed to restart agents on node '" ++ nodeID ++ "': status "
                ++ toString resp.StatusCode ++ ", body: " ++ respBody), d)
            else
              let result := (lib.unmarshalSummary respBody).1
              let d := d.Set "message" (.str result.Message)
              let d := d.Set "total_affected" (.int result.Data.TotalAffected)
              let d := d.Set "total_failed" (.int result.Data.TotalFailed)
              let d := d.Set "error_code" (.int result.Error)
              let d := d.Set "timestamp" (.str (lib.timeFormat time.RFC3339 (lib.now 0)))
              let id := nodeID ++ "-" ++ lib.timeFormat "20060102T150405Z" (lib.now 1)
              .ret (diags, d.SetId id)

/-- Go `resourceAgentNodeRestartRead`. -/
def resourceAgentNodeRestartRead : Handler := fun _ _ d =>
  let diags : Diagnostics := []
  .ret (diags, d)

/-- Go `resourceAgentNodeRestartDelete`. -/
def resourceAgentNodeRestartDelete : Handler := fun _ _ d =>
  let diags : Diagnostics := []
  .ret (diags, d.SetId "")

/-! ## resource_agent_reconnect.go -/

/-- Go `resourceAgentReconnectCreate`. -/
def resourceAgentReconnectCreate : Handler := fun lib client d =>
  let diags : Diagnostics := []
  let urlStr := client.Endpoint ++ "/agents/reconnect"
  let query := url.Values.empty
  let query :=
    match d.GetOk "agents_list" with
    | (some (.list raw), true) =>
      if raw.length > 0 then
        let ids := trimmedNonBlank raw
        if ids.length > 0 then query.Set "agents_list" (strings.Join ids ",") else query
      else query
    | _ => query
  let q := query.Encode lib
  let urlStr := if q ≠ "" then urlStr ++ "?" ++ q else urlStr
  match lib.marshal (Json.obj []) with
  | .error err => .ret (diag.FromErr err, d)
  | .ok bodyBytes =>
    match http.NewRequest lib "PUT" urlStr (some bodyBytes) with
    | .error err => .ret (diag.FromErr err, d)
    | .ok req =>
      let req := req.HeaderSet "Authorization" ("Bearer " ++ client.AuthToken)
      let req := req.HeaderSet "Content-Type" "application/json"
      .call req fun
        | .error err => .ret (diag.FromErr err, d)
        | .ok resp =>
          match ioReadAll resp with
          | (_, some err) => .ret (diag.FromErr err, d)
          | (respBody, none) =>
            if resp.StatusCode < 200 ∨ resp.StatusCode ≥ 300 then
              .ret (diag.Errorf ("failed to force reconnect agents: status "
                ++ toString resp.StatusCode ++ ", body: " ++ respBody), d)
            else
              let result := (lib.unmarshalSummary respBody).1
              let d := d.Set "message" (.str result.Message)
              let d := d.Set "total_affected" (.int result.Data.TotalAffected)
              let d := d.Set "total_failed" (.int result.Data.TotalFailed)
              let d := d.Set "error_code" (.int result.Error)
              let d := d.Set "timestamp" (.str (lib.timeFormat time.RFC3339 (lib.now 0)))
              .ret (diags, d.SetId (lib.timeFormat "20060102T150405Z" (lib.now 1)))

/-- Go `resourceAgentReconnectRead`. -/
def resourceAgentReconnectRead : Handler := fun _ _ d =>
  let diags : Diagnostics := []
  .ret (diags, d)

/-- Go `resourceAgentReconnectDelete`. -/
def resourceAgentReconnectDelete : Handler := fun _ _ d =>
  let diags : Diagnostics := []
  .ret (diags, d.SetId "")

/-! ## resource_agent_restart.go -/

/-- First part of `resourceAgentRestartCreate`: the variables `ids` and
`hasAgents` once `agents_list` has been looked at. -/
def resourceAgentRestartCreateAgents (d : ResourceData) : List String × Bool :=
  match d.GetOk "agents_list" with
  | (some (.list raw), true) =>
    if raw.length > 0 then
      let tmp := trimmedNonBlank raw
      if tmp.length > 0 then (tmp, true) else ([], false)
    else ([], false)
  | _ => ([], false)

/-- Second part of `resourceAgentRestartCreate`: the URL chosen for the
request. -/
def resourceAgentRestartCreateURL (lib : Lib) (baseURL : String) (ids : List String)
    (hasAgents : Bool) : String :=
  if ¬ hasAgents then
    baseURL ++ "/agents/restart"
  else if ids.length = 1 then
    baseURL ++ "/agents/" ++ ids.headD "" ++ "/restart"
  else
    let urlStr := baseURL ++ "/agents/restart"
    let query := url.Values.empty
    let query := query.Set "agents_list" (strings.Join ids ",")
    let q := query.Encode lib
    if q ≠ "" then urlStr ++ "?" ++ q else urlStr

/-- Go `resourceAgentRestartCreate`. -/
def resourceAgentRestartCreate : Handler := fun lib client d =>
  let diags : Diagnostics := []
  let baseURL := client.Endpoint
  let ids := (resourceAgentRestartCreateAgents d).1
  let hasAgents := (resourceAgentRestartCreateAgents d).2
  let urlStr := resourceAgentRestartCreateURL lib baseURL ids hasAgents
  match lib.marshal (Json.obj []) with
  | .error err => .ret (diag.FromErr err, d)
  | .ok bodyBytes =>
    match http.NewRequest lib "PUT" urlStr (some bodyBytes) with
    | .error err => .ret (diag.FromErr err, d)
    | .ok req =>
      let req := req.HeaderSet "Authorization" ("Bearer " ++ client.AuthToken)
      let req := req.HeaderSet "Content-Type" "application/json"
      .call req fun
        | .error err => .ret (diag.FromErr err, d)
        | .ok resp =>
          match ioReadAll resp with
          | (_, some err) => .ret (diag.FromErr err, d)
          | (respBody, none) =>
            if resp.StatusCode < 200 ∨ resp.StatusCode ≥ 300 then
              .ret (diag.Errorf ("failed to restart agents: status "
                ++ toString resp.StatusCode ++ ", body: " ++ respBody), d)
            else
              let result := (lib.unmarshalSummary respBody).1
              let d := d.Set "message" (.str result.Message)
              let d := d.Set "total_affected" (.int result.Data.TotalAffected)
              let d := d.Set "total_failed" (.int result.Data.TotalFailed)
              let d := d.Set "error_code" (.int result.Error)
              let d := d.Set "timestamp" (.str (lib.timeFormat time.RFC3339 (lib.now 0)))
              .ret (diags, d.SetId (lib.timeFormat "20060102T150405Z" (lib.now 1)))

/-- Go `resourceAgentRestartRead`. -/
def resourceAgentRestartRead : Handler := fun _ _ d =>
  let diags : Diagnostics := []
  .ret (diags, d)

/-- Go `resourceAgentRestartDelete`. -/
def resourceAgentRestartDelete : Handler := fun _ _ d =>
  let diags : Diagnostics := []
  .ret (diags, d.SetId "")

/-! ## resource_agent_restart_group.go -/

/-- Go `resourceAgentRestartGroupCreate`. -/
def resourceAgentRestartGroupCreate : Handler := fun lib client d =>
  let diags : Diagnostics := []
  let groupID := d.GetString "group_id"
  if groupID = "" then
    .ret (diag.Errorf "group_id must not be empty", d)
  else
    let urlStr := client.Endpoint ++ "/agents/group/" ++ groupID ++ "/restart"
    match lib.marshal (Json.obj []) with
    | .error err => .ret (diag.FromErr err, d)
    | .ok bodyBytes =>
      match http.NewRequest lib "PUT" urlStr (some bodyBytes) with
      | .error err => .ret (diag.FromErr err, d)
      | .ok req =>
        let req := req.HeaderSet "Authorization" ("Bearer " ++ client.AuthToken)
        let req := req.HeaderSet "Content-Type" "application/json"
        .call req fun
          | .error err => .ret (diag.FromErr err, d)
          | .ok resp =>
            match ioReadAll resp with
            | (_, some err) => .ret (diag.FromErr err, d)
            | (respBody, none) =>
              if resp.StatusCode < 200 ∨ resp.StatusCode ≥ 300 then
                .ret (diag.Errorf ("failed to restart agents in group '" ++ groupID
                  ++ "': status " ++ toString resp.StatusCode ++ ", body: " ++ respBody), d)
              else
                let result := (lib.unmarshalAgentRestartGroup respBody).1
                let d := d.Set "message" (.str result.Data.Message)
                let d := d.Set "total_affected" (.int result.Data.TotalAffected)
                let d := d.Set "total_failed" (.int result.Data.TotalFailed)
                let d := d.Set "error_code" (.int result.Data.Error)
                let d := d.Set "timestamp" (.str (lib.timeFormat time.RFC3339 (lib.now 0)))
                .ret (diags, d.SetId (groupID ++ "-"
                  ++ lib.timeFormat "20060102T150405Z" (lib.now 1)))

/-- Go `resourceAgentRestartGroupRead`. -/
def resourceAgentRestartGroupRead : Handler := fun _ _ d =>
  let diags : Diagnostics := []
  .ret (diags, d)

/-- Go `resourceAgentRestartGroupDelete`. -/
def resourceAgentRestartGroupDelete : Handler := fun _ _ d =>
  let diags : Diagnostics := []
  .ret (diags, d.SetId "")

/-! ## resource_agent_upgrade.go -/

/-- Go `resourceAgentUpgradeCreate`. -/
def resourceAgentUpgradeCreate : Handler := fun lib client d =>
  let diags : Diagnostics := []
  let urlStr := client.Endpoint ++ "/agents/upgrade"
  let query := url.Values.empty
  let rawAgents := d.GetList "agents_list"
  if rawAgents.length = 0 then
    .ret (diag.Errorf "agents_list must contain at least one value (agent ID or \"all\")", d)
  else
    let agents := trimmedNonBlank rawAgents
    if agents.length = 0 then
      .ret (diag.Errorf "agents_list must contain at least one non-empty value", d)
    else
      let query := query.Set "agents_list" (strings.Join agents ",")
      let query :=
        match d.GetOk "wpk_repo" with
        | (some (.str v), true) => query.Set "wpk_repo" v
        | _ => query
      let query :=
        match d.GetOk "upgrade_version" with
        | (some (.str v), true) => query.Set "upgrade_version" v
        | _ => query
      let query :=
        match d.GetOk "package_type" with
        | (some (.str v), true) => query.Set "package_type" v
        | _ => query
      let query :=
        match d.GetOkExists "use_http" with
        | (some (.bool v), true) =>
          if v then query.Set "use_http" "true" else query.Set "use_http" "false"
        | _ => query
      let query :=
        match d.GetOkExists "force" with
        | (some (.bool v), true) =>
          if v then query.Set "force" "true" else query.Set "force" "false"
        | _ => query
      let q := query.Encode lib
      let urlStr := if q ≠ "" then urlStr ++ "?" ++ q else urlStr
      match lib.marshal (Json.obj []) with
      | .error err => .ret (diag.FromErr err, d)
      | .ok bodyBytes =>
        match http.NewRequest lib "PUT" urlStr (some bodyBytes) with
        | .error err => .ret (diag.FromErr err, d)
        | .ok req =>
          let req := req.HeaderSet "Authorization" ("Bearer " ++ client.AuthToken)
          let req := req.HeaderSet "Content-Type" "application/json"
          .call req fun
            | .error err => .ret (diag.FromErr err, d)
            | .ok resp =>
              match ioReadAll resp with
              | (_, some err) => .ret (diag.FromErr err, d)
              | (respBody, none) =>
                if resp.StatusCode < 200 ∨ resp.StatusCode ≥ 300 then
                  .ret (diag.Errorf ("failed to upgrade agents: status "
                    ++ toString resp.StatusCode ++ ", body: " ++ respBody), d)
                else
                  let result := (lib.unmarshalAgentUpgrade respBody).1
                  let d := d.Set "message" (.str result.Message)
                  let d := d.Set "total_affected" (.int result.Data.TotalAffected)
                  let d := d.Set "total_failed" (.int result.Data.TotalFailed)
                  let d := d.Set "error_code" (.int result.Error)
                  let ai := result.Data.AffectedItems.map fun item =>
                    [("agent", Sum.inl item.Agent), ("task_id", Sum.inr item.TaskID)]
                  let d := d.Set "affected_items" (.maps ai)
                  let t := lib.now 0
                  let d := d.Set "timestamp" (.str (lib.timeFormat time.RFC3339 t))
                  .ret (diags, d.SetId (lib.timeFormat "20060102T150405Z" t))

/-- Go `resourceAgentUpgradeRead`. -/
def resourceAgentUpgradeRead : Handler := fun _ _ d =>
  let diags : Diagnostics := []
  .ret (diags, d)

/-- Go `resourceAgentUpgradeDelete`. -/
def resourceAgentUpgradeDelete : Handler := fun _ _ d =>
  let diags : Diagnostics := []
  .ret (diags, d.SetId "")

/-! ## resource_agent_upgrade_custom.go -/

/-- Go `resourceAgentUpgradeCustomCreate`. -/
def resourceAgentUpgradeCustomCreate : Handler := fun lib client d =>
  let diags : Diagnostics := []
  let urlStr := client.Endpoint ++ "/agents/upgrade_custom"
  let query := url.Values.empty
  let rawAgents := d.GetList "agents_list"
  if rawAgents.length = 0 then
    .ret (diag.Errorf "agents_list must contain at least one value (agent ID or \"all\")", d)
  else
    let agents := trimmedNonBlank rawAgents
    if agents.length = 0 then
      .ret (diag.Errorf "agents_list must contain at least one non-empty value", d)
    else
      let query := query.Set "agents_list" (strings.Join agents ",")
      let filePath := strings.TrimSpace (d.GetString "file_path")
      if filePath = "" then
        .ret (diag.Errorf "file_path must be a non-empty string", d)
      else
        let query := query.Set "file_path" filePath
        let query :=
          match d.GetOk "installer" with
          | (some (.str v), true) => query.Set "installer" v
          | _ => query
        let q := query.Encode lib
        let urlStr := if q ≠ "" then urlStr ++ "?" ++ q else urlStr
        match lib.marshal (Json.obj []) with
        | .error err => .ret (diag.FromErr err, d)
        | .ok bodyBytes =>
          match http.NewRequest lib "PUT" urlStr (some bodyBytes) with
          | .error err => .ret (diag.FromErr err, d)
          | .ok req =>
            let req := req.HeaderSet "Authorization" ("Bearer " ++ client.AuthToken)
            let req := req.HeaderSet "Content-Type" "application/json"
            .call req fun
              | .error err => .ret (diag.FromErr err, d)
              | .ok resp =>
                match ioReadAll resp with
                | (_, some err) => .ret (diag.FromErr err, d)
                | (respBody, none) =>
                  if resp.StatusCode < 200 ∨ resp.StatusCode ≥ 300 then
                    .ret (diag.Errorf ("failed to perform custom upgrade: status "
                      ++ toString resp.StatusCode ++ ", body: " ++ respBody), d)
                  else
                    let result := (lib.unmarshalAgentUpgrade respBody).1
                    let d := d.Set "message" (.str result.Message)
                    let d := d.Set "total_affected" (.int result.Data.TotalAffected)
                    let d := d.Set "total_failed" (.int result.Data.TotalFailed)
                    let d := d.Set "error_code" (.int result.Error)
                    let ai := result.Data.AffectedItems.map fun item =>
                      [("agent", Sum.inl item.Agent), ("task_id", Sum.inr item.TaskID)]
                    let d := d.Set "affected_items" (.maps ai)
                    let now := lib.now 0
                    let d := d.Set "timestamp" (.str (lib.timeFormat time.RFC3339 now))
                    .ret (diags, d.SetId (lib.timeFormat "20060102T150405Z" now))

/-- Go `resourceAgentUpgradeCustomRead`. -/
def resourceAgentUpgradeCustomRead : Handler := fun _ _ d =>
  let diags : Diagnostics := []
  .ret (diags, d)

/-- Go `resourceAgentUpgradeCustomDelete`. -/
def resourceAgentUpgradeCustomDelete : Handler := fun _ _ d =>
  let diags : Diagnostics := []
  .ret (diags, d.SetId "")

/-! ## resource_event.go -/

/-- Go `resourceEventCreate`. -/
def resourceEventCreate : Handler := fun lib client d =>
  let diags : Diagnostics := []
  let events := expandStringList (d.GetList "events")
  let payload := Json.obj [("events", .arr (events.map Json.str))]
  match lib.marshal payload with
  | .error err => .ret (diag.FromErr err, d)
  | .ok body =>
    let url := client.Endpoint ++ "/events"
    match http.NewRequest lib "POST" url (some body) with
    | .error err => .ret (diag.FromErr err, d)
    | .ok req =>
      let req := req.HeaderSet "Authorization" ("Bearer " ++ client.AuthToken)
      let req := req.HeaderSet "Content-Type" "application/json"
      .call req fun
        | .error err => .ret (diag.FromErr err, d)
        | .ok resp =>
          match ioReadAll resp with
          | (_, some err) => .ret (diag.FromErr err, d)
          | (respBody, none) =>
            if resp.StatusCode < 200 ∨ resp.StatusCode ≥ 300 then
              .ret (diag.Errorf ("failed to ingest events: status " ++ toString resp.StatusCode
                ++ ", body: " ++ respBody), d)
            else
              let result := (lib.unmarshalSummary respBody).1
              if result.Error ≠ 0 then
                .ret (diag.Errorf ("Wazuh API returned error while ingesting events: "
                  ++ respBody), d)
              else
                let d := d.Set "message" (.str result.Message)
                let d := d.Set "total_affected" (.int result.Data.TotalAffected)
                let d := d.Set "total_failed" (.int result.Data.TotalFailed)
                let d := d.Set "timestamp" (.str (lib.timeFormat time.RFC3339 (lib.now 0)))
                .ret (diags, d.SetId ("events-" ++ toString (lib.timeUnix (lib.now 1))))

/-- Go `resourceEventRead`. -/
def resourceEventRead : Handler := fun _ _ d =>
  let diags : Diagnostics := []
  .ret (diags, d)

/-- Go `resourceEventNoop`. -/
def resourceEventNoop : Handler := fun _ _ d =>
  let diags : Diagnostics := []
  .ret (diags, d)

/-! ## resource_manager_configuration.go -/

/-- Go `upsertManagerConfiguration`. -/
def upsertManagerConfiguration : Handler := fun lib client d =>
  let diags : Diagnostics := []
  let configXML := d.GetString "configuration_xml"
  let urlStr := client.Endpoint ++ "/manager/configuration"
  let query := url.Values.empty
  let q := query.Encode lib
  let urlStr := if q ≠ "" then urlStr ++ "?" ++ q else urlStr
  match http.NewRequest lib "PUT" urlStr (some configXML) with
  | .error err => .ret (diag.FromErr err, d)
  | .ok req =>
    let req := req.HeaderSet "Authorization" ("Bearer " ++ client.AuthToken)
    let req := req.HeaderSet "Content-Type" "application/octet-stream"
    .call req fun
      | .error err => .ret (diag.FromErr err, d)
      | .ok resp =>
        match ioReadAll resp with
        | (_, some err) => .ret (diag.FromErr err, d)
        | (respBody, none) =>
          if resp.StatusCode < 200 ∨ resp.StatusCode ≥ 300 then
            .ret (diag.Errorf ("failed to update manager configuration: status "
              ++ toString resp.StatusCode ++ ", body: " ++ respBody), d)
          else
            let result := (lib.unmarshalManagerConfiguration respBody).1
            if result.Error ≠ 0 then
              .ret (diag.Errorf ("Wazuh API returned error while updating manager configuration: "
                ++ respBody), d)
            else
              let d := d.Set "message" (.str result.Message)
              let d := d.Set "last_updated_timestamp"
                (.str (lib.timeFormat time.RFC3339 (lib.now 0)))
              .ret (diags, d.SetId "manager")

/-- Go `resourceManagerConfigurationCreate`. -/
def resourceManagerConfigurationCreate : Handler := fun lib client d =>
  upsertManagerConfiguration lib client d

/-- Go `resourceManagerConfigurationUpdate`. -/
def resourceManagerConfigurationUpdate : Handler := fun lib client d =>
  upsertManagerConfiguration lib client d

/-- Go `resourceManagerConfigurationRead`. -/
def resourceManagerConfigurationRead : Handler := fun lib client d =>
  let diags : Diagnostics := []
  let urlStr := client.Endpoint ++ "/manager/configuration"
  let query := url.Values.empty
  let query := query.Set "raw" "true"
  let q := query.Encode lib
  let urlStr := if q ≠ "" then urlStr ++ "?" ++ q else urlStr
  match http.NewRequest lib "GET" urlStr none with
  | .error err => .ret (diag.FromErr err, d)
  | .ok req =>
    let req := req.HeaderSet "Authorization" ("Bearer " ++ client.AuthToken)
    .call req fun
      | .error err => .ret (diag.FromErr err, d)
      | .ok resp =>
        match ioReadAll resp with
        | (_, some err) => .ret (diag.FromErr err, d)
        | (body, none) =>
          if resp.StatusCode = 404 then
            .ret (diags, d.SetId "")
          else if resp.StatusCode < 200 ∨ resp.StatusCode ≥ 300 then
            .ret (diag.Errorf ("failed to read manager configuration: status "
              ++ toString resp.StatusCode ++ ", body: " ++ body), d)
          else
            let d := d.Set "configuration_xml" (.str body)
            if d.Id = "" then .ret (diags, d.SetId "manager") else .ret (diags, d)

/-- Go `resourceManagerConfigurationDelete`. -/
def resourceManagerConfigurationDelete : Handler := fun _ _ d =>
  let diags : Diagnostics := []
  .ret (diags, d.SetId "")

/-! ## resource_manager_restart.go -/

/-- Go `resourceManagerRestartCreate`. -/
def resourceManagerRestartCreate : Handler := fun lib client d =>
  let diags : Diagnostics := []
  let urlStr := client.Endpoint ++ "/manager/restart"
  match lib.marshal (Json.obj []) with
  | .error err => .ret (diag.FromErr err, d)
  | .ok bodyBytes =>
    match http.NewRequest lib "PUT" urlStr (some bodyBytes) with
    | .error err => .ret (diag.FromErr err, d)
    | .ok req =>
      let req := req.HeaderSet "Authorization" ("Bearer " ++ client.AuthToken)
      let req := req.HeaderSet "Content-Type" "application/json"
      .call req fun
        | .error err => .ret (diag.FromErr err, d)
        | .ok resp =>
          match ioReadAll resp with
          | (_, some err) => .ret (diag.FromErr err, d)
          | (respBody, none) =>
            if resp.StatusCode < 200 ∨ resp.StatusCode ≥ 300 then
              .ret (diag.Errorf ("failed to restart manager: status "
                ++ toString resp.StatusCode ++ ", body: " ++ respBody), d)
            else
              let result := (lib.unmarshalSummary respBody).1
              if result.Error ≠ 0 then
                .ret (diag.Errorf ("Wazuh API returned error while restarting manager: "
                  ++ respBody), d)
              else
                let d := d.Set "message" (.str result.Message)
                let d := d.Set "total_affected" (.int result.Data.TotalAffected)
                let d := d.Set "total_failed" (.int result.Data.TotalFailed)
                let d := d.Set "timestamp" (.str (lib.timeFormat time.RFC3339 (lib.now 0)))
                .ret (diags, d.SetId (lib.timeFormat "20060102T150405Z" (lib.now 1)))

/-- Go `resourceManagerRestartRead`. -/
def resourceManagerRestartRead : Handler := fun _ _ d =>
  let diags : Diagnostics := []
  .ret (diags, d)

/-- Go `resourceManagerRestartDelete`. -/
def resourceManagerRestartDelete : Handler := fun _ _ d =>
  let diags : Diagnostics := []
  .ret (diags, d.SetId "")

/-! ## resource_node_analysisd_reload.go -/

/-- Go `resourceNodeAnalysisdReloadCreate`. -/
def resourceNodeAnalysisdReloadCreate : Handler := fun lib client d =>
  let diags : Diagnostics := []
  let nodes := expandStringList (d.GetList "nodes_list")
  match lib.marshal (Json.obj []) with
  | .error err => .ret (diag.FromErr err, d)
  | .ok bodyBytes =>
    let urlStr := client.Endpoint ++ "/cluster/analysisd/reload"
    let query := url.Values.empty
    let query := if nodes.length > 0 then query.Set "nodes_list" (joinComma nodes) else query
    let q := query.Encode lib
    let urlStr := if q ≠ "" then urlStr ++ "?" ++ q else urlStr
    match http.NewRequest lib "PUT" urlStr (some bodyBytes) with
    | .error err => .ret (diag.FromErr err, d)
    | .ok req =>
      let req := req.HeaderSet "Authorization" ("Bearer " ++ client.AuthToken)
      let req := req.HeaderSet "Content-Type" "application/json"
      .call req fun
        | .error err => .ret (diag.FromErr err, d)
        | .ok resp =>
          match ioReadAll resp with
          | (_, some err) => .ret (diag.FromErr err, d)
          | (respBody, none) =>
            if resp.StatusCode < 200 ∨ resp.StatusCode ≥ 300 then
              .ret (diag.Errorf ("failed to reload analysisd on nodes: status "
                ++ toString resp.StatusCode ++ ", body: " ++ respBody), d)
            else
              let result := (lib.unmarshalSummary respBody).1
              if result.Error ≠ 0 then
                .ret (diag.Errorf ("Wazuh API returned error while reloading analysisd: "
                  ++ respBody), d)
              else
                let d := d.Set "message" (.str result.Message)
                let d := d.Set "total_affected" (.int result.Data.TotalAffected)
                let d := d.Set "total_failed" (.int result.Data.TotalFailed)
                let d := d.Set "timestamp" (.str (lib.timeFormat time.RFC3339 (lib.now 0)))
                .ret (diags, d.SetId ("analysisd-reload-"
                  ++ toString (lib.timeUnix (lib.now 1))))

/-- Go `resourceNodeAnalysisdReloadRead`. -/
def resourceNodeAnalysisdReloadRead : Handler := fun _ _ d =>
  let diags : Diagnostics := []
  .ret (diags, d)

/-- Go `resourceNodeAnalysisdReloadNoop`. -/
def resourceNodeAnalysisdReloadNoop : Handler := fun _ _ d =>
  let diags : Diagnostics := []
  .ret (diags, d)

/-! ## resource_node_configuration.go -/

/-- Go `resourceNodeConfigurationPut`. -/
def resourceNodeConfigurationPut : Handler := fun lib client d =>
  let diags : Diagnostics := []
  let nodeID := d.GetString "node_id"
  let xmlData := d.GetString "configuration_xml"
  let escapedNode := lib.pathEscape nodeID
  let urlStr := client.Endpoint ++ "/cluster/" ++ escapedNode ++ "/configuration"
  match http.NewRequest lib "PUT" urlStr (some xmlData) with
  | .error err => .ret (diag.FromErr err, d)
  | .ok req =>
    let req := req.HeaderSet "Authorization" ("Bearer " ++ client.AuthToken)
    let req := req.HeaderSet "Content-Type" "application/octet-stream"
    .call req fun
      | .error err => .ret (diag.FromErr err, d)
      | .ok resp =>
        let body := (ioReadAll resp).1
        if resp.StatusCode < 200 ∨ resp.StatusCode ≥ 300 then
          .ret (diag.Errorf ("failed to update configuration for node '" ++ nodeID
            ++ "': status " ++ toString resp.StatusCode ++ ", body: " ++ body), d)
        else
          .ret (diags, d.SetId nodeID)

/-- Go `resourceNodeConfigurationCreate`. -/
def resourceNodeConfigurationCreate : Handler := fun lib client d =>
  resourceNodeConfigurationPut lib client d

/-- Go `resourceNodeConfigurationUpdate`. -/
def resourceNodeConfigurationUpdate : Handler := fun lib client d =>
  resourceNodeConfigurationPut lib client d

/-- Go `resourceNodeConfigurationRead`. -/
def resourceNodeConfigurationRead : Handler := fun lib client d =>
  let diags : Diagnostics := []
  let nodeID := d.Id
  let escapedNode := lib.pathEscape nodeID
  let urlStr := client.Endpoint ++ "/cluster/" ++ escapedNode ++ "/configuration?raw=true"
  match http.NewRequest lib "GET" urlStr none with
  | .error err => .ret (diag.FromErr err, d)
  | .ok req =>
    let req := req.HeaderSet "Authorization" ("Bearer " ++ client.AuthToken)
    .call req fun
      | .error err => .ret (diag.FromErr err, d)
      | .ok resp =>
        match ioReadAll resp with
        | (_, some err) => .ret (diag.FromErr err, d)
        | (body, none) =>
          if resp.StatusCode = 404 then
            .ret (diags, d.SetId "")
          else if resp.StatusCode < 200 ∨ resp.StatusCode ≥ 300 then
            .ret (diag.Errorf ("failed to read configuration for node '" ++ nodeID
              ++ "': status " ++ toString resp.StatusCode ++ ", body: " ++ body), d)
          else
            let d := d.Set "configuration_xml" (.str body)
            let d := d.Set "node_id" (.str nodeID)
            .ret (diags, d)

/-- Go `resourceNodeConfigurationDelete`. -/
def resourceNodeConfigurationDelete : Handler := fun _ _ d =>
  let diags : Diagnostics := []
  .ret (diags, d.SetId "")

/-! ## resource_node_restart.go -/

/-- Go `resourceNodeRestartCreate`. -/
def resourceNodeRestartCreate : Handler := fun lib client d =>
  let diags : Diagnostics := []
  let nodes := expandStringList (d.GetList "nodes_list")
  match lib.marshal (Json.obj []) with
  | .error err => .ret (diag.FromErr err, d)
  | .ok bodyBytes =>
    let urlStr := client.Endpoint ++ "/cluster/restart"
    let query := url.Values.empty
    let query := if nodes.length > 0 then query.Set "nodes_list" (joinComma nodes) else query
    let q := query.Encode lib
    let urlStr := if q ≠ "" then urlStr ++ "?" ++ q else urlStr
    match http.NewRequest lib "PUT" urlStr (some bodyBytes) with
    | .error err => .ret (diag.FromErr err, d)
    | .ok req =>
      let req := req.HeaderSet "Authorization" ("Bearer " ++ client.AuthToken)
      let req := req.HeaderSet "Content-Type" "application/json"
      .call req fun
        | .error err => .ret (diag.FromErr err, d)
        | .ok resp =>
          match ioReadAll resp with
          | (_, some err) => .ret (diag.FromErr err, d)
          | (respBody, none) =>
            if resp.StatusCode < 200 ∨ resp.StatusCode ≥ 300 then
              .ret (diag.Errorf ("failed to restart nodes: status "
                ++ toString resp.StatusCode ++ ", body: " ++ respBody), d)
            else
              let result := (lib.unmarshalSummary respBody).1
              if result.Error ≠ 0 then
                .ret (diag.Errorf ("Wazuh API returned error while restarting nodes: "
                  ++ respBody), d)
              else
                let d := d.Set "message" (.str result.Message)
                let d := d.Set "total_affected" (.int result.Data.TotalAffected)
                let d := d.Set "total_failed" (.int result.Data.TotalFailed)
                let d := d.Set "timestamp" (.str (lib.timeFormat time.RFC3339 (lib.now 0)))
                .ret (diags, d.SetId ("node-restart-" ++ toString (lib.timeUnix (lib.now 1))))

/-- Go `resourceNodeRestartRead`. -/
def resourceNodeRestartRead : Handler := fun _ _ d =>
  let diags : Diagnostics := []
  .ret (diags, d)

/-- Go `resourceNodeRestartNoop`. -/
def resourceNodeRestartNoop : Handler := fun _ _ d =>
  let diags : Diagnostics := []
  .ret (diags, d)

/-! ## resource_agent_group.go -/

/-- Go `resourceAgentGroupCreate`. -/
def resourceAgentGroupCreate : Handler := fun lib client d =>
  let diags : Diagnostics := []
  let agentID := strings.TrimSpace (d.GetString "agent_id")
  let groupID := strings.TrimSpace (d.GetString "group_id")
  let forceSingle := d.GetBool "force_single_group"
  if groupID = "" then
    .ret (diag.Errorf "group_id must not be empty", d)
  else
    match lib.marshal (Json.obj []) with
    | .error err => .ret (diag.FromErr err, d)
    | .ok bodyBytes =>
      let urlStr :=
        if agentID ≠ "" then
          let urlStr := client.Endpoint ++ "/agents/" ++ agentID ++ "/group/" ++ groupID
          if forceSingle then urlStr ++ "?force_single_group=true" else urlStr
        else
          let urlStr := client.Endpoint ++ "/agents/group"
          let q := url.Values.empty
          let q := q.Set "group_id" groupID
          let q :=
            match d.GetOk "agents_list" with
            | (some (.list raw), true) =>
              if raw.length > 0 then
                let ids := trimmedNonBlank raw
                if ids.length > 0 then q.Set "agents_list" (strings.Join ids ",") else q
              else q
            | _ => q
          let q := if forceSingle then q.Set "force_single_group" "true" else q
          let enc := q.Encode lib
          if enc ≠ "" then urlStr ++ "?" ++ enc else urlStr
      match http.NewRequest lib "PUT" urlStr (some bodyBytes) with
      | .error err => .ret (diag.FromErr err, d)
      | .ok req =>
        let req := req.HeaderSet "Authorization" ("Bearer " ++ client.AuthToken)
        let req := req.HeaderSet "Content-Type" "application/json"
        .call req fun
          | .error err => .ret (diag.FromErr err, d)
          | .ok resp =>
            match ioReadAll resp with
            | (_, some err) => .ret (diag.FromErr err, d)
            | (respBody, none) =>
              if resp.StatusCode < 200 ∨ resp.StatusCode ≥ 300 then
                .ret (diag.Errorf ("failed to assign agents to group '" ++ groupID
                  ++ "': status " ++ toString resp.StatusCode ++ ", body: " ++ respBody), d)
              else
                let result := (lib.unmarshalAgentGroup respBody).1
                let msg := result.Data.Message
                let msg := if msg = "" then result.Message else msg
                let errCode := result.Data.Error
                let errCode := if errCode = 0 ∧ result.Error ≠ 0 then result.Error else errCode
                let d := d.Set "message" (.str msg)
                let d := d.Set "total_affected" (.int result.Data.TotalAffected)
                let d := d.Set "total_failed" (.int result.Data.TotalFailed)
                let d := d.Set "error_code" (.int errCode)
                let d := d.Set "timestamp" (.str (lib.timeFormat time.RFC3339 (lib.now 0)))
                if agentID ≠ "" then
                  .ret (diags, d.SetId (agentID ++ "-" ++ groupID))
                else
                  .ret (diags, d.SetId (groupID ++ "-"
                    ++ lib.timeFormat "20060102T150405Z" (lib.now 1)))

/-- Go `resourceAgentGroupRead`. -/
def resourceAgentGroupRead : Handler := fun _ _ d =>
  let diags : Diagnostics := []
  .ret (diags, d)

/-- Part of `resourceAgentGroupDelete` that both branches run once the URL is
known: the request is built and sent, the response handled. -/
def resourceAgentGroupDeleteSend (lib : Lib) (client : APIClient) (d : ResourceData)
    (agentID groupID urlStr : String) : Prog (Diagnostics × ResourceData) :=
  let diags : Diagnostics := []
  match http.NewRequest lib "DELETE" urlStr none with
  | .error err => .ret (diag.FromErr err, d)
  | .ok req =>
    let req := req.HeaderSet "Authorization" ("Bearer " ++ client.AuthToken)
    .call req fun
      | .error err => .ret (diag.FromErr err, d)
      | .ok resp =>
        match ioReadAll resp with
        | (_, some err) => .ret (diag.FromErr err, d)
        | (respBody, none) =>
          if resp.StatusCode < 200 ∨ resp.StatusCode ≥ 300 then
            if agentID ≠ "" then
              .ret (diag.Errorf ("failed to remove agent '" ++ agentID ++ "' from group '"
                ++ groupID ++ "': status " ++ toString resp.StatusCode ++ ", body: "
                ++ respBody), d)
            else
              .ret (diag.Errorf ("failed to remove agents from group '" ++ groupID
                ++ "': status " ++ toString resp.StatusCode ++ ", body: " ++ respBody), d)
          else
            let result := (lib.unmarshalAgentGroup respBody).1
            let msg := result.Data.Message
            let msg := if msg = "" then result.Message else msg
            let errCode := result.Data.Error
            let errCode := if errCode = 0 ∧ result.Error ≠ 0 then result.Error else errCode
            let d := d.Set "message" (.str msg)
            let d := d.Set "total_affected" (.int result.Data.TotalAffected)
            let d := d.Set "total_failed" (.int result.Data.TotalFailed)
            let d := d.Set "error_code" (.int errCode)
            let d := d.Set "timestamp" (.str (lib.timeFormat time.RFC3339 (lib.now 0)))
            .ret (diags, d.SetId "")

/-- Go `resourceAgentGroupDelete`. -/
def resourceAgentGroupDelete : Handler := fun lib client d =>
  let diags : Diagnostics := []
  let agentID := strings.TrimSpace (d.GetString "agent_id")
  let groupID := strings.TrimSpace (d.GetString "group_id")
  if groupID = "" then
    .ret (diags, d.SetId "")
  else if agentID ≠ "" then
    let urlStr := client.Endpoint ++ "/agents/" ++ agentID ++ "/group/" ++ groupID
    resourceAgentGroupDeleteSend lib client d agentID groupID urlStr
  else
    let urlStr := client.Endpoint ++ "/agents/group"
    let q := url.Values.empty
    let q := q.Set "group_id" groupID
    match d.GetOk "agents_list" with
    | (some (.list raw), true) =>
      if raw.length = 0 then
        .ret (diag.Errorf
          "agents_list must not be empty for bulk delete when agent_id is not set", d)
      else
        let ids := trimmedNonBlank raw
        if ids.length = 0 then
          .ret (diag.Errorf
            "agents_list must contain at least one non-empty agent ID for bulk delete", d)
        else
          let q := q.Set "agents_list" (strings.Join ids ",")
          let enc := q.Encode lib
          let urlStr := if enc ≠ "" then urlStr ++ "?" ++ enc else urlStr
          resourceAgentGroupDeleteSend lib client d agentID groupID urlStr
    | _ =>
      .ret (diag.Errorf
        "agents_list must be provided for bulk delete when agent_id is not set", d)

/-! ## resource_policy_role.go -/

/-- The type switch loop of `resourcePolicyRoleCreate`: the policy IDs as text,
or the type name of the first element of an unsupported type. -/
def resourcePolicyRoleCreateIDs : List Elem → Except String (List String)
  | [] => .ok []
  | p :: rest =>
    match p with
    | .int v => (resourcePolicyRoleCreateIDs rest).map (fun ids => toString v :: ids)
    | .int64 v => (resourcePolicyRoleCreateIDs rest).map (fun ids => toString v :: ids)
    | .str v =>
      if strings.TrimSpace v ≠ "" then
        (resourcePolicyRoleCreateIDs rest).map (fun ids => strings.TrimSpace v :: ids)
      else resourcePolicyRoleCreateIDs rest
    | .other typeName _ => .error typeName

/-- Go `resourcePolicyRoleCreate`. -/
def resourcePolicyRoleCreate : Handler := fun lib client d =>
  let diags : Diagnostics := []
  let roleID := strings.TrimSpace (d.GetString "role_id")
  if roleID = "" then
    .ret (diag.Errorf "role_id must not be empty", d)
  else
    let rawPolicies := d.GetElems "policy_ids"
    if rawPolicies.length = 0 then
      .ret (diag.Errorf "policy_ids must contain at least one policy ID", d)
    else
      match resourcePolicyRoleCreateIDs rawPolicies with
      | .error typeName => .ret (diag.Errorf ("unsupported type in policy_ids: " ++ typeName), d)
      | .ok policyIDs =>
        if policyIDs.length = 0 then
          .ret (diag.Errorf "policy_ids must contain at least one valid policy ID", d)
        else
          let urlStr := client.Endpoint ++ "/security/roles/" ++ roleID ++ "/policies"
          let query := url.Values.empty
          let query := query.Set "policy_ids" (strings.Join policyIDs ",")
          let query :=
            match d.GetOk "position" with
            | (some (.int v), true) => query.Set "position" (toString v)
            | _ => query
          let enc := query.Encode lib
          let urlStr := if enc ≠ "" then urlStr ++ "?" ++ enc else urlStr
          match http.NewRequest lib "POST" urlStr none with
          | .error err => .ret (diag.FromErr err, d)
          | .ok req =>
            let req := req.HeaderSet "Authorization" ("Bearer " ++ client.AuthToken)
            .call req fun
              | .error err => .ret (diag.FromErr err, d)
              | .ok resp =>
                match ioReadAll resp with
                | (_, some err) => .ret (diag.FromErr err, d)
                | (respBody, none) =>
                  if resp.StatusCode < 200 ∨ resp.StatusCode ≥ 300 then
                    .ret (diag.Errorf ("failed to link policies " ++ fmtSlice policyIDs
                      ++ " to role " ++ roleID ++ ": status " ++ toString resp.StatusCode
                      ++ ", body: " ++ respBody), d)
                  else
                    let result := (lib.unmarshalSummary respBody).1
                    let d := d.Set "message" (.str result.Message)
                    let d := d.Set "total_affected" (.int result.Data.TotalAffected)
                    let d := d.Set "total_failed" (.int result.Data.TotalFailed)
                    let d := d.Set "error_code" (.int result.Error)
                    let d := d.Set "timestamp"
                      (.str (lib.timeFormat time.RFC3339 (lib.now 0)))
                    .ret (diags, d.SetId ("role-" ++ roleID ++ "-policies-"
                      ++ strings.Join policyIDs ","))

/-- Go `resourcePolicyRoleRead`. -/
def resourcePolicyRoleRead : Handler := fun _ _ d =>
  let diags : Diagnostics := []
  .ret (diags, d)

/-- The type switch loop of `resourcePolicyRoleDelete`, which has no default
case. -/
def resourcePolicyRoleDeleteIDs (rawPolicies : List Elem) : List String :=
  rawPolicies.filterMap fun p =>
    match p with
    | .int v => some (toString v)
    | .int64 v => some (toString v)
    | .str v => if strings.TrimSpace v ≠ "" then some (strings.TrimSpace v) else none
    | .other _ _ => none

/-- Go `resourcePolicyRoleDelete`. -/
def resourcePolicyRoleDelete : Handler := fun lib client d =>
  let diags : Diagnostics := []
  let roleID := strings.TrimSpace (d.GetString "role_id")
  if roleID = "" then
    .ret (diags, d.SetId "")
  else
    let rawPolicies := d.GetElems "policy_ids"
    let policyIDs := resourcePolicyRoleDeleteIDs rawPolicies
    let urlStr := client.Endpoint ++ "/security/roles/" ++ roleID ++ "/policies"
    let query := url.Values.empty
    if policyIDs.length > 0 then
      let query := query.Set "policy_ids" (strings.Join policyIDs ",")
      let enc := query.Encode lib
      let urlStr := if enc ≠ "" then urlStr ++ "?" ++ enc else urlStr
      match http.NewRequest lib "DELETE" urlStr none with
      | .error err => .ret (diag.FromErr err, d)
      | .ok req =>
        let req := req.HeaderSet "Authorization" ("Bearer " ++ client.AuthToken)
        .call req fun
          | .error err => .ret (diag.FromErr err, d)
          | .ok resp =>
            match ioReadAll resp with
            | (_, some err) => .ret (diag.FromErr err, d)
            | (body, none) =>
              if resp.StatusCode < 200 ∨ resp.StatusCode ≥ 300 then
                .ret (diag.Errorf ("failed to unlink policies " ++ fmtSlice policyIDs
                  ++ " from role " ++ roleID ++ ": status " ++ toString resp.StatusCode
                  ++ ", body: " ++ body), d)
              else
                .ret (diags, d.SetId "")
    else
      .ret (diags, d.SetId "")

/-! ## resource_security_rule_role.go -/

/-- Go `resourceSecurityRuleRoleCreate`. -/
def resourceSecurityRuleRoleCreate : Handler := fun lib client d =>
  let diags : Diagnostics := []
  let roleID := strings.TrimSpace (d.GetString "role_id")
  if roleID = "" then
    .ret (diag.Errorf "role_id must not be empty", d)
  else
    let rawRuleIDs := d.GetElems "rule_ids"
    if rawRuleIDs.length = 0 then
      .ret (diag.Errorf "rule_ids must not be empty", d)
    else
      let ruleIDStrs := rawRuleIDs.map Elem.format
      let u := client.Endpoint ++ "/security/roles/" ++ roleID ++ "/rules"
      let q := url.Values.empty
      let q := q.Set "rule_ids" (strings.Join ruleIDStrs ",")
      let enc := q.Encode lib
      let u := if enc ≠ "" then u ++ "?" ++ enc else u
      match lib.marshal (Json.obj []) with
      | .error err => .ret (diag.FromErr err, d)
      | .ok bodyBytes =>
        match http.NewRequest lib "POST" u (some bodyBytes) with
        | .error err => .ret (diag.FromErr err, d)
        | .ok req =>
          let req := req.HeaderSet "Authorization" ("Bearer " ++ client.AuthToken)
          let req := req.HeaderSet "Content-Type" "application/json"
          .call req fun
            | .error err => .ret (diag.FromErr err, d)
            | .ok resp =>
              match ioReadAll resp with
              | (_, some err) => .ret (diag.FromErr err, d)
              | (respBody, none) =>
                if resp.StatusCode < 200 ∨ resp.StatusCode ≥ 300 then
                  .ret (diag.Errorf ("failed to link security rules to role '" ++ roleID
                    ++ "': status " ++ toString resp.StatusCode ++ ", body: " ++ respBody), d)
                else
                  let result := (lib.unmarshalSummary respBody).1
                  let d := d.Set "total_affected" (.int result.Data.TotalAffected)
                  let d := d.Set "total_failed" (.int result.Data.TotalFailed)
                  let d := d.Set "message" (.str result.Message)
                  let d := d.Set "error_code" (.int result.Error)
                  let d := d.Set "timestamp" (.str (lib.timeFormat time.RFC3339 (lib.now 0)))
                  let id := roleID ++ ":" ++ strings.Join ruleIDStrs ","
                  .ret (diags, d.SetId id)

/-- Go `resourceSecurityRuleRoleRead`. -/
def resourceSecurityRuleRoleRead : Handler := fun _ _ d =>
  let diags : Diagnostics := []
  .ret (diags, d)

/-- Go `resourceSecurityRuleRoleDelete`. -/
def resourceSecurityRuleRoleDelete : Handler := fun lib client d =>
  let diags : Diagnostics := []
  let id := d.Id
  if id = "" then
    .ret (diags, d)
  else
    let roleID := strings.TrimSpace (d.GetString "role_id")
    let roleID :=
      if roleID = "" then
        let parts := strings.SplitN2 id ':'
        if parts.length > 0 then parts.headD "" else roleID
      else roleID
    let rawRuleIDs := d.GetElems "rule_ids"
    if rawRuleIDs.length = 0 then
      .ret (diags, d.SetId "")
    else
      let ruleIDStrs := rawRuleIDs.map Elem.format
      let u := client.Endpoint ++ "/security/roles/" ++ roleID ++ "/rules"
      let q := url.Values.empty
      let q := q.Set "rule_ids" (strings.Join ruleIDStrs ",")
      let enc := q.Encode lib
      let u := if enc ≠ "" then u ++ "?" ++ enc else u
      match http.NewRequest lib "DELETE" u none with
      | .error err => .ret (diag.FromErr err, d)
      | .ok req =>
        let req := req.HeaderSet "Authorization" ("Bearer " ++ client.AuthToken)
        .call req fun
          | .error err => .ret (diag.FromErr err, d)
          | .ok resp =>
            match ioReadAll resp with
            | (_, some err) => .ret (diag.FromErr err, d)
            | (respBody, none) =>
              if resp.StatusCode < 200 ∨ resp.StatusCode ≥ 300 then
                .ret (diag.Errorf ("failed to unlink security rules from role '" ++ roleID
                  ++ "': status " ++ toString resp.StatusCode ++ ", body: " ++ respBody), d)
              else
                .ret (diags, d.SetId "")

/-! ## provider.go: the resources the provider registers -/

/-- Go `*schema.Resource`, reduced to the constructor function that builds it
and the four lifecycle functions it wires up (`none` for a nil field). -/
structure Resource where
  Constructor : String
  CreateContext : Option Handler
  ReadContext : Option Handler
  UpdateContext : Option Handler
  DeleteContext : Option Handler

/-- Lifecycle functions a resource wires up. -/
def Resource.handlers (r : Resource) : List Handler :=
  [r.CreateContext, r.ReadContext, r.UpdateContext, r.DeleteContext].filterMap id

/-- Go `resourceGroup()`. -/
def resourceGroup : Resource :=
  { Constructor := "resourceGroup"
    CreateContext := some resourceGroupCreate
    ReadContext := some resourceGroupRead
    UpdateContext := none
    DeleteContext := some resourceGroupDelete }

/-- Go `resourceGroupConfiguration()`. -/
def resourceGroupConfiguration : Resource :=
  { Constructor := "resourceGroupConfiguration"
    CreateContext := some resourceGroupConfigurationCreate
    ReadContext := some resourceGroupConfigurationRead
    UpdateContext := some resourceGroupConfigurationUpdate
    DeleteContext := some resourceGroupConfigurationDelete }

/-- Go `resourceActiveResponse()`. -/
def resourceActiveResponse : Resource :=
  { Constructor := "resourceActiveResponse"
    CreateContext := some resourceActiveResponseCreate
    ReadContext := some resourceActiveResponseRead
    UpdateContext := some resourceActiveResponseNoop
    DeleteContext := some resourceActiveResponseNoop }

/-- Field `ResourcesMap` of the provider returned by Go `Provider()`. -/
def Provider.ResourcesMap : List (String × Resource) :=
  [ ("wazuh_group", resourceGroup),
    ("wazuh_group_configuration", resourceGroupConfiguration),
    ("wazuh_active_response", resourceActiveResponse) ]

/-- Functions of package `internal` that return a `*schema.Resource`, by name,
one per `resource_*.go` file. -/
def packageResourceConstructors : List String :=
  [ "resourceActiveResponse", "resourceAgent", "resourceAgentGroup", "resourceAgentNodeRestart",
    "resourceAgentReconnect", "resourceAgentRestart", "resourceAgentRestartGroup",
    "resourceAgentUpgrade", "resourceAgentUpgradeCustom", "resourceCDBList", "resourceDecoder",
    "resourceEvent", "resourceGroup", "resourceGroupConfiguration", "resourceLogtest",
    "resourceManagerConfiguration", "resourceManagerRestart", "resourceNodeAnalysisdReload",
    "resourceNodeConfiguration", "resourceNodeRestart", "resourcePolicy", "resourcePolicyRole",
    "resourceRole", "resourceRoleUser", "resourceRootcheck", "resourceRule",
    "resourceSecurityConfig", "resourceSecurityRule", "resourceSecurityRuleRole",
    "resourceSyscheck", "resourceUser" ]

/-! ## The lifecycle functions embedded above -/

/-- Every function of the package with the signature of a lifecycle function,
`func(ctx, d, meta) diag.Diagnostics`: the Create, Read, Update and Delete
functions of the thirty-one resources and the functions they delegate to, in
the order of the sections above. -/
def lifecycleFunctions : List Handler :=
  [ resourceGroupCreate, resourceGroupRead, resourceGroupDelete,
    resourceGroupConfigurationUpdate, resourceGroupConfigurationCreate,
    resourceGroupConfigurationRead, resourceGroupConfigurationDelete,
    resourceActiveResponseCreate, resourceActiveResponseRead, resourceActiveResponseNoop,
    resourceRuleDelete, upsertRule, resourceRuleCreate, resourceRuleUpdate, resourceRuleRead,
    resourceDecoderPut, resourceDecoderCreate, resourceDecoderUpdate, resourceDecoderRead,
    resourceDecoderDelete, resourceCDBListPut, resourceCDBListCreate, resourceCDBListUpdate,
    resourceCDBListRead, resourceCDBListDelete, resourceLogtestDelete, resourceLogtestCreate,
    resourceLogtestRead, resourceLogtestNoop, resourceRootcheckDelete, resourceRootcheckCreate,
    resourceRootcheckRead, resourceRootcheckUpdate, resourceSyscheckCreate, resourceSyscheckRead,
    resourceSyscheckDelete, resourceRoleRead, resourceRoleCreate, resourceRoleUpdate,
    resourceRoleDelete, resourceRoleUserCreate, resourceRoleUserRead, resourceRoleUserUpdate,
    resourceRoleUserDelete, resourceAgentRead, resourceAgentCreate, resourceAgentDelete,
    resourceUserRead, resourceUserCreate, resourceUserUpdate, resourceUserDelete,
    resourcePolicyRead, resourcePolicyCreate, resourcePolicyUpdate, resourcePolicyDelete,
    resourceSecurityRuleRead, resourceSecurityRuleCreate, resourceSecurityRuleUpdate,
    resourceSecurityRuleDelete, resourceSecurityConfigRead, resourceSecurityConfigCreate,
    resourceSecurityConfigUpdate, resourceSecurityConfigDelete, resourceAgentNodeRestartCreate,
    resourceAgentNodeRestartRead, resourceAgentNodeRestartDelete, resourceAgentReconnectCreate,
    resourceAgentReconnectRead, resourceAgentReconnectDelete, resourceAgentRestartCreate,
    resourceAgentRestartRead, resourceAgentRestartDelete, resourceAgentRestartGroupCreate,
    resourceAgentRestartGroupRead, resourceAgentRestartGroupDelete, resourceAgentUpgradeCreate,
    resourceAgentUpgradeRead, resourceAgentUpgradeDelete, resourceAgentUpgradeCustomCreate,
    resourceAgentUpgradeCustomRead, resourceAgentUpgradeCustomDelete, resourceEventCreate,
    resourceEventRead, resourceEventNoop, upsertManagerConfiguration,
    resourceManagerConfigurationCreate, resourceManagerConfigurationUpdate,
    resourceManagerConfigurationRead, resourceManagerConfigurationDelete,
    resourceManagerRestartCreate, resourceManagerRestartRead, resourceManagerRestartDelete,
    resourceNodeAnalysisdReloadCreate, resourceNodeAnalysisdReloadRead,
    resourceNodeAnalysisdReloadNoop, resourceNodeConfigurationPut,
    resourceNodeConfigurationCreate, resourceNodeConfigurationUpdate,
    resourceNodeConfigurationRead, resourceNodeConfigurationDelete, resourceNodeRestartCreate,
    resourceNodeRestartRead, resourceNodeRestartNoop, resourceAgentGroupCreate,
    resourceAgentGroupRead, resourceAgentGroupDelete, resourcePolicyRoleCreate,
    resourcePolicyRoleRead, resourcePolicyRoleDelete, resourceSecurityRuleRoleCreate,
    resourceSecurityRuleRoleRead, resourceSecurityRuleRoleDelete ]

/-- The Read and Delete functions among them that send an HTTP request. -/
def readDeleteFunctions : List Handler :=
  [ resourceGroupRead, resourceGroupDelete, resourceGroupConfigurationRead, resourceRuleDelete,
    resourceRuleRead, resourceDecoderRead, resourceDecoderDelete, resourceCDBListRead,
    resourceCDBListDelete, resourceLogtestDelete, resourceRootcheckDelete, resourceRootcheckRead,
    resourceSyscheckRead, resourceSyscheckDelete, resourceRoleRead, resourceRoleDelete,
    resourceRoleUserDelete, resourceAgentRead, resourceAgentDelete, resourceUserRead,
    resourceUserDelete, resourcePolicyRead, resourcePolicyDelete, resourceSecurityRuleRead,
    resourceSecurityRuleDelete, resourceSecurityConfigRead, resourceSecurityConfigDelete,
    resourceManagerConfigurationRead, resourceNodeConfigurationRead, resourceAgentGroupDelete,
    resourcePolicyRoleDelete, resourceSecurityRuleRoleDelete ]

/-- For every lifecycle function, the least and the greatest number of requests
that a call returning without error has sent. -/
def requestBounds : List (Handler × Nat × Nat) :=
  [ (resourceGroupCreate, 1, 1), (resourceGroupRead, 1, 1), (resourceGroupDelete, 1, 1),
    (resourceGroupConfigurationUpdate, 1, 1), (resourceGroupConfigurationCreate, 1, 1),
    (resourceGroupConfigurationRead, 1, 1), (resourceGroupConfigurationDelete, 0, 0),
    (resourceActiveResponseCreate, 1, 1), (resourceActiveResponseRead, 0, 0),
    (resourceActiveResponseNoop, 0, 0), (resourceRuleDelete, 1, 1), (upsertRule, 1, 1),
    (resourceRuleCreate, 1, 1), (resourceRuleUpdate, 1, 1), (resourceRuleRead, 1, 1),
    (resourceDecoderPut, 1, 1), (resourceDecoderCreate, 1, 1), (resourceDecoderUpdate, 1, 1),
    (resourceDecoderRead, 1, 1), (resourceDecoderDelete, 1, 1), (resourceCDBListPut, 1, 1),
    (resourceCDBListCreate, 1, 1), (resourceCDBListUpdate, 1, 1), (resourceCDBListRead, 1, 1),
    (resourceCDBListDelete, 1, 1), (resourceLogtestDelete, 0, 1), (resourceLogtestCreate, 1, 1),
    (resourceLogtestRead, 0, 0), (resourceLogtestNoop, 0, 0), (resourceRootcheckDelete, 1, 1),
    (resourceRootcheckCreate, 1, 1), (resourceRootcheckRead, 1, 1),
    (resourceRootcheckUpdate, 1, 1), (resourceSyscheckCreate, 1, 1),
    (resourceSyscheckRead, 1, 1), (resourceSyscheckDelete, 1, 1), (resourceRoleRead, 0, 1),
    (resourceRoleCreate, 3, 3), (resourceRoleUpdate, 1, 2), (resourceRoleDelete, 0, 1),
    (resourceRoleUserCreate, 1, 1), (resourceRoleUserRead, 0, 0), (resourceRoleUserUpdate, 0, 2),
    (resourceRoleUserDelete, 0, 1), (resourceAgentRead, 0, 1), (resourceAgentCreate, 2, 2),
    (resourceAgentDelete, 0, 1), (resourceUserRead, 0, 1), (resourceUserCreate, 3, 3),
    (resourceUserUpdate, 1, 2), (resourceUserDelete, 0, 1), (resourcePolicyRead, 0, 1),
    (resourcePolicyCreate, 3, 3), (resourcePolicyUpdate, 1, 2), (resourcePolicyDelete, 0, 1),
    (resourceSecurityRuleRead, 0, 1), (resourceSecurityRuleCreate, 2, 3),
    (resourceSecurityRuleUpdate, 1, 2), (resourceSecurityRuleDelete, 0, 1),
    (resourceSecurityConfigRead, 1, 1), (resourceSecurityConfigCreate, 1, 1),
    (resourceSecurityConfigUpdate, 1, 1), (resourceSecurityConfigDelete, 1, 1),
    (resourceAgentNodeRestartCreate, 1, 1), (resourceAgentNodeRestartRead, 0, 0),
    (resourceAgentNodeRestartDelete, 0, 0), (resourceAgentReconnectCreate, 1, 1),
    (resourceAgentReconnectRead, 0, 0), (resourceAgentReconnectDelete, 0, 0),
    (resourceAgentRestartCreate, 1, 1), (resourceAgentRestartRead, 0, 0),
    (resourceAgentRestartDelete, 0, 0), (resourceAgentRestartGroupCreate, 1, 1),
    (resourceAgentRestartGroupRead, 0, 0), (resourceAgentRestartGroupDelete, 0, 0),
    (resourceAgentUpgradeCreate, 1, 1), (resourceAgentUpgradeRead, 0, 0),
    (resourceAgentUpgradeDelete, 0, 0), (resourceAgentUpgradeCustomCreate, 1, 1),
    (resourceAgentUpgradeCustomRead, 0, 0), (resourceAgentUpgradeCustomDelete, 0, 0),
    (resourceEventCreate, 1, 1), (resourceEventRead, 0, 0), (resourceEventNoop, 0, 0),
    (upsertManagerConfiguration, 1, 1), (resourceManagerConfigurationCreate, 1, 1),
    (resourceManagerConfigurationUpdate, 1, 1), (resourceManagerConfigurationRead, 1, 1),
    (resourceManagerConfigurationDelete, 0, 0), (resourceManagerRestartCreate, 1, 1),
    (resourceManagerRestartRead, 0, 0), (resourceManagerRestartDelete, 0, 0),
    (resourceNodeAnalysisdReloadCreate, 1, 1), (resourceNodeAnalysisdReloadRead, 0, 0),
    (resourceNodeAnalysisdReloadNoop, 0, 0), (resourceNodeConfigurationPut, 1, 1),
    (resourceNodeConfigurationCreate, 1, 1), (resourceNodeConfigurationUpdate, 1, 1),
    (resourceNodeConfigurationRead, 1, 1), (resourceNodeConfigurationDelete, 0, 0),
    (resourceNodeRestartCreate, 1, 1), (resourceNodeRestartRead, 0, 0),
    (resourceNodeRestartNoop, 0, 0), (resourceAgentGroupCreate, 1, 1),
    (resourceAgentGroupRead, 0, 0), (resourceAgentGroupDelete, 0, 1),
    (resourcePolicyRoleCreate, 1, 1), (resourcePolicyRoleRead, 0, 0),
    (resourcePolicyRoleDelete, 0, 1), (resourceSecurityRuleRoleCreate, 1, 1),
    (resourceSecurityRuleRoleRead, 0, 0), (resourceSecurityRuleRoleDelete, 0, 1) ]

/-- What `authenticate`, `doRequest` and the lookup helpers return after a
failed exchange: a non-nil error. -/
def errorReturned {α : Type} (_ : Outcome) (r : α × Option GoError) : Prop :=
  r.2 ≠ none

/-- What `lookupPolicyIDByName` returns after a failed exchange: error
diagnostics. -/
def lookupFailed (_ : Outcome) (r : String × Diagnostics) : Prop :=
  r.2.HasError = true

/-- A call of the function that returns without error has sent at least `lo`
and at most `hi` requests. -/
def Prog.Sends (lo hi : Nat) (p : Prog (Diagnostics × ResourceData)) : Prop :=
  p.Leaves (fun n r => r.1.HasError = false → lo ≤ n ∧ n ≤ hi)

/-- What the helpers of `resource_role_user.go` return after a failed
exchange: an error diagnostic. -/
def errorDiagnostic (_ : Outcome) (r : Diagnostics × ResourceData) : Prop :=
  r.1.HasError = true

/-! ## Sample library, client and server -/

/-- Body of a successful authentication response. -/
def sampleAuthBody : String := "\x7b\"data\":\x7b\"token\":\"jwt\"\x7d,\"error\":0\x7d"

/-- Body of a group listing that found one group. -/
def sampleGroupBody : String :=
  "\x7b\"data\":\x7b\"affected_items\":[],\"total_affected_items\":1\x7d,\"error\":0\x7d"

/-- Library whose decoders know the sample bodies and reject everything else. -/
def sampleLib : Lib :=
  { newRequestErr := fun _ _ => none
    marshal := fun _ => .ok "payload"
    base64 := fun s => s
    unmarshalAuth := fun body =>
      if body = sampleAuthBody then (⟨⟨"jwt"⟩, 0⟩, none)
      else (⟨⟨""⟩, 0⟩, some "invalid character")
    unmarshalGroupRead := fun body =>
      if body = sampleGroupBody then (⟨⟨[], 1⟩, 0⟩, none)
      else (⟨⟨[], 0⟩, 0⟩, some "invalid character")
    unmarshalGroupDelete := fun _ => (⟨⟨0⟩⟩, none)
    unmarshalGroupConfiguration := fun _ => (⟨"", 0⟩, none)
    unmarshalActiveResponse := fun _ => (⟨"", 0, ⟨0⟩⟩, none)
    unmarshalRoleList := fun _ => (⟨⟨[⟨"7", "auditors"⟩], 1⟩, 0⟩, none)
    unmarshalRoleUser := fun _ => (⟨⟨1, 0⟩, "ok", 0⟩, none)
    unmarshalAgentCreate := fun _ => (⟨⟨"010", "key"⟩, 0⟩, none)
    unmarshalAgentRead := fun _ =>
      (⟨⟨[⟨"010", "web01", "10.0.0.5", "any", "active", "manager", "4.7.0", "node01"⟩], 1⟩, 0⟩,
        none)
    unmarshalUserList := fun _ => (⟨⟨[⟨"5", "alice"⟩], 1⟩, 0⟩, none)
    unmarshalRaw := fun bytes => (bytes, none)
    unmarshalAny := fun _ => (.obj [], none)
    unmarshalPolicyList := fun _ => (⟨⟨[⟨3, "readers", "\x7b\x7d"⟩], 1⟩, "", 0⟩, none)
    unmarshalSecurityRuleRead := fun _ => (⟨⟨[⟨5, "rule", .obj []⟩], 1⟩, 0⟩, none)
    unmarshalSecurityRuleLookup := fun _ => (⟨⟨[⟨5, "rule"⟩], 1⟩, 0⟩, none)
    unmarshalSummary := fun _ => (⟨⟨1, 0⟩, "ok", 0⟩, none)
    unmarshalSecurityConfigPut := fun _ => (⟨"ok", 0⟩, none)
    unmarshalSecurityConfigRead := fun _ => (⟨⟨900, "white"⟩, 0⟩, none)
    unmarshalAgentRestartGroup := fun _ => (⟨⟨1, 0, "ok", 0⟩⟩, none)
    unmarshalAgentGroup := fun _ => (⟨⟨1, 0, "", 0⟩, "ok", 0⟩, none)
    unmarshalManagerConfiguration := fun _ => (⟨"ok", 0⟩, none)
    unmarshalAgentUpgrade := fun _ => (⟨⟨[⟨"001", 12⟩], 1, 0⟩, "ok", 0⟩, none)
    unmarshalLogtest := fun _ => (⟨0, ⟨["done"], "tok", none, false, 0⟩⟩, none)
    rangeKeys := fun keys => keys
    pathEscape := fun s => s
    queryEscape := fun s => s
    now := fun _ => 1700000000
    timeUnix := fun t => t
    timeFormat := fun layout _ =>
      if layout = time.RFC3339 then "2023-11-14T22:13:20Z" else "20231114T221320Z"
    quote := fun s => "\"" ++ s ++ "\"" }

/-- Client as `configureProvider` leaves it after a successful login. -/
def sampleClient : APIClient :=
  { Endpoint := "https://wazuh.example.com:55000", User := "wazuh", Password := "secret",
    AuthToken := "jwt" }

/-- Server that answers every request with the same response. -/
def answer (resp : Response) : Transport := fun _ _ => .ok resp

/-- State of a `wazuh_group` resource named `web`. -/
def sampleGroup : ResourceData :=
  { id := "web", attrs := [("group_id", .str "web")], prior := [("group_id", .str "web")] }

/-- Configuration of a `wazuh_role` resource named `auditors`. -/
def sampleRole : ResourceData :=
  { id := "", attrs := [("name", .str "auditors")], prior := [] }

/-- Configuration of a `wazuh_active_response` resource. -/
def sampleActiveResponse : ResourceData :=
  { id := ""
    attrs := [("command", .str "!restart.sh"),
      ("arguments", .list [some "-v", some "", some "now"]),
      ("agents_list", .list [some "001", some "", some "002"])]
    prior := [] }

/-- Configuration of a `wazuh_agent_restart` resource with two agents and a
blank entry. -/
def sampleAgentRestart : ResourceData :=
  { id := ""
    attrs := [("agents_list", .list [some " 001 ", some "  ", some "002"])]
    prior := [] }

/-- Query of the bulk request of `resourceAgentGroupCreate` in the words of the
specification: `group_id` always, `agents_list` when there are IDs,
`force_single_group=true` when the flag is set. -/
def specAgentGroupBulkQuery (groupID : String) (ids : List String) (forceSingle : Bool) :
    url.Values :=
  ⟨(if forceSingle then [("force_single_group", "true")] else []) ++
    (if ids ≠ [] then [("agents_list", ",".intercalate ids)] else []) ++
    [("group_id", groupID)]⟩

/-- URL of the request of `resourceAgentGroupCreate`, with the query of the bulk
request given. -/
def agentGroupCreateURL (lib : Lib) (c : APIClient) (d : ResourceData) (q : url.Values) :
    String :=
  if strings.TrimSpace (d.GetString "agent_id") ≠ "" then
    if d.GetBool "force_single_group" then
      c.Endpoint ++ "/agents/" ++ strings.TrimSpace (d.GetString "agent_id") ++ "/group/"
        ++ strings.TrimSpace (d.GetString "group_id") ++ "?force_single_group=true"
    else
      c.Endpoint ++ "/agents/" ++ strings.TrimSpace (d.GetString "agent_id") ++ "/group/"
        ++ strings.TrimSpace (d.GetString "group_id")
  else
    c.Endpoint ++ "/agents/group" ++ "?" ++ q.Encode lib

/-- First request a handler body sends, if it sends one at all. -/
def Prog.first {α : Type} : Prog α → Option Request
  | .ret _ => none
  | .call req _ => some req

/-- Configuration of a `wazuh_agent_group` resource that names one agent and
also fills `agents_list`. -/
def sampleAgentGroup : ResourceData :=
  { id := ""
    attrs := [("agent_id", .str " 001"), ("group_id", .str " web "),
      ("force_single_group", .bool true),
      ("agents_list", .list [some "007", some " ", some " 008"])]
    prior := [] }

/-- State of a `wazuh_agent_group` resource in bulk mode whose `agents_list`
holds blank entries only. -/
def sampleAgentGroupBulk : ResourceData :=
  { id := "web-20231114T221320Z"
    attrs := [("agent_id", .str ""), ("group_id", .str "web"),
      ("agents_list", .list [some " ", some ""])]
    prior := [] }

/-- State that `resourceAgentCreate` hands to the read-back once the ID is
known: the resource ID and `agent_id` are set to `finalID`, and `key` to the key
of the response when there is one. -/
def agentCreateState (d : ResourceData) (finalID key : String) : ResourceData :=
  if key ≠ "" then
    ((d.SetId finalID).Set "agent_id" (.str finalID)).Set "key" (.str key)
  else
    (d.SetId finalID).Set "agent_id" (.str finalID)

/-- Configuration of a `wazuh_agent` resource with an explicit agent ID. -/
def sampleAgent : ResourceData :=
  { id := "", attrs := [("name", .str "web01"), ("agent_id", .str " 010 ")], prior := [] }

/-- Go `strings.TrimSpace` on the characters of a string. -/
def trimChars (l : List Char) : List Char :=
  (l.dropWhile unicode.IsSpace).rdropWhile unicode.IsSpace

/-- The pieces of a text between commas, each trimmed, blank pieces dropped. -/
def trimmedPieces (l : List Char) : List (List Char) :=
  ((l.splitOn ',').map trimChars).filter (fun p => p ≠ [])

/-- Role IDs that `resourceRoleUserImport` reads from the text after the colon,
in the words of the specification: the comma-separated pieces, each trimmed,
blank pieces dropped. -/
def specImportRoleIDs (rest : String) : List String :=
  ((strings.Split rest ',').map strings.TrimSpace).filter (fun s => s ≠ "")

/-- Configuration of a `wazuh_role_user` resource with two roles. -/
def sampleRoleUser : ResourceData :=
  { id := ""
    attrs := [("user_id", .str "5"), ("role_ids", .list [some "1", some "2"])]
    prior := [] }

/-- UTF-8 encoding of a code point, as a list of bytes. -/
def utf8Bytes (n : Nat) : List Nat :=
  if n < 0x80 then [n]
  else if n < 0x800 then [0xC0 + n / 64, 0x80 + n % 64]
  else if n < 0x10000 then [0xE0 + n / 4096, 0x80 + n / 64 % 64, 0x80 + n % 64]
  else [0xF0 + n / 262144, 0x80 + n / 4096 % 64, 0x80 + n / 64 % 64, 0x80 + n % 64]

/-- The escape `%XX` of one byte, in upper-case hexadecimal. -/
def percentByte (b : Nat) : List Char :=
  ['%', "0123456789ABCDEF".data.getD (b / 16) '0', "0123456789ABCDEF".data.getD (b % 16) '0']

/-- Characters that neither `url.QueryEscape` nor `url.PathEscape` escapes:
ASCII letters and digits, `-`, `_`, `.` and `~`. -/
def unreservedChar (c : Char) : Bool :=
  c.isAlphanum || c == '-' || c == '_' || c == '.' || c == '~'

/-- Sample `url.QueryEscape`: a space becomes `+`, every other character that
is not unreserved becomes the `%XX` escapes of its UTF-8 bytes. -/
def sampleQueryEscape (s : String) : String :=
  ⟨s.data.flatMap fun c =>
    if unreservedChar c then [c]
    else if c == ' ' then ['+']
    else (utf8Bytes c.toNat).flatMap percentByte⟩

/-- Sample `url.PathEscape`: as `sampleQueryEscape`, but a space is escaped as
`%20` and the characters `$&+=:@` are left as they are. -/
def samplePathEscape (s : String) : String :=
  ⟨s.data.flatMap fun c =>
    if unreservedChar c || c ∈ ['$', '&', '+', '=', ':', '@'] then [c]
    else (utf8Bytes c.toNat).flatMap percentByte⟩

/-- Sample error of `http.NewRequest`: as in `net/http`, a method that holds a
character outside the HTTP token characters is refused, and so is a URL that
holds an ASCII control character. -/
def sampleNewRequestErr (method url : String) : Option GoError :=
  if method.data.any (fun c => !(c.isAlphanum || "!#$%&'*+-.^_`|~".data.contains c)) then
    some ("net/http: invalid method " ++ method)
  else if url.data.any (fun c => c.toNat < 0x20 || c.toNat == 0x7F) then
    some ("parse " ++ url ++ ": net/url: invalid control character in URL")
  else none

/-- Body of a successful answer to `POST /agents/insert`. -/
def sampleAgentInsertBody : String :=
  "\x7b\"data\":\x7b\"id\":\"010\",\"key\":\"MDEwIHdlYjAxIGFueSBrZXk=\"\x7d,\"error\":0\x7d"

/-- Body of an agent listing that found the agent `010`. -/
def sampleAgentListBody : String :=
  "\x7b\"data\":\x7b\"affected_items\":[\x7b\"id\":\"010\",\"name\":\"web01\"\x7d],"
    ++ "\"total_affected_items\":1\x7d,\"error\":0\x7d"

/-- Library in the manner of Go's: `http.NewRequest` refuses bad methods and
URLs, the escapes are those of `net/url`, and the decoders of
`resourceAgentCreate` and `resourceAgentRead` know the sample bodies and reject
everything else, leaving the struct at its zero value. -/
def strictLib : Lib :=
  { sampleLib with
    newRequestErr := sampleNewRequestErr
    pathEscape := samplePathEscape
    queryEscape := sampleQueryEscape
    unmarshalAgentCreate := fun body =>
      if body = sampleAgentInsertBody then (⟨⟨"010", "MDEwIHdlYjAxIGFueSBrZXk="⟩, 0⟩, none)
      else (⟨⟨"", ""⟩, 0⟩, some "invalid character")
    unmarshalAgentRead := fun body =>
      if body = sampleAgentListBody then
        (⟨⟨[⟨"010", "web01", "", "", "", "", "", ""⟩], 1⟩, 0⟩, none)
      else (⟨⟨[], 0⟩, 0⟩, some "invalid character") }

/-- Server that answers the first request of a run with one response and every
later request with another. -/
def answerFirstThen (first later : Response) : Transport := fun log _ =>
  match log with
  | [] => .ok first
  | _ :: _ => .ok later

/-- Read and Delete functions that send a request and treat a 404 like every
other status outside 200..299: they return an error. -/
def surfaceOn404 : List Handler :=
  [ resourceGroupDelete, resourceRoleDelete, resourceRoleUserDelete, resourceAgentDelete, resourceUserDelete, resourcePolicyDelete, resourceSecurityRuleDelete, resourceSecurityConfigRead, resourceSecurityConfigDelete, resourceAgentGroupDelete, resourcePolicyRoleDelete, resourceSecurityRuleRoleDelete ]

/-- Read and Delete functions that send a request and take a 404 to mean that
the resource is gone: fourteen Read functions and six Delete functions. -/
def goneOn404 : List Handler :=
  [ resourceGroupRead, resourceGroupConfigurationRead, resourceRuleRead, resourceDecoderRead, resourceCDBListRead, resourceRootcheckRead, resourceSyscheckRead, resourceRoleRead, resourceAgentRead, resourceUserRead, resourcePolicyRead, resourceSecurityRuleRead, resourceManagerConfigurationRead, resourceNodeConfigurationRead, resourceRuleDelete, resourceDecoderDelete, resourceCDBListDelete, resourceLogtestDelete, resourceRootcheckDelete, resourceSyscheckDelete ]

/-- A 404 response whose body could be read. -/
def Outcome.notFound (o : Outcome) : Prop :=
  ∃ resp, o = .ok resp ∧ resp.StatusCode = 404 ∧ resp.ReadErr = none

/-- What a function of `goneOn404` returns after a 404: no error, and the
resource ID cleared. -/
def goneReturned (_ : Outcome) (r : Diagnostics × ResourceData) : Prop :=
  r.1.HasError = false ∧ r.2.Id = ""

/-- Configuration of a `wazuh_rule` resource for the file `local_rules.xml`. -/
def sampleRuleFile : ResourceData :=
  { id := "local_rules.xml"
    attrs := [("filename", .str "local_rules.xml"), ("content", .str "<group></group>")]
    prior := [] }

/-- What the Delete functions that count 404 as success return once the
request has been answered with `o`: for a response whose status is neither 404
nor in 200..299 an error with the resource data as it was, for every other
response no diagnostics and the ID cleared. -/
def deleteReturned (d : ResourceData) (o : Outcome) (r : Diagnostics × ResourceData) : Prop :=
  ∀ resp, o = .ok resp →
    (resp.StatusCode ≠ 404 ∧ (resp.StatusCode < 200 ∨ resp.StatusCode ≥ 300) →
      r.1.HasError = true ∧ r.2 = d) ∧
    (¬ (resp.StatusCode ≠ 404 ∧ (resp.StatusCode < 200 ∨ resp.StatusCode ≥ 300)) →
      r = ([], d.SetId ""))

/-- Configuration of a `wazuh_agent_group` resource whose `group_id` is blank. -/
def sampleAgentGroupBlank : ResourceData :=
  { id := ""
    attrs := [("agent_id", .str "001"), ("group_id", .str "  ")]
    prior := [] }

/-- State of a `wazuh_agent_group` resource in bulk mode with two agents and a
blank entry. -/
def sampleAgentGroupBulkAgents : ResourceData :=
  { id := "web-20231114T221320Z"
    attrs := [("agent_id", .str ""), ("group_id", .str "web"),
      ("agents_list", .list [some " 007", some " ", some "008 "])]
    prior := [] }

/-- First part of `resourceAgentCreate`: the fields of the JSON document that
it posts. -/
def resourceAgentCreatePayload (d : ResourceData) : List (String × Json) :=
  let name := strings.TrimSpace (d.GetString "name")
  let agentID := strings.TrimSpace (d.GetString "agent_id")
  let ip := strings.TrimSpace (d.GetString "ip")
  let key := strings.TrimSpace (d.GetString "key")
  let payload : List (String × Json) := [("name", .str name)]
  let payload := if agentID ≠ "" then payload ++ [("id", .str agentID)] else payload
  let payload := if ip ≠ "" then payload ++ [("ip", .str ip)] else payload
  let payload := if key ≠ "" then payload ++ [("key", .str key)] else payload
  let forceEnabled := d.GetBool "force_enabled"
  if forceEnabled then
    let force := Json.obj [("enabled", .bool true),
      ("disconnected_time", .obj [
        ("enabled", .bool (d.GetBool "force_disconnected_time_enabled")),
        ("value", .str (d.GetString "force_disconnected_time_value"))]),
      ("after_registration_time", .str (d.GetString "force_after_registration_time"))]
    payload ++ [("force", force)]
  else payload

/-- What `resourceAgentRead`, called on `d`, returns once its request has been
answered by a response that could be read: for a 404, and for a 2xx listing
that decodes but reports an error or no agent, no diagnostics and the ID
cleared; for another status outside 200..299 an error and `d` as it was; for a
2xx listing with an agent no diagnostics, the ID as it was and `agent_id` set to
the ID of the first agent listed. -/
def agentReadBack (lib : Lib) (d : ResourceData) (o : Outcome)
    (r : Diagnostics × ResourceData) : Prop :=
  ∀ resp, o = .ok resp → resp.ReadErr = none →
    (resp.StatusCode = 404 → r = ([], d.SetId "")) ∧
    (resp.StatusCode ≠ 404 → ¬ (200 ≤ resp.StatusCode ∧ resp.StatusCode ≤ 299) →
      r.1.HasError = true ∧ r.2 = d) ∧
    ((200 ≤ resp.StatusCode ∧ resp.StatusCode ≤ 299) →
      (lib.unmarshalAgentRead resp.Body).2 = none →
      (((lib.unmarshalAgentRead resp.Body).1.Error ≠ 0 ∨
          (lib.unmarshalAgentRead resp.Body).1.Data.TotalAffected = 0 ∨
          (lib.unmarshalAgentRead resp.Body).1.Data.AffectedItems = []) →
        r = ([], d.SetId "")) ∧
      (∀ item more, (lib.unmarshalAgentRead resp.Body).1.Error = 0 →
        (lib.unmarshalAgentRead resp.Body).1.Data.TotalAffected ≠ 0 →
        (lib.unmarshalAgentRead resp.Body).1.Data.AffectedItems = item :: more →
        r.1 = [] ∧ r.2.Id = d.Id ∧ r.2.GetString "agent_id" = item.ID))

/-! ## Theorems -/

set_option linter.unusedTactic false
set_option linter.unreachableTactic false

theorem Prog.run_ret {α : Type} (t : Transport) (a : α) (log : List Exchange) :
    (Prog.ret a).run t log = (a, log) := rfl

theorem Prog.run_call {α : Type} (t : Transport) (req : Request) (k : Outcome → Prog α)
    (log : List Exchange) :
    (Prog.call req k).run t log = (k (t log req)).run t (log ++ [(req, t log req)]) := rfl

/-- C1: once the authentication response has been read, `authenticate` returns
the token without error exactly when the status is 2xx, the body decodes, its
`error` field is 0 and `data.token` is non-empty; the string returned is then
`data.token`, and otherwise it is empty and comes with an error. -/
theorem authenticate_token_iff (lib : Lib) (c : APIClient) (t : Transport) (resp : Response)
    (hbuild : lib.newRequestErr "POST" (c.Endpoint ++ "/security/user/authenticate") = none)
    (hdo : ∀ req, t [] req = .ok resp) (hread : resp.ReadErr = none) :
    let r := (authenticate lib c).result t
    let dec := lib.unmarshalAuth resp.Body
    let good := 200 ≤ resp.StatusCode ∧ resp.StatusCode ≤ 299 ∧ dec.2 = none ∧
      dec.1.Error = 0 ∧ dec.1.Data.Token ≠ ""
    (r.2 = none ↔ good) ∧ (good → r = (dec.1.Data.Token, none)) ∧
      (¬ good → r.1 = "" ∧ r.2 ≠ none) := by
  intro r dec good
  have hr : r = (authenticate lib c).result t := rfl
  have hd : dec = lib.unmarshalAuth resp.Body := rfl
  simp only [authenticate, http.NewRequest, hbuild, Prog.result, Prog.run, hdo, ioReadAll,
    hread] at hr
  by_cases h1 : resp.StatusCode < 200 ∨ resp.StatusCode ≥ 300
  · have hg : ¬ good := by
      rintro ⟨a, b, -⟩
      omega
    simp only [h1, if_true, Prog.run] at hr
    simp [hr, hg]
  · simp only [h1, if_false] at hr
    rcases hdec : lib.unmarshalAuth resp.Body with ⟨res, e⟩
    rw [hdec] at hr hd
    cases e with
    | some err =>
      have hg : ¬ good := by
        rintro ⟨-, -, c3, -⟩
        simp [hd] at c3
      simp only [Prog.run] at hr
      simp [hr, hg]
    | none =>
      simp only at hr
      by_cases h2 : res.Error ≠ 0 ∨ res.Data.Token = ""
      · have hg : ¬ good := by
          rintro ⟨-, -, -, c4, c5⟩
          simp only [hd] at c4 c5
          tauto
        simp only [h2, if_true, Prog.run] at hr
        simp [hr, hg]
      · have hg : good := by
          refine ⟨by omega, by omega, by simp [hd], ?_, ?_⟩ <;> simp only [hd] <;> tauto
        simp only [h2, if_false, Prog.run] at hr
        rw [hr]
        exact ⟨⟨fun _ => hg, fun _ => rfl⟩, fun _ => by simp [hd], fun h => absurd hg h⟩

theorem doRequestSend_run (lib : Lib) (c : APIClient) (method path : String)
    (reqBody : Option String) (t : Transport) (resp : Response)
    (hbuild : lib.newRequestErr method (c.Endpoint ++ "/" ++ path) = none)
    (hdo : ∀ req, t [] req = .ok resp) (hread : resp.ReadErr = none) :
    (doRequestSend lib c method path reqBody).run t [] =
      (if resp.StatusCode < 200 ∨ resp.StatusCode ≥ 300 then
          (none, some ("status " ++ toString resp.StatusCode ++ ": " ++ resp.Body))
        else (some resp.Body, none),
       [((({ Method := method, URL := c.Endpoint ++ "/" ++ path, Header := [], Body := reqBody }
          : Request).HeaderSet "Content-Type" "application/json").HeaderSet "Authorization"
          ("Bearer " ++ c.AuthToken), .ok resp)]) := by
  simp only [doRequestSend, http.NewRequest, hbuild, Prog.run, hdo, ioReadAll, hread]
  split <;> simp [Prog.run]

/-- C2: `doRequest` sends its request to `Endpoint + "/" + path`; once the
response is read it returns the body unchanged and no error exactly when the
status is 2xx, and for every other status nil bytes and an error whose message
contains the status code and the response body. -/
theorem doRequest_result (lib : Lib) (c : APIClient) (method path : String) (body : Option Json)
    (t : Transport) (resp : Response)
    (hmarshal : ∀ b, body = some b → ∃ data, lib.marshal b = .ok data)
    (hbuild : lib.newRequestErr method (c.Endpoint ++ "/" ++ path) = none)
    (hdo : ∀ req, t [] req = .ok resp) (hread : resp.ReadErr = none) :
    (∃ req, (doRequest lib c method path body).requests t = [req] ∧ req.Method = method ∧
      req.URL = c.Endpoint ++ "/" ++ path) ∧
    ((doRequest lib c method path body).result t = (some resp.Body, none) ↔
      (200 ≤ resp.StatusCode ∧ resp.StatusCode ≤ 299)) ∧
    (((doRequest lib c method path body).result t).2 = none ↔
      (200 ≤ resp.StatusCode ∧ resp.StatusCode ≤ 299)) ∧
    (¬ (200 ≤ resp.StatusCode ∧ resp.StatusCode ≤ 299) →
      ((doRequest lib c method path body).result t).1 = none ∧
      ∃ pre mid, ((doRequest lib c method path body).result t).2 =
        some (pre ++ toString resp.StatusCode ++ mid ++ resp.Body)) := by
  have key : ∃ reqBody, (doRequest lib c method path body).run t [] =
      (doRequestSend lib c method path reqBody).run t [] := by
    cases body with
    | none => exact ⟨none, rfl⟩
    | some b =>
      obtain ⟨data, hdata⟩ := hmarshal b rfl
      exact ⟨some data, by simp only [doRequest, hdata]⟩
  obtain ⟨reqBody, hrun⟩ := key
  rw [doRequestSend_run lib c method path reqBody t resp hbuild hdo hread] at hrun
  have hreq : (doRequest lib c method path body).requests t = _ :=
    congrArg (fun r => r.2.map Prod.fst) hrun
  have hres : (doRequest lib c method path body).result t = _ := congrArg Prod.fst hrun
  refine ⟨⟨_, hreq, rfl, rfl⟩, ?_⟩
  rw [hres]
  by_cases h : resp.StatusCode < 200 ∨ resp.StatusCode ≥ 300
  · have hg : ¬ (200 ≤ resp.StatusCode ∧ resp.StatusCode ≤ 299) := fun hg => by omega
    rw [if_pos h]
    refine ⟨⟨fun he => ?_, fun hq => absurd hq hg⟩, ⟨fun he => ?_, fun hq => absurd hq hg⟩,
      fun _ => ⟨rfl, "status ", ": ", ?_⟩⟩
    · simp at he
    · simp at he
    · simp [String.append_assoc]
  · have hg : 200 ≤ resp.StatusCode ∧ resp.StatusCode ≤ 299 := ⟨by omega, by omega⟩
    rw [if_neg h]
    exact ⟨⟨fun _ => hg, fun _ => rfl⟩, ⟨fun _ => hg, fun _ => rfl⟩, fun hng => absurd hg hng⟩

theorem Request.HeaderGet_HeaderSet (req : Request) (key value : String) :
    (req.HeaderSet key value).HeaderGet key = some value := by
  simp [Request.HeaderGet, Request.HeaderSet]

theorem Prog.AllRequests.run {α : Type} {P : Request → Prop} (t : Transport) :
    ∀ (p : Prog α) (log : List Exchange), p.AllRequests P → (∀ e ∈ log, P e.1) →
      ∀ e ∈ (p.run t log).2, P e.1 := by
  intro p
  induction p with
  | ret a => intro log _ hlog; exact hlog
  | call req k ih =>
    intro log hp hlog
    refine ih (t log req) (log ++ [(req, t log req)]) (hp.2 _) ?_
    intro e he
    rcases List.mem_append.mp he with h | h
    · exact hlog e h
    · rw [List.mem_singleton.mp h]
      exact hp.1

theorem Prog.AllRequests.requests {α : Type} {P : Request → Prop} {p : Prog α}
    (hp : p.AllRequests P) (t : Transport) : ∀ r ∈ p.requests t, P r := by
  intro r hr
  obtain ⟨e, he, rfl⟩ := List.mem_map.mp hr
  exact Prog.AllRequests.run t p [] hp (fun _ h => absurd h (List.not_mem_nil _)) e he

theorem Prog.AllRequests.bind {α β : Type} {P : Request → Prop} (f : α → Prog β) :
    ∀ (p : Prog α), p.AllRequests P → (∀ a, (f a).AllRequests P) → (p.bind f).AllRequests P := by
  intro p
  induction p with
  | ret a => intro _ hf; exact hf a
  | call req k ih => intro hp hf; exact ⟨hp.1, fun o => ih o (hp.2 o) hf⟩

theorem Prog.Leaves_mono {α : Type} :
    ∀ (p : Prog α) (Q R : Nat → α → Prop), (∀ n a, Q n a → R n a) → p.Leaves Q → p.Leaves R := by
  intro p
  induction p with
  | ret a => intro Q R h hp; exact h 0 a hp
  | call req k ih =>
    intro Q R h hp o
    exact ih o _ _ (fun n a => h (n + 1) a) (hp o)

theorem Prog.Leaves_bind {α β : Type} (f : α → Prog β) :
    ∀ (p : Prog α) (Q : Nat → β → Prop),
      p.Leaves (fun n a => (f a).Leaves (fun m => Q (n + m))) → (p.bind f).Leaves Q := by
  intro p
  induction p with
  | ret a =>
    intro Q hp
    exact Prog.Leaves_mono (f a) _ _ (fun m b hq => by simpa using hq) hp
  | call req k ih =>
    intro Q hp o
    refine ih o _ (Prog.Leaves_mono (k o) _ _ ?_ (hp o))
    intro n a hq
    exact Prog.Leaves_mono (f a) _ _ (fun m b h => by
      have e : n + 1 + m = n + m + 1 := by omega
      rw [← e]
      exact h) hq

theorem Prog.Leaves_run {α : Type} (t : Transport) :
    ∀ (p : Prog α) (Q : Nat → α → Prop) (log : List Exchange), p.Leaves Q →
      ∃ n, (p.run t log).2.length = log.length + n ∧ Q n (p.run t log).1 := by
  intro p
  induction p with
  | ret a => intro Q log hp; exact ⟨0, rfl, hp⟩
  | call req k ih =>
    intro Q log hp
    obtain ⟨n, hlen, hq⟩ := ih (t log req) _ (log ++ [(req, t log req)]) (hp (t log req))
    refine ⟨n + 1, ?_, hq⟩
    simp only [Prog.run, hlen, List.length_append, List.length_singleton]
    omega

theorem Prog.Leaves_requests {α : Type} {p : Prog α} {Q : Nat → α → Prop} (hp : p.Leaves Q)
    (t : Transport) : Q (p.requests t).length (p.result t) := by
  obtain ⟨n, hlen, hq⟩ := Prog.Leaves_run t p Q [] hp
  have : (p.requests t).length = n := by
    simp only [Prog.requests, Prog.trace, List.length_map, hlen, List.length_nil, Nat.zero_add]
  rw [this]
  exact hq

theorem Prog.StopsOn_mono {α : Type} {bad : Outcome → Prop} :
    ∀ (p : Prog α) (E F : Outcome → α → Prop), (∀ o a, E o a → F o a) →
      p.StopsOn bad E → p.StopsOn bad F := by
  intro p
  induction p with
  | ret a => intro _ _ _ _; trivial
  | call req k ih =>
    intro E F h hp o
    refine ⟨fun hb => ?_, ih o E F h (hp o).2⟩
    obtain ⟨a, ha, he⟩ := (hp o).1 hb
    exact ⟨a, ha, h o a he⟩

theorem Prog.StopsOn_bind {α β : Type} {bad : Outcome → Prop} {E : Outcome → α → Prop}
    {F : Outcome → β → Prop} (f : α → Prog β)
    (hf : ∀ o a, E o a → ∃ b, f a = .ret b ∧ F o b) (hs : ∀ a, (f a).StopsOn bad F) :
    ∀ (p : Prog α), p.StopsOn bad E → (p.bind f).StopsOn bad F := by
  intro p
  induction p with
  | ret a => intro _; exact hs a
  | call req k ih =>
    intro hp o
    refine ⟨fun hb => ?_, ih o (hp o).2⟩
    obtain ⟨a, ha, he⟩ := (hp o).1 hb
    obtain ⟨b, hb2, hF⟩ := hf o a he
    exact ⟨b, by show (k o).bind f = .ret b; rw [ha]; exact hb2, hF⟩

theorem Prog.run_log {α : Type} (t : Transport) :
    ∀ (p : Prog α) (log : List Exchange), ∃ ex, (p.run t log).2 = log ++ ex := by
  intro p
  induction p with
  | ret a => intro log; exact ⟨[], by simp [Prog.run]⟩
  | call req k ih =>
    intro log
    obtain ⟨ex, h⟩ := ih (t log req) (log ++ [(req, t log req)])
    exact ⟨(req, t log req) :: ex, by simp [Prog.run, h]⟩

theorem Prog.StopsOn_run {α : Type} {bad : Outcome → Prop} {E : Outcome → α → Prop}
    (t : Transport) :
    ∀ (p : Prog α) (log : List Exchange), p.StopsOn bad E →
      ∀ pre x post, (p.run t log).2 = log ++ pre ++ x :: post → bad x.2 →
        post = [] ∧ E x.2 (p.run t log).1 := by
  intro p
  induction p with
  | ret a =>
    intro log _ pre x post h _
    simp only [Prog.run] at h
    have := congrArg List.length h
    simp at this
  | call req k ih =>
    intro log hp pre x post h hb
    cases pre with
    | nil =>
      obtain ⟨ex, hex⟩ := Prog.run_log t (k (t log req)) (log ++ [(req, t log req)])
      simp only [Prog.run, List.append_nil] at h
      rw [hex, List.append_assoc, List.append_cancel_left_eq] at h
      simp only [List.singleton_append, List.cons.injEq] at h
      obtain ⟨hx, hpost⟩ := h
      rw [← hx] at hb ⊢
      obtain ⟨a, ha, he⟩ := (hp (t log req)).1 hb
      simp only [Prog.run]
      rw [ha] at hex ⊢
      simp only [Prog.run] at hex ⊢
      have hnil : ex = [] := by
        have := congrArg List.length hex
        simpa using this
      exact ⟨by rw [← hpost, hnil], he⟩
    | cons y pre2 =>
      obtain ⟨ex, hex⟩ := Prog.run_log t (k (t log req)) (log ++ [(req, t log req)])
      simp only [Prog.run] at h ⊢
      have hy : y = (req, t log req) := by
        rw [hex, List.append_assoc, List.append_assoc, List.append_cancel_left_eq] at h
        simp only [List.singleton_append, List.cons_append, List.cons.injEq] at h
        exact h.1.symm
      refine ih (t log req) (log ++ [(req, t log req)]) (hp (t log req)).2 pre2 x post ?_ hb
      rw [h, hy]
      simp

theorem Prog.StopsOn_trace {α : Type} {bad : Outcome → Prop} {E : Outcome → α → Prop}
    {p : Prog α} (hp : p.StopsOn bad E) (t : Transport) :
    ∀ pre x post, p.trace t = pre ++ x :: post → bad x.2 → post = [] ∧ E x.2 (p.result t) := by
  intro pre x post h hb
  exact Prog.StopsOn_run t p [] hp pre x post (by simpa [Prog.trace] using h) hb

theorem Prog.stops_leaf {α : Type} {bad : Outcome → Prop} {E : Outcome → α → Prop}
    (o : Outcome) (x : α) (h : bad o → E o x) :
    (bad o → ∃ a, Prog.ret x = Prog.ret a ∧ E o a) ∧ (Prog.ret x).StopsOn bad E :=
  ⟨fun hb => ⟨x, rfl, h hb⟩, trivial⟩

theorem resourceGroupCreate_stops (lib : Lib) (c : APIClient) (d : ResourceData) :
    (resourceGroupCreate lib c d).StopsOn Outcome.failed errorUnless404 := by
  unfold resourceGroupCreate http.NewRequest
  dsimp only
  repeat' first
    | split
    | exact trivial
    | (intro _; beta_reduce)
    | (refine Prog.stops_leaf _ _ (fun hb => ?_))
    | exact Or.inl rfl
    | exact Or.inr ⟨_, rfl, by assumption⟩
    | exact absurd hb (by assumption)
    | (simp only [Outcome.failed] at hb; exact Or.inr ⟨_, rfl, by omega⟩)

theorem resourceGroupRead_stops (lib : Lib) (c : APIClient) (d : ResourceData) :
    (resourceGroupRead lib c d).StopsOn Outcome.failed errorUnless404 := by
  unfold resourceGroupRead http.NewRequest
  dsimp only
  repeat' first
    | split
    | exact trivial
    | (intro _; beta_reduce)
    | (refine Prog.stops_leaf _ _ (fun hb => ?_))
    | exact Or.inl rfl
    | exact Or.inr ⟨_, rfl, by assumption⟩
    | exact absurd hb (by assumption)
    | (simp only [Outcome.failed] at hb; exact Or.inr ⟨_, rfl, by omega⟩)

theorem resourceGroupDelete_stops (lib : Lib) (c : APIClient) (d : ResourceData) :
    (resourceGroupDelete lib c d).StopsOn Outcome.failed errorUnless404 := by
  unfold resourceGroupDelete http.NewRequest
  dsimp only
  repeat' first
    | split
    | exact trivial
    | (intro _; beta_reduce)
    | (refine Prog.stops_leaf _ _ (fun hb => ?_))
    | exact Or.inl rfl
    | exact Or.inr ⟨_, rfl, by assumption⟩
    | exact absurd hb (by assumption)
    | (simp only [Outcome.failed] at hb; exact Or.inr ⟨_, rfl, by omega⟩)

theorem resourceGroupConfigurationUpdate_stops (lib : Lib) (c : APIClient) (d : ResourceData) :
    (resourceGroupConfigurationUpdate lib c d).StopsOn Outcome.failed errorUnless404 := by
  unfold resourceGroupConfigurationUpdate http.NewRequest
  dsimp only
  repeat' first
    | split
    | exact trivial
    | (intro _; beta_reduce)
    | (refine Prog.stops_leaf _ _ (fun hb => ?_))
    | exact Or.inl rfl
    | exact Or.inr ⟨_, rfl, by assumption⟩
    | exact absurd hb (by assumption)
    | (simp only [Outcome.failed] at hb; exact Or.inr ⟨_, rfl, by omega⟩)

theorem resourceGroupConfigurationRead_stops (lib : Lib) (c : APIClient) (d : ResourceData) :
    (resourceGroupConfigurationRead lib c d).StopsOn Outcome.failed errorUnless404 := by
  unfold resourceGroupConfigurationRead http.NewRequest
  dsimp only
  repeat' first
    | split
    | exact trivial
    | (intro _; beta_reduce)
    | (refine Prog.stops_leaf _ _ (fun hb => ?_))
    | exact Or.inl rfl
    | exact Or.inr ⟨_, rfl, by assumption⟩
    | exact absurd hb (by assumption)
    | (simp only [Outcome.failed] at hb; exact Or.inr ⟨_, rfl, by omega⟩)

theorem resourceActiveResponseCreate_stops (lib : Lib) (c : APIClient) (d : ResourceData) :
    (resourceActiveResponseCreate lib c d).StopsOn Outcome.failed errorUnless404 := by
  unfold resourceActiveResponseCreate http.NewRequest
  dsimp only
  repeat' first
    | split
    | exact trivial
    | (intro _; beta_reduce)
    | (refine Prog.stops_leaf _ _ (fun hb => ?_))
    | exact Or.inl rfl
    | exact Or.inr ⟨_, rfl, by assumption⟩
    | exact absurd hb (by assumption)
    | (simp only [Outcome.failed] at hb; exact Or.inr ⟨_, rfl, by omega⟩)

theorem resourceRuleDelete_stops (lib : Lib) (c : APIClient) (d : ResourceData) :
    (resourceRuleDelete lib c d).StopsOn Outcome.failed errorUnless404 := by
  unfold resourceRuleDelete http.NewRequest
  dsimp only
  repeat' first
    | split
    | exact trivial
    | (intro _; beta_reduce)
    | (refine Prog.stops_leaf _ _ (fun hb => ?_))
    | exact Or.inl rfl
    | exact Or.inr ⟨_, rfl, by assumption⟩
    | exact absurd hb (by assumption)
    | (simp only [Outcome.failed] at hb; exact Or.inr ⟨_, rfl, by omega⟩)

theorem resourceDecoderDelete_stops (lib : Lib) (c : APIClient) (d : ResourceData) :
    (resourceDecoderDelete lib c d).StopsOn Outcome.failed errorUnless404 := by
  unfold resourceDecoderDelete http.NewRequest
  dsimp only
  repeat' first
    | split
    | exact trivial
    | (intro _; beta_reduce)
    | (refine Prog.stops_leaf _ _ (fun hb => ?_))
    | exact Or.inl rfl
    | exact Or.inr ⟨_, rfl, by assumption⟩
    | exact absurd hb (by assumption)
    | (simp only [Outcome.failed] at hb; exact Or.inr ⟨_, rfl, by omega⟩)

theorem resourceCDBListDelete_stops (lib : Lib) (c : APIClient) (d : ResourceData) :
    (resourceCDBListDelete lib c d).StopsOn Outcome.failed errorUnless404 := by
  unfold resourceCDBListDelete http.NewRequest
  dsimp only
  repeat' first
    | split
    | exact trivial
    | (intro _; beta_reduce)
    | (refine Prog.stops_leaf _ _ (fun hb => ?_))
    | exact Or.inl rfl
    | exact Or.inr ⟨_, rfl, by assumption⟩
    | exact absurd hb (by assumption)
    | (simp only [Outcome.failed] at hb; exact Or.inr ⟨_, rfl, by omega⟩)

theorem resourceLogtestDelete_stops (lib : Lib) (c : APIClient) (d : ResourceData) :
    (resourceLogtestDelete lib c d).StopsOn Outcome.failed errorUnless404 := by
  unfold resourceLogtestDelete http.NewRequest
  dsimp only
  repeat' first
    | split
    | exact trivial
    | (intro _; beta_reduce)
    | (refine Prog.stops_leaf _ _ (fun hb => ?_))
    | exact Or.inl rfl
    | exact Or.inr ⟨_, rfl, by assumption⟩
    | exact absurd hb (by assumption)
    | (simp only [Outcome.failed] at hb; exact Or.inr ⟨_, rfl, by omega⟩)

theorem resourceRootcheckDelete_stops (lib : Lib) (c : APIClient) (d : ResourceData) :
    (resourceRootcheckDelete lib c d).StopsOn Outcome.failed errorUnless404 := by
  unfold resourceRootcheckDelete http.NewRequest
  dsimp only
  repeat' first
    | split
    | exact trivial
    | (intro _; beta_reduce)
    | (refine Prog.stops_leaf _ _ (fun hb => ?_))
    | exact Or.inl rfl
    | exact Or.inr ⟨_, rfl, by assumption⟩
    | exact absurd hb (by assumption)
    | (simp only [Outcome.failed] at hb; exact Or.inr ⟨_, rfl, by omega⟩)

theorem resourceSyscheckDelete_stops (lib : Lib) (c : APIClient) (d : ResourceData) :
    (resourceSyscheckDelete lib c d).StopsOn Outcome.failed errorUnless404 := by
  unfold resourceSyscheckDelete http.NewRequest
  dsimp only
  repeat' first
    | split
    | exact trivial
    | (intro _; beta_reduce)
    | (refine Prog.stops_leaf _ _ (fun hb => ?_))
    | exact Or.inl rfl
    | exact Or.inr ⟨_, rfl, by assumption⟩
    | exact absurd hb (by assumption)
    | (simp only [Outcome.failed] at hb; exact Or.inr ⟨_, rfl, by omega⟩)

theorem resourceRoleRead_stops (lib : Lib) (c : APIClient) (d : ResourceData) :
    (resourceRoleRead lib c d).StopsOn Outcome.failed errorUnless404 := by
  unfold resourceRoleRead http.NewRequest
  dsimp only
  repeat' first
    | split
    | exact trivial
    | (intro _; beta_reduce)
    | (refine Prog.stops_leaf _ _ (fun hb => ?_))
    | exact Or.inl rfl
    | exact Or.inr ⟨_, rfl, by assumption⟩
    | exact absurd hb (by assumption)
    | (simp only [Outcome.failed] at hb; exact Or.inr ⟨_, rfl, by omega⟩)

theorem resourceRoleDelete_stops (lib : Lib) (c : APIClient) (d : ResourceData) :
    (resourceRoleDelete lib c d).StopsOn Outcome.failed errorUnless404 := by
  unfold resourceRoleDelete http.NewRequest
  dsimp only
  repeat' first
    | split
    | exact trivial
    | (intro _; beta_reduce)
    | (refine Prog.stops_leaf _ _ (fun hb => ?_))
    | exact Or.inl rfl
    | exact Or.inr ⟨_, rfl, by assumption⟩
    | exact absurd hb (by assumption)
    | (simp only [Outcome.failed] at hb; exact Or.inr ⟨_, rfl, by omega⟩)

theorem authenticate_stops (lib : Lib) (c : APIClient) :
    (authenticate lib c).StopsOn Outcome.failed errorReturned := by
  unfold authenticate http.NewRequest
  dsimp only
  repeat' first
    | split
    | exact trivial
    | exact Option.some_ne_none _
    | exact absurd hb (by assumption)
    | (intro _; beta_reduce)
    | (refine Prog.stops_leaf _ _ (fun hb => ?_))

theorem doRequest_stops (lib : Lib) (c : APIClient) (method path : String) (body : Option Json) :
    (doRequest lib c method path body).StopsOn Outcome.failed errorReturned := by
  unfold doRequest doRequestSend http.NewRequest
  dsimp only
  repeat' first
    | split
    | exact trivial
    | exact Option.some_ne_none _
    | exact absurd hb (by assumption)
    | (intro _; beta_reduce)
    | (refine Prog.stops_leaf _ _ (fun hb => ?_))

theorem findRoleIDByName_stops (lib : Lib) (c : APIClient) (name : String) :
    (findRoleIDByName lib c name).StopsOn Outcome.failed errorReturned := by
  unfold findRoleIDByName http.NewRequest
  dsimp only
  repeat' first
    | split
    | exact trivial
    | exact Option.some_ne_none _
    | exact absurd hb (by assumption)
    | (intro _; beta_reduce)
    | (refine Prog.stops_leaf _ _ (fun hb => ?_))

theorem callRoleUserAssign_stops (lib : Lib) (c : APIClient) (userID : String)
    (roleIDs : List String) (position : Int) (d : ResourceData) (tick : Nat) :
    (callRoleUserAssign lib c userID roleIDs position d tick).StopsOn Outcome.failed
      errorDiagnostic := by
  unfold callRoleUserAssign http.NewRequest
  dsimp only
  repeat' first
    | split
    | exact trivial
    | (intro _; beta_reduce)
    | (refine Prog.stops_leaf _ _ (fun hb => ?_))
    | exact rfl
    | exact absurd hb (by assumption)

theorem callRoleUserRemove_stops (lib : Lib) (c : APIClient) (userID : String)
    (roleIDs : List String) (d : ResourceData) (tick : Nat) :
    (callRoleUserRemove lib c userID roleIDs d tick).StopsOn Outcome.failed errorDiagnostic := by
  unfold callRoleUserRemove http.NewRequest
  dsimp only
  repeat' first
    | split
    | exact trivial
    | (intro _; beta_reduce)
    | (refine Prog.stops_leaf _ _ (fun hb => ?_))
    | exact rfl
    | exact absurd hb (by assumption)

theorem resourceRoleCreate_stops (lib : Lib) (c : APIClient) (d : ResourceData) :
    (resourceRoleCreate lib c d).StopsOn Outcome.failed errorUnless404 := by
  unfold resourceRoleCreate http.NewRequest
  dsimp only
  repeat' first
    | split
    | exact trivial
    | (intro _; beta_reduce)
    | (refine Prog.stops_leaf _ _ (fun hb => ?_))
    | exact Or.inl rfl
    | exact Or.inr ⟨_, rfl, by assumption⟩
    | exact absurd hb (by assumption)
    | fail
  all_goals
    refine ⟨fun hb => absurd hb (by assumption), Prog.StopsOn_bind _ ?_ ?_ _
      (findRoleIDByName_stops lib c _)⟩
  · rintro o ⟨x, e⟩ h
    cases e with
    | none => exact absurd rfl h
    | some err => exact ⟨_, rfl, Or.inl rfl⟩
  · rintro ⟨x, e⟩
    cases e with
    | some err => exact trivial
    | none =>
      dsimp only
      split
      · exact trivial
      · exact resourceRoleRead_stops lib c _

theorem resourceRoleUpdate_stops (lib : Lib) (c : APIClient) (d : ResourceData) :
    (resourceRoleUpdate lib c d).StopsOn Outcome.failed errorUnless404 := by
  unfold resourceRoleUpdate http.NewRequest
  dsimp only
  repeat' first
    | split
    | exact trivial
    | exact resourceRoleRead_stops lib c d
    | exact ⟨fun hb => absurd hb (by assumption), resourceRoleRead_stops lib c d⟩
    | (intro _; beta_reduce)
    | (refine Prog.stops_leaf _ _ (fun hb => ?_))
    | exact Or.inl rfl
    | exact absurd hb (by assumption)
    | fail

theorem stops_after_helper (g : Diagnostics × ResourceData → Prog (Diagnostics × ResourceData))
    (hg : ∀ r, (g r).StopsOn Outcome.failed errorUnless404)
    (p : Prog (Diagnostics × ResourceData)) (hp : p.StopsOn Outcome.failed errorDiagnostic) :
    (p.bind fun r => if r.1.HasError then .ret r else g r).StopsOn Outcome.failed
      errorUnless404 := by
  refine Prog.StopsOn_bind _ ?_ ?_ p hp
  · intro o a h
    exact ⟨a, if_pos h, Or.inl h⟩
  · intro a
    split
    · exact trivial
    · exact hg a

theorem resourceRoleUserCreate_stops (lib : Lib) (c : APIClient) (d : ResourceData) :
    (resourceRoleUserCreate lib c d).StopsOn Outcome.failed errorUnless404 := by
  unfold resourceRoleUserCreate
  dsimp only
  split
  · exact trivial
  · split
    · exact trivial
    · refine stops_after_helper _ ?_ _ (callRoleUserAssign_stops _ _ _ _ _ _ _)
      intro _
      exact trivial

theorem resourceRoleUserUpdateRemove_stops (lib : Lib) (c : APIClient) (userID : String)
    (toRemove : List String) (d : ResourceData) :
    (resourceRoleUserUpdateRemove lib c userID toRemove d).StopsOn Outcome.failed
      errorUnless404 := by
  unfold resourceRoleUserUpdateRemove
  split
  · refine stops_after_helper _ ?_ _ (callRoleUserRemove_stops _ _ _ _ _ _)
    intro _
    exact trivial
  · exact trivial

theorem resourceRoleUserUpdate_stops (lib : Lib) (c : APIClient) (d : ResourceData) :
    (resourceRoleUserUpdate lib c d).StopsOn Outcome.failed errorUnless404 := by
  unfold resourceRoleUserUpdate
  dsimp only
  split
  · exact trivial
  · split
    · split
      · exact stops_after_helper _
          (fun _ => resourceRoleUserUpdateRemove_stops _ _ _ _ _) _
          (callRoleUserAssign_stops _ _ _ _ _ _ _)
      · exact resourceRoleUserUpdateRemove_stops _ _ _ _ _
    · exact trivial

theorem resourceRoleUserDelete_stops (lib : Lib) (c : APIClient) (d : ResourceData) :
    (resourceRoleUserDelete lib c d).StopsOn Outcome.failed errorUnless404 := by
  unfold resourceRoleUserDelete
  dsimp only
  split
  · exact trivial
  · split
    · exact trivial
    · refine stops_after_helper _ ?_ _ (callRoleUserRemove_stops _ _ _ _ _ _)
      intro _
      exact trivial

theorem upsertRule_stops (lib : Lib) (c : APIClient) (d : ResourceData) :
    (upsertRule lib c d).StopsOn Outcome.failed errorUnless404 := by
  unfold upsertRule http.NewRequest
  dsimp only
  repeat' first
    | split
    | exact trivial
    | (intro _; beta_reduce)
    | (refine Prog.stops_leaf _ _ (fun hb => ?_))
    | exact Or.inl rfl
    | exact Or.inr ⟨_, rfl, by assumption⟩
    | exact absurd hb (by assumption)
    | (simp only [Outcome.failed] at hb; exact Or.inr ⟨_, rfl, by omega⟩)
    | fail

theorem resourceRuleRead_stops (lib : Lib) (c : APIClient) (d : ResourceData) :
    (resourceRuleRead lib c d).StopsOn Outcome.failed errorUnless404 := by
  unfold resourceRuleRead http.NewRequest
  dsimp only
  repeat' first
    | split
    | exact trivial
    | (intro _; beta_reduce)
    | (refine Prog.stops_leaf _ _ (fun hb => ?_))
    | exact Or.inl rfl
    | exact Or.inr ⟨_, rfl, by assumption⟩
    | exact absurd hb (by assumption)
    | (simp only [Outcome.failed] at hb; exact Or.inr ⟨_, rfl, by omega⟩)
    | fail

theorem resourceDecoderPut_stops (lib : Lib) (c : APIClient) (d : ResourceData) :
    (resourceDecoderPut lib c d).StopsOn Outcome.failed errorUnless404 := by
  unfold resourceDecoderPut http.NewRequest
  dsimp only
  repeat' first
    | split
    | exact trivial
    | (intro _; beta_reduce)
    | (refine Prog.stops_leaf _ _ (fun hb => ?_))
    | exact Or.inl rfl
    | exact Or.inr ⟨_, rfl, by assumption⟩
    | exact absurd hb (by assumption)
    | (simp only [Outcome.failed] at hb; exact Or.inr ⟨_, rfl, by omega⟩)
    | fail

theorem resourceDecoderRead_stops (lib : Lib) (c : APIClient) (d : ResourceData) :
    (resourceDecoderRead lib c d).StopsOn Outcome.failed errorUnless404 := by
  unfold resourceDecoderRead http.NewRequest
  dsimp only
  repeat' first
    | split
    | exact trivial
    | (intro _; beta_reduce)
    | (refine Prog.stops_leaf _ _ (fun hb => ?_))
    | exact Or.inl rfl
    | exact Or.inr ⟨_, rfl, by assumption⟩
    | exact absurd hb (by assumption)
    | (simp only [Outcome.failed] at hb; exact Or.inr ⟨_, rfl, by omega⟩)
    | fail

theorem resourceCDBListPut_stops (lib : Lib) (c : APIClient) (d : ResourceData) :
    (resourceCDBListPut lib c d).StopsOn Outcome.failed errorUnless404 := by
  unfold resourceCDBListPut http.NewRequest
  dsimp only
  repeat' first
    | split
    | exact trivial
    | (intro _; beta_reduce)
    | (refine Prog.stops_leaf _ _ (fun hb => ?_))
    | exact Or.inl rfl
    | exact Or.inr ⟨_, rfl, by assumption⟩
    | exact absurd hb (by assumption)
    | (simp only [Outcome.failed] at hb; exact Or.inr ⟨_, rfl, by omega⟩)
    | fail

theorem resourceCDBListRead_stops (lib : Lib) (c : APIClient) (d : ResourceData) :
    (resourceCDBListRead lib c d).StopsOn Outcome.failed errorUnless404 := by
  unfold resourceCDBListRead http.NewRequest
  dsimp only
  repeat' first
    | split
    | exact trivial
    | (intro _; beta_reduce)
    | (refine Prog.stops_leaf _ _ (fun hb => ?_))
    | exact Or.inl rfl
    | exact Or.inr ⟨_, rfl, by assumption⟩
    | exact absurd hb (by assumption)
    | (simp only [Outcome.failed] at hb; exact Or.inr ⟨_, rfl, by omega⟩)
    | fail

theorem resourceLogtestCreate_stops (lib : Lib) (c : APIClient) (d : ResourceData) :
    (resourceLogtestCreate lib c d).StopsOn Outcome.failed errorUnless404 := by
  unfold resourceLogtestCreate http.NewRequest
  dsimp only
  repeat' first
    | split
    | exact trivial
    | (intro _; beta_reduce)
    | (refine Prog.stops_leaf _ _ (fun hb => ?_))
    | exact Or.inl rfl
    | exact Or.inr ⟨_, rfl, by assumption⟩
    | exact absurd hb (by assumption)
    | (simp only [Outcome.failed] at hb; exact Or.inr ⟨_, rfl, by omega⟩)
    | fail

theorem resourceRootcheckCreate_stops (lib : Lib) (c : APIClient) (d : ResourceData) :
    (resourceRootcheckCreate lib c d).StopsOn Outcome.failed errorUnless404 := by
  unfold resourceRootcheckCreate http.NewRequest
  dsimp only
  repeat' first
    | split
    | exact trivial
    | (intro _; beta_reduce)
    | (refine Prog.stops_leaf _ _ (fun hb => ?_))
    | exact Or.inl rfl
    | exact Or.inr ⟨_, rfl, by assumption⟩
    | exact absurd hb (by assumption)
    | (simp only [Outcome.failed] at hb; exact Or.inr ⟨_, rfl, by omega⟩)
    | fail

theorem resourceRootcheckRead_stops (lib : Lib) (c : APIClient) (d : ResourceData) :
    (resourceRootcheckRead lib c d).StopsOn Outcome.failed errorUnless404 := by
  unfold resourceRootcheckRead http.NewRequest
  dsimp only
  repeat' first
    | split
    | exact trivial
    | (intro _; beta_reduce)
    | (refine Prog.stops_leaf _ _ (fun hb => ?_))
    | exact Or.inl rfl
    | exact Or.inr ⟨_, rfl, by assumption⟩
    | exact absurd hb (by assumption)
    | (simp only [Outcome.failed] at hb; exact Or.inr ⟨_, rfl, by omega⟩)
    | fail

theorem resourceSyscheckCreate_stops (lib : Lib) (c : APIClient) (d : ResourceData) :
    (resourceSyscheckCreate lib c d).StopsOn Outcome.failed errorUnless404 := by
  unfold resourceSyscheckCreate http.NewRequest
  dsimp only
  repeat' first
    | split
    | exact trivial
    | (intro _; beta_reduce)
    | (refine Prog.stops_leaf _ _ (fun hb => ?_))
    | exact Or.inl rfl
    | exact Or.inr ⟨_, rfl, by assumption⟩
    | exact absurd hb (by assumption)
    | (simp only [Outcome.failed] at hb; exact Or.inr ⟨_, rfl, by omega⟩)
    | fail

theorem resourceSyscheckRead_stops (lib : Lib) (c : APIClient) (d : ResourceData) :
    (resourceSyscheckRead lib c d).StopsOn Outcome.failed errorUnless404 := by
  unfold resourceSyscheckRead http.NewRequest
  dsimp only
  repeat' first
    | split
    | exact trivial
    | (intro _; beta_reduce)
    | (refine Prog.stops_leaf _ _ (fun hb => ?_))
    | exact Or.inl rfl
    | exact Or.inr ⟨_, rfl, by assumption⟩
    | exact absurd hb (by assumption)
    | (simp only [Outcome.failed] at hb; exact Or.inr ⟨_, rfl, by omega⟩)
    | fail

theorem resourceAgentRead_stops (lib : Lib) (c : APIClient) (d : ResourceData) :
    (resourceAgentRead lib c d).StopsOn Outcome.failed errorUnless404 := by
  unfold resourceAgentRead http.NewRequest
  dsimp only
  repeat' first
    | split
    | exact trivial
    | (intro _; beta_reduce)
    | (refine Prog.stops_leaf _ _ (fun hb => ?_))
    | exact Or.inl rfl
    | exact Or.inr ⟨_, rfl, by assumption⟩
    | exact absurd hb (by assumption)
    | (simp only [Outcome.failed] at hb; exact Or.inr ⟨_, rfl, by omega⟩)
    | fail

theorem resourceAgentDelete_stops (lib : Lib) (c : APIClient) (d : ResourceData) :
    (resourceAgentDelete lib c d).StopsOn Outcome.failed errorUnless404 := by
  unfold resourceAgentDelete http.NewRequest
  dsimp only
  repeat' first
    | split
    | exact trivial
    | (intro _; beta_reduce)
    | (refine Prog.stops_leaf _ _ (fun hb => ?_))
    | exact Or.inl rfl
    | exact Or.inr ⟨_, rfl, by assumption⟩
    | exact absurd hb (by assumption)
    | (simp only [Outcome.failed] at hb; exact Or.inr ⟨_, rfl, by omega⟩)
    | fail

theorem resourceUserRead_stops (lib : Lib) (c : APIClient) (d : ResourceData) :
    (resourceUserRead lib c d).StopsOn Outcome.failed errorUnless404 := by
  unfold resourceUserRead http.NewRequest
  dsimp only
  repeat' first
    | split
    | exact trivial
    | (intro _; beta_reduce)
    | (refine Prog.stops_leaf _ _ (fun hb => ?_))
    | exact Or.inl rfl
    | exact Or.inr ⟨_, rfl, by assumption⟩
    | exact absurd hb (by assumption)
    | (simp only [Outcome.failed] at hb; exact Or.inr ⟨_, rfl, by omega⟩)
    | fail

theorem resourceUserDelete_stops (lib : Lib) (c : APIClient) (d : ResourceData) :
    (resourceUserDelete lib c d).StopsOn Outcome.failed errorUnless404 := by
  unfold resourceUserDelete http.NewRequest
  dsimp only
  repeat' first
    | split
    | exact trivial
    | (intro _; beta_reduce)
    | (refine Prog.stops_leaf _ _ (fun hb => ?_))
    | exact Or.inl rfl
    | exact Or.inr ⟨_, rfl, by assumption⟩
    | exact absurd hb (by assumption)
    | (simp only [Outcome.failed] at hb; exact Or.inr ⟨_, rfl, by omega⟩)
    | fail

theorem resourcePolicyRead_stops (lib : Lib) (c : APIClient) (d : ResourceData) :
    (resourcePolicyRead lib c d).StopsOn Outcome.failed errorUnless404 := by
  unfold resourcePolicyRead http.NewRequest
  dsimp only
  repeat' first
    | split
    | exact trivial
    | (intro _; beta_reduce)
    | (refine Prog.stops_leaf _ _ (fun hb => ?_))
    | exact Or.inl rfl
    | exact Or.inr ⟨_, rfl, by assumption⟩
    | exact absurd hb (by assumption)
    | (simp only [Outcome.failed] at hb; exact Or.inr ⟨_, rfl, by omega⟩)
    | fail

theorem resourcePolicyDelete_stops (lib : Lib) (c : APIClient) (d : ResourceData) :
    (resourcePolicyDelete lib c d).StopsOn Outcome.failed errorUnless404 := by
  unfold resourcePolicyDelete http.NewRequest
  dsimp only
  repeat' first
    | split
    | exact trivial
    | (intro _; beta_reduce)
    | (refine Prog.stops_leaf _ _ (fun hb => ?_))
    | exact Or.inl rfl
    | exact Or.inr ⟨_, rfl, by assumption⟩
    | exact absurd hb (by assumption)
    | (simp only [Outcome.failed] at hb; exact Or.inr ⟨_, rfl, by omega⟩)
    | fail

theorem resourceSecurityRuleRead_stops (lib : Lib) (c : APIClient) (d : ResourceData) :
    (resourceSecurityRuleRead lib c d).StopsOn Outcome.failed errorUnless404 := by
  unfold resourceSecurityRuleRead http.NewRequest
  dsimp only
  repeat' first
    | split
    | exact trivial
    | (intro _; beta_reduce)
    | (refine Prog.stops_leaf _ _ (fun hb => ?_))
    | exact Or.inl rfl
    | exact Or.inr ⟨_, rfl, by assumption⟩
    | exact absurd hb (by assumption)
    | (simp only [Outcome.failed] at hb; exact Or.inr ⟨_, rfl, by omega⟩)
    | fail

theorem resourceSecurityRuleDelete_stops (lib : Lib) (c : APIClient) (d : ResourceData) :
    (resourceSecurityRuleDelete lib c d).StopsOn Outcome.failed errorUnless404 := by
  unfold resourceSecurityRuleDelete http.NewRequest
  dsimp only
  repeat' first
    | split
    | exact trivial
    | (intro _; beta_reduce)
    | (refine Prog.stops_leaf _ _ (fun hb => ?_))
    | exact Or.inl rfl
    | exact Or.inr ⟨_, rfl, by assumption⟩
    | exact absurd hb (by assumption)
    | (simp only [Outcome.failed] at hb; exact Or.inr ⟨_, rfl, by omega⟩)
    | fail

theorem resourceSecurityConfigRead_stops (lib : Lib) (c : APIClient) (d : ResourceData) :
    (resourceSecurityConfigRead lib c d).StopsOn Outcome.failed errorUnless404 := by
  unfold resourceSecurityConfigRead http.NewRequest
  dsimp only
  repeat' first
    | split
    | exact trivial
    | (intro _; beta_reduce)
    | (refine Prog.stops_leaf _ _ (fun hb => ?_))
    | exact Or.inl rfl
    | exact Or.inr ⟨_, rfl, by assumption⟩
    | exact absurd hb (by assumption)
    | (simp only [Outcome.failed] at hb; exact Or.inr ⟨_, rfl, by omega⟩)
    | fail

theorem resourceSecurityConfigDelete_stops (lib : Lib) (c : APIClient) (d : ResourceData) :
    (resourceSecurityConfigDelete lib c d).StopsOn Outcome.failed errorUnless404 := by
  unfold resourceSecurityConfigDelete http.NewRequest
  dsimp only
  repeat' first
    | split
    | exact trivial
    | (intro _; beta_reduce)
    | (refine Prog.stops_leaf _ _ (fun hb => ?_))
    | exact Or.inl rfl
    | exact Or.inr ⟨_, rfl, by assumption⟩
    | exact absurd hb (by assumption)
    | (simp only [Outcome.failed] at hb; exact Or.inr ⟨_, rfl, by omega⟩)
    | fail

theorem resourceAgentNodeRestartCreate_stops (lib : Lib) (c : APIClient) (d : ResourceData) :
    (resourceAgentNodeRestartCreate lib c d).StopsOn Outcome.failed errorUnless404 := by
  unfold resourceAgentNodeRestartCreate http.NewRequest
  dsimp only
  repeat' first
    | split
    | exact trivial
    | (intro _; beta_reduce)
    | (refine Prog.stops_leaf _ _ (fun hb => ?_))
    | exact Or.inl rfl
    | exact Or.inr ⟨_, rfl, by assumption⟩
    | exact absurd hb (by assumption)
    | (simp only [Outcome.failed] at hb; exact Or.inr ⟨_, rfl, by omega⟩)
    | fail

theorem resourceAgentReconnectCreate_stops (lib : Lib) (c : APIClient) (d : ResourceData) :
    (resourceAgentReconnectCreate lib c d).StopsOn Outcome.failed errorUnless404 := by
  unfold resourceAgentReconnectCreate http.NewRequest
  dsimp only
  repeat' first
    | split
    | exact trivial
    | (intro _; beta_reduce)
    | (refine Prog.stops_leaf _ _ (fun hb => ?_))
    | exact Or.inl rfl
    | exact Or.inr ⟨_, rfl, by assumption⟩
    | exact absurd hb (by assumption)
    | (simp only [Outcome.failed] at hb; exact Or.inr ⟨_, rfl, by omega⟩)
    | fail

theorem resourceAgentRestartCreate_stops (lib : Lib) (c : APIClient) (d : ResourceData) :
    (resourceAgentRestartCreate lib c d).StopsOn Outcome.failed errorUnless404 := by
  unfold resourceAgentRestartCreate http.NewRequest
  dsimp only
  repeat' first
    | split
    | exact trivial
    | (intro _; beta_reduce)
    | (refine Prog.stops_leaf _ _ (fun hb => ?_))
    | exact Or.inl rfl
    | exact Or.inr ⟨_, rfl, by assumption⟩
    | exact absurd hb (by assumption)
    | (simp only [Outcome.failed] at hb; exact Or.inr ⟨_, rfl, by omega⟩)
    | fail

theorem resourceAgentRestartGroupCreate_stops (lib : Lib) (c : APIClient) (d : ResourceData) :
    (resourceAgentRestartGroupCreate lib c d).StopsOn Outcome.failed errorUnless404 := by
  unfold resourceAgentRestartGroupCreate http.NewRequest
  dsimp only
  repeat' first
    | split
    | exact trivial
    | (intro _; beta_reduce)
    | (refine Prog.stops_leaf _ _ (fun hb => ?_))
    | exact Or.inl rfl
    | exact Or.inr ⟨_, rfl, by assumption⟩
    | exact absurd hb (by assumption)
    | (simp only [Outcome.failed] at hb; exact Or.inr ⟨_, rfl, by omega⟩)
    | fail

theorem resourceAgentUpgradeCreate_stops (lib : Lib) (c : APIClient) (d : ResourceData) :
    (resourceAgentUpgradeCreate lib c d).StopsOn Outcome.failed errorUnless404 := by
  unfold resourceAgentUpgradeCreate http.NewRequest
  dsimp only
  repeat' first
    | split
    | exact trivial
    | (intro _; beta_reduce)
    | (refine Prog.stops_leaf _ _ (fun hb => ?_))
    | exact Or.inl rfl
    | exact Or.inr ⟨_, rfl, by assumption⟩
    | exact absurd hb (by assumption)
    | (simp only [Outcome.failed] at hb; exact Or.inr ⟨_, rfl, by omega⟩)
    | fail

theorem resourceAgentUpgradeCustomCreate_stops (lib : Lib) (c : APIClient) (d : ResourceData) :
    (resourceAgentUpgradeCustomCreate lib c d).StopsOn Outcome.failed errorUnless404 := by
  unfold resourceAgentUpgradeCustomCreate http.NewRequest
  dsimp only
  repeat' first
    | split
    | exact trivial
    | (intro _; beta_reduce)
    | (refine Prog.stops_leaf _ _ (fun hb => ?_))
    | exact Or.inl rfl
    | exact Or.inr ⟨_, rfl, by assumption⟩
    | exact absurd hb (by assumption)
    | (simp only [Outcome.failed] at hb; exact Or.inr ⟨_, rfl, by omega⟩)
    | fail

theorem resourceEventCreate_stops (lib : Lib) (c : APIClient) (d : ResourceData) :
    (resourceEventCreate lib c d).StopsOn Outcome.failed errorUnless404 := by
  unfold resourceEventCreate http.NewRequest
  dsimp only
  repeat' first
    | split
    | exact trivial
    | (intro _; beta_reduce)
    | (refine Prog.stops_leaf _ _ (fun hb => ?_))
    | exact Or.inl rfl
    | exact Or.inr ⟨_, rfl, by assumption⟩
    | exact absurd hb (by assumption)
    | (simp only [Outcome.failed] at hb; exact Or.inr ⟨_, rfl, by omega⟩)
    | fail

theorem upsertManagerConfiguration_stops (lib : Lib) (c : APIClient) (d : ResourceData) :
    (upsertManagerConfiguration lib c d).StopsOn Outcome.failed errorUnless404 := by
  unfold upsertManagerConfiguration http.NewRequest
  dsimp only
  repeat' first
    | split
    | exact trivial
    | (intro _; beta_reduce)
    | (refine Prog.stops_leaf _ _ (fun hb => ?_))
    | exact Or.inl rfl
    | exact Or.inr ⟨_, rfl, by assumption⟩
    | exact absurd hb (by assumption)
    | (simp only [Outcome.failed] at hb; exact Or.inr ⟨_, rfl, by omega⟩)
    | fail

theorem resourceManagerConfigurationRead_stops (lib : Lib) (c : APIClient) (d : ResourceData) :
    (resourceManagerConfigurationRead lib c d).StopsOn Outcome.failed errorUnless404 := by
  unfold resourceManagerConfigurationRead http.NewRequest
  dsimp only
  repeat' first
    | split
    | exact trivial
    | (intro _; beta_reduce)
    | (refine Prog.stops_leaf _ _ (fun hb => ?_))
    | exact Or.inl rfl
    | exact Or.inr ⟨_, rfl, by assumption⟩
    | exact absurd hb (by assumption)
    | (simp only [Outcome.failed] at hb; exact Or.inr ⟨_, rfl, by omega⟩)
    | fail

theorem resourceManagerRestartCreate_stops (lib : Lib) (c : APIClient) (d : ResourceData) :
    (resourceManagerRestartCreate lib c d).StopsOn Outcome.failed errorUnless404 := by
  unfold resourceManagerRestartCreate http.NewRequest
  dsimp only
  repeat' first
    | split
    | exact trivial
    | (intro _; beta_reduce)
    | (refine Prog.stops_leaf _ _ (fun hb => ?_))
    | exact Or.inl rfl
    | exact Or.inr ⟨_, rfl, by assumption⟩
    | exact absurd hb (by assumption)
    | (simp only [Outcome.failed] at hb; exact Or.inr ⟨_, rfl, by omega⟩)
    | fail

theorem resourceNodeAnalysisdReloadCreate_stops (lib : Lib) (c : APIClient) (d : ResourceData) :
    (resourceNodeAnalysisdReloadCreate lib c d).StopsOn Outcome.failed errorUnless404 := by
  unfold resourceNodeAnalysisdReloadCreate http.NewRequest
  dsimp only
  repeat' first
    | split
    | exact trivial
    | (intro _; beta_reduce)
    | (refine Prog.stops_leaf _ _ (fun hb => ?_))
    | exact Or.inl rfl
    | exact Or.inr ⟨_, rfl, by assumption⟩
    | exact absurd hb (by assumption)
    | (simp only [Outcome.failed] at hb; exact Or.inr ⟨_, rfl, by omega⟩)
    | fail

theorem resourceNodeConfigurationPut_stops (lib : Lib) (c : APIClient) (d : ResourceData) :
    (resourceNodeConfigurationPut lib c d).StopsOn Outcome.failed errorUnless404 := by
  unfold resourceNodeConfigurationPut http.NewRequest
  dsimp only
  repeat' first
    | split
    | exact trivial
    | (intro _; beta_reduce)
    | (refine Prog.stops_leaf _ _ (fun hb => ?_))
    | exact Or.inl rfl
    | exact Or.inr ⟨_, rfl, by assumption⟩
    | exact absurd hb (by assumption)
    | (simp only [Outcome.failed] at hb; exact Or.inr ⟨_, rfl, by omega⟩)
    | fail

theorem resourceNodeConfigurationRead_stops (lib : Lib) (c : APIClient) (d : ResourceData) :
    (resourceNodeConfigurationRead lib c d).StopsOn Outcome.failed errorUnless404 := by
  unfold resourceNodeConfigurationRead http.NewRequest
  dsimp only
  repeat' first
    | split
    | exact trivial
    | (intro _; beta_reduce)
    | (refine Prog.stops_leaf _ _ (fun hb => ?_))
    | exact Or.inl rfl
    | exact Or.inr ⟨_, rfl, by assumption⟩
    | exact absurd hb (by assumption)
    | (simp only [Outcome.failed] at hb; exact Or.inr ⟨_, rfl, by omega⟩)
    | fail

theorem resourceNodeRestartCreate_stops (lib : Lib) (c : APIClient) (d : ResourceData) :
    (resourceNodeRestartCreate lib c d).StopsOn Outcome.failed errorUnless404 := by
  unfold resourceNodeRestartCreate http.NewRequest
  dsimp only
  repeat' first
    | split
    | exact trivial
    | (intro _; beta_reduce)
    | (refine Prog.stops_leaf _ _ (fun hb => ?_))
    | exact Or.inl rfl
    | exact Or.inr ⟨_, rfl, by assumption⟩
    | exact absurd hb (by assumption)
    | (simp only [Outcome.failed] at hb; exact Or.inr ⟨_, rfl, by omega⟩)
    | fail

theorem resourceAgentGroupCreate_stops (lib : Lib) (c : APIClient) (d : ResourceData) :
    (resourceAgentGroupCreate lib c d).StopsOn Outcome.failed errorUnless404 := by
  unfold resourceAgentGroupCreate http.NewRequest
  dsimp only
  repeat' first
    | split
    | exact trivial
    | (intro _; beta_reduce)
    | (refine Prog.stops_leaf _ _ (fun hb => ?_))
    | exact Or.inl rfl
    | exact Or.inr ⟨_, rfl, by assumption⟩
    | exact absurd hb (by assumption)
    | (simp only [Outcome.failed] at hb; exact Or.inr ⟨_, rfl, by omega⟩)
    | fail

theorem resourcePolicyRoleCreate_stops (lib : Lib) (c : APIClient) (d : ResourceData) :
    (resourcePolicyRoleCreate lib c d).StopsOn Outcome.failed errorUnless404 := by
  unfold resourcePolicyRoleCreate http.NewRequest
  dsimp only
  repeat' first
    | split
    | exact trivial
    | (intro _; beta_reduce)
    | (refine Prog.stops_leaf _ _ (fun hb => ?_))
    | exact Or.inl rfl
    | exact Or.inr ⟨_, rfl, by assumption⟩
    | exact absurd hb (by assumption)
    | (simp only [Outcome.failed] at hb; exact Or.inr ⟨_, rfl, by omega⟩)
    | fail

theorem resourcePolicyRoleDelete_stops (lib : Lib) (c : APIClient) (d : ResourceData) :
    (resourcePolicyRoleDelete lib c d).StopsOn Outcome.failed errorUnless404 := by
  unfold resourcePolicyRoleDelete http.NewRequest
  dsimp only
  repeat' first
    | split
    | exact trivial
    | (intro _; beta_reduce)
    | (refine Prog.stops_leaf _ _ (fun hb => ?_))
    | exact Or.inl rfl
    | exact Or.inr ⟨_, rfl, by assumption⟩
    | exact absurd hb (by assumption)
    | (simp only [Outcome.failed] at hb; exact Or.inr ⟨_, rfl, by omega⟩)
    | fail

theorem resourceSecurityRuleRoleCreate_stops (lib : Lib) (c : APIClient) (d : ResourceData) :
    (resourceSecurityRuleRoleCreate lib c d).StopsOn Outcome.failed errorUnless404 := by
  unfold resourceSecurityRuleRoleCreate http.NewRequest
  dsimp only
  repeat' first
    | split
    | exact trivial
    | (intro _; beta_reduce)
    | (refine Prog.stops_leaf _ _ (fun hb => ?_))
    | exact Or.inl rfl
    | exact Or.inr ⟨_, rfl, by assumption⟩
    | exact absurd hb (by assumption)
    | (simp only [Outcome.failed] at hb; exact Or.inr ⟨_, rfl, by omega⟩)
    | fail

theorem resourceSecurityRuleRoleDelete_stops (lib : Lib) (c : APIClient) (d : ResourceData) :
    (resourceSecurityRuleRoleDelete lib c d).StopsOn Outcome.failed errorUnless404 := by
  unfold resourceSecurityRuleRoleDelete http.NewRequest
  dsimp only
  repeat' first
    | split
    | exact trivial
    | (intro _; beta_reduce)
    | (refine Prog.stops_leaf _ _ (fun hb => ?_))
    | exact Or.inl rfl
    | exact Or.inr ⟨_, rfl, by assumption⟩
    | exact absurd hb (by assumption)
    | (simp only [Outcome.failed] at hb; exact Or.inr ⟨_, rfl, by omega⟩)
    | fail

theorem resourceAgentGroupDeleteSend_stops (lib : Lib) (c : APIClient) (d : ResourceData)
    (agentID groupID urlStr : String) :
    (resourceAgentGroupDeleteSend lib c d agentID groupID urlStr).StopsOn Outcome.failed
      errorUnless404 := by
  unfold resourceAgentGroupDeleteSend http.NewRequest
  dsimp only
  repeat' first
    | split
    | exact trivial
    | (intro _; beta_reduce)
    | (refine Prog.stops_leaf _ _ (fun hb => ?_))
    | exact Or.inl rfl
    | exact Or.inr ⟨_, rfl, by assumption⟩
    | exact absurd hb (by assumption)
    | (simp only [Outcome.failed] at hb; exact Or.inr ⟨_, rfl, by omega⟩)
    | fail

theorem resourceAgentGroupDelete_stops (lib : Lib) (c : APIClient) (d : ResourceData) :
    (resourceAgentGroupDelete lib c d).StopsOn Outcome.failed errorUnless404 := by
  unfold resourceAgentGroupDelete
  dsimp only
  repeat' first
    | split
    | exact trivial
    | exact resourceAgentGroupDeleteSend_stops lib c d _ _ _
    | fail

theorem findUserIDByUsername_stops (lib : Lib) (c : APIClient) (name : String) :
    (findUserIDByUsername lib c name).StopsOn Outcome.failed errorReturned := by
  unfold findUserIDByUsername http.NewRequest
  dsimp only
  repeat' first
    | split
    | exact trivial
    | exact Option.some_ne_none _
    | exact absurd hb (by assumption)
    | (intro _; beta_reduce)
    | (refine Prog.stops_leaf _ _ (fun hb => ?_))
    | fail

theorem lookupSecurityRuleIDByName_stops (lib : Lib) (c : APIClient) (name : String) :
    (lookupSecurityRuleIDByName lib c name).StopsOn Outcome.failed errorReturned := by
  unfold lookupSecurityRuleIDByName http.NewRequest
  dsimp only
  repeat' first
    | split
    | exact trivial
    | exact Option.some_ne_none _
    | exact absurd hb (by assumption)
    | (intro _; beta_reduce)
    | (refine Prog.stops_leaf _ _ (fun hb => ?_))
    | fail

theorem lookupPolicyIDByName_stops (lib : Lib) (c : APIClient) (name : String) :
    (lookupPolicyIDByName lib c name).StopsOn Outcome.failed lookupFailed := by
  unfold lookupPolicyIDByName http.NewRequest
  dsimp only
  repeat' first
    | split
    | exact trivial
    | exact rfl
    | exact absurd hb (by assumption)
    | (intro _; beta_reduce)
    | (refine Prog.stops_leaf _ _ (fun hb => ?_))
    | fail

theorem resourceAgentCreate_stops (lib : Lib) (c : APIClient) (d : ResourceData) :
    (resourceAgentCreate lib c d).StopsOn Outcome.failed errorUnless404 := by
  unfold resourceAgentCreate http.NewRequest
  dsimp only
  repeat' first
    | split
    | exact trivial
    | exact resourceAgentRead_stops lib c _
    | exact ⟨fun hb => absurd hb (by assumption), resourceAgentRead_stops lib c _⟩
    | (intro _; beta_reduce)
    | (refine Prog.stops_leaf _ _ (fun hb => ?_))
    | exact Or.inl rfl
    | exact absurd hb (by assumption)
    | fail

theorem resourceUserUpdate_stops (lib : Lib) (c : APIClient) (d : ResourceData) :
    (resourceUserUpdate lib c d).StopsOn Outcome.failed errorUnless404 := by
  unfold resourceUserUpdate http.NewRequest
  dsimp only
  repeat' first
    | split
    | exact trivial
    | exact resourceUserRead_stops lib c _
    | exact ⟨fun hb => absurd hb (by assumption), resourceUserRead_stops lib c _⟩
    | (intro _; beta_reduce)
    | (refine Prog.stops_leaf _ _ (fun hb => ?_))
    | exact Or.inl rfl
    | exact absurd hb (by assumption)
    | fail

theorem resourcePolicyUpdateSend_stops (lib : Lib) (c : APIClient) (d : ResourceData)
    (policyID : String) (payload : List (String × Json)) :
    (resourcePolicyUpdateSend lib c d policyID payload).StopsOn Outcome.failed errorUnless404 := by
  unfold resourcePolicyUpdateSend http.NewRequest
  dsimp only
  repeat' first
    | split
    | exact trivial
    | exact resourcePolicyRead_stops lib c _
    | exact ⟨fun hb => absurd hb (by assumption), resourcePolicyRead_stops lib c _⟩
    | (intro _; beta_reduce)
    | (refine Prog.stops_leaf _ _ (fun hb => ?_))
    | exact Or.inl rfl
    | exact absurd hb (by assumption)
    | fail

theorem resourceSecurityRuleUpdateSend_stops (lib : Lib) (c : APIClient) (d : ResourceData)
    (id : String) (payload : List (String × Json)) :
    (resourceSecurityRuleUpdateSend lib c d id payload).StopsOn Outcome.failed errorUnless404 := by
  unfold resourceSecurityRuleUpdateSend http.NewRequest
  dsimp only
  repeat' first
    | split
    | exact trivial
    | exact resourceSecurityRuleRead_stops lib c _
    | exact ⟨fun hb => absurd hb (by assumption), resourceSecurityRuleRead_stops lib c _⟩
    | (intro _; beta_reduce)
    | (refine Prog.stops_leaf _ _ (fun hb => ?_))
    | exact Or.inl rfl
    | exact absurd hb (by assumption)
    | fail

theorem resourceSecurityConfigCreate_stops (lib : Lib) (c : APIClient) (d : ResourceData) :
    (resourceSecurityConfigCreate lib c d).StopsOn Outcome.failed errorUnless404 := by
  unfold resourceSecurityConfigCreate http.NewRequest
  dsimp only
  repeat' first
    | split
    | exact trivial
    | exact resourceSecurityConfigRead_stops lib c _
    | exact ⟨fun hb => absurd hb (by assumption), resourceSecurityConfigRead_stops lib c _⟩
    | (intro _; beta_reduce)
    | (refine Prog.stops_leaf _ _ (fun hb => ?_))
    | exact Or.inl rfl
    | exact absurd hb (by assumption)
    | fail

theorem resourcePolicyUpdatePolicy_stops (lib : Lib) (c : APIClient) (d : ResourceData)
    (policyID : String) (payload : List (String × Json)) :
    (resourcePolicyUpdatePolicy lib c d policyID payload).StopsOn Outcome.failed
      errorUnless404 := by
  unfold resourcePolicyUpdatePolicy
  dsimp only
  repeat' first
    | split
    | exact trivial
    | exact resourcePolicyUpdateSend_stops lib c d _ _
    | fail

theorem resourcePolicyUpdate_stops (lib : Lib) (c : APIClient) (d : ResourceData) :
    (resourcePolicyUpdate lib c d).StopsOn Outcome.failed errorUnless404 := by
  unfold resourcePolicyUpdate
  dsimp only
  repeat' first
    | split
    | exact trivial
    | exact resourcePolicyUpdatePolicy_stops lib c d _ _
    | fail

theorem resourceSecurityRuleUpdate_stops (lib : Lib) (c : APIClient) (d : ResourceData) :
    (resourceSecurityRuleUpdate lib c d).StopsOn Outcome.failed errorUnless404 := by
  unfold resourceSecurityRuleUpdate
  dsimp only
  repeat' first
    | split
    | exact trivial
    | exact resourceSecurityRuleUpdateSend_stops lib c d _ _
    | fail

theorem resourceUserCreate_stops (lib : Lib) (c : APIClient) (d : ResourceData) :
    (resourceUserCreate lib c d).StopsOn Outcome.failed errorUnless404 := by
  unfold resourceUserCreate http.NewRequest
  dsimp only
  repeat' first
    | split
    | exact trivial
    | (intro _; beta_reduce)
    | (refine Prog.stops_leaf _ _ (fun hb => ?_))
    | exact Or.inl rfl
    | exact absurd hb (by assumption)
    | fail
  all_goals
    refine ⟨fun hb => absurd hb (by assumption), Prog.StopsOn_bind _ ?_ ?_ _
      (findUserIDByUsername_stops lib c _)⟩
  · rintro o ⟨x, e⟩ h
    cases e with
    | none => exact absurd rfl h
    | some err => exact ⟨_, rfl, Or.inl rfl⟩
  · rintro ⟨x, e⟩
    cases e with
    | some err => exact trivial
    | none =>
      dsimp only
      split
      · exact trivial
      · exact resourceUserRead_stops lib c _

theorem resourceSecurityRuleCreate_stops (lib : Lib) (c : APIClient) (d : ResourceData) :
    (resourceSecurityRuleCreate lib c d).StopsOn Outcome.failed errorUnless404 := by
  unfold resourceSecurityRuleCreate http.NewRequest
  dsimp only
  repeat' first
    | split
    | exact trivial
    | (intro _; beta_reduce)
    | (refine Prog.stops_leaf _ _ (fun hb => ?_))
    | exact Or.inl rfl
    | exact absurd hb (by assumption)
    | fail
  all_goals
    refine ⟨fun hb => absurd hb (by assumption), Prog.StopsOn_bind _ ?_ ?_ _
      (lookupSecurityRuleIDByName_stops lib c _)⟩
  · rintro o ⟨x, e⟩ h
    cases e with
    | none => exact absurd rfl h
    | some err => exact ⟨_, rfl, Or.inl rfl⟩
  · rintro ⟨x, e⟩
    cases e with
    | some err => exact trivial
    | none => exact resourceSecurityRuleRead_stops lib c _

theorem resourcePolicyCreate_stops (lib : Lib) (c : APIClient) (d : ResourceData) :
    (resourcePolicyCreate lib c d).StopsOn Outcome.failed errorUnless404 := by
  unfold resourcePolicyCreate http.NewRequest
  dsimp only
  repeat' first
    | split
    | exact trivial
    | (intro _; beta_reduce)
    | (refine Prog.stops_leaf _ _ (fun hb => ?_))
    | exact Or.inl rfl
    | exact absurd hb (by assumption)
    | fail
  all_goals
    refine ⟨fun hb => absurd hb (by assumption), Prog.StopsOn_bind _ ?_ ?_ _
      (lookupPolicyIDByName_stops lib c _)⟩
  · intro o a h
    exact ⟨_, if_pos h, Or.inl h⟩
  · intro a
    dsimp only
    repeat' first
      | split
      | exact trivial
      | exact resourcePolicyRead_stops lib c _
      | fail

theorem forall_mem_nil_intro {α : Type} (P : α → Prop) : ∀ x ∈ ([] : List α), P x :=
  fun _ h => (List.not_mem_nil _ h).elim

theorem lifecycleFunctions_stops (lib : Lib) (c : APIClient) (d : ResourceData) :
    ∀ h ∈ lifecycleFunctions, (h lib c d).StopsOn Outcome.failed errorUnless404 := by
  unfold lifecycleFunctions
  simp only [List.forall_mem_cons]
  refine ⟨resourceGroupCreate_stops lib c d, resourceGroupRead_stops lib c d,
    resourceGroupDelete_stops lib c d, resourceGroupConfigurationUpdate_stops lib c d,
    resourceGroupConfigurationUpdate_stops lib c d, resourceGroupConfigurationRead_stops lib c d,
    trivial, resourceActiveResponseCreate_stops lib c d, trivial, trivial,
    resourceRuleDelete_stops lib c d, upsertRule_stops lib c d, upsertRule_stops lib c d,
    upsertRule_stops lib c d, resourceRuleRead_stops lib c d, resourceDecoderPut_stops lib c d,
    resourceDecoderPut_stops lib c d, resourceDecoderPut_stops lib c d,
    resourceDecoderRead_stops lib c d, resourceDecoderDelete_stops lib c d,
    resourceCDBListPut_stops lib c d, resourceCDBListPut_stops lib c d,
    resourceCDBListPut_stops lib c d, resourceCDBListRead_stops lib c d,
    resourceCDBListDelete_stops lib c d, resourceLogtestDelete_stops lib c d,
    resourceLogtestCreate_stops lib c d, trivial, trivial, resourceRootcheckDelete_stops lib c d,
    resourceRootcheckCreate_stops lib c d, resourceRootcheckRead_stops lib c d,
    resourceRootcheckCreate_stops lib c d, resourceSyscheckCreate_stops lib c d,
    resourceSyscheckRead_stops lib c d, resourceSyscheckDelete_stops lib c d,
    resourceRoleRead_stops lib c d, resourceRoleCreate_stops lib c d,
    resourceRoleUpdate_stops lib c d, resourceRoleDelete_stops lib c d,
    resourceRoleUserCreate_stops lib c d, trivial, resourceRoleUserUpdate_stops lib c d,
    resourceRoleUserDelete_stops lib c d, resourceAgentRead_stops lib c d,
    resourceAgentCreate_stops lib c d, resourceAgentDelete_stops lib c d,
    resourceUserRead_stops lib c d, resourceUserCreate_stops lib c d,
    resourceUserUpdate_stops lib c d, resourceUserDelete_stops lib c d,
    resourcePolicyRead_stops lib c d, resourcePolicyCreate_stops lib c d,
    resourcePolicyUpdate_stops lib c d, resourcePolicyDelete_stops lib c d,
    resourceSecurityRuleRead_stops lib c d, resourceSecurityRuleCreate_stops lib c d,
    resourceSecurityRuleUpdate_stops lib c d, resourceSecurityRuleDelete_stops lib c d,
    resourceSecurityConfigRead_stops lib c d, resourceSecurityConfigCreate_stops lib c d,
    resourceSecurityConfigCreate_stops lib c d, resourceSecurityConfigDelete_stops lib c d,
    resourceAgentNodeRestartCreate_stops lib c d, trivial, trivial,
    resourceAgentReconnectCreate_stops lib c d, trivial, trivial,
    resourceAgentRestartCreate_stops lib c d, trivial, trivial,
    resourceAgentRestartGroupCreate_stops lib c d, trivial, trivial,
    resourceAgentUpgradeCreate_stops lib c d, trivial, trivial,
    resourceAgentUpgradeCustomCreate_stops lib c d, trivial, trivial,
    resourceEventCreate_stops lib c d, trivial, trivial,
    upsertManagerConfiguration_stops lib c d, upsertManagerConfiguration_stops lib c d,
    upsertManagerConfiguration_stops lib c d, resourceManagerConfigurationRead_stops lib c d,
    trivial, resourceManagerRestartCreate_stops lib c d, trivial, trivial,
    resourceNodeAnalysisdReloadCreate_stops lib c d, trivial, trivial,
    resourceNodeConfigurationPut_stops lib c d, resourceNodeConfigurationPut_stops lib c d,
    resourceNodeConfigurationPut_stops lib c d, resourceNodeConfigurationRead_stops lib c d,
    trivial, resourceNodeRestartCreate_stops lib c d, trivial, trivial,
    resourceAgentGroupCreate_stops lib c d, trivial, resourceAgentGroupDelete_stops lib c d,
    resourcePolicyRoleCreate_stops lib c d, trivial, resourcePolicyRoleDelete_stops lib c d,
    resourceSecurityRuleRoleCreate_stops lib c d, trivial,
    resourceSecurityRuleRoleDelete_stops lib c d, forall_mem_nil_intro _⟩

theorem readDeleteFunctions_subset : ∀ h ∈ readDeleteFunctions, h ∈ lifecycleFunctions := by
  intro h hh
  simp only [readDeleteFunctions, List.mem_cons, List.mem_singleton, List.not_mem_nil,
    or_false] at hh
  rcases hh with rfl | rfl | rfl | rfl | rfl | rfl | rfl | rfl | rfl | rfl | rfl | rfl | rfl |
    rfl | rfl | rfl | rfl | rfl | rfl | rfl | rfl | rfl | rfl | rfl | rfl | rfl | rfl | rfl |
    rfl | rfl | rfl | rfl <;>
    simp [lifecycleFunctions]

theorem callRoleUserAssign_one (lib : Lib) (c : APIClient) (userID : String)
    (roleIDs : List String) (position : Int) (d : ResourceData) (tick : Nat) :
    (callRoleUserAssign lib c userID roleIDs position d tick).Leaves
      (fun n r => r.1.HasError = false → n = 1) := by
  unfold callRoleUserAssign http.NewRequest
  dsimp only
  repeat' first
    | split
    | exact fun h => Bool.noConfusion h
    | exact fun _ => rfl
    | (intro _; beta_reduce)
    | fail

theorem callRoleUserRemove_one (lib : Lib) (c : APIClient) (userID : String)
    (roleIDs : List String) (d : ResourceData) (tick : Nat) :
    (callRoleUserRemove lib c userID roleIDs d tick).Leaves
      (fun n r => r.1.HasError = false → n = 1) := by
  unfold callRoleUserRemove http.NewRequest
  dsimp only
  repeat' first
    | split
    | exact fun h => Bool.noConfusion h
    | exact fun _ => rfl
    | (intro _; beta_reduce)
    | fail

theorem findRoleIDByName_one (lib : Lib) (c : APIClient) (name : String) :
    (findRoleIDByName lib c name).Leaves (fun n r => r.2 = none → n = 1) := by
  unfold findRoleIDByName http.NewRequest
  dsimp only
  repeat' first
    | split
    | exact fun h => Option.noConfusion h
    | exact fun _ => rfl
    | (intro _; beta_reduce)
    | fail

theorem resourceRoleRead_one (lib : Lib) (c : APIClient) (d : ResourceData) (hid : d.Id ≠ "") :
    (resourceRoleRead lib c d).Leaves (fun n r => r.1.HasError = false → n = 1) := by
  unfold resourceRoleRead http.NewRequest
  dsimp only
  rw [if_neg hid]
  repeat' first
    | split
    | exact fun h => Bool.noConfusion h
    | exact fun _ => rfl
    | (intro _; beta_reduce)
    | fail

theorem leaves_after_helper (P R : Nat → Prop)
    (g : Diagnostics × ResourceData → Prog (Diagnostics × ResourceData))
    (p : Prog (Diagnostics × ResourceData))
    (hp : p.Leaves (fun n r => r.1.HasError = false → P n))
    (hg : ∀ r n, P n → (g r).Leaves (fun m q => q.1.HasError = false → R (n + m))) :
    (p.bind fun r => if r.1.HasError then .ret r else g r).Leaves
      (fun n r => r.1.HasError = false → R n) := by
  refine Prog.Leaves_bind _ p _ (Prog.Leaves_mono p _ _ ?_ hp)
  intro n a hPa
  by_cases h : a.1.HasError = true
  · rw [if_pos h]
    intro h2
    rw [h] at h2
    cases h2
  · rw [if_neg h]
    exact hg a n (hPa (by simpa using h))

theorem resourceRoleUserCreate_one (lib : Lib) (c : APIClient) (d : ResourceData) :
    (resourceRoleUserCreate lib c d).Leaves (fun n r => r.1.HasError = false → n = 1) := by
  unfold resourceRoleUserCreate
  dsimp only
  split
  · exact fun h => Bool.noConfusion h
  · split
    · exact fun h => Bool.noConfusion h
    · refine leaves_after_helper (fun n => n = 1) (fun n => n = 1) _ _
        (callRoleUserAssign_one _ _ _ _ _ _ _) ?_
      intro r n hn _
      exact hn

theorem resourceRoleUserDelete_atmost (lib : Lib) (c : APIClient) (d : ResourceData) :
    (resourceRoleUserDelete lib c d).Leaves (fun n r => r.1.HasError = false → n ≤ 1) := by
  unfold resourceRoleUserDelete
  dsimp only
  split
  · exact fun _ => Nat.zero_le _
  · split
    · exact fun _ => Nat.zero_le _
    · refine leaves_after_helper (fun n => n = 1) (fun n => n ≤ 1) _ _
        (callRoleUserRemove_one _ _ _ _ _ _) ?_
      intro r n hn _
      exact Nat.le_of_eq hn

theorem resourceRoleUserUpdateRemove_atmost (lib : Lib) (c : APIClient) (userID : String)
    (toRemove : List String) (d : ResourceData) :
    (resourceRoleUserUpdateRemove lib c userID toRemove d).Leaves
      (fun n r => r.1.HasError = false → n ≤ 1) := by
  unfold resourceRoleUserUpdateRemove
  split
  · refine leaves_after_helper (fun n => n = 1) (fun n => n ≤ 1) _ _
      (callRoleUserRemove_one _ _ _ _ _ _) ?_
    intro r n hn _
    exact Nat.le_of_eq hn
  · exact fun _ => Nat.zero_le _

theorem resourceRoleUserUpdate_atmost (lib : Lib) (c : APIClient) (d : ResourceData) :
    (resourceRoleUserUpdate lib c d).Leaves (fun n r => r.1.HasError = false → n ≤ 2) := by
  unfold resourceRoleUserUpdate
  dsimp only
  split
  · exact fun h => Bool.noConfusion h
  · split
    · split
      · refine leaves_after_helper (fun n => n = 1) (fun n => n ≤ 2) _ _
          (callRoleUserAssign_one _ _ _ _ _ _ _) ?_
        intro r n hn
        refine Prog.Leaves_mono _ _ _ ?_ (resourceRoleUserUpdateRemove_atmost _ _ _ _ _)
        intro m q hq hq2
        have := hq hq2
        omega
      · refine Prog.Leaves_mono _ _ _ ?_ (resourceRoleUserUpdateRemove_atmost _ _ _ _ _)
        intro m q hq hq2
        have := hq hq2
        omega
    · exact fun _ => Nat.zero_le _

theorem resourceRoleCreate_three (lib : Lib) (c : APIClient) (d : ResourceData) :
    (resourceRoleCreate lib c d).Leaves (fun n r => r.1.HasError = false → n = 3) := by
  unfold resourceRoleCreate http.NewRequest
  dsimp only
  repeat' first
    | split
    | exact fun h => Bool.noConfusion h
    | (intro _; beta_reduce)
    | fail
  all_goals
    refine Prog.Leaves_bind _ _ _ (Prog.Leaves_mono _ _ _ ?_ (findRoleIDByName_one lib c _))
  rintro n ⟨x, e⟩ hn
  cases e with
  | some err => exact fun h => Bool.noConfusion h
  | none =>
    have hn1 : n = 1 := hn rfl
    dsimp only
    split
    · exact fun h => Bool.noConfusion h
    · rename_i hx
      refine Prog.Leaves_mono _ _ _ ?_ (resourceRoleRead_one lib c _ hx)
      intro m q hq hq2
      have := hq hq2
      omega

theorem resourceRoleUpdate_count (lib : Lib) (c : APIClient) (d : ResourceData) :
    (resourceRoleUpdate lib c d).Leaves
      (fun n r => r.1.HasError = false → n = if d.HasChange "name" then 2 else 1) := by
  unfold resourceRoleUpdate http.NewRequest
  dsimp only
  by_cases hid : d.Id = ""
  · rw [if_pos hid]
    exact fun h => Bool.noConfusion h
  · rw [if_neg hid]
    by_cases hch : d.HasChange "name" = true
    · simp only [hch, if_true]
      repeat' first
        | split
        | exact fun h => Bool.noConfusion h
        | (intro _; beta_reduce)
        | fail
      all_goals
        refine Prog.Leaves_mono _ _ _ ?_ (resourceRoleRead_one lib c d hid)
        intro m q hq hq2
        have := hq hq2
        omega
    · simp only [hch]
      exact resourceRoleRead_one lib c d hid

theorem resourceGroupCreate_bearer (lib : Lib) (c : APIClient) (d : ResourceData) :
    (resourceGroupCreate lib c d).AllRequests (bearer c) := by
  unfold resourceGroupCreate http.NewRequest
  dsimp only
  repeat' first
    | split
    | intro _
    | (simp only [Prog.AllRequests]; constructor)
    | simp [Prog.AllRequests, bearer, Request.HeaderGet, Request.HeaderSet]

theorem resourceGroupRead_bearer (lib : Lib) (c : APIClient) (d : ResourceData) :
    (resourceGroupRead lib c d).AllRequests (bearer c) := by
  unfold resourceGroupRead http.NewRequest
  dsimp only
  repeat' first
    | split
    | intro _
    | (simp only [Prog.AllRequests]; constructor)
    | simp [Prog.AllRequests, bearer, Request.HeaderGet, Request.HeaderSet]

theorem resourceGroupDelete_bearer (lib : Lib) (c : APIClient) (d : ResourceData) :
    (resourceGroupDelete lib c d).AllRequests (bearer c) := by
  unfold resourceGroupDelete http.NewRequest
  dsimp only
  repeat' first
    | split
    | intro _
    | (simp only [Prog.AllRequests]; constructor)
    | simp [Prog.AllRequests, bearer, Request.HeaderGet, Request.HeaderSet]

theorem resourceGroupConfigurationUpdate_bearer (lib : Lib) (c : APIClient) (d : ResourceData) :
    (resourceGroupConfigurationUpdate lib c d).AllRequests (bearer c) := by
  unfold resourceGroupConfigurationUpdate http.NewRequest
  dsimp only
  repeat' first
    | split
    | intro _
    | (simp only [Prog.AllRequests]; constructor)
    | simp [Prog.AllRequests, bearer, Request.HeaderGet, Request.HeaderSet]

theorem resourceGroupConfigurationRead_bearer (lib : Lib) (c : APIClient) (d : ResourceData) :
    (resourceGroupConfigurationRead lib c d).AllRequests (bearer c) := by
  unfold resourceGroupConfigurationRead http.NewRequest
  dsimp only
  repeat' first
    | split
    | intro _
    | (simp only [Prog.AllRequests]; constructor)
    | simp [Prog.AllRequests, bearer, Request.HeaderGet, Request.HeaderSet]

theorem resourceActiveResponseCreate_bearer (lib : Lib) (c : APIClient) (d : ResourceData) :
    (resourceActiveResponseCreate lib c d).AllRequests (bearer c) := by
  unfold resourceActiveResponseCreate http.NewRequest
  dsimp only
  repeat' first
    | split
    | intro _
    | (simp only [Prog.AllRequests]; constructor)
    | simp [Prog.AllRequests, bearer, Request.HeaderGet, Request.HeaderSet]

theorem doRequest_bearer (lib : Lib) (c : APIClient) (method path : String) (body : Option Json) :
    (doRequest lib c method path body).AllRequests (bearer c) := by
  unfold doRequest doRequestSend http.NewRequest
  dsimp only
  repeat' first
    | split
    | intro _
    | (simp only [Prog.AllRequests]; constructor)
    | simp [Prog.AllRequests, bearer, Request.HeaderGet, Request.HeaderSet]

theorem bearer_not_basic (c : APIClient) (r : Request) (h : bearer c r) :
    r.hasBasicCredentials = false := by
  unfold bearer at h
  unfold Request.hasBasicCredentials
  rw [h]
  show List.isPrefixOf [(.ofNat 66 : Char), .ofNat 97, .ofNat 115, .ofNat 105, .ofNat 99, .ofNat 32]
    ([(.ofNat 66 : Char), .ofNat 101, .ofNat 97, .ofNat 114, .ofNat 101, .ofNat 114, .ofNat 32]
      ++ c.AuthToken.data) = false
  simp [List.isPrefixOf]

theorem authenticate_basic (lib : Lib) (c : APIClient) :
    (authenticate lib c).AllRequests (fun r =>
      r.HeaderGet "Authorization" = some ("Basic " ++ lib.base64 (c.User ++ ":" ++ c.Password))) := by
  unfold authenticate http.NewRequest
  dsimp only
  repeat' first
    | split
    | intro _
    | (simp only [Prog.AllRequests]; constructor)
    | simp [Prog.AllRequests, Request.HeaderGet, Request.HeaderSet, Request.SetBasicAuth]

theorem basic_has_credentials (r : Request) (v : String)
    (h : r.HeaderGet "Authorization" = some ("Basic " ++ v)) : r.hasBasicCredentials = true := by
  unfold Request.hasBasicCredentials
  rw [h]
  show List.isPrefixOf [(.ofNat 66 : Char), .ofNat 97, .ofNat 115, .ofNat 105, .ofNat 99, .ofNat 32]
    ([(.ofNat 66 : Char), .ofNat 97, .ofNat 115, .ofNat 105, .ofNat 99, .ofNat 32] ++ v.data) = true
  simp [List.isPrefixOf]

theorem registered_handlers_bearer (lib : Lib) (c : APIClient) (d : ResourceData) :
    ∀ kv ∈ Provider.ResourcesMap, ∀ h ∈ kv.2.handlers, (h lib c d).AllRequests (bearer c) := by
  intro kv hkv h hh
  simp only [Provider.ResourcesMap, List.mem_cons, List.mem_singleton, List.not_mem_nil,
    or_false] at hkv
  rcases hkv with rfl | rfl | rfl
  · simp only [Resource.handlers, resourceGroup, List.filterMap, id, List.mem_cons,
      List.mem_singleton, List.not_mem_nil, or_false] at hh
    rcases hh with rfl | rfl | rfl
    · exact resourceGroupCreate_bearer lib c d
    · exact resourceGroupRead_bearer lib c d
    · exact resourceGroupDelete_bearer lib c d
  · simp only [Resource.handlers, resourceGroupConfiguration, List.filterMap, id, List.mem_cons,
      List.mem_singleton, List.not_mem_nil, or_false] at hh
    rcases hh with rfl | rfl | rfl | rfl
    · exact resourceGroupConfigurationUpdate_bearer lib c d
    · exact resourceGroupConfigurationRead_bearer lib c d
    · exact resourceGroupConfigurationUpdate_bearer lib c d
    · trivial
  · simp only [Resource.handlers, resourceActiveResponse, List.filterMap, id, List.mem_cons,
      List.mem_singleton, List.not_mem_nil, or_false] at hh
    rcases hh with rfl | rfl | rfl | rfl
    · exact resourceActiveResponseCreate_bearer lib c d
    · trivial
    · trivial
    · trivial

/-- C3: every request sent by `doRequest` and by the Create, Read, Update and
Delete functions of the registered resources carries the header
`Authorization: Bearer <AuthToken>` and no basic credentials; the request built
by `authenticate` is the one that carries the basic credentials of `User` and
`Password`. -/
theorem authorization_header_discipline (lib : Lib) (c : APIClient) (t : Transport) :
    (∀ method path body, ∀ r ∈ (doRequest lib c method path body).requests t,
      r.HeaderGet "Authorization" = some ("Bearer " ++ c.AuthToken) ∧
        r.hasBasicCredentials = false) ∧
    (∀ kv ∈ Provider.ResourcesMap, ∀ h ∈ kv.2.handlers, ∀ d, ∀ r ∈ (h lib c d).requests t,
      r.HeaderGet "Authorization" = some ("Bearer " ++ c.AuthToken) ∧
        r.hasBasicCredentials = false) ∧
    (∀ r ∈ (authenticate lib c).requests t,
      r.HeaderGet "Authorization" = some ("Basic " ++ lib.base64 (c.User ++ ":" ++ c.Password)) ∧
        r.hasBasicCredentials = true) := by
  refine ⟨fun method path body r hr => ?_, fun kv hkv h hh d r hr => ?_, fun r hr => ?_⟩
  · have hb := (doRequest_bearer lib c method path body).requests t r hr
    exact ⟨hb, bearer_not_basic c r hb⟩
  · have hb := (registered_handlers_bearer lib c d kv hkv h hh).requests t r hr
    exact ⟨hb, bearer_not_basic c r hb⟩
  · have hb := (authenticate_basic lib c).requests t r hr
    exact ⟨hb, basic_has_credentials r _ hb⟩

theorem resourceGroupRead_result (lib : Lib) (c : APIClient) (d : ResourceData) (t : Transport)
    (resp : Response)
    (hbuild : lib.newRequestErr "GET" (c.Endpoint ++ "/groups?groups_list=" ++ d.Id) = none)
    (hdo : ∀ req, t [] req = .ok resp) (hread : resp.ReadErr = none) :
    (resourceGroupRead lib c d).result t =
      if resp.StatusCode = 404 then ([], d.SetId "")
      else if resp.StatusCode < 200 ∨ resp.StatusCode ≥ 300 then
        (diag.Errorf ("failed to read group '" ++ d.Id ++ "': status "
          ++ toString resp.StatusCode ++ ", body: " ++ resp.Body), d)
      else if (lib.unmarshalGroupRead resp.Body).2 ≠ none then
        (diag.Errorf ("failed to parse response: "
          ++ ((lib.unmarshalGroupRead resp.Body).2).getD ""), d)
      else if (lib.unmarshalGroupRead resp.Body).1.Error ≠ 0 ∨
          (lib.unmarshalGroupRead resp.Body).1.Data.TotalAffected = 0 then ([], d.SetId "")
      else ([], d.Set "group_id" (.str d.Id)) := by
  simp only [resourceGroupRead, http.NewRequest, hbuild, Prog.result, Prog.run, hdo, ioReadAll,
    hread]
  by_cases h1 : resp.StatusCode = 404
  · simp only [h1, if_true, Prog.run]
  · simp only [h1, if_false]
    by_cases h2 : resp.StatusCode < 200 ∨ resp.StatusCode ≥ 300
    · simp only [h2, if_true, Prog.run]
    · simp only [h2, if_false]
      rcases hdec : lib.unmarshalGroupRead resp.Body with ⟨res, e⟩
      cases e with
      | some err => simp [Prog.run]
      | none =>
        by_cases h3 : res.Error ≠ 0 ∨ res.Data.TotalAffected = 0
        · simp only [h3, if_true, Prog.run]
          simp
        · simp only [h3, if_false, Prog.run]
          simp

theorem ResourceData.GetString_Set (d : ResourceData) (key value : String) :
    (d.Set key (.str value)).GetString key = value := by
  simp [ResourceData.GetString, ResourceData.Get, ResourceData.Set, List.lookup]

/-- C8: once the response is read, `resourceGroupRead` clears the ID without
error exactly when the status is 404, or the status is 2xx and the decoded body
has `error != 0` or `data.total_affected_items == 0`; it returns an error and
leaves the ID unchanged exactly when the status is neither 2xx nor 404, or a
2xx body does not decode; in the remaining case it keeps the ID and sets
`group_id` to it. The request is `GET {endpoint}/groups?groups_list={id}`. -/
theorem resourceGroupRead_cases (lib : Lib) (c : APIClient) (d : ResourceData) (t : Transport)
    (resp : Response)
    (hbuild : lib.newRequestErr "GET" (c.Endpoint ++ "/groups?groups_list=" ++ d.Id) = none)
    (hdo : ∀ req, t [] req = .ok resp) (hread : resp.ReadErr = none) (hid : d.Id ≠ "") :
    (∃ req, (resourceGroupRead lib c d).requests t = [req] ∧ req.Method = "GET" ∧
      req.URL = c.Endpoint ++ "/groups?groups_list=" ++ d.Id) ∧
    ((((resourceGroupRead lib c d).result t).1.HasError = false ∧
        ((resourceGroupRead lib c d).result t).2.Id = "") ↔
      (resp.StatusCode = 404 ∨
        ((200 ≤ resp.StatusCode ∧ resp.StatusCode ≤ 299) ∧
          (lib.unmarshalGroupRead resp.Body).2 = none ∧
          ((lib.unmarshalGroupRead resp.Body).1.Error ≠ 0 ∨
            (lib.unmarshalGroupRead resp.Body).1.Data.TotalAffected = 0)))) ∧
    ((((resourceGroupRead lib c d).result t).1.HasError = true ∧
        ((resourceGroupRead lib c d).result t).2.Id = d.Id) ↔
      ((¬ (200 ≤ resp.StatusCode ∧ resp.StatusCode ≤ 299) ∧ resp.StatusCode ≠ 404) ∨
        ((200 ≤ resp.StatusCode ∧ resp.StatusCode ≤ 299) ∧
          (lib.unmarshalGroupRead resp.Body).2 ≠ none))) ∧
    ((200 ≤ resp.StatusCode ∧ resp.StatusCode ≤ 299) →
      (lib.unmarshalGroupRead resp.Body).2 = none →
      (lib.unmarshalGroupRead resp.Body).1.Error = 0 →
      (lib.unmarshalGroupRead resp.Body).1.Data.TotalAffected ≠ 0 →
      ((resourceGroupRead lib c d).result t).1.HasError = false ∧
        ((resourceGroupRead lib c d).result t).2.Id = d.Id ∧
        ((resourceGroupRead lib c d).result t).2.GetString "group_id" = d.Id) := by
  refine ⟨?_, ?_⟩
  · simp only [resourceGroupRead, http.NewRequest, hbuild, Prog.requests, Prog.trace, Prog.run,
      hdo, ioReadAll, hread]
    refine ⟨(⟨"GET", c.Endpoint ++ "/groups?groups_list=" ++ d.Id, [], none⟩ : Request).HeaderSet
      "Authorization" ("Bearer " ++ c.AuthToken), ?_, rfl, rfl⟩
    repeat' split
    all_goals simp [Prog.run, Request.HeaderSet, ResourceData.Id]
  rw [resourceGroupRead_result lib c d t resp hbuild hdo hread]
  have hid2 : ¬ (d.id = "") := hid
  by_cases h1 : resp.StatusCode = 404
  · simp [h1, Diagnostics.HasError, ResourceData.SetId, ResourceData.Id]
  · rw [if_neg h1]
    by_cases h2 : resp.StatusCode < 200 ∨ resp.StatusCode ≥ 300
    · have h2n : ¬ (200 ≤ resp.StatusCode ∧ resp.StatusCode ≤ 299) := fun hg => by omega
      simp [h1, h2, h2n, Diagnostics.HasError, diag.Errorf, ResourceData.Id]
    · have h2p : 200 ≤ resp.StatusCode ∧ resp.StatusCode ≤ 299 := ⟨by omega, by omega⟩
      rw [if_neg h2]
      by_cases h3 : (lib.unmarshalGroupRead resp.Body).2 ≠ none
      · rw [if_pos h3]
        simp [h1, h2p, h3, Diagnostics.HasError, diag.Errorf, ResourceData.Id]
      · rw [if_neg h3]
        have h3e : (lib.unmarshalGroupRead resp.Body).2 = none := not_not.mp h3
        by_cases h4 : (lib.unmarshalGroupRead resp.Body).1.Error ≠ 0 ∨
            (lib.unmarshalGroupRead resp.Body).1.Data.TotalAffected = 0
        · rw [if_pos h4]
          refine ⟨?_, ?_, ?_⟩
          · simp [h2p, h3e, h4, Diagnostics.HasError, ResourceData.SetId, ResourceData.Id]
          · simp [h1, h2p, h3e, Diagnostics.HasError]
          · intro _ _ he ht
            rcases h4 with h | h
            · exact absurd he h
            · exact absurd h ht
        · rw [if_neg h4]
          refine ⟨?_, ?_, ?_⟩
          · simp [h1, h2p, h3e, h4, Diagnostics.HasError, ResourceData.Set, ResourceData.Id, hid2]
          · simp [h1, h2p, h3e, Diagnostics.HasError]
          · intro _ _ _ _
            refine ⟨by simp [Diagnostics.HasError], by simp [ResourceData.Set, ResourceData.Id],
              ?_⟩
            exact ResourceData.GetString_Set d "group_id" d.Id

theorem expandStringList_eq (list : List (Option String)) :
    expandStringList list = (list.filterMap id).filter (fun s => s ≠ "") := by
  induction list with
  | nil => rfl
  | cons v rest ih =>
    cases v with
    | none => simpa [expandStringList] using ih
    | some s =>
      by_cases hs : s = ""
      · simpa [expandStringList, hs] using ih
      · simp only [expandStringList, ne_eq, List.filterMap_cons, hs, not_false_eq_true, if_true,
          id, List.filter_cons, decide_True]
        simp only [expandStringList, ne_eq] at ih
        rw [ih]

theorem joinComma_go (items : List String) :
    ∀ (n : Nat) (acc : String),
      (items.enumFrom (n + 1)).foldl
        (fun out iv => (if iv.1 > 0 then out ++ "," else out) ++ iv.2) acc =
      String.intercalate.go acc "," items := by
  induction items with
  | nil => intro n acc; rfl
  | cons a rest ih =>
    intro n acc
    simp only [List.enumFrom, List.foldl, String.intercalate.go]
    rw [ih (n + 1)]
    simp

theorem joinComma_eq (items : List String) : joinComma items = ",".intercalate items := by
  cases items with
  | nil => rfl
  | cons a rest =>
    simp only [joinComma, List.enum, List.enumFrom, List.foldl, String.intercalate]
    rw [joinComma_go rest 0]
    simp

/-- C7: no function retries or continues after a failure. In every run of
`authenticate`, of `doRequest` and of every lifecycle function of the package,
an exchange that ends in a transport error or in a status outside 200..299 is
the last exchange of the run; in particular a failed first
request of `resourceRoleUserUpdate` (the assign) or of `resourceRoleCreate` (the
POST) is followed by no request at all. -/
theorem no_request_after_failure (lib : Lib) (c : APIClient) (t : Transport) :
    (∀ pre x post, (authenticate lib c).trace t = pre ++ x :: post →
      Outcome.failed x.2 → post = []) ∧
    (∀ method path body pre x post,
      (doRequest lib c method path body).trace t = pre ++ x :: post →
      Outcome.failed x.2 → post = []) ∧
    (∀ h ∈ lifecycleFunctions, ∀ d pre x post, (h lib c d).trace t = pre ++ x :: post →
      Outcome.failed x.2 → post = []) ∧
    (∀ d x rest, (resourceRoleUserUpdate lib c d).trace t = x :: rest →
      Outcome.failed x.2 → rest = []) ∧
    (∀ d x rest, (resourceRoleCreate lib c d).trace t = x :: rest →
      Outcome.failed x.2 → rest = []) := by
  refine ⟨fun pre x post h hb => ?_, fun method path body pre x post h hb => ?_,
    fun h hh d pre x post htr hb => ?_, fun d x rest h hb => ?_, fun d x rest h hb => ?_⟩
  · exact (Prog.StopsOn_trace (authenticate_stops lib c) t pre x post h hb).1
  · exact (Prog.StopsOn_trace (doRequest_stops lib c method path body) t pre x post h hb).1
  · exact (Prog.StopsOn_trace (lifecycleFunctions_stops lib c d h hh) t pre x post htr hb).1
  · exact (Prog.StopsOn_trace (resourceRoleUserUpdate_stops lib c d) t [] x rest h hb).1
  · exact (Prog.StopsOn_trace (resourceRoleCreate_stops lib c d) t [] x rest h hb).1

/-- C4 fails as stated: `resourceGroupRead` answered with status 404, which
is outside 200..299, returns no error diagnostic. -/
theorem resourceGroupRead_404_is_not_error :
    ((resourceGroupRead sampleLib sampleClient sampleGroup).trace
        (answer ⟨404, "", none⟩)).map Prod.snd = [.ok ⟨404, "", none⟩] ∧
      ¬ (200 ≤ (404 : Int) ∧ (404 : Int) ≤ 299) ∧
      ((resourceGroupRead sampleLib sampleClient sampleGroup).result
        (answer ⟨404, "", none⟩)).1.HasError = false :=
  ⟨rfl, by decide, rfl⟩

theorem resourceGroupCreate_sends (lib : Lib) (c : APIClient) (d : ResourceData) :
    (resourceGroupCreate lib c d).Sends 1 1 := by
  unfold Prog.Sends resourceGroupCreate http.NewRequest
  dsimp only
  repeat' first
    | split
    | exact fun h => Bool.noConfusion h
    | exact fun _ => ⟨by decide, by decide⟩
    | (intro _; beta_reduce)
    | fail

theorem resourceGroupRead_sends (lib : Lib) (c : APIClient) (d : ResourceData) :
    (resourceGroupRead lib c d).Sends 1 1 := by
  unfold Prog.Sends resourceGroupRead http.NewRequest
  dsimp only
  repeat' first
    | split
    | exact fun h => Bool.noConfusion h
    | exact fun _ => ⟨by decide, by decide⟩
    | (intro _; beta_reduce)
    | fail

theorem resourceGroupDelete_sends (lib : Lib) (c : APIClient) (d : ResourceData) :
    (resourceGroupDelete lib c d).Sends 1 1 := by
  unfold Prog.Sends resourceGroupDelete http.NewRequest
  dsimp only
  repeat' first
    | split
    | exact fun h => Bool.noConfusion h
    | exact fun _ => ⟨by decide, by decide⟩
    | (intro _; beta_reduce)
    | fail

theorem resourceGroupConfigurationUpdate_sends (lib : Lib) (c : APIClient) (d : ResourceData) :
    (resourceGroupConfigurationUpdate lib c d).Sends 1 1 := by
  unfold Prog.Sends resourceGroupConfigurationUpdate http.NewRequest
  dsimp only
  repeat' first
    | split
    | exact fun h => Bool.noConfusion h
    | exact fun _ => ⟨by decide, by decide⟩
    | (intro _; beta_reduce)
    | fail

theorem resourceGroupConfigurationRead_sends (lib : Lib) (c : APIClient) (d : ResourceData) :
    (resourceGroupConfigurationRead lib c d).Sends 1 1 := by
  unfold Prog.Sends resourceGroupConfigurationRead http.NewRequest
  dsimp only
  repeat' first
    | split
    | exact fun h => Bool.noConfusion h
    | exact fun _ => ⟨by decide, by decide⟩
    | (intro _; beta_reduce)
    | fail

theorem resourceActiveResponseCreate_sends (lib : Lib) (c : APIClient) (d : ResourceData) :
    (resourceActiveResponseCreate lib c d).Sends 1 1 := by
  unfold Prog.Sends resourceActiveResponseCreate http.NewRequest
  dsimp only
  repeat' first
    | split
    | exact fun h => Bool.noConfusion h
    | exact fun _ => ⟨by decide, by decide⟩
    | (intro _; beta_reduce)
    | fail

theorem resourceRuleDelete_sends (lib : Lib) (c : APIClient) (d : ResourceData) :
    (resourceRuleDelete lib c d).Sends 1 1 := by
  unfold Prog.Sends resourceRuleDelete http.NewRequest
  dsimp only
  repeat' first
    | split
    | exact fun h => Bool.noConfusion h
    | exact fun _ => ⟨by decide, by decide⟩
    | (intro _; beta_reduce)
    | fail

theorem upsertRule_sends (lib : Lib) (c : APIClient) (d : ResourceData) :
    (upsertRule lib c d).Sends 1 1 := by
  unfold Prog.Sends upsertRule http.NewRequest
  dsimp only
  repeat' first
    | split
    | exact fun h => Bool.noConfusion h
    | exact fun _ => ⟨by decide, by decide⟩
    | (intro _; beta_reduce)
    | fail

theorem resourceRuleRead_sends (lib : Lib) (c : APIClient) (d : ResourceData) :
    (resourceRuleRead lib c d).Sends 1 1 := by
  unfold Prog.Sends resourceRuleRead http.NewRequest
  dsimp only
  repeat' first
    | split
    | exact fun h => Bool.noConfusion h
    | exact fun _ => ⟨by decide, by decide⟩
    | (intro _; beta_reduce)
    | fail

theorem resourceDecoderPut_sends (lib : Lib) (c : APIClient) (d : ResourceData) :
    (resourceDecoderPut lib c d).Sends 1 1 := by
  unfold Prog.Sends resourceDecoderPut http.NewRequest
  dsimp only
  repeat' first
    | split
    | exact fun h => Bool.noConfusion h
    | exact fun _ => ⟨by decide, by decide⟩
    | (intro _; beta_reduce)
    | fail

theorem resourceDecoderRead_sends (lib : Lib) (c : APIClient) (d : ResourceData) :
    (resourceDecoderRead lib c d).Sends 1 1 := by
  unfold Prog.Sends resourceDecoderRead http.NewRequest
  dsimp only
  repeat' first
    | split
    | exact fun h => Bool.noConfusion h
    | exact fun _ => ⟨by decide, by decide⟩
    | (intro _; beta_reduce)
    | fail

theorem resourceDecoderDelete_sends (lib : Lib) (c : APIClient) (d : ResourceData) :
    (resourceDecoderDelete lib c d).Sends 1 1 := by
  unfold Prog.Sends resourceDecoderDelete http.NewRequest
  dsimp only
  repeat' first
    | split
    | exact fun h => Bool.noConfusion h
    | exact fun _ => ⟨by decide, by decide⟩
    | (intro _; beta_reduce)
    | fail

theorem resourceCDBListPut_sends (lib : Lib) (c : APIClient) (d : ResourceData) :
    (resourceCDBListPut lib c d).Sends 1 1 := by
  unfold Prog.Sends resourceCDBListPut http.NewRequest
  dsimp only
  repeat' first
    | split
    | exact fun h => Bool.noConfusion h
    | exact fun _ => ⟨by decide, by decide⟩
    | (intro _; beta_reduce)
    | fail

theorem resourceCDBListRead_sends (lib : Lib) (c : APIClient) (d : ResourceData) :
    (resourceCDBListRead lib c d).Sends 1 1 := by
  unfold Prog.Sends resourceCDBListRead http.NewRequest
  dsimp only
  repeat' first
    | split
    | exact fun h => Bool.noConfusion h
    | exact fun _ => ⟨by decide, by decide⟩
    | (intro _; beta_reduce)
    | fail

theorem resourceCDBListDelete_sends (lib : Lib) (c : APIClient) (d : ResourceData) :
    (resourceCDBListDelete lib c d).Sends 1 1 := by
  unfold Prog.Sends resourceCDBListDelete http.NewRequest
  dsimp only
  repeat' first
    | split
    | exact fun h => Bool.noConfusion h
    | exact fun _ => ⟨by decide, by decide⟩
    | (intro _; beta_reduce)
    | fail

theorem resourceLogtestCreate_sends (lib : Lib) (c : APIClient) (d : ResourceData) :
    (resourceLogtestCreate lib c d).Sends 1 1 := by
  unfold Prog.Sends resourceLogtestCreate http.NewRequest
  dsimp only
  repeat' first
    | split
    | exact fun h => Bool.noConfusion h
    | exact fun _ => ⟨by decide, by decide⟩
    | (intro _; beta_reduce)
    | fail

theorem resourceRootcheckDelete_sends (lib : Lib) (c : APIClient) (d : ResourceData) :
    (resourceRootcheckDelete lib c d).Sends 1 1 := by
  unfold Prog.Sends resourceRootcheckDelete http.NewRequest
  dsimp only
  repeat' first
    | split
    | exact fun h => Bool.noConfusion h
    | exact fun _ => ⟨by decide, by decide⟩
    | (intro _; beta_reduce)
    | fail

theorem resourceRootcheckCreate_sends (lib : Lib) (c : APIClient) (d : ResourceData) :
    (resourceRootcheckCreate lib c d).Sends 1 1 := by
  unfold Prog.Sends resourceRootcheckCreate http.NewRequest
  dsimp only
  repeat' first
    | split
    | exact fun h => Bool.noConfusion h
    | exact fun _ => ⟨by decide, by decide⟩
    | (intro _; beta_reduce)
    | fail

theorem resourceRootcheckRead_sends (lib : Lib) (c : APIClient) (d : ResourceData) :
    (resourceRootcheckRead lib c d).Sends 1 1 := by
  unfold Prog.Sends resourceRootcheckRead http.NewRequest
  dsimp only
  repeat' first
    | split
    | exact fun h => Bool.noConfusion h
    | exact fun _ => ⟨by decide, by decide⟩
    | (intro _; beta_reduce)
    | fail

theorem resourceSyscheckCreate_sends (lib : Lib) (c : APIClient) (d : ResourceData) :
    (resourceSyscheckCreate lib c d).Sends 1 1 := by
  unfold Prog.Sends resourceSyscheckCreate http.NewRequest
  dsimp only
  repeat' first
    | split
    | exact fun h => Bool.noConfusion h
    | exact fun _ => ⟨by decide, by decide⟩
    | (intro _; beta_reduce)
    | fail

theorem resourceSyscheckRead_sends (lib : Lib) (c : APIClient) (d : ResourceData) :
    (resourceSyscheckRead lib c d).Sends 1 1 := by
  unfold Prog.Sends resourceSyscheckRead http.NewRequest
  dsimp only
  repeat' first
    | split
    | exact fun h => Bool.noConfusion h
    | exact fun _ => ⟨by decide, by decide⟩
    | (intro _; beta_reduce)
    | fail

theorem resourceSyscheckDelete_sends (lib : Lib) (c : APIClient) (d : ResourceData) :
    (resourceSyscheckDelete lib c d).Sends 1 1 := by
  unfold Prog.Sends resourceSyscheckDelete http.NewRequest
  dsimp only
  repeat' first
    | split
    | exact fun h => Bool.noConfusion h
    | exact fun _ => ⟨by decide, by decide⟩
    | (intro _; beta_reduce)
    | fail

theorem resourceSecurityConfigRead_sends (lib : Lib) (c : APIClient) (d : ResourceData) :
    (resourceSecurityConfigRead lib c d).Sends 1 1 := by
  unfold Prog.Sends resourceSecurityConfigRead http.NewRequest
  dsimp only
  repeat' first
    | split
    | exact fun h => Bool.noConfusion h
    | exact fun _ => ⟨by decide, by decide⟩
    | (intro _; beta_reduce)
    | fail

theorem resourceSecurityConfigDelete_sends (lib : Lib) (c : APIClient) (d : ResourceData) :
    (resourceSecurityConfigDelete lib c d).Sends 1 1 := by
  unfold Prog.Sends resourceSecurityConfigDelete http.NewRequest
  dsimp only
  repeat' first
    | split
    | exact fun h => Bool.noConfusion h
    | exact fun _ => ⟨by decide, by decide⟩
    | (intro _; beta_reduce)
    | fail

theorem resourceAgentNodeRestartCreate_sends (lib : Lib) (c : APIClient) (d : ResourceData) :
    (resourceAgentNodeRestartCreate lib c d).Sends 1 1 := by
  unfold Prog.Sends resourceAgentNodeRestartCreate http.NewRequest
  dsimp only
  repeat' first
    | split
    | exact fun h => Bool.noConfusion h
    | exact fun _ => ⟨by decide, by decide⟩
    | (intro _; beta_reduce)
    | fail

theorem resourceAgentReconnectCreate_sends (lib : Lib) (c : APIClient) (d : ResourceData) :
    (resourceAgentReconnectCreate lib c d).Sends 1 1 := by
  unfold Prog.Sends resourceAgentReconnectCreate http.NewRequest
  dsimp only
  repeat' first
    | split
    | exact fun h => Bool.noConfusion h
    | exact fun _ => ⟨by decide, by decide⟩
    | (intro _; beta_reduce)
    | fail

theorem resourceAgentRestartCreate_sends (lib : Lib) (c : APIClient) (d : ResourceData) :
    (resourceAgentRestartCreate lib c d).Sends 1 1 := by
  unfold Prog.Sends resourceAgentRestartCreate http.NewRequest
  dsimp only
  repeat' first
    | split
    | exact fun h => Bool.noConfusion h
    | exact fun _ => ⟨by decide, by decide⟩
    | (intro _; beta_reduce)
    | fail

theorem resourceAgentRestartGroupCreate_sends (lib : Lib) (c : APIClient) (d : ResourceData) :
    (resourceAgentRestartGroupCreate lib c d).Sends 1 1 := by
  unfold Prog.Sends resourceAgentRestartGroupCreate http.NewRequest
  dsimp only
  repeat' first
    | split
    | exact fun h => Bool.noConfusion h
    | exact fun _ => ⟨by decide, by decide⟩
    | (intro _; beta_reduce)
    | fail

theorem resourceAgentUpgradeCreate_sends (lib : Lib) (c : APIClient) (d : ResourceData) :
    (resourceAgentUpgradeCreate lib c d).Sends 1 1 := by
  unfold Prog.Sends resourceAgentUpgradeCreate http.NewRequest
  dsimp only
  repeat' first
    | split
    | exact fun h => Bool.noConfusion h
    | exact fun _ => ⟨by decide, by decide⟩
    | (intro _; beta_reduce)
    | fail

theorem resourceAgentUpgradeCustomCreate_sends (lib : Lib) (c : APIClient) (d : ResourceData) :
    (resourceAgentUpgradeCustomCreate lib c d).Sends 1 1 := by
  unfold Prog.Sends resourceAgentUpgradeCustomCreate http.NewRequest
  dsimp only
  repeat' first
    | split
    | exact fun h => Bool.noConfusion h
    | exact fun _ => ⟨by decide, by decide⟩
    | (intro _; beta_reduce)
    | fail

theorem resourceEventCreate_sends (lib : Lib) (c : APIClient) (d : ResourceData) :
    (resourceEventCreate lib c d).Sends 1 1 := by
  unfold Prog.Sends resourceEventCreate http.NewRequest
  dsimp only
  repeat' first
    | split
    | exact fun h => Bool.noConfusion h
    | exact fun _ => ⟨by decide, by decide⟩
    | (intro _; beta_reduce)
    | fail

theorem upsertManagerConfiguration_sends (lib : Lib) (c : APIClient) (d : ResourceData) :
    (upsertManagerConfiguration lib c d).Sends 1 1 := by
  unfold Prog.Sends upsertManagerConfiguration http.NewRequest
  dsimp only
  repeat' first
    | split
    | exact fun h => Bool.noConfusion h
    | exact fun _ => ⟨by decide, by decide⟩
    | (intro _; beta_reduce)
    | fail

theorem resourceManagerConfigurationRead_sends (lib : Lib) (c : APIClient) (d : ResourceData) :
    (resourceManagerConfigurationRead lib c d).Sends 1 1 := by
  unfold Prog.Sends resourceManagerConfigurationRead http.NewRequest
  dsimp only
  repeat' first
    | split
    | exact fun h => Bool.noConfusion h
    | exact fun _ => ⟨by decide, by decide⟩
    | (intro _; beta_reduce)
    | fail

theorem resourceManagerRestartCreate_sends (lib : Lib) (c : APIClient) (d : ResourceData) :
    (resourceManagerRestartCreate lib c d).Sends 1 1 := by
  unfold Prog.Sends resourceManagerRestartCreate http.NewRequest
  dsimp only
  repeat' first
    | split
    | exact fun h => Bool.noConfusion h
    | exact fun _ => ⟨by decide, by decide⟩
    | (intro _; beta_reduce)
    | fail

theorem resourceNodeAnalysisdReloadCreate_sends (lib : Lib) (c : APIClient) (d : ResourceData) :
    (resourceNodeAnalysisdReloadCreate lib c d).Sends 1 1 := by
  unfold Prog.Sends resourceNodeAnalysisdReloadCreate http.NewRequest
  dsimp only
  repeat' first
    | split
    | exact fun h => Bool.noConfusion h
    | exact fun _ => ⟨by decide, by decide⟩
    | (intro _; beta_reduce)
    | fail

theorem resourceNodeConfigurationPut_sends (lib : Lib) (c : APIClient) (d : ResourceData) :
    (resourceNodeConfigurationPut lib c d).Sends 1 1 := by
  unfold Prog.Sends resourceNodeConfigurationPut http.NewRequest
  dsimp only
  repeat' first
    | split
    | exact fun h => Bool.noConfusion h
    | exact fun _ => ⟨by decide, by decide⟩
    | (intro _; beta_reduce)
    | fail

theorem resourceNodeConfigurationRead_sends (lib : Lib) (c : APIClient) (d : ResourceData) :
    (resourceNodeConfigurationRead lib c d).Sends 1 1 := by
  unfold Prog.Sends resourceNodeConfigurationRead http.NewRequest
  dsimp only
  repeat' first
    | split
    | exact fun h => Bool.noConfusion h
    | exact fun _ => ⟨by decide, by decide⟩
    | (intro _; beta_reduce)
    | fail

theorem resourceNodeRestartCreate_sends (lib : Lib) (c : APIClient) (d : ResourceData) :
    (resourceNodeRestartCreate lib c d).Sends 1 1 := by
  unfold Prog.Sends resourceNodeRestartCreate http.NewRequest
  dsimp only
  repeat' first
    | split
    | exact fun h => Bool.noConfusion h
    | exact fun _ => ⟨by decide, by decide⟩
    | (intro _; beta_reduce)
    | fail

theorem resourceAgentGroupCreate_sends (lib : Lib) (c : APIClient) (d : ResourceData) :
    (resourceAgentGroupCreate lib c d).Sends 1 1 := by
  unfold Prog.Sends resourceAgentGroupCreate http.NewRequest
  dsimp only
  repeat' first
    | split
    | exact fun h => Bool.noConfusion h
    | exact fun _ => ⟨by decide, by decide⟩
    | (intro _; beta_reduce)
    | fail

theorem resourcePolicyRoleCreate_sends (lib : Lib) (c : APIClient) (d : ResourceData) :
    (resourcePolicyRoleCreate lib c d).Sends 1 1 := by
  unfold Prog.Sends resourcePolicyRoleCreate http.NewRequest
  dsimp only
  repeat' first
    | split
    | exact fun h => Bool.noConfusion h
    | exact fun _ => ⟨by decide, by decide⟩
    | (intro _; beta_reduce)
    | fail

theorem resourceSecurityRuleRoleCreate_sends (lib : Lib) (c : APIClient) (d : ResourceData) :
    (resourceSecurityRuleRoleCreate lib c d).Sends 1 1 := by
  unfold Prog.Sends resourceSecurityRuleRoleCreate http.NewRequest
  dsimp only
  repeat' first
    | split
    | exact fun h => Bool.noConfusion h
    | exact fun _ => ⟨by decide, by decide⟩
    | (intro _; beta_reduce)
    | fail

theorem resourceLogtestDelete_sends (lib : Lib) (c : APIClient) (d : ResourceData) :
    (resourceLogtestDelete lib c d).Sends 0 1 := by
  unfold Prog.Sends resourceLogtestDelete http.NewRequest
  dsimp only
  repeat' first
    | split
    | exact fun h => Bool.noConfusion h
    | exact fun _ => ⟨by decide, by decide⟩
    | (intro _; beta_reduce)
    | fail

theorem resourceRoleRead_sends (lib : Lib) (c : APIClient) (d : ResourceData) :
    (resourceRoleRead lib c d).Sends 0 1 := by
  unfold Prog.Sends resourceRoleRead http.NewRequest
  dsimp only
  repeat' first
    | split
    | exact fun h => Bool.noConfusion h
    | exact fun _ => ⟨by decide, by decide⟩
    | (intro _; beta_reduce)
    | fail

theorem resourceRoleDelete_sends (lib : Lib) (c : APIClient) (d : ResourceData) :
    (resourceRoleDelete lib c d).Sends 0 1 := by
  unfold Prog.Sends resourceRoleDelete http.NewRequest
  dsimp only
  repeat' first
    | split
    | exact fun h => Bool.noConfusion h
    | exact fun _ => ⟨by decide, by decide⟩
    | (intro _; beta_reduce)
    | fail

theorem resourceAgentRead_sends (lib : Lib) (c : APIClient) (d : ResourceData) :
    (resourceAgentRead lib c d).Sends 0 1 := by
  unfold Prog.Sends resourceAgentRead http.NewRequest
  dsimp only
  repeat' first
    | split
    | exact fun h => Bool.noConfusion h
    | exact fun _ => ⟨by decide, by decide⟩
    | (intro _; beta_reduce)
    | fail

theorem resourceAgentDelete_sends (lib : Lib) (c : APIClient) (d : ResourceData) :
    (resourceAgentDelete lib c d).Sends 0 1 := by
  unfold Prog.Sends resourceAgentDelete http.NewRequest
  dsimp only
  repeat' first
    | split
    | exact fun h => Bool.noConfusion h
    | exact fun _ => ⟨by decide, by decide⟩
    | (intro _; beta_reduce)
    | fail

theorem resourceUserRead_sends (lib : Lib) (c : APIClient) (d : ResourceData) :
    (resourceUserRead lib c d).Sends 0 1 := by
  unfold Prog.Sends resourceUserRead http.NewRequest
  dsimp only
  repeat' first
    | split
    | exact fun h => Bool.noConfusion h
    | exact fun _ => ⟨by decide, by decide⟩
    | (intro _; beta_reduce)
    | fail

theorem resourceUserDelete_sends (lib : Lib) (c : APIClient) (d : ResourceData) :
    (resourceUserDelete lib c d).Sends 0 1 := by
  unfold Prog.Sends resourceUserDelete http.NewRequest
  dsimp only
  repeat' first
    | split
    | exact fun h => Bool.noConfusion h
    | exact fun _ => ⟨by decide, by decide⟩
    | (intro _; beta_reduce)
    | fail

theorem resourcePolicyRead_sends (lib : Lib) (c : APIClient) (d : ResourceData) :
    (resourcePolicyRead lib c d).Sends 0 1 := by
  unfold Prog.Sends resourcePolicyRead http.NewRequest
  dsimp only
  repeat' first
    | split
    | exact fun h => Bool.noConfusion h
    | exact fun _ => ⟨by decide, by decide⟩
    | (intro _; beta_reduce)
    | fail

theorem resourcePolicyDelete_sends (lib : Lib) (c : APIClient) (d : ResourceData) :
    (resourcePolicyDelete lib c d).Sends 0 1 := by
  unfold Prog.Sends resourcePolicyDelete http.NewRequest
  dsimp only
  repeat' first
    | split
    | exact fun h => Bool.noConfusion h
    | exact fun _ => ⟨by decide, by decide⟩
    | (intro _; beta_reduce)
    | fail

theorem resourceSecurityRuleRead_sends (lib : Lib) (c : APIClient) (d : ResourceData) :
    (resourceSecurityRuleRead lib c d).Sends 0 1 := by
  unfold Prog.Sends resourceSecurityRuleRead http.NewRequest
  dsimp only
  repeat' first
    | split
    | exact fun h => Bool.noConfusion h
    | exact fun _ => ⟨by decide, by decide⟩
    | (intro _; beta_reduce)
    | fail

theorem resourceSecurityRuleDelete_sends (lib : Lib) (c : APIClient) (d : ResourceData) :
    (resourceSecurityRuleDelete lib c d).Sends 0 1 := by
  unfold Prog.Sends resourceSecurityRuleDelete http.NewRequest
  dsimp only
  repeat' first
    | split
    | exact fun h => Bool.noConfusion h
    | exact fun _ => ⟨by decide, by decide⟩
    | (intro _; beta_reduce)
    | fail

theorem resourcePolicyRoleDelete_sends (lib : Lib) (c : APIClient) (d : ResourceData) :
    (resourcePolicyRoleDelete lib c d).Sends 0 1 := by
  unfold Prog.Sends resourcePolicyRoleDelete http.NewRequest
  dsimp only
  repeat' first
    | split
    | exact fun h => Bool.noConfusion h
    | exact fun _ => ⟨by decide, by decide⟩
    | (intro _; beta_reduce)
    | fail

theorem resourceSecurityRuleRoleDelete_sends (lib : Lib) (c : APIClient) (d : ResourceData) :
    (resourceSecurityRuleRoleDelete lib c d).Sends 0 1 := by
  unfold Prog.Sends resourceSecurityRuleRoleDelete http.NewRequest
  dsimp only
  repeat' first
    | split
    | exact fun h => Bool.noConfusion h
    | exact fun _ => ⟨by decide, by decide⟩
    | (intro _; beta_reduce)
    | fail

theorem resourceAgentGroupDeleteSend_sends (lib : Lib) (c : APIClient) (d : ResourceData)
    (agentID groupID urlStr : String) :
    (resourceAgentGroupDeleteSend lib c d agentID groupID urlStr).Sends 1 1 := by
  unfold Prog.Sends resourceAgentGroupDeleteSend http.NewRequest
  dsimp only
  repeat' first
    | split
    | exact fun h => Bool.noConfusion h
    | exact fun _ => ⟨by decide, by decide⟩
    | (intro _; beta_reduce)
    | fail

theorem resourceAgentRead_one (lib : Lib) (c : APIClient) (d : ResourceData) (hid : d.Id ≠ "") :
    (resourceAgentRead lib c d).Leaves (fun n r => r.1.HasError = false → n = 1) := by
  unfold resourceAgentRead http.NewRequest
  dsimp only
  rw [if_neg hid]
  repeat' first
    | split
    | exact fun h => Bool.noConfusion h
    | exact fun _ => rfl
    | (intro _; beta_reduce)
    | fail

theorem resourceUserRead_one (lib : Lib) (c : APIClient) (d : ResourceData) (hid : d.Id ≠ "") :
    (resourceUserRead lib c d).Leaves (fun n r => r.1.HasError = false → n = 1) := by
  unfold resourceUserRead http.NewRequest
  dsimp only
  rw [if_neg hid]
  repeat' first
    | split
    | exact fun h => Bool.noConfusion h
    | exact fun _ => rfl
    | (intro _; beta_reduce)
    | fail

theorem resourcePolicyRead_one (lib : Lib) (c : APIClient) (d : ResourceData) (hid : d.Id ≠ "") :
    (resourcePolicyRead lib c d).Leaves (fun n r => r.1.HasError = false → n = 1) := by
  unfold resourcePolicyRead http.NewRequest
  dsimp only
  rw [if_neg hid]
  repeat' first
    | split
    | exact fun h => Bool.noConfusion h
    | exact fun _ => rfl
    | (intro _; beta_reduce)
    | fail

theorem resourceSecurityRuleRead_one (lib : Lib) (c : APIClient) (d : ResourceData)
    (hid : d.Id ≠ "") :
    (resourceSecurityRuleRead lib c d).Leaves (fun n r => r.1.HasError = false → n = 1) := by
  unfold resourceSecurityRuleRead http.NewRequest
  dsimp only
  rw [if_neg hid]
  repeat' first
    | split
    | exact fun h => Bool.noConfusion h
    | exact fun _ => rfl
    | (intro _; beta_reduce)
    | fail

theorem findUserIDByUsername_one (lib : Lib) (c : APIClient) (name : String) :
    (findUserIDByUsername lib c name).Leaves (fun n r => r.2 = none → n = 1) := by
  unfold findUserIDByUsername http.NewRequest
  dsimp only
  repeat' first
    | split
    | exact fun h => Option.noConfusion h
    | exact fun _ => rfl
    | (intro _; beta_reduce)
    | fail

theorem lookupSecurityRuleIDByName_one (lib : Lib) (c : APIClient) (name : String) :
    (lookupSecurityRuleIDByName lib c name).Leaves (fun n r => r.2 = none → n = 1) := by
  unfold lookupSecurityRuleIDByName http.NewRequest
  dsimp only
  repeat' first
    | split
    | exact fun h => Option.noConfusion h
    | exact fun _ => rfl
    | (intro _; beta_reduce)
    | fail

theorem lookupPolicyIDByName_one (lib : Lib) (c : APIClient) (name : String) :
    (lookupPolicyIDByName lib c name).Leaves (fun n r => r.2.HasError = false → n = 1) := by
  unfold lookupPolicyIDByName http.NewRequest
  dsimp only
  repeat' first
    | split
    | exact fun h => Bool.noConfusion h
    | exact fun _ => rfl
    | (intro _; beta_reduce)
    | fail

theorem resourceAgentCreate_sends (lib : Lib) (c : APIClient) (d : ResourceData) :
    (resourceAgentCreate lib c d).Sends 2 2 := by
  unfold Prog.Sends resourceAgentCreate http.NewRequest
  dsimp only
  repeat' first
    | split
    | exact fun h => Bool.noConfusion h
    | (intro _; beta_reduce)
    | fail
  all_goals
    refine Prog.Leaves_mono _ _ _ ?_ (resourceAgentRead_one lib c _ (by assumption))
    intro m q hq hq2
    have := hq hq2
    omega

theorem resourceUserUpdate_sends (lib : Lib) (c : APIClient) (d : ResourceData) :
    (resourceUserUpdate lib c d).Sends 1 2 := by
  unfold Prog.Sends resourceUserUpdate http.NewRequest
  dsimp only
  repeat' first
    | split
    | exact fun h => Bool.noConfusion h
    | (intro _; beta_reduce)
    | fail
  all_goals
    refine Prog.Leaves_mono _ _ _ ?_ (resourceUserRead_one lib c _ (by assumption))
    intro m q hq hq2
    have := hq hq2
    omega

theorem resourceSecurityConfigCreate_sends (lib : Lib) (c : APIClient) (d : ResourceData) :
    (resourceSecurityConfigCreate lib c d).Sends 1 1 := by
  unfold Prog.Sends resourceSecurityConfigCreate http.NewRequest
  dsimp only
  repeat' first
    | split
    | exact fun h => Bool.noConfusion h
    | exact fun _ => ⟨by decide, by decide⟩
    | exact resourceSecurityConfigRead_sends lib c _
    | (intro _; beta_reduce)
    | fail

theorem resourcePolicyUpdateSend_sends (lib : Lib) (c : APIClient) (d : ResourceData)
    (policyID : String) (payload : List (String × Json)) (hid : d.Id ≠ "") :
    (resourcePolicyUpdateSend lib c d policyID payload).Sends 1 2 := by
  unfold Prog.Sends resourcePolicyUpdateSend http.NewRequest
  dsimp only
  repeat' first
    | split
    | exact fun h => Bool.noConfusion h
    | (intro _; beta_reduce)
    | fail
  all_goals
    refine Prog.Leaves_mono _ _ _ ?_ (resourcePolicyRead_one lib c _ hid)
    intro m q hq hq2
    have := hq hq2
    omega

theorem resourcePolicyUpdatePolicy_sends (lib : Lib) (c : APIClient) (d : ResourceData)
    (policyID : String) (payload : List (String × Json)) (hid : d.Id ≠ "") :
    (resourcePolicyUpdatePolicy lib c d policyID payload).Sends 1 2 := by
  unfold resourcePolicyUpdatePolicy
  dsimp only
  repeat' first
    | split
    | exact fun h => Bool.noConfusion h
    | exact resourcePolicyUpdateSend_sends lib c d _ _ hid
    | fail

theorem resourcePolicyUpdate_sends (lib : Lib) (c : APIClient) (d : ResourceData) :
    (resourcePolicyUpdate lib c d).Sends 1 2 := by
  unfold resourcePolicyUpdate
  dsimp only
  repeat' first
    | split
    | exact fun h => Bool.noConfusion h
    | exact resourcePolicyUpdatePolicy_sends lib c d _ _ (by assumption)
    | fail

theorem resourceSecurityRuleUpdateSend_sends (lib : Lib) (c : APIClient) (d : ResourceData)
    (id : String) (payload : List (String × Json)) (hid : d.Id ≠ "") :
    (resourceSecurityRuleUpdateSend lib c d id payload).Sends 1 2 := by
  unfold Prog.Sends resourceSecurityRuleUpdateSend http.NewRequest
  dsimp only
  repeat' first
    | split
    | exact fun h => Bool.noConfusion h
    | (intro _; beta_reduce)
    | fail
  all_goals
    refine Prog.Leaves_mono _ _ _ ?_ (resourceSecurityRuleRead_one lib c _ hid)
    intro m q hq hq2
    have := hq hq2
    omega

theorem resourceSecurityRuleUpdate_sends (lib : Lib) (c : APIClient) (d : ResourceData) :
    (resourceSecurityRuleUpdate lib c d).Sends 1 2 := by
  unfold resourceSecurityRuleUpdate
  dsimp only
  repeat' first
    | split
    | exact fun h => Bool.noConfusion h
    | exact resourceSecurityRuleUpdateSend_sends lib c d _ _ (by assumption)
    | fail

theorem resourceAgentGroupDelete_sends (lib : Lib) (c : APIClient) (d : ResourceData) :
    (resourceAgentGroupDelete lib c d).Sends 0 1 := by
  unfold resourceAgentGroupDelete
  dsimp only
  repeat' first
    | split
    | exact fun h => Bool.noConfusion h
    | exact fun _ => ⟨by decide, by decide⟩
    | exact Prog.Leaves_mono _ _ _ (fun n r h hr => ⟨Nat.zero_le _, (h hr).2⟩)
        (resourceAgentGroupDeleteSend_sends lib c d _ _ _)
    | fail

theorem resourceUserCreate_sends (lib : Lib) (c : APIClient) (d : ResourceData) :
    (resourceUserCreate lib c d).Sends 3 3 := by
  unfold Prog.Sends resourceUserCreate http.NewRequest
  dsimp only
  repeat' first
    | split
    | exact fun h => Bool.noConfusion h
    | (intro _; beta_reduce)
    | fail
  all_goals
    refine Prog.Leaves_bind _ _ _ (Prog.Leaves_mono _ _ _ ?_ (findUserIDByUsername_one lib c _))
  rintro n ⟨x, e⟩ hn
  cases e with
  | some err => exact fun h => Bool.noConfusion h
  | none =>
    have hn1 : n = 1 := hn rfl
    dsimp only
    split
    · exact fun h => Bool.noConfusion h
    · rename_i hx
      refine Prog.Leaves_mono _ _ _ ?_ (resourceUserRead_one lib c _ hx)
      intro m q hq hq2
      have := hq hq2
      omega

theorem resourceSecurityRuleCreate_sends (lib : Lib) (c : APIClient) (d : ResourceData) :
    (resourceSecurityRuleCreate lib c d).Sends 2 3 := by
  unfold Prog.Sends resourceSecurityRuleCreate http.NewRequest
  dsimp only
  repeat' first
    | split
    | exact fun h => Bool.noConfusion h
    | (intro _; beta_reduce)
    | fail
  all_goals
    refine Prog.Leaves_bind _ _ _
      (Prog.Leaves_mono _ _ _ ?_ (lookupSecurityRuleIDByName_one lib c _))
  rintro n ⟨x, e⟩ hn
  cases e with
  | some err => exact fun h => Bool.noConfusion h
  | none =>
    have hn1 : n = 1 := hn rfl
    dsimp only
    refine Prog.Leaves_mono _ _ _ ?_ (resourceSecurityRuleRead_sends lib c _)
    intro m q hq hq2
    have := hq hq2
    omega

theorem resourcePolicyCreate_sends (lib : Lib) (c : APIClient) (d : ResourceData) :
    (resourcePolicyCreate lib c d).Sends 3 3 := by
  unfold Prog.Sends resourcePolicyCreate http.NewRequest
  dsimp only
  repeat' first
    | split
    | exact fun h => Bool.noConfusion h
    | (intro _; beta_reduce)
    | fail
  all_goals
    refine Prog.Leaves_bind _ _ _
      (Prog.Leaves_mono _ _ _ ?_ (lookupPolicyIDByName_one lib c _))
  intro n found hn
  dsimp only
  split
  · rename_i hf
    intro h2
    exact absurd hf (by simpa using h2)
  · rename_i hf
    have hn1 : n = 1 := hn (by simpa using hf)
    split
    · exact fun h => Bool.noConfusion h
    · rename_i hx
      refine Prog.Leaves_mono _ _ _ ?_ (resourcePolicyRead_one lib c _ hx)
      intro m q hq hq2
      have := hq hq2
      omega

theorem resourceRoleCreate_sends (lib : Lib) (c : APIClient) (d : ResourceData) :
    (resourceRoleCreate lib c d).Sends 3 3 :=
  Prog.Leaves_mono _ _ _ (fun n r h hr => by have := h hr; omega)
    (resourceRoleCreate_three lib c d)

theorem resourceRoleUpdate_sends (lib : Lib) (c : APIClient) (d : ResourceData) :
    (resourceRoleUpdate lib c d).Sends 1 2 :=
  Prog.Leaves_mono _ _ _ (fun n r h hr => by have := h hr; split at this <;> omega)
    (resourceRoleUpdate_count lib c d)

theorem resourceRoleUserCreate_sends (lib : Lib) (c : APIClient) (d : ResourceData) :
    (resourceRoleUserCreate lib c d).Sends 1 1 :=
  Prog.Leaves_mono _ _ _ (fun n r h hr => by have := h hr; omega)
    (resourceRoleUserCreate_one lib c d)

theorem resourceRoleUserUpdate_sends (lib : Lib) (c : APIClient) (d : ResourceData) :
    (resourceRoleUserUpdate lib c d).Sends 0 2 :=
  Prog.Leaves_mono _ _ _ (fun n r h hr => by have := h hr; omega)
    (resourceRoleUserUpdate_atmost lib c d)

theorem resourceRoleUserDelete_sends (lib : Lib) (c : APIClient) (d : ResourceData) :
    (resourceRoleUserDelete lib c d).Sends 0 1 :=
  Prog.Leaves_mono _ _ _ (fun n r h hr => by have := h hr; omega)
    (resourceRoleUserDelete_atmost lib c d)

theorem Prog.Sends_ret (r : Diagnostics × ResourceData) : (Prog.ret r).Sends 0 0 :=
  fun _ => ⟨Nat.le_refl _, Nat.le_refl _⟩

theorem requestBounds_sends (lib : Lib) (c : APIClient) (d : ResourceData) :
    ∀ e ∈ requestBounds, (e.1 lib c d).Sends e.2.1 e.2.2 := by
  unfold requestBounds
  simp only [List.forall_mem_cons]
  refine ⟨resourceGroupCreate_sends lib c d, resourceGroupRead_sends lib c d,
    resourceGroupDelete_sends lib c d, resourceGroupConfigurationUpdate_sends lib c d,
    resourceGroupConfigurationUpdate_sends lib c d, resourceGroupConfigurationRead_sends lib c d,
    Prog.Sends_ret _, resourceActiveResponseCreate_sends lib c d, Prog.Sends_ret _,
    Prog.Sends_ret _, resourceRuleDelete_sends lib c d, upsertRule_sends lib c d,
    upsertRule_sends lib c d, upsertRule_sends lib c d, resourceRuleRead_sends lib c d,
    resourceDecoderPut_sends lib c d, resourceDecoderPut_sends lib c d,
    resourceDecoderPut_sends lib c d, resourceDecoderRead_sends lib c d,
    resourceDecoderDelete_sends lib c d, resourceCDBListPut_sends lib c d,
    resourceCDBListPut_sends lib c d, resourceCDBListPut_sends lib c d,
    resourceCDBListRead_sends lib c d, resourceCDBListDelete_sends lib c d,
    resourceLogtestDelete_sends lib c d, resourceLogtestCreate_sends lib c d, Prog.Sends_ret _,
    Prog.Sends_ret _, resourceRootcheckDelete_sends lib c d,
    resourceRootcheckCreate_sends lib c d, resourceRootcheckRead_sends lib c d,
    resourceRootcheckCreate_sends lib c d, resourceSyscheckCreate_sends lib c d,
    resourceSyscheckRead_sends lib c d, resourceSyscheckDelete_sends lib c d,
    resourceRoleRead_sends lib c d, resourceRoleCreate_sends lib c d,
    resourceRoleUpdate_sends lib c d, resourceRoleDelete_sends lib c d,
    resourceRoleUserCreate_sends lib c d, Prog.Sends_ret _, resourceRoleUserUpdate_sends lib c d,
    resourceRoleUserDelete_sends lib c d, resourceAgentRead_sends lib c d,
    resourceAgentCreate_sends lib c d, resourceAgentDelete_sends lib c d,
    resourceUserRead_sends lib c d, resourceUserCreate_sends lib c d,
    resourceUserUpdate_sends lib c d, resourceUserDelete_sends lib c d,
    resourcePolicyRead_sends lib c d, resourcePolicyCreate_sends lib c d,
    resourcePolicyUpdate_sends lib c d, resourcePolicyDelete_sends lib c d,
    resourceSecurityRuleRead_sends lib c d, resourceSecurityRuleCreate_sends lib c d,
    resourceSecurityRuleUpdate_sends lib c d, resourceSecurityRuleDelete_sends lib c d,
    resourceSecurityConfigRead_sends lib c d, resourceSecurityConfigCreate_sends lib c d,
    resourceSecurityConfigCreate_sends lib c d, resourceSecurityConfigDelete_sends lib c d,
    resourceAgentNodeRestartCreate_sends lib c d, Prog.Sends_ret _, Prog.Sends_ret _,
    resourceAgentReconnectCreate_sends lib c d, Prog.Sends_ret _, Prog.Sends_ret _,
    resourceAgentRestartCreate_sends lib c d, Prog.Sends_ret _, Prog.Sends_ret _,
    resourceAgentRestartGroupCreate_sends lib c d, Prog.Sends_ret _, Prog.Sends_ret _,
    resourceAgentUpgradeCreate_sends lib c d, Prog.Sends_ret _, Prog.Sends_ret _,
    resourceAgentUpgradeCustomCreate_sends lib c d, Prog.Sends_ret _, Prog.Sends_ret _,
    resourceEventCreate_sends lib c d, Prog.Sends_ret _, Prog.Sends_ret _,
    upsertManagerConfiguration_sends lib c d, upsertManagerConfiguration_sends lib c d,
    upsertManagerConfiguration_sends lib c d, resourceManagerConfigurationRead_sends lib c d,
    Prog.Sends_ret _, resourceManagerRestartCreate_sends lib c d, Prog.Sends_ret _,
    Prog.Sends_ret _, resourceNodeAnalysisdReloadCreate_sends lib c d, Prog.Sends_ret _,
    Prog.Sends_ret _, resourceNodeConfigurationPut_sends lib c d,
    resourceNodeConfigurationPut_sends lib c d, resourceNodeConfigurationPut_sends lib c d,
    resourceNodeConfigurationRead_sends lib c d, Prog.Sends_ret _,
    resourceNodeRestartCreate_sends lib c d, Prog.Sends_ret _, Prog.Sends_ret _,
    resourceAgentGroupCreate_sends lib c d, Prog.Sends_ret _,
    resourceAgentGroupDelete_sends lib c d, resourcePolicyRoleCreate_sends lib c d,
    Prog.Sends_ret _, resourcePolicyRoleDelete_sends lib c d,
    resourceSecurityRuleRoleCreate_sends lib c d, Prog.Sends_ret _,
    resourceSecurityRuleRoleDelete_sends lib c d, forall_mem_nil_intro _⟩

/-- C5, as amended: the lifecycle functions do not map one-to-one onto HTTP
calls. `requestBounds` lists every lifecycle function of the package with two
numbers, and a call that returns without error has sent at least the first and
at most the second number of requests: none for the thirty-one no-op functions,
at most one for the fifteen functions that return early on an empty ID or an
empty list, exactly one for fifty-six functions, two for `resourceAgentCreate`,
three for `resourceRoleCreate`, `resourceUserCreate` and `resourcePolicyCreate`,
two or three for `resourceSecurityRuleCreate`, one or two for the Update
functions of role, user, policy and security rule, and at most two for
`resourceRoleUserUpdate`; `resourceRoleUpdate` sends two requests or one
according to whether `name` changed. -/
theorem requests_per_successful_call (lib : Lib) (c : APIClient) (d : ResourceData)
    (t : Transport) :
    (∀ e ∈ requestBounds, ((e.1 lib c d).result t).1.HasError = false →
      e.2.1 ≤ ((e.1 lib c d).requests t).length ∧
        ((e.1 lib c d).requests t).length ≤ e.2.2) ∧
    requestBounds.map Prod.fst = lifecycleFunctions ∧
    ((requestBounds.map Prod.snd).count (0, 0) = 31 ∧
      (requestBounds.map Prod.snd).count (0, 1) = 15 ∧
      (requestBounds.map Prod.snd).count (1, 1) = 56) ∧
    (((resourceRoleUpdate lib c d).result t).1.HasError = false →
      ((resourceRoleUpdate lib c d).requests t).length =
        if d.HasChange "name" then 2 else 1) := by
  refine ⟨fun e he => ?_, rfl, ⟨by decide, by decide, by decide⟩, ?_⟩
  · exact Prog.Leaves_requests (requestBounds_sends lib c d e he) t
  · exact Prog.Leaves_requests (resourceRoleUpdate_count lib c d) t

/-- C5 fails as stated: `resourceActiveResponseRead` returns without error and
sends no request, and a successful `resourceRoleCreate` sends three. -/
theorem successful_calls_without_exactly_one_request :
    (((resourceActiveResponseRead sampleLib sampleClient sampleActiveResponse).result
          (answer ⟨200, "", none⟩)).1.HasError = false ∧
      ((resourceActiveResponseRead sampleLib sampleClient sampleActiveResponse).requests
          (answer ⟨200, "", none⟩)).length = 0) ∧
    (((resourceRoleCreate sampleLib sampleClient sampleRole).result
          (answer ⟨200, "", none⟩)).1.HasError = false ∧
      ((resourceRoleCreate sampleLib sampleClient sampleRole).requests
          (answer ⟨200, "", none⟩)).length = 3) :=
  ⟨⟨rfl, rfl⟩, by decide, by decide⟩

/-- C6: evaluation of the resource map. `Provider()` registers three resources,
built by `resourceGroup`, `resourceGroupConfiguration` and
`resourceActiveResponse`; the package defines thirty-one constructors, and
`resourceRole`, like twenty-seven others, is the value of no key. -/
theorem ResourcesMap_omits_resourceRole :
    Provider.ResourcesMap.map (fun kv => (kv.1, kv.2.Constructor)) =
        [("wazuh_group", "resourceGroup"),
          ("wazuh_group_configuration", "resourceGroupConfiguration"),
          ("wazuh_active_response", "resourceActiveResponse")] ∧
      packageResourceConstructors.length = 31 ∧
      "resourceRole" ∈ packageResourceConstructors ∧
      (¬ ∃ kv ∈ Provider.ResourcesMap, kv.2.Constructor = "resourceRole") ∧
      (packageResourceConstructors.filter (fun name =>
        ¬ ∃ kv ∈ Provider.ResourcesMap, kv.2.Constructor = name)).length = 28 := by
  refine ⟨rfl, rfl, by decide, by decide, by decide⟩

theorem authenticate_token_iff_witness :
    sampleLib.newRequestErr "POST" (sampleClient.Endpoint ++ "/security/user/authenticate") = none ∧
      (∀ req, answer ⟨200, sampleAuthBody, none⟩ [] req = .ok ⟨200, sampleAuthBody, none⟩) ∧
      (authenticate sampleLib sampleClient).result (answer ⟨200, sampleAuthBody, none⟩) =
        ("jwt", none) :=
  ⟨rfl, fun _ => rfl,
    (authenticate_token_iff sampleLib sampleClient (answer ⟨200, sampleAuthBody, none⟩)
      ⟨200, sampleAuthBody, none⟩ rfl (fun _ => rfl) rfl).2.1
      ⟨by decide, by decide, by decide, by decide, by decide⟩⟩

theorem doRequest_result_witness :
    sampleLib.newRequestErr "GET" (sampleClient.Endpoint ++ "/" ++ "agents") = none ∧
      ((doRequest sampleLib sampleClient "GET" "agents" none).result
        (answer ⟨500, "boom", none⟩)).1 = none ∧
      (doRequest sampleLib sampleClient "GET" "agents" none).result
        (answer ⟨200, "[]", none⟩) = (some "[]", none) :=
  ⟨rfl,
    ((doRequest_result sampleLib sampleClient "GET" "agents" none (answer ⟨500, "boom", none⟩)
      ⟨500, "boom", none⟩ (fun _ h => nomatch h) rfl (fun _ => rfl) rfl).2.2.2 (by decide)).1,
    (doRequest_result sampleLib sampleClient "GET" "agents" none (answer ⟨200, "[]", none⟩)
      ⟨200, "[]", none⟩ (fun _ h => nomatch h) rfl (fun _ => rfl) rfl).2.1.mpr (by decide)⟩

theorem resourceGroupRead_cases_witness :
    sampleGroup.Id ≠ "" ∧
      ((resourceGroupRead sampleLib sampleClient sampleGroup).result
          (answer ⟨404, "", none⟩)).1.HasError = false ∧
      ((resourceGroupRead sampleLib sampleClient sampleGroup).result
          (answer ⟨404, "", none⟩)).2.Id = "" :=
  ⟨by decide,
    (resourceGroupRead_cases sampleLib sampleClient sampleGroup (answer ⟨404, "", none⟩)
      ⟨404, "", none⟩ rfl (fun _ => rfl) rfl (by decide)).2.1.mpr (Or.inl rfl)⟩

theorem trimmedNonBlank_eq (raw : List (Option String)) :
    trimmedNonBlank raw =
      ((raw.filterMap id).map strings.TrimSpace).filter (fun s => s ≠ "") := by
  induction raw with
  | nil => rfl
  | cons v rest ih =>
    cases v with
    | none => simpa [trimmedNonBlank] using ih
    | some s =>
      by_cases hs : strings.TrimSpace s = ""
      · simpa [trimmedNonBlank, hs] using ih
      · simp only [trimmedNonBlank, ne_eq, List.filterMap_cons, hs, not_false_eq_true, if_true,
          id, List.map_cons, List.filter_cons, decide_True]
        simp only [trimmedNonBlank, ne_eq] at ih
        rw [ih]

theorem resourceAgentRestartCreateAgents_eq (d : ResourceData) :
    resourceAgentRestartCreateAgents d =
      (trimmedNonBlank (d.GetList "agents_list"),
        decide ((trimmedNonBlank (d.GetList "agents_list")).length > 0)) := by
  unfold resourceAgentRestartCreateAgents ResourceData.GetOk ResourceData.GetList
  cases h : d.Get "agents_list" with
  | none => rfl
  | some v =>
    cases v with
    | list items =>
      cases items with
      | nil => rfl
      | cons a rest =>
        simp only [Value.isZero, List.isEmpty_cons, Bool.not_false, List.length_cons,
          gt_iff_lt, Nat.zero_lt_succ, if_true]
        split <;> simp_all
    | str s => cases hz : (Value.str s).isZero <;> simp [hz, trimmedNonBlank]
    | int n => cases hz : (Value.int n).isZero <;> simp [hz, trimmedNonBlank]
    | bool b => cases hz : (Value.bool b).isZero <;> simp [hz, trimmedNonBlank]
    | maps m => cases hz : (Value.maps m).isZero <;> simp [hz, trimmedNonBlank]
    | elems m => cases hz : (Value.elems m).isZero <;> simp [hz, trimmedNonBlank]

theorem String.append_eq_append_ne_empty (x y : String) : x ++ "=" ++ y ≠ "" := by
  intro h
  have := congrArg String.length h
  simp only [String.length_append] at this
  have h1 : "=".length = 1 := rfl
  have h0 : "".length = 0 := rfl
  omega

theorem url.Values.Encode_single (lib : Lib) (k v : String) :
    (url.Values.empty.Set k v).Encode lib = lib.queryEscape k ++ "=" ++ lib.queryEscape v := by
  simp [url.Values.Encode, url.Values.Set, url.Values.empty, String.intercalate,
    String.intercalate.go]

theorem lookup_filter_ne (k k2 : String) (h : k ≠ k2) (l : List (String × Value)) :
    (l.filter (fun kv => kv.1 != k2)).lookup k = l.lookup k := by
  induction l with
  | nil => rfl
  | cons kv rest ih =>
    obtain ⟨a, b⟩ := kv
    by_cases hk : a = k2
    · subst hk
      have h1 : (k == a) = false := by simpa using h
      simp [List.filter_cons, List.lookup_cons, h1, ih]
    · have h2 : (a != k2) = true := by simpa using hk
      simp [List.filter_cons, h2, List.lookup_cons, ih]

theorem ResourceData.Get_Set_ne (d : ResourceData) (k k2 : String) (v : Value) (h : k ≠ k2) :
    (d.Set k2 v).Get k = d.Get k := by
  have h1 : (k == k2) = false := by simpa using h
  simp only [ResourceData.Get, ResourceData.Set, List.lookup_cons, h1]
  exact lookup_filter_ne k k2 h d.attrs

theorem String.intercalate_go_length (s : String) (l : List String) :
    ∀ acc : String, acc.length ≤ (String.intercalate.go acc s l).length := by
  induction l with
  | nil => intro acc; exact Nat.le_refl _
  | cons a rest ih =>
    intro acc
    refine Nat.le_trans ?_ (ih (acc ++ s ++ a))
    simp only [String.length_append]
    omega

theorem url.Values.Encode_ne_empty (lib : Lib) (q : url.Values) (h : q.entries ≠ []) :
    q.Encode lib ≠ "" := by
  unfold url.Values.Encode
  have hlen : (q.entries.insertionSort (fun a b => a.1 ≤ b.1)).length ≠ 0 := by
    rw [List.length_insertionSort]
    exact fun h0 => h (List.length_eq_zero.mp h0)
  cases hs : q.entries.insertionSort (fun a b => a.1 ≤ b.1) with
  | nil => rw [hs] at hlen; exact absurd rfl hlen
  | cons kv rest =>
    intro he
    have hl := String.intercalate_go_length "&"
      (rest.map fun kv => lib.queryEscape kv.1 ++ "=" ++ lib.queryEscape kv.2)
      (lib.queryEscape kv.1 ++ "=" ++ lib.queryEscape kv.2)
    simp only [List.map_cons, String.intercalate] at he
    rw [he] at hl
    simp only [String.length_append] at hl
    have h1 : "=".length = 1 := rfl
    have h0 : "".length = 0 := rfl
    omega

theorem Prog.Leaves_false {α : Type} : ∀ p : Prog α, ¬ p.Leaves (fun _ _ => False) := by
  intro p
  induction p with
  | ret a => exact fun h => h
  | call req k ih => exact fun h => ih (.error "") (h (.error ""))

theorem Prog.requests_of_first {α : Type} (p : Prog α) (h1 : p.Leaves (fun n _ => n ≤ 1))
    (t : Transport) : p.requests t = p.first.toList := by
  cases p with
  | ret a => rfl
  | call req k =>
    have hk := h1 (t [] req)
    cases hko : k (t [] req) with
    | ret a => simp [Prog.requests, Prog.trace, Prog.run, hko, Prog.first]
    | call req2 k2 =>
      rw [hko] at hk
      exact absurd (Prog.Leaves_mono _ _ _ (fun n a (h : n + 1 + 1 ≤ 1) => by omega)
        (hk (.error ""))) (Prog.Leaves_false _)

theorem resourceAgentGroupCreate_atmost (lib : Lib) (c : APIClient) (d : ResourceData) :
    (resourceAgentGroupCreate lib c d).Leaves (fun n _ => n ≤ 1) := by
  unfold resourceAgentGroupCreate http.NewRequest
  dsimp only
  repeat' first
    | split
    | exact Nat.zero_le _
    | exact Nat.le_refl _
    | (intro _; beta_reduce)
    | fail

theorem ResourceData.GetString_Set_ne (d : ResourceData) (k k2 : String) (v : Value)
    (h : k ≠ k2) : (d.Set k2 v).GetString k = d.GetString k := by
  simp only [ResourceData.GetString, ResourceData.Get_Set_ne d k k2 v h]

theorem ResourceData.GetBool_Set_ne (d : ResourceData) (k k2 : String) (v : Value)
    (h : k ≠ k2) : (d.Set k2 v).GetBool k = d.GetBool k := by
  simp only [ResourceData.GetBool, ResourceData.Get_Set_ne d k k2 v h]

theorem resourceAgentGroupDelete_atmost (lib : Lib) (c : APIClient) (d : ResourceData) :
    (resourceAgentGroupDelete lib c d).Leaves (fun n _ => n ≤ 1) := by
  unfold resourceAgentGroupDelete resourceAgentGroupDeleteSend http.NewRequest
  dsimp only
  repeat' first
    | split
    | exact Nat.zero_le _
    | exact Nat.le_refl _
    | (intro _; beta_reduce)
    | fail

theorem agentCreateState_Id (d : ResourceData) (finalID key : String) :
    (agentCreateState d finalID key).Id = finalID := by
  unfold agentCreateState
  split <;> rfl

theorem agentCreateState_agent_id (d : ResourceData) (finalID key : String) :
    (agentCreateState d finalID key).GetString "agent_id" = finalID := by
  unfold agentCreateState
  split
  · rw [ResourceData.GetString_Set_ne _ "agent_id" "key" _ (by decide)]
    exact ResourceData.GetString_Set _ "agent_id" finalID
  · exact ResourceData.GetString_Set _ "agent_id" finalID

theorem TrimSpace_mk (l : List Char) : strings.TrimSpace ⟨l⟩ = ⟨trimChars l⟩ := rfl

theorem isSpace_ne_comma (x : Char) (hx : unicode.IsSpace x = true) : x ≠ ',' := by
  intro h
  subst h
  exact absurd hx (by decide)

theorem trimChars_cons_space (x : Char) (l : List Char) (hx : unicode.IsSpace x = true) :
    trimChars (x :: l) = trimChars l := by
  simp [trimChars, List.dropWhile_cons, hx]

theorem trimChars_concat_space (l : List Char) (x : Char) (hx : unicode.IsSpace x = true) :
    trimChars (l ++ [x]) = trimChars l := by
  unfold trimChars
  rw [List.dropWhile_append]
  by_cases h : (l.dropWhile unicode.IsSpace).isEmpty = true
  · have h2 : l.dropWhile unicode.IsSpace = [] := List.isEmpty_iff.mp h
    simp [h2, List.dropWhile_cons, hx]
  · rw [if_neg h]
    exact List.rdropWhile_concat_pos _ _ x hx

theorem splitOn_cons_ne (x : Char) (l : List Char) (hx : x ≠ ',') :
    (x :: l).splitOn ',' = ((l.splitOn ',').modifyHead (List.cons x)) := by
  simp [List.splitOn, List.splitOnP_cons, hx]

theorem splitOn_cons_comma (l : List Char) :
    (',' :: l).splitOn ',' = [] :: l.splitOn ',' := by
  simp [List.splitOn, List.splitOnP_cons]

theorem splitOn_concat (x : Char) (hx : x ≠ ',') :
    ∀ l : List Char, ∃ D g, l.splitOn ',' = D ++ [g] ∧ (l ++ [x]).splitOn ',' = D ++ [g ++ [x]] := by
  intro l
  induction l with
  | nil => exact ⟨[], [], rfl, by simp [splitOn_cons_ne x [] hx, List.modifyHead]⟩
  | cons y ys ih =>
    obtain ⟨D, g, h1, h2⟩ := ih
    by_cases hy : y = ','
    · subst hy
      refine ⟨[] :: D, g, ?_, ?_⟩
      · rw [splitOn_cons_comma, h1]; rfl
      · rw [List.cons_append, splitOn_cons_comma, h2]; rfl
    · cases D with
      | nil =>
        refine ⟨[], y :: g, ?_, ?_⟩
        · rw [splitOn_cons_ne y ys hy, h1]; rfl
        · rw [List.cons_append, splitOn_cons_ne y _ hy, h2]; rfl
      | cons d0 D2 =>
        refine ⟨(y :: d0) :: D2, g, ?_, ?_⟩
        · rw [splitOn_cons_ne y ys hy, h1]; rfl
        · rw [List.cons_append, splitOn_cons_ne y _ hy, h2]; rfl

theorem trimmedPieces_cons_space (x : Char) (l : List Char) (hx : unicode.IsSpace x = true) :
    trimmedPieces (x :: l) = trimmedPieces l := by
  unfold trimmedPieces
  rw [splitOn_cons_ne x l (isSpace_ne_comma x hx)]
  cases h : l.splitOn ',' with
  | nil => rfl
  | cons a rest =>
    simp only [List.modifyHead, List.map_cons, trimChars_cons_space x a hx]

theorem trimmedPieces_concat_space (l : List Char) (x : Char) (hx : unicode.IsSpace x = true) :
    trimmedPieces (l ++ [x]) = trimmedPieces l := by
  unfold trimmedPieces
  obtain ⟨D, g, h1, h2⟩ := splitOn_concat x (isSpace_ne_comma x hx) l
  rw [h1, h2]
  simp only [List.map_append, List.map_cons, List.map_nil, trimChars_concat_space g x hx]

theorem trimmedPieces_dropWhile (l : List Char) :
    trimmedPieces (l.dropWhile unicode.IsSpace) = trimmedPieces l := by
  induction l with
  | nil => rfl
  | cons x xs ih =>
    by_cases hx : unicode.IsSpace x = true
    · rw [List.dropWhile_cons_of_pos hx, ih, trimmedPieces_cons_space x xs hx]
    · rw [List.dropWhile_cons_of_neg hx]

theorem trimmedPieces_rdropWhile (l : List Char) :
    trimmedPieces (l.rdropWhile unicode.IsSpace) = trimmedPieces l := by
  induction l using List.reverseRecOn with
  | nil => rfl
  | append_singleton xs x ih =>
    by_cases hx : unicode.IsSpace x = true
    · rw [List.rdropWhile_concat_pos _ _ x hx, ih, trimmedPieces_concat_space xs x hx]
    · rw [List.rdropWhile_concat_neg _ _ x hx]

theorem trimmedPieces_trimChars (l : List Char) :
    trimmedPieces (trimChars l) = trimmedPieces l := by
  unfold trimChars
  rw [trimmedPieces_rdropWhile, trimmedPieces_dropWhile]

theorem String.mk_eq_empty_iff (l : List Char) : (⟨l⟩ : String) = "" ↔ l = [] := by
  constructor
  · intro h
    exact congrArg String.data h
  · intro h
    rw [h]

theorem filterMap_trim_mk (L : List (List Char)) :
    (L.map String.mk).filterMap (fun r =>
        if strings.TrimSpace r ≠ "" then some (strings.TrimSpace r) else none) =
      ((L.map trimChars).filter (fun p => p ≠ [])).map String.mk := by
  induction L with
  | nil => rfl
  | cons a rest ih =>
    by_cases ha : trimChars a = []
    · simp only [List.map_cons, List.filterMap_cons, TrimSpace_mk, ha, ne_eq,
        not_true_eq_false, if_false, List.filter_cons, decide_False] at ih ⊢
      exact ih
    · have hne : ¬ (⟨trimChars a⟩ : String) = "" := fun h => ha ((String.mk_eq_empty_iff _).mp h)
      simp only [List.map_cons, List.filterMap_cons, TrimSpace_mk, ha, hne, ne_eq,
        not_false_eq_true, if_true, List.filter_cons, decide_True] at ih ⊢
      rw [ih]

theorem map_trim_filter_mk (L : List (List Char)) :
    ((L.map String.mk).map strings.TrimSpace).filter (fun s => s ≠ "") =
      ((L.map trimChars).filter (fun p => p ≠ [])).map String.mk := by
  induction L with
  | nil => rfl
  | cons a rest ih =>
    by_cases ha : trimChars a = []
    · simp only [List.map_cons, List.filterMap_cons, TrimSpace_mk, ha, ne_eq,
        not_true_eq_false, if_false, List.filter_cons, decide_False] at ih ⊢
      exact ih
    · have hne : ¬ (⟨trimChars a⟩ : String) = "" := fun h => ha ((String.mk_eq_empty_iff _).mp h)
      simp only [List.map_cons, List.filterMap_cons, TrimSpace_mk, ha, hne, ne_eq,
        not_false_eq_true, if_true, List.filter_cons, decide_True] at ih ⊢
      rw [ih]

theorem trimmedPieces_nil : trimmedPieces [] = [] := by
  simp [trimmedPieces, trimChars]

theorem specImportRoleIDs_eq (rest : String) :
    specImportRoleIDs rest = (trimmedPieces rest.data).map String.mk := by
  unfold specImportRoleIDs strings.Split trimmedPieces
  exact map_trim_filter_mk _

theorem importRoleIDs_eq (rest : String) :
    (if strings.TrimSpace rest ≠ "" then
        (strings.Split (strings.TrimSpace rest) ',').filterMap (fun r =>
          if strings.TrimSpace r ≠ "" then some (strings.TrimSpace r) else none)
      else []) = specImportRoleIDs rest := by
  rw [specImportRoleIDs_eq, ← trimmedPieces_trimChars]
  by_cases h : strings.TrimSpace rest = ""
  · have h2 : trimChars rest.data = [] := congrArg String.data h
    simp [h, h2, trimmedPieces_nil]
  · simp only [ne_eq, h, not_false_eq_true, if_true]
    unfold strings.Split trimmedPieces
    exact filterMap_trim_mk _

theorem SplitN2_no_colon (s : String) (h : ':' ∉ s.data) : strings.SplitN2 s ':' = [s] := by
  unfold strings.SplitN2
  have : s.data.splitOn ':' = [s.data] :=
    List.splitOnP_eq_single (fun c => c == ':') s.data
      (fun x hx hp => h (by simp at hp; subst hp; exact hx))
  rw [this]

theorem SplitN2_colon (u rest : String) (h : ':' ∉ u.data) :
    strings.SplitN2 (u ++ ":" ++ rest) ':' = [u, rest] := by
  unfold strings.SplitN2
  have hd : (u ++ ":" ++ rest).data = u.data ++ ':' :: rest.data := by
    simp [String.data_append]
  have hs : (u ++ ":" ++ rest).data.splitOn ':' = u.data :: rest.data.splitOn ':' := by
    rw [hd]
    exact List.splitOnP_first (fun c => c == ':') u.data
      (fun x hx hp => h (by simp at hp; subst hp; exact hx)) ':' (beq_self_eq_true _) rest.data
  rw [hs]
  cases hr : rest.data.splitOn ':' with
  | nil => exact absurd hr (List.splitOnP_ne_nil _ _)
  | cons a as =>
    have := List.intercalate_splitOn rest.data ':'
    rw [hr] at this
    simp only [this]

theorem exists_colon_split (s : String) (h : ':' ∈ s.data) :
    ∃ u rest : String, ':' ∉ u.data ∧ s = u ++ ":" ++ rest := by
  have hsplit := List.takeWhile_append_dropWhile (fun c => c != ':') s.data
  cases hdw : s.data.dropWhile (fun c => c != ':') with
  | nil =>
    have hall := List.dropWhile_eq_nil_iff.mp hdw
    exact absurd (hall ':' h) (by simp)
  | cons x xs =>
    have hx : x = ':' := by
      have := List.head_dropWhile_not (fun c => c != ':') s.data
        (by rw [hdw]; exact List.cons_ne_nil _ _)
      simp only [hdw, List.head_cons] at this
      simpa using this
    subst hx
    refine ⟨⟨s.data.takeWhile (fun c => c != ':')⟩, ⟨xs⟩, ?_, ?_⟩
    · intro hm
      have := List.mem_takeWhile_imp hm
      simp at this
    · apply String.ext
      rw [hdw] at hsplit
      simp [String.data_append, hsplit]

theorem resourceRoleUserImport_colon (lib : Lib) (d : ResourceData) (u rest : String)
    (hu : ':' ∉ u.data) (hid : d.Id = u ++ ":" ++ rest) :
    resourceRoleUserImport lib d = .ok
      [((d.Set "user_id" (.str (strings.TrimSpace u))).Set "role_ids"
          (.list ((specImportRoleIDs rest).map some))).SetId
        (strings.TrimSpace u ++ "|" ++ ",".intercalate (specImportRoleIDs rest))] := by
  unfold resourceRoleUserImport
  simp only [hid, SplitN2_colon u rest hu, List.length_cons, List.length_nil, ne_eq,
    not_true_eq_false, if_false, List.getD_cons_zero, List.getD_cons_succ]
  have := importRoleIDs_eq rest
  simp only [ne_eq] at this
  simp only [this, strings.Join]

theorem Prog.Leaves_trivial {α : Type} : ∀ p : Prog α, p.Leaves (fun _ _ => True) := by
  intro p
  induction p with
  | ret a => trivial
  | call req k ih => exact fun o => ih o

theorem intercalate_go_data (l : List String) :
    ∀ acc : String, (String.intercalate.go acc "," l).data =
      acc.data ++ (l.map (fun b => ',' :: b.data)).flatten := by
  induction l with
  | nil => intro acc; simp [String.intercalate.go]
  | cons b bs ih =>
    intro acc
    simp only [String.intercalate.go, ih, String.data_append, List.map_cons, List.flatten_cons,
      List.append_assoc]
    rfl

theorem splitOn_comma_flatten (as : List String) (h : ∀ r ∈ as, ',' ∉ r.data) :
    ∀ a : String, ',' ∉ a.data →
      (a.data ++ (as.map (fun b => ',' :: b.data)).flatten).splitOn ',' =
        a.data :: as.map String.data := by
  induction as with
  | nil =>
    intro a ha
    simp only [List.map_nil, List.flatten_nil, List.append_nil, List.splitOn]
    exact (List.splitOnP_eq_single (fun c => c == ',') a.data
      (fun x hx hp => by simp at hp; subst hp; exact ha hx))
  | cons b bs ih =>
    intro a ha
    simp only [List.map_cons, List.flatten_cons, List.splitOn, List.cons_append]
    have := List.splitOnP_first (fun c => c == ',') a.data
      (fun x hx hp => by simp at hp; subst hp; exact ha hx) ','
      (by simp) (b.data ++ (bs.map (fun b => ',' :: b.data)).flatten)
    rw [this]
    have ih2 := ih (fun r hr => h r (List.mem_cons_of_mem _ hr)) b (h b (List.mem_cons_self _ _))
    simp only [List.splitOn] at ih2
    rw [ih2]

theorem Split_intercalate (rs : List String) (hne : rs ≠ [])
    (h : ∀ r ∈ rs, ',' ∉ r.data) : strings.Split (",".intercalate rs) ',' = rs := by
  cases rs with
  | nil => exact absurd rfl hne
  | cons a as =>
    unfold strings.Split
    simp only [String.intercalate, intercalate_go_data]
    rw [splitOn_comma_flatten as (fun r hr => h r (List.mem_cons_of_mem _ hr)) a
      (h a (List.mem_cons_self _ _))]
    simp only [List.map_cons, List.map_map]
    congr 1
    exact List.map_id _

theorem expandStringToList_list (rs : List String) :
    expandStringToList (some (.list (rs.map some))) =
      (rs.map strings.TrimSpace).filter (fun s => s ≠ "") := by
  show trimmedNonBlank (rs.map some) = _
  rw [trimmedNonBlank_eq]
  simp

theorem resourceRoleUserCreate_id (lib : Lib) (c : APIClient) (d : ResourceData) :
    (resourceRoleUserCreate lib c d).Leaves (fun _ r => r.1.HasError = false →
      r.2.Id = strings.TrimSpace (d.GetString "user_id") ++ "|"
        ++ strings.Join (expandStringToList (d.Get "role_ids")) ",") := by
  unfold resourceRoleUserCreate
  dsimp only
  split
  · exact fun h => Bool.noConfusion h
  · split
    · exact fun h => Bool.noConfusion h
    · apply Prog.Leaves_bind
      refine Prog.Leaves_mono _ _ _ (fun n r _ => ?_) (Prog.Leaves_trivial _)
      split
      · rename_i hr
        intro h
        exact absurd h (by simp [hr])
      · intro _; rfl

/-- C16: the import string `u:r1,...,rn` and a successful Create with
`user_id = u` and `role_ids = [r1, ..., rn]` leave the same resource ID, for
`u` without a colon and role IDs without a comma of which at least one is
not blank: Import succeeds on the string, and its ID is the one Create sets,
the trimmed `u`, a bar and the trimmed non-blank role IDs joined by commas. -/
theorem resourceRoleUserImport_id_eq_create (lib : Lib) (c : APIClient) (t : Transport)
    (dImport dCreate : ResourceData) (u : String) (rs : List String)
    (hu : ':' ∉ u.data) (hcomma : ∀ r ∈ rs, ',' ∉ r.data)
    (hrs : ∃ r ∈ rs, strings.TrimSpace r ≠ "")
    (hid : dImport.Id = u ++ ":" ++ ",".intercalate rs)
    (huser : dCreate.Get "user_id" = some (.str u))
    (hroles : dCreate.Get "role_ids" = some (.list (rs.map some)))
    (hok : ((resourceRoleUserCreate lib c dCreate).result t).1.HasError = false) :
    ∃ dOut, resourceRoleUserImport lib dImport = .ok [dOut] ∧
      dOut.Id = ((resourceRoleUserCreate lib c dCreate).result t).2.Id ∧
      dOut.Id = strings.TrimSpace u ++ "|"
        ++ ",".intercalate ((rs.map strings.TrimSpace).filter (fun s => s ≠ "")) := by
  have hne : rs ≠ [] := by
    obtain ⟨r, hr, _⟩ := hrs
    exact List.ne_nil_of_mem hr
  have hspec : specImportRoleIDs (",".intercalate rs) =
      (rs.map strings.TrimSpace).filter (fun s => s ≠ "") := by
    unfold specImportRoleIDs
    rw [Split_intercalate rs hne hcomma]
  have hcreate := Prog.Leaves_requests (resourceRoleUserCreate_id lib c dCreate) t hok
  have hget : dCreate.GetString "user_id" = u := by
    simp only [ResourceData.GetString, huser]
  rw [hget, hroles, expandStringToList_list] at hcreate
  refine ⟨_, resourceRoleUserImport_colon lib dImport u _ hu hid, ?_, ?_⟩
  · rw [hcreate, hspec]; rfl
  · rw [hspec]; rfl

theorem resourceRoleUserImport_id_eq_create_witness :
    ∃ dOut, resourceRoleUserImport sampleLib { id := "5:1,2", attrs := [], prior := [] }
        = .ok [dOut] ∧
      dOut.Id = ((resourceRoleUserCreate sampleLib sampleClient sampleRoleUser).result
        (answer ⟨200, "", none⟩)).2.Id ∧
      dOut.Id = strings.TrimSpace "5" ++ "|"
        ++ ",".intercalate ((["1", "2"].map strings.TrimSpace).filter (fun s => s ≠ "")) :=
  resourceRoleUserImport_id_eq_create sampleLib sampleClient (answer ⟨200, "", none⟩)
    { id := "5:1,2", attrs := [], prior := [] } sampleRoleUser "5" ["1", "2"]
    (by decide) (by decide) ⟨"1", by decide, by decide⟩ (by decide) (by decide) (by decide)
    (by decide)

theorem resourceGroupDelete_surfaces (lib : Lib) (c : APIClient) (d : ResourceData) :
    (resourceGroupDelete lib c d).StopsOn Outcome.failed errorDiagnostic := by
  unfold resourceGroupDelete http.NewRequest
  dsimp only
  repeat' first
    | split
    | exact trivial
    | (intro _; beta_reduce)
    | (refine Prog.stops_leaf _ _ (fun hb => ?_))
    | exact rfl
    | exact absurd hb (by assumption)
    | fail

theorem resourceRoleDelete_surfaces (lib : Lib) (c : APIClient) (d : ResourceData) :
    (resourceRoleDelete lib c d).StopsOn Outcome.failed errorDiagnostic := by
  unfold resourceRoleDelete http.NewRequest
  dsimp only
  repeat' first
    | split
    | exact trivial
    | (intro _; beta_reduce)
    | (refine Prog.stops_leaf _ _ (fun hb => ?_))
    | exact rfl
    | exact absurd hb (by assumption)
    | fail

theorem resourceRoleUserDelete_surfaces (lib : Lib) (c : APIClient) (d : ResourceData) :
    (resourceRoleUserDelete lib c d).StopsOn Outcome.failed errorDiagnostic := by
  unfold resourceRoleUserDelete
  dsimp only
  split
  · exact trivial
  · split
    · exact trivial
    · refine Prog.StopsOn_bind _ ?_ ?_ _ (callRoleUserRemove_stops _ _ _ _ _ _)
      · intro o a h
        exact ⟨a, if_pos h, h⟩
      · intro a
        split <;> exact trivial

theorem resourceAgentDelete_surfaces (lib : Lib) (c : APIClient) (d : ResourceData) :
    (resourceAgentDelete lib c d).StopsOn Outcome.failed errorDiagnostic := by
  unfold resourceAgentDelete http.NewRequest
  dsimp only
  repeat' first
    | split
    | exact trivial
    | (intro _; beta_reduce)
    | (refine Prog.stops_leaf _ _ (fun hb => ?_))
    | exact rfl
    | exact absurd hb (by assumption)
    | fail

theorem resourceUserDelete_surfaces (lib : Lib) (c : APIClient) (d : ResourceData) :
    (resourceUserDelete lib c d).StopsOn Outcome.failed errorDiagnostic := by
  unfold resourceUserDelete http.NewRequest
  dsimp only
  repeat' first
    | split
    | exact trivial
    | (intro _; beta_reduce)
    | (refine Prog.stops_leaf _ _ (fun hb => ?_))
    | exact rfl
    | exact absurd hb (by assumption)
    | fail

theorem resourcePolicyDelete_surfaces (lib : Lib) (c : APIClient) (d : ResourceData) :
    (resourcePolicyDelete lib c d).StopsOn Outcome.failed errorDiagnostic := by
  unfold resourcePolicyDelete http.NewRequest
  dsimp only
  repeat' first
    | split
    | exact trivial
    | (intro _; beta_reduce)
    | (refine Prog.stops_leaf _ _ (fun hb => ?_))
    | exact rfl
    | exact absurd hb (by assumption)
    | fail

theorem resourceSecurityRuleDelete_surfaces (lib : Lib) (c : APIClient) (d : ResourceData) :
    (resourceSecurityRuleDelete lib c d).StopsOn Outcome.failed errorDiagnostic := by
  unfold resourceSecurityRuleDelete http.NewRequest
  dsimp only
  repeat' first
    | split
    | exact trivial
    | (intro _; beta_reduce)
    | (refine Prog.stops_leaf _ _ (fun hb => ?_))
    | exact rfl
    | exact absurd hb (by assumption)
    | fail

theorem resourceSecurityConfigRead_surfaces (lib : Lib) (c : APIClient) (d : ResourceData) :
    (resourceSecurityConfigRead lib c d).StopsOn Outcome.failed errorDiagnostic := by
  unfold resourceSecurityConfigRead http.NewRequest
  dsimp only
  repeat' first
    | split
    | exact trivial
    | (intro _; beta_reduce)
    | (refine Prog.stops_leaf _ _ (fun hb => ?_))
    | exact rfl
    | exact absurd hb (by assumption)
    | fail

theorem resourceSecurityConfigDelete_surfaces (lib : Lib) (c : APIClient) (d : ResourceData) :
    (resourceSecurityConfigDelete lib c d).StopsOn Outcome.failed errorDiagnostic := by
  unfold resourceSecurityConfigDelete http.NewRequest
  dsimp only
  repeat' first
    | split
    | exact trivial
    | (intro _; beta_reduce)
    | (refine Prog.stops_leaf _ _ (fun hb => ?_))
    | exact rfl
    | exact absurd hb (by assumption)
    | fail

theorem resourceAgentGroupDelete_surfaces (lib : Lib) (c : APIClient) (d : ResourceData) :
    (resourceAgentGroupDelete lib c d).StopsOn Outcome.failed errorDiagnostic := by
  unfold resourceAgentGroupDelete resourceAgentGroupDeleteSend http.NewRequest
  dsimp only
  repeat' first
    | split
    | exact trivial
    | (intro _; beta_reduce)
    | (refine Prog.stops_leaf _ _ (fun hb => ?_))
    | exact rfl
    | exact absurd hb (by assumption)
    | fail

theorem resourcePolicyRoleDelete_surfaces (lib : Lib) (c : APIClient) (d : ResourceData) :
    (resourcePolicyRoleDelete lib c d).StopsOn Outcome.failed errorDiagnostic := by
  unfold resourcePolicyRoleDelete http.NewRequest
  dsimp only
  repeat' first
    | split
    | exact trivial
    | (intro _; beta_reduce)
    | (refine Prog.stops_leaf _ _ (fun hb => ?_))
    | exact rfl
    | exact absurd hb (by assumption)
    | fail

theorem resourceSecurityRuleRoleDelete_surfaces (lib : Lib) (c : APIClient) (d : ResourceData) :
    (resourceSecurityRuleRoleDelete lib c d).StopsOn Outcome.failed errorDiagnostic := by
  unfold resourceSecurityRuleRoleDelete http.NewRequest
  dsimp only
  repeat' first
    | split
    | exact trivial
    | (intro _; beta_reduce)
    | (refine Prog.stops_leaf _ _ (fun hb => ?_))
    | exact rfl
    | exact absurd hb (by assumption)
    | fail

theorem resourceGroupRead_gone (lib : Lib) (c : APIClient) (d : ResourceData) :
    (resourceGroupRead lib c d).StopsOn Outcome.notFound goneReturned := by
  unfold resourceGroupRead http.NewRequest
  dsimp only
  repeat' first
    | split
    | exact trivial
    | (intro _; beta_reduce)
    | (refine Prog.stops_leaf _ _ (fun hb => ?_))
    | exact ⟨rfl, rfl⟩
    | (obtain ⟨r, h1, h2, h3⟩ := hb; cases h1; done)
    | (obtain ⟨r, h1, h2, h3⟩ := hb; cases h1; simp_all [ioReadAll]; done)
    | (obtain ⟨r, h1, h2, h3⟩ := hb; cases h1; omega)
    | fail

theorem resourceGroupConfigurationRead_gone (lib : Lib) (c : APIClient) (d : ResourceData) :
    (resourceGroupConfigurationRead lib c d).StopsOn Outcome.notFound goneReturned := by
  unfold resourceGroupConfigurationRead http.NewRequest
  dsimp only
  repeat' first
    | split
    | exact trivial
    | (intro _; beta_reduce)
    | (refine Prog.stops_leaf _ _ (fun hb => ?_))
    | exact ⟨rfl, rfl⟩
    | (obtain ⟨r, h1, h2, h3⟩ := hb; cases h1; done)
    | (obtain ⟨r, h1, h2, h3⟩ := hb; cases h1; simp_all [ioReadAll]; done)
    | (obtain ⟨r, h1, h2, h3⟩ := hb; cases h1; omega)
    | fail

theorem resourceRuleRead_gone (lib : Lib) (c : APIClient) (d : ResourceData) :
    (resourceRuleRead lib c d).StopsOn Outcome.notFound goneReturned := by
  unfold resourceRuleRead http.NewRequest
  dsimp only
  repeat' first
    | split
    | exact trivial
    | (intro _; beta_reduce)
    | (refine Prog.stops_leaf _ _ (fun hb => ?_))
    | exact ⟨rfl, rfl⟩
    | (obtain ⟨r, h1, h2, h3⟩ := hb; cases h1; done)
    | (obtain ⟨r, h1, h2, h3⟩ := hb; cases h1; simp_all [ioReadAll]; done)
    | (obtain ⟨r, h1, h2, h3⟩ := hb; cases h1; omega)
    | fail

theorem resourceDecoderRead_gone (lib : Lib) (c : APIClient) (d : ResourceData) :
    (resourceDecoderRead lib c d).StopsOn Outcome.notFound goneReturned := by
  unfold resourceDecoderRead http.NewRequest
  dsimp only
  repeat' first
    | split
    | exact trivial
    | (intro _; beta_reduce)
    | (refine Prog.stops_leaf _ _ (fun hb => ?_))
    | exact ⟨rfl, rfl⟩
    | (obtain ⟨r, h1, h2, h3⟩ := hb; cases h1; done)
    | (obtain ⟨r, h1, h2, h3⟩ := hb; cases h1; simp_all [ioReadAll]; done)
    | (obtain ⟨r, h1, h2, h3⟩ := hb; cases h1; omega)
    | fail

theorem resourceCDBListRead_gone (lib : Lib) (c : APIClient) (d : ResourceData) :
    (resourceCDBListRead lib c d).StopsOn Outcome.notFound goneReturned := by
  unfold resourceCDBListRead http.NewRequest
  dsimp only
  repeat' first
    | split
    | exact trivial
    | (intro _; beta_reduce)
    | (refine Prog.stops_leaf _ _ (fun hb => ?_))
    | exact ⟨rfl, rfl⟩
    | (obtain ⟨r, h1, h2, h3⟩ := hb; cases h1; done)
    | (obtain ⟨r, h1, h2, h3⟩ := hb; cases h1; simp_all [ioReadAll]; done)
    | (obtain ⟨r, h1, h2, h3⟩ := hb; cases h1; omega)
    | fail

theorem resourceRootcheckRead_gone (lib : Lib) (c : APIClient) (d : ResourceData) :
    (resourceRootcheckRead lib c d).StopsOn Outcome.notFound goneReturned := by
  unfold resourceRootcheckRead http.NewRequest
  dsimp only
  repeat' first
    | split
    | exact trivial
    | (intro _; beta_reduce)
    | (refine Prog.stops_leaf _ _ (fun hb => ?_))
    | exact ⟨rfl, rfl⟩
    | (obtain ⟨r, h1, h2, h3⟩ := hb; cases h1; done)
    | (obtain ⟨r, h1, h2, h3⟩ := hb; cases h1; simp_all [ioReadAll]; done)
    | (obtain ⟨r, h1, h2, h3⟩ := hb; cases h1; omega)
    | fail

theorem resourceSyscheckRead_gone (lib : Lib) (c : APIClient) (d : ResourceData) :
    (resourceSyscheckRead lib c d).StopsOn Outcome.notFound goneReturned := by
  unfold resourceSyscheckRead http.NewRequest
  dsimp only
  repeat' first
    | split
    | exact trivial
    | (intro _; beta_reduce)
    | (refine Prog.stops_leaf _ _ (fun hb => ?_))
    | exact ⟨rfl, rfl⟩
    | (obtain ⟨r, h1, h2, h3⟩ := hb; cases h1; done)
    | (obtain ⟨r, h1, h2, h3⟩ := hb; cases h1; simp_all [ioReadAll]; done)
    | (obtain ⟨r, h1, h2, h3⟩ := hb; cases h1; omega)
    | fail

theorem resourceRoleRead_gone (lib : Lib) (c : APIClient) (d : ResourceData) :
    (resourceRoleRead lib c d).StopsOn Outcome.notFound goneReturned := by
  unfold resourceRoleRead http.NewRequest
  dsimp only
  repeat' first
    | split
    | exact trivial
    | (intro _; beta_reduce)
    | (refine Prog.stops_leaf _ _ (fun hb => ?_))
    | exact ⟨rfl, rfl⟩
    | (obtain ⟨r, h1, h2, h3⟩ := hb; cases h1; done)
    | (obtain ⟨r, h1, h2, h3⟩ := hb; cases h1; simp_all [ioReadAll]; done)
    | (obtain ⟨r, h1, h2, h3⟩ := hb; cases h1; omega)
    | fail

theorem resourceAgentRead_gone (lib : Lib) (c : APIClient) (d : ResourceData) :
    (resourceAgentRead lib c d).StopsOn Outcome.notFound goneReturned := by
  unfold resourceAgentRead http.NewRequest
  dsimp only
  repeat' first
    | split
    | exact trivial
    | (intro _; beta_reduce)
    | (refine Prog.stops_leaf _ _ (fun hb => ?_))
    | exact ⟨rfl, rfl⟩
    | (obtain ⟨r, h1, h2, h3⟩ := hb; cases h1; done)
    | (obtain ⟨r, h1, h2, h3⟩ := hb; cases h1; simp_all [ioReadAll]; done)
    | (obtain ⟨r, h1, h2, h3⟩ := hb; cases h1; omega)
    | fail

theorem resourceUserRead_gone (lib : Lib) (c : APIClient) (d : ResourceData) :
    (resourceUserRead lib c d).StopsOn Outcome.notFound goneReturned := by
  unfold resourceUserRead http.NewRequest
  dsimp only
  repeat' first
    | split
    | exact trivial
    | (intro _; beta_reduce)
    | (refine Prog.stops_leaf _ _ (fun hb => ?_))
    | exact ⟨rfl, rfl⟩
    | (obtain ⟨r, h1, h2, h3⟩ := hb; cases h1; done)
    | (obtain ⟨r, h1, h2, h3⟩ := hb; cases h1; simp_all [ioReadAll]; done)
    | (obtain ⟨r, h1, h2, h3⟩ := hb; cases h1; omega)
    | fail

theorem resourcePolicyRead_gone (lib : Lib) (c : APIClient) (d : ResourceData) :
    (resourcePolicyRead lib c d).StopsOn Outcome.notFound goneReturned := by
  unfold resourcePolicyRead http.NewRequest
  dsimp only
  repeat' first
    | split
    | exact trivial
    | (intro _; beta_reduce)
    | (refine Prog.stops_leaf _ _ (fun hb => ?_))
    | exact ⟨rfl, rfl⟩
    | (obtain ⟨r, h1, h2, h3⟩ := hb; cases h1; done)
    | (obtain ⟨r, h1, h2, h3⟩ := hb; cases h1; simp_all [ioReadAll]; done)
    | (obtain ⟨r, h1, h2, h3⟩ := hb; cases h1; omega)
    | fail

theorem resourceSecurityRuleRead_gone (lib : Lib) (c : APIClient) (d : ResourceData) :
    (resourceSecurityRuleRead lib c d).StopsOn Outcome.notFound goneReturned := by
  unfold resourceSecurityRuleRead http.NewRequest
  dsimp only
  repeat' first
    | split
    | exact trivial
    | (intro _; beta_reduce)
    | (refine Prog.stops_leaf _ _ (fun hb => ?_))
    | exact ⟨rfl, rfl⟩
    | (obtain ⟨r, h1, h2, h3⟩ := hb; cases h1; done)
    | (obtain ⟨r, h1, h2, h3⟩ := hb; cases h1; simp_all [ioReadAll]; done)
    | (obtain ⟨r, h1, h2, h3⟩ := hb; cases h1; omega)
    | fail

theorem resourceManagerConfigurationRead_gone (lib : Lib) (c : APIClient) (d : ResourceData) :
    (resourceManagerConfigurationRead lib c d).StopsOn Outcome.notFound goneReturned := by
  unfold resourceManagerConfigurationRead http.NewRequest
  dsimp only
  repeat' first
    | split
    | exact trivial
    | (intro _; beta_reduce)
    | (refine Prog.stops_leaf _ _ (fun hb => ?_))
    | exact ⟨rfl, rfl⟩
    | (obtain ⟨r, h1, h2, h3⟩ := hb; cases h1; done)
    | (obtain ⟨r, h1, h2, h3⟩ := hb; cases h1; simp_all [ioReadAll]; done)
    | (obtain ⟨r, h1, h2, h3⟩ := hb; cases h1; omega)
    | fail

theorem resourceNodeConfigurationRead_gone (lib : Lib) (c : APIClient) (d : ResourceData) :
    (resourceNodeConfigurationRead lib c d).StopsOn Outcome.notFound goneReturned := by
  unfold resourceNodeConfigurationRead http.NewRequest
  dsimp only
  repeat' first
    | split
    | exact trivial
    | (intro _; beta_reduce)
    | (refine Prog.stops_leaf _ _ (fun hb => ?_))
    | exact ⟨rfl, rfl⟩
    | (obtain ⟨r, h1, h2, h3⟩ := hb; cases h1; done)
    | (obtain ⟨r, h1, h2, h3⟩ := hb; cases h1; simp_all [ioReadAll]; done)
    | (obtain ⟨r, h1, h2, h3⟩ := hb; cases h1; omega)
    | fail

theorem resourceRuleDelete_gone (lib : Lib) (c : APIClient) (d : ResourceData) :
    (resourceRuleDelete lib c d).StopsOn Outcome.notFound goneReturned := by
  unfold resourceRuleDelete http.NewRequest
  dsimp only
  repeat' first
    | split
    | exact trivial
    | (intro _; beta_reduce)
    | (refine Prog.stops_leaf _ _ (fun hb => ?_))
    | exact ⟨rfl, rfl⟩
    | (obtain ⟨r, h1, h2, h3⟩ := hb; cases h1; done)
    | (obtain ⟨r, h1, h2, h3⟩ := hb; cases h1; simp_all [ioReadAll]; done)
    | (obtain ⟨r, h1, h2, h3⟩ := hb; cases h1; omega)
    | fail

theorem resourceDecoderDelete_gone (lib : Lib) (c : APIClient) (d : ResourceData) :
    (resourceDecoderDelete lib c d).StopsOn Outcome.notFound goneReturned := by
  unfold resourceDecoderDelete http.NewRequest
  dsimp only
  repeat' first
    | split
    | exact trivial
    | (intro _; beta_reduce)
    | (refine Prog.stops_leaf _ _ (fun hb => ?_))
    | exact ⟨rfl, rfl⟩
    | (obtain ⟨r, h1, h2, h3⟩ := hb; cases h1; done)
    | (obtain ⟨r, h1, h2, h3⟩ := hb; cases h1; simp_all [ioReadAll]; done)
    | (obtain ⟨r, h1, h2, h3⟩ := hb; cases h1; omega)
    | fail

theorem resourceCDBListDelete_gone (lib : Lib) (c : APIClient) (d : ResourceData) :
    (resourceCDBListDelete lib c d).StopsOn Outcome.notFound goneReturned := by
  unfold resourceCDBListDelete http.NewRequest
  dsimp only
  repeat' first
    | split
    | exact trivial
    | (intro _; beta_reduce)
    | (refine Prog.stops_leaf _ _ (fun hb => ?_))
    | exact ⟨rfl, rfl⟩
    | (obtain ⟨r, h1, h2, h3⟩ := hb; cases h1; done)
    | (obtain ⟨r, h1, h2, h3⟩ := hb; cases h1; simp_all [ioReadAll]; done)
    | (obtain ⟨r, h1, h2, h3⟩ := hb; cases h1; omega)
    | fail

theorem resourceLogtestDelete_gone (lib : Lib) (c : APIClient) (d : ResourceData) :
    (resourceLogtestDelete lib c d).StopsOn Outcome.notFound goneReturned := by
  unfold resourceLogtestDelete http.NewRequest
  dsimp only
  repeat' first
    | split
    | exact trivial
    | (intro _; beta_reduce)
    | (refine Prog.stops_leaf _ _ (fun hb => ?_))
    | exact ⟨rfl, rfl⟩
    | (obtain ⟨r, h1, h2, h3⟩ := hb; cases h1; done)
    | (obtain ⟨r, h1, h2, h3⟩ := hb; cases h1; simp_all [ioReadAll]; done)
    | (obtain ⟨r, h1, h2, h3⟩ := hb; cases h1; omega)
    | fail

theorem resourceRootcheckDelete_gone (lib : Lib) (c : APIClient) (d : ResourceData) :
    (resourceRootcheckDelete lib c d).StopsOn Outcome.notFound goneReturned := by
  unfold resourceRootcheckDelete http.NewRequest
  dsimp only
  repeat' first
    | split
    | exact trivial
    | (intro _; beta_reduce)
    | (refine Prog.stops_leaf _ _ (fun hb => ?_))
    | exact ⟨rfl, rfl⟩
    | (obtain ⟨r, h1, h2, h3⟩ := hb; cases h1; done)
    | (obtain ⟨r, h1, h2, h3⟩ := hb; cases h1; simp_all [ioReadAll]; done)
    | (obtain ⟨r, h1, h2, h3⟩ := hb; cases h1; omega)
    | fail

theorem resourceSyscheckDelete_gone (lib : Lib) (c : APIClient) (d : ResourceData) :
    (resourceSyscheckDelete lib c d).StopsOn Outcome.notFound goneReturned := by
  unfold resourceSyscheckDelete http.NewRequest
  dsimp only
  repeat' first
    | split
    | exact trivial
    | (intro _; beta_reduce)
    | (refine Prog.stops_leaf _ _ (fun hb => ?_))
    | exact ⟨rfl, rfl⟩
    | (obtain ⟨r, h1, h2, h3⟩ := hb; cases h1; done)
    | (obtain ⟨r, h1, h2, h3⟩ := hb; cases h1; simp_all [ioReadAll]; done)
    | (obtain ⟨r, h1, h2, h3⟩ := hb; cases h1; omega)
    | fail

theorem readDeleteFunctions_split (h : Handler) :
    h ∈ readDeleteFunctions ↔ (h ∈ surfaceOn404 ∨ h ∈ goneOn404) := by
  simp only [readDeleteFunctions, surfaceOn404, goneOn404, List.mem_cons, List.mem_singleton,
    List.not_mem_nil, or_false]
  constructor
  · intro hh
    rcases hh with rfl | rfl | rfl | rfl | rfl | rfl | rfl | rfl | rfl | rfl | rfl | rfl | rfl |
      rfl | rfl | rfl | rfl | rfl | rfl | rfl | rfl | rfl | rfl | rfl | rfl | rfl | rfl | rfl |
      rfl | rfl | rfl | rfl <;> simp
  · intro hh
    rcases hh with (rfl | rfl | rfl | rfl | rfl | rfl | rfl | rfl | rfl | rfl | rfl | rfl) |
      (rfl | rfl | rfl | rfl | rfl | rfl | rfl | rfl | rfl | rfl | rfl | rfl | rfl | rfl | rfl |
        rfl | rfl | rfl | rfl | rfl) <;> simp

theorem surfaceOn404_stops (lib : Lib) (c : APIClient) (d : ResourceData) :
    ∀ h ∈ surfaceOn404, (h lib c d).StopsOn Outcome.failed errorDiagnostic := by
  unfold surfaceOn404
  simp only [List.forall_mem_cons]
  exact ⟨resourceGroupDelete_surfaces lib c d, resourceRoleDelete_surfaces lib c d,
    resourceRoleUserDelete_surfaces lib c d, resourceAgentDelete_surfaces lib c d,
    resourceUserDelete_surfaces lib c d, resourcePolicyDelete_surfaces lib c d,
    resourceSecurityRuleDelete_surfaces lib c d, resourceSecurityConfigRead_surfaces lib c d,
    resourceSecurityConfigDelete_surfaces lib c d, resourceAgentGroupDelete_surfaces lib c d,
    resourcePolicyRoleDelete_surfaces lib c d, resourceSecurityRuleRoleDelete_surfaces lib c d,
    forall_mem_nil_intro _⟩

theorem goneOn404_stops (lib : Lib) (c : APIClient) (d : ResourceData) :
    ∀ h ∈ goneOn404, (h lib c d).StopsOn Outcome.notFound goneReturned := by
  unfold goneOn404
  simp only [List.forall_mem_cons]
  exact ⟨resourceGroupRead_gone lib c d, resourceGroupConfigurationRead_gone lib c d,
    resourceRuleRead_gone lib c d, resourceDecoderRead_gone lib c d,
    resourceCDBListRead_gone lib c d, resourceRootcheckRead_gone lib c d,
    resourceSyscheckRead_gone lib c d, resourceRoleRead_gone lib c d,
    resourceAgentRead_gone lib c d, resourceUserRead_gone lib c d,
    resourcePolicyRead_gone lib c d, resourceSecurityRuleRead_gone lib c d,
    resourceManagerConfigurationRead_gone lib c d, resourceNodeConfigurationRead_gone lib c d,
    resourceRuleDelete_gone lib c d, resourceDecoderDelete_gone lib c d,
    resourceCDBListDelete_gone lib c d, resourceLogtestDelete_gone lib c d,
    resourceRootcheckDelete_gone lib c d, resourceSyscheckDelete_gone lib c d,
    forall_mem_nil_intro _⟩

/-- C4, as amended: the Read and Delete functions that send a request fall
into two lists. In a run of one of the twelve functions of `surfaceOn404`, every
response whose status is outside 200..299 makes the function return an error
diagnostic. In a run of one of the twenty functions of `goneOn404` the same
holds unless the status is 404; a 404 whose body can be read makes them clear
the resource ID and return no error. -/
theorem non_2xx_is_error_unless_gone (lib : Lib) (c : APIClient) (d : ResourceData)
    (t : Transport) :
    (∀ h, h ∈ readDeleteFunctions ↔ (h ∈ surfaceOn404 ∨ h ∈ goneOn404)) ∧
    (∀ h ∈ surfaceOn404, ∀ e ∈ (h lib c d).trace t, ∀ resp, e.2 = .ok resp →
      ¬ (200 ≤ resp.StatusCode ∧ resp.StatusCode ≤ 299) →
      ((h lib c d).result t).1.HasError = true) ∧
    (∀ h ∈ goneOn404, ∀ e ∈ (h lib c d).trace t, ∀ resp, e.2 = .ok resp →
      ¬ (200 ≤ resp.StatusCode ∧ resp.StatusCode ≤ 299) → resp.StatusCode ≠ 404 →
      ((h lib c d).result t).1.HasError = true) ∧
    (∀ h ∈ goneOn404, ∀ e ∈ (h lib c d).trace t, ∀ resp, e.2 = .ok resp →
      resp.StatusCode = 404 → resp.ReadErr = none →
      ((h lib c d).result t).1.HasError = false ∧ ((h lib c d).result t).2.Id = "") := by
  refine ⟨readDeleteFunctions_split, fun h hh e he resp hresp hbad => ?_,
    fun h hh e he resp hresp hbad h404 => ?_, fun h hh e he resp hresp h404 hread => ?_⟩
  · obtain ⟨pre, post, htr⟩ := List.append_of_mem he
    have hf : Outcome.failed e.2 := by
      rw [hresp]
      show resp.StatusCode < 200 ∨ resp.StatusCode ≥ 300
      omega
    exact (Prog.StopsOn_trace (surfaceOn404_stops lib c d h hh) t pre e post htr hf).2
  · obtain ⟨pre, post, htr⟩ := List.append_of_mem he
    have hf : Outcome.failed e.2 := by
      rw [hresp]
      show resp.StatusCode < 200 ∨ resp.StatusCode ≥ 300
      omega
    have hs := lifecycleFunctions_stops lib c d h
      (readDeleteFunctions_subset h ((readDeleteFunctions_split h).mpr (Or.inr hh)))
    rcases (Prog.StopsOn_trace hs t pre e post htr hf).2 with herr | ⟨r, hr, hcode⟩
    · exact herr
    · rw [hresp] at hr
      cases hr
      exact absurd hcode h404
  · obtain ⟨pre, post, htr⟩ := List.append_of_mem he
    have hf : Outcome.notFound e.2 := ⟨resp, hresp, h404, hread⟩
    exact (Prog.StopsOn_trace (goneOn404_stops lib c d h hh) t pre e post htr hf).2

theorem non_2xx_is_error_unless_gone_witness :
    resourceGroupDelete ∈ surfaceOn404 ∧ resourceGroupRead ∈ goneOn404 ∧
      ((resourceGroupDelete strictLib sampleClient sampleGroup).trace
        (answer ⟨404, "", none⟩)).map Prod.snd = [.ok ⟨404, "", none⟩] ∧
      ((resourceGroupDelete strictLib sampleClient sampleGroup).result
        (answer ⟨404, "", none⟩)).1.HasError = true ∧
      ((resourceGroupRead strictLib sampleClient sampleGroup).trace
        (answer ⟨404, "", none⟩)).map Prod.snd = [.ok ⟨404, "", none⟩] ∧
      ((resourceGroupRead strictLib sampleClient sampleGroup).result
        (answer ⟨404, "", none⟩)).1.HasError = false ∧
      ((resourceGroupRead strictLib sampleClient sampleGroup).result
        (answer ⟨404, "", none⟩)).2.Id = "" :=
  have hw := non_2xx_is_error_unless_gone strictLib sampleClient sampleGroup
    (answer ⟨404, "", none⟩)
  ⟨by simp [surfaceOn404], by simp [goneOn404], rfl,
    hw.2.1 resourceGroupDelete (by simp [surfaceOn404])
      ((⟨"DELETE", "https://wazuh.example.com:55000/groups?groups_list=web", [], none⟩ :
        Request).HeaderSet "Authorization" "Bearer jwt", .ok ⟨404, "", none⟩)
      (List.mem_singleton.mpr rfl) ⟨404, "", none⟩ rfl (by decide),
    rfl,
    hw.2.2.2 resourceGroupRead (by simp [goneOn404])
      ((⟨"GET", "https://wazuh.example.com:55000/groups?groups_list=web", [], none⟩ :
        Request).HeaderSet "Authorization" "Bearer jwt", .ok ⟨404, "", none⟩)
      (List.mem_singleton.mpr rfl) ⟨404, "", none⟩ rfl rfl rfl⟩

theorem resourceRuleDelete_answered (lib : Lib) (c : APIClient) (d : ResourceData) :
    (resourceRuleDelete lib c d).StopsOn (fun _ => True) (deleteReturned d) := by
  unfold resourceRuleDelete http.NewRequest
  dsimp only
  repeat' first
    | split
    | exact trivial
    | (refine @Prog.stops_leaf _ (fun _ => True) (deleteReturned d) _ _ (fun _ => ?_))
    | (intro resp h; cases h; done)
    | (intro resp h; cases h; exact ⟨fun _ => ⟨rfl, rfl⟩, fun hn => absurd (by assumption) hn⟩)
    | (intro resp h; cases h; exact ⟨fun hp => absurd hp (by assumption), fun _ => rfl⟩)
    | (intro _; beta_reduce)
    | fail

theorem resourceDecoderDelete_answered (lib : Lib) (c : APIClient) (d : ResourceData) :
    (resourceDecoderDelete lib c d).StopsOn (fun _ => True) (deleteReturned d) := by
  unfold resourceDecoderDelete http.NewRequest
  dsimp only
  repeat' first
    | split
    | exact trivial
    | (refine @Prog.stops_leaf _ (fun _ => True) (deleteReturned d) _ _ (fun _ => ?_))
    | (intro resp h; cases h; done)
    | (intro resp h; cases h; exact ⟨fun _ => ⟨rfl, rfl⟩, fun hn => absurd (by assumption) hn⟩)
    | (intro resp h; cases h; exact ⟨fun hp => absurd hp (by assumption), fun _ => rfl⟩)
    | (intro _; beta_reduce)
    | fail

theorem resourceCDBListDelete_answered (lib : Lib) (c : APIClient) (d : ResourceData) :
    (resourceCDBListDelete lib c d).StopsOn (fun _ => True) (deleteReturned d) := by
  unfold resourceCDBListDelete http.NewRequest
  dsimp only
  repeat' first
    | split
    | exact trivial
    | (refine @Prog.stops_leaf _ (fun _ => True) (deleteReturned d) _ _ (fun _ => ?_))
    | (intro resp h; cases h; done)
    | (intro resp h; cases h; exact ⟨fun _ => ⟨rfl, rfl⟩, fun hn => absurd (by assumption) hn⟩)
    | (intro resp h; cases h; exact ⟨fun hp => absurd hp (by assumption), fun _ => rfl⟩)
    | (intro _; beta_reduce)
    | fail

theorem resourceLogtestDelete_answered (lib : Lib) (c : APIClient) (d : ResourceData) :
    (resourceLogtestDelete lib c d).StopsOn (fun _ => True) (deleteReturned d) := by
  unfold resourceLogtestDelete http.NewRequest
  dsimp only
  repeat' first
    | split
    | exact trivial
    | (refine @Prog.stops_leaf _ (fun _ => True) (deleteReturned d) _ _ (fun _ => ?_))
    | (intro resp h; cases h; done)
    | (intro resp h; cases h; exact ⟨fun _ => ⟨rfl, rfl⟩, fun hn => absurd (by assumption) hn⟩)
    | (intro resp h; cases h; exact ⟨fun hp => absurd hp (by assumption), fun _ => rfl⟩)
    | (intro _; beta_reduce)
    | fail

theorem resourceRootcheckDelete_answered (lib : Lib) (c : APIClient) (d : ResourceData) :
    (resourceRootcheckDelete lib c d).StopsOn (fun _ => True) (deleteReturned d) := by
  unfold resourceRootcheckDelete http.NewRequest
  dsimp only
  repeat' first
    | split
    | exact trivial
    | (refine @Prog.stops_leaf _ (fun _ => True) (deleteReturned d) _ _ (fun _ => ?_))
    | (intro resp h; cases h; done)
    | (intro resp h; cases h; exact ⟨fun _ => ⟨rfl, rfl⟩, fun hn => absurd (by assumption) hn⟩)
    | (intro resp h; cases h; exact ⟨fun hp => absurd hp (by assumption), fun _ => rfl⟩)
    | (intro _; beta_reduce)
    | fail

theorem resourceSyscheckDelete_answered (lib : Lib) (c : APIClient) (d : ResourceData) :
    (resourceSyscheckDelete lib c d).StopsOn (fun _ => True) (deleteReturned d) := by
  unfold resourceSyscheckDelete http.NewRequest
  dsimp only
  repeat' first
    | split
    | exact trivial
    | (refine @Prog.stops_leaf _ (fun _ => True) (deleteReturned d) _ _ (fun _ => ?_))
    | (intro resp h; cases h; done)
    | (intro resp h; cases h; exact ⟨fun _ => ⟨rfl, rfl⟩, fun hn => absurd (by assumption) hn⟩)
    | (intro resp h; cases h; exact ⟨fun hp => absurd hp (by assumption), fun _ => rfl⟩)
    | (intro _; beta_reduce)
    | fail

/-- C10: for `resourceRuleDelete`, `resourceDecoderDelete`,
`resourceCDBListDelete`, `resourceLogtestDelete`, `resourceRootcheckDelete` and
`resourceSyscheckDelete`: once a response is received, whatever the request
and the library, the function returns no error and sets the ID to the empty
string exactly when the status is 2xx or 404; for every other status it returns
an error and leaves the ID unchanged. `resourceLogtestDelete` sends no request
when the ID is empty, which is why the claim asks for a non-empty ID there. -/
theorem delete_treats_404_as_gone (lib : Lib) (c : APIClient) (d : ResourceData) (t : Transport)
    (resp : Response) :
    (∀ h ∈ [resourceRuleDelete, resourceDecoderDelete, resourceCDBListDelete,
        resourceLogtestDelete, resourceRootcheckDelete, resourceSyscheckDelete],
      ∀ req, (req, Except.ok resp) ∈ (h lib c d).trace t →
        ((((h lib c d).result t).1.HasError = false ∧ ((h lib c d).result t).2.Id = "") ↔
          ((200 ≤ resp.StatusCode ∧ resp.StatusCode ≤ 299) ∨ resp.StatusCode = 404)) ∧
        (¬ ((200 ≤ resp.StatusCode ∧ resp.StatusCode ≤ 299) ∨ resp.StatusCode = 404) →
          ((h lib c d).result t).1.HasError = true ∧ ((h lib c d).result t).2.Id = d.Id)) ∧
    (d.Id = "" → (resourceLogtestDelete lib c d).trace t = []) := by
  refine ⟨?_, fun hid => by
    simp [resourceLogtestDelete, hid, Prog.trace, Prog.run]⟩
  intro h hh req hreq
  have hs : (h lib c d).StopsOn (fun _ => True) (deleteReturned d) := by
    simp only [List.mem_cons, List.mem_singleton, List.not_mem_nil, or_false] at hh
    rcases hh with rfl | rfl | rfl | rfl | rfl | rfl
    · exact resourceRuleDelete_answered lib c d
    · exact resourceDecoderDelete_answered lib c d
    · exact resourceCDBListDelete_answered lib c d
    · exact resourceLogtestDelete_answered lib c d
    · exact resourceRootcheckDelete_answered lib c d
    · exact resourceSyscheckDelete_answered lib c d
  obtain ⟨pre, post, htr⟩ := List.append_of_mem hreq
  have hres := (Prog.StopsOn_trace hs t pre _ post htr trivial).2 resp rfl
  by_cases hc : resp.StatusCode ≠ 404 ∧ (resp.StatusCode < 200 ∨ resp.StatusCode ≥ 300)
  · have hp : ¬ ((200 ≤ resp.StatusCode ∧ resp.StatusCode ≤ 299) ∨ resp.StatusCode = 404) := by
      omega
    obtain ⟨he, hd⟩ := hres.1 hc
    refine ⟨⟨fun hx => ?_, fun hx => absurd hx hp⟩, fun _ => ⟨he, by rw [hd]⟩⟩
    rw [he] at hx
    exact absurd hx.1 (by decide)
  · have hp : (200 ≤ resp.StatusCode ∧ resp.StatusCode ≤ 299) ∨ resp.StatusCode = 404 := by
      omega
    rw [hres.2 hc]
    exact ⟨⟨fun _ => hp, fun _ => ⟨rfl, rfl⟩⟩, fun hn => absurd hp hn⟩

theorem delete_treats_404_as_gone_witness :
    (resourceRuleDelete strictLib sampleClient sampleRuleFile).trace (answer ⟨404, "", none⟩) =
        [((⟨"DELETE", "https://wazuh.example.com:55000/rules/files/local_rules.xml", [],
          none⟩ : Request).HeaderSet "Authorization" "Bearer jwt", .ok ⟨404, "", none⟩)] ∧
      ((resourceRuleDelete strictLib sampleClient sampleRuleFile).result
          (answer ⟨404, "", none⟩)).1.HasError = false ∧
      ((resourceRuleDelete strictLib sampleClient sampleRuleFile).result
          (answer ⟨404, "", none⟩)).2.Id = "" :=
  ⟨rfl,
    (((delete_treats_404_as_gone strictLib sampleClient sampleRuleFile (answer ⟨404, "", none⟩)
      ⟨404, "", none⟩).1 resourceRuleDelete (List.mem_cons_self _ _)
      ((⟨"DELETE", "https://wazuh.example.com:55000/rules/files/local_rules.xml", [],
          none⟩ : Request).HeaderSet "Authorization" "Bearer jwt")
      (List.mem_singleton.mpr rfl)).1).mpr (Or.inr rfl)⟩

/-- C9: `resourceActiveResponseCreate` sends `PUT {endpoint}/active-response`,
without a query string when `agents_list` holds no non-empty string and with
`?agents_list=` followed by the non-empty agent IDs, in order, joined by commas
otherwise; the body is the JSON encoding of `command` as configured and of
`arguments` with the empty strings removed, in order. In either case the
request is sent as soon as `json.Marshal` encodes that document and
`http.NewRequest` accepts the URL in question. -/
theorem resourceActiveResponseCreate_request (lib : Lib) (c : APIClient) (d : ResourceData)
    (t : Transport) (body : String)
    (hmarshal : lib.marshal (Json.obj [("command", .str (d.GetString "command")),
      ("arguments", .arr ((((d.GetList "arguments").filterMap id).filter
        (fun s => s ≠ "")).map Json.str))]) = .ok body) :
    ((((d.GetList "agents_list").filterMap id).filter (fun s => s ≠ "")) = [] →
      lib.newRequestErr "PUT" (c.Endpoint ++ "/active-response") = none →
      ∃ req, (resourceActiveResponseCreate lib c d).requests t = [req] ∧
        req.Method = "PUT" ∧ req.Body = some body ∧
        req.URL = c.Endpoint ++ "/active-response") ∧
    ((((d.GetList "agents_list").filterMap id).filter (fun s => s ≠ "")) ≠ [] →
      lib.newRequestErr "PUT" (c.Endpoint ++ "/active-response?agents_list=" ++
        ",".intercalate (((d.GetList "agents_list").filterMap id).filter (fun s => s ≠ "")))
        = none →
      ∃ req, (resourceActiveResponseCreate lib c d).requests t = [req] ∧
        req.Method = "PUT" ∧ req.Body = some body ∧
        req.URL = c.Endpoint ++ "/active-response?agents_list=" ++
          ",".intercalate (((d.GetList "agents_list").filterMap id).filter (fun s => s ≠ ""))) := by
  rw [← expandStringList_eq] at hmarshal
  rw [← expandStringList_eq]
  refine ⟨fun h hbuild => ?_, fun h hbuild => ?_⟩
  · have hlen : ¬ (expandStringList (d.GetList "agents_list")).length > 0 := by
      rw [h]; exact Nat.lt_irrefl 0
    refine ⟨(((⟨"PUT", c.Endpoint ++ "/active-response", [], some body⟩ : Request).HeaderSet
      "Authorization" ("Bearer " ++ c.AuthToken)).HeaderSet "Content-Type" "application/json"),
      ?_, rfl, rfl, rfl⟩
    simp only [resourceActiveResponseCreate, hmarshal, hlen, if_false, http.NewRequest, hbuild,
      Prog.requests, Prog.trace, Prog.run]
    repeat' split
    all_goals simp [Prog.run]
  · have hlen : (expandStringList (d.GetList "agents_list")).length > 0 :=
      List.length_pos.mpr h
    have hurl : c.Endpoint ++ "/active-response" ++ "?agents_list=" ++
        joinComma (expandStringList (d.GetList "agents_list")) =
        c.Endpoint ++ "/active-response?agents_list=" ++
          ",".intercalate (expandStringList (d.GetList "agents_list")) := by
      rw [joinComma_eq, String.append_assoc c.Endpoint]
      rfl
    refine ⟨(((⟨"PUT", c.Endpoint ++ "/active-response?agents_list=" ++
        ",".intercalate (expandStringList (d.GetList "agents_list")), [], some body⟩ :
      Request).HeaderSet "Authorization" ("Bearer " ++ c.AuthToken)).HeaderSet
      "Content-Type" "application/json"), ?_, rfl, rfl, rfl⟩
    simp only [resourceActiveResponseCreate, hmarshal, hlen, if_true, hurl, http.NewRequest,
      hbuild, Prog.requests, Prog.trace, Prog.run]
    repeat' split
    all_goals simp [Prog.run]

theorem resourceActiveResponseCreate_request_witness :
    strictLib.marshal (Json.obj [("command", .str "!restart.sh"),
        ("arguments", .arr [.str "-v", .str "now"])]) = .ok "payload" ∧
      strictLib.newRequestErr "PUT"
        "https://wazuh.example.com:55000/active-response?agents_list=001,002" = none ∧
      ∃ req, (resourceActiveResponseCreate strictLib sampleClient sampleActiveResponse).requests
          (answer ⟨200, "", none⟩) = [req] ∧
        req.URL = "https://wazuh.example.com:55000/active-response?agents_list=001,002" := by
  obtain ⟨req, hreq, _, _, hurl⟩ :=
    (resourceActiveResponseCreate_request strictLib sampleClient sampleActiveResponse
      (answer ⟨200, "", none⟩) "payload" rfl).2 (by decide) (by decide)
  exact ⟨rfl, by decide, req, hreq, hurl.trans (by decide)⟩

theorem resourceAgentRestartCreateURL_eq (lib : Lib) (base : String) (ids : List String) :
    (ids = [] →
      resourceAgentRestartCreateURL lib base ids (decide (ids.length > 0)) =
        base ++ "/agents/restart") ∧
    (∀ a, ids = [a] →
      resourceAgentRestartCreateURL lib base ids (decide (ids.length > 0)) =
        base ++ "/agents/" ++ a ++ "/restart") ∧
    (ids.length ≥ 2 →
      resourceAgentRestartCreateURL lib base ids (decide (ids.length > 0)) =
        base ++ "/agents/restart?" ++ lib.queryEscape "agents_list" ++ "=" ++
          lib.queryEscape (",".intercalate ids)) := by
  refine ⟨fun h => ?_, fun a h => ?_, fun h => ?_⟩
  · simp [resourceAgentRestartCreateURL, h]
  · simp [resourceAgentRestartCreateURL, h]
  · have h1 : ids.length ≠ 1 := by omega
    have h0 : ids.length > 0 := by omega
    have e : "/agents/restart?" = "/agents/restart" ++ "?" := by decide
    simp only [resourceAgentRestartCreateURL, h0, decide_True, h1,
      not_true_eq_false, if_false, url.Values.Encode_single, ne_eq,
      strings.Join, e, String.append_assoc]
    rw [if_pos]
    rw [← String.append_assoc]
    exact String.append_eq_append_ne_empty _ _

theorem resourceAgentRestartCreate_requests (lib : Lib) (c : APIClient) (d : ResourceData)
    (t : Transport) (body : String)
    (hmarshal : lib.marshal (Json.obj []) = .ok body)
    (hbuild : lib.newRequestErr "PUT" (resourceAgentRestartCreateURL lib c.Endpoint
      (trimmedNonBlank (d.GetList "agents_list"))
      (decide ((trimmedNonBlank (d.GetList "agents_list")).length > 0))) = none) :
    (resourceAgentRestartCreate lib c d).requests t =
      [((⟨"PUT", resourceAgentRestartCreateURL lib c.Endpoint
        (trimmedNonBlank (d.GetList "agents_list"))
        (decide ((trimmedNonBlank (d.GetList "agents_list")).length > 0)), [], some body⟩ :
        Request).HeaderSet "Authorization" ("Bearer " ++ c.AuthToken)).HeaderSet
        "Content-Type" "application/json"] := by
  simp only [resourceAgentRestartCreate, resourceAgentRestartCreateAgents_eq, hmarshal,
    http.NewRequest, hbuild, Prog.requests, Prog.trace, Prog.run]
  repeat' split
  all_goals simp [Prog.run]

/-- C11: with `ids` the entries of `agents_list` trimmed, blank ones removed,
`resourceAgentRestartCreate` sends one PUT: to `{endpoint}/agents/restart` when
`ids` is empty, to `{endpoint}/agents/{ids[0]}/restart` when `ids` has one
element, and to `{endpoint}/agents/restart?agents_list=<ids joined by ','>`
(key and value query-escaped) when it has two or more. In each case the request
is sent as soon as `json.Marshal` encodes the empty object and `http.NewRequest`
accepts the URL in question. -/
theorem resourceAgentRestartCreate_request (lib : Lib) (c : APIClient) (d : ResourceData)
    (t : Transport) (body : String)
    (hmarshal : lib.marshal (Json.obj []) = .ok body) :
    ((((d.GetList "agents_list").filterMap id).map strings.TrimSpace).filter
        (fun s => s ≠ "") = [] →
      lib.newRequestErr "PUT" (c.Endpoint ++ "/agents/restart") = none →
      ∃ req, (resourceAgentRestartCreate lib c d).requests t = [req] ∧
        req.Method = "PUT" ∧ req.URL = c.Endpoint ++ "/agents/restart") ∧
    (∀ a, (((d.GetList "agents_list").filterMap id).map strings.TrimSpace).filter
        (fun s => s ≠ "") = [a] →
      lib.newRequestErr "PUT" (c.Endpoint ++ "/agents/" ++ a ++ "/restart") = none →
      ∃ req, (resourceAgentRestartCreate lib c d).requests t = [req] ∧
        req.Method = "PUT" ∧ req.URL = c.Endpoint ++ "/agents/" ++ a ++ "/restart") ∧
    (((((d.GetList "agents_list").filterMap id).map strings.TrimSpace).filter
        (fun s => s ≠ "")).length ≥ 2 →
      lib.newRequestErr "PUT" (c.Endpoint ++ "/agents/restart?" ++
        lib.queryEscape "agents_list" ++ "=" ++ lib.queryEscape (",".intercalate
          ((((d.GetList "agents_list").filterMap id).map strings.TrimSpace).filter
            (fun s => s ≠ "")))) = none →
      ∃ req, (resourceAgentRestartCreate lib c d).requests t = [req] ∧
        req.Method = "PUT" ∧
        req.URL = c.Endpoint ++ "/agents/restart?" ++ lib.queryEscape "agents_list" ++ "=" ++
          lib.queryEscape (",".intercalate
            ((((d.GetList "agents_list").filterMap id).map strings.TrimSpace).filter
              (fun s => s ≠ "")))) := by
  rw [← trimmedNonBlank_eq]
  obtain ⟨h0, h1, h2⟩ := resourceAgentRestartCreateURL_eq lib c.Endpoint
    (trimmedNonBlank (d.GetList "agents_list"))
  refine ⟨fun h hbuild => ?_, fun a h hbuild => ?_, fun h hbuild => ?_⟩
  · rw [← h0 h] at hbuild
    exact ⟨_, resourceAgentRestartCreate_requests lib c d t body hmarshal hbuild, rfl, h0 h⟩
  · rw [← h1 a h] at hbuild
    exact ⟨_, resourceAgentRestartCreate_requests lib c d t body hmarshal hbuild, rfl, h1 a h⟩
  · rw [← h2 h] at hbuild
    exact ⟨_, resourceAgentRestartCreate_requests lib c d t body hmarshal hbuild, rfl, h2 h⟩

theorem resourceAgentRestartCreate_request_witness :
    strictLib.marshal (Json.obj []) = .ok "payload" ∧
      strictLib.newRequestErr "PUT"
        "https://wazuh.example.com:55000/agents/restart?agents_list=001%2C002" = none ∧
      ∃ req, (resourceAgentRestartCreate strictLib sampleClient sampleAgentRestart).requests
          (answer ⟨200, "", none⟩) = [req] ∧
        req.URL = "https://wazuh.example.com:55000/agents/restart?agents_list=001%2C002" := by
  obtain ⟨req, hreq, _, hurl⟩ :=
    (resourceAgentRestartCreate_request strictLib sampleClient sampleAgentRestart
      (answer ⟨200, "", none⟩) "payload" rfl).2.2 (by decide) (by decide)
  exact ⟨rfl, by decide, req, hreq, hurl.trans (by decide)⟩

theorem http.NewRequest_eq_error {lib : Lib} {m u : String} {b : Option String} {err : GoError}
    (h : http.NewRequest lib m u b = .error err) : lib.newRequestErr m u = some err := by
  unfold http.NewRequest at h
  split at h
  · cases h; assumption
  · cases h

theorem http.NewRequest_eq_ok {lib : Lib} {m u : String} {b : Option String} {req : Request}
    (h : http.NewRequest lib m u b = .ok req) :
    lib.newRequestErr m u = none ∧ req = ⟨m, u, [], b⟩ := by
  unfold http.NewRequest at h
  split at h
  · cases h
  · cases h; exact ⟨by assumption, rfl⟩

theorem resourceAgentGroupCreate_first (lib : Lib) (c : APIClient) (d : ResourceData)
    (body : String)
    (hmarshal : lib.marshal (Json.obj []) = .ok body)
    (hgroup : strings.TrimSpace (d.GetString "group_id") ≠ "")
    (hbuild : lib.newRequestErr "PUT" (agentGroupCreateURL lib c d
      (specAgentGroupBulkQuery (strings.TrimSpace (d.GetString "group_id"))
        (trimmedNonBlank (d.GetList "agents_list")) (d.GetBool "force_single_group"))) = none) :
    (resourceAgentGroupCreate lib c d).first =
      some ((((⟨"PUT", agentGroupCreateURL lib c d
          (specAgentGroupBulkQuery (strings.TrimSpace (d.GetString "group_id"))
            (trimmedNonBlank (d.GetList "agents_list")) (d.GetBool "force_single_group")),
        [], some body⟩ : Request).HeaderSet "Authorization"
          ("Bearer " ++ c.AuthToken)).HeaderSet "Content-Type" "application/json")) := by
  have hg2 : ¬ strings.TrimSpace (d.GetString "group_id") = "" := hgroup
  have key : ∀ u err, u = agentGroupCreateURL lib c d
      (specAgentGroupBulkQuery (strings.TrimSpace (d.GetString "group_id"))
        (trimmedNonBlank (d.GetList "agents_list")) (d.GetBool "force_single_group")) →
      http.NewRequest lib "PUT" u (some body) = .error err → False := by
    intro u err hu h
    have := http.NewRequest_eq_error h
    rw [hu, hbuild] at this
    cases this
  have key3 : ∀ u req (k : Outcome → Prog (Diagnostics × ResourceData)),
      u = agentGroupCreateURL lib c d
        (specAgentGroupBulkQuery (strings.TrimSpace (d.GetString "group_id"))
          (trimmedNonBlank (d.GetList "agents_list")) (d.GetBool "force_single_group")) →
      http.NewRequest lib "PUT" u (some body) = .ok req →
      (Prog.call ((req.HeaderSet "Authorization" ("Bearer " ++ c.AuthToken)).HeaderSet
        "Content-Type" "application/json") k).first =
      some ((((⟨"PUT", agentGroupCreateURL lib c d
          (specAgentGroupBulkQuery (strings.TrimSpace (d.GetString "group_id"))
            (trimmedNonBlank (d.GetList "agents_list")) (d.GetBool "force_single_group")),
        [], some body⟩ : Request).HeaderSet "Authorization"
          ("Bearer " ++ c.AuthToken)).HeaderSet "Content-Type" "application/json")) := by
    intro u req k hu h
    rw [(http.NewRequest_eq_ok h).2, hu]
    rfl
  simp only [resourceAgentGroupCreate, hg2, if_false, hmarshal]
  split <;> rename_i x heq <;>
    first
    | refine (key _ x ?_ heq).elim
    | refine key3 _ x _ ?_ heq
  all_goals
    simp only [agentGroupCreateURL]
    by_cases ha : strings.TrimSpace (d.GetString "agent_id") = ""
    · have hne : ∀ q : url.Values, q.entries ≠ [] →
          (if q.Encode lib ≠ "" then c.Endpoint ++ "/agents/group" ++ "?" ++ q.Encode lib
            else c.Endpoint ++ "/agents/group") =
          c.Endpoint ++ "/agents/group" ++ "?" ++ q.Encode lib :=
        fun q hq => if_pos (url.Values.Encode_ne_empty lib q hq)
      have hj : ∀ l : List String, strings.Join l "," = ",".intercalate l := fun _ => rfl
      simp only [ha, ne_eq, not_true_eq_false, if_false]
      cases hget : d.Get "agents_list" with
      | none =>
        cases hf : d.GetBool "force_single_group" <;>
          simp [ResourceData.GetOk, ResourceData.GetList, hget, specAgentGroupBulkQuery,
            trimmedNonBlank, url.Values.Set, url.Values.empty, hne]
      | some v =>
        cases v with
        | list items =>
          cases items with
          | nil =>
            cases hf : d.GetBool "force_single_group" <;>
              simp [ResourceData.GetOk, ResourceData.GetList, hget, specAgentGroupBulkQuery,
                trimmedNonBlank, url.Values.Set, url.Values.empty, hne, Value.isZero]
          | cons a rest =>
            by_cases hids : trimmedNonBlank (a :: rest) = []
            · cases hf : d.GetBool "force_single_group" <;>
                simp [ResourceData.GetOk, ResourceData.GetList, hget, specAgentGroupBulkQuery,
                  url.Values.Set, url.Values.empty, hne, Value.isZero, hids]
            · have hlen : (trimmedNonBlank (a :: rest)).length > 0 := List.length_pos.mpr hids
              cases hf : d.GetBool "force_single_group" <;>
                simp [ResourceData.GetOk, ResourceData.GetList, hget, specAgentGroupBulkQuery,
                  url.Values.Set, url.Values.empty, hne, Value.isZero, hids, hlen, hj]
        | str s =>
          cases hz : (Value.str s).isZero <;> cases hf : d.GetBool "force_single_group" <;>
            simp [ResourceData.GetOk, ResourceData.GetList, hget, specAgentGroupBulkQuery,
              trimmedNonBlank, url.Values.Set, url.Values.empty, hne, hz]
        | int n =>
          cases hz : (Value.int n).isZero <;> cases hf : d.GetBool "force_single_group" <;>
            simp [ResourceData.GetOk, ResourceData.GetList, hget, specAgentGroupBulkQuery,
              trimmedNonBlank, url.Values.Set, url.Values.empty, hne, hz]
        | bool b =>
          cases hz : (Value.bool b).isZero <;> cases hf : d.GetBool "force_single_group" <;>
            simp [ResourceData.GetOk, ResourceData.GetList, hget, specAgentGroupBulkQuery,
              trimmedNonBlank, url.Values.Set, url.Values.empty, hne, hz]
        | maps m =>
          cases hz : (Value.maps m).isZero <;> cases hf : d.GetBool "force_single_group" <;>
            simp [ResourceData.GetOk, ResourceData.GetList, hget, specAgentGroupBulkQuery,
              trimmedNonBlank, url.Values.Set, url.Values.empty, hne, hz]
        | elems m =>
          cases hz : (Value.elems m).isZero <;> cases hf : d.GetBool "force_single_group" <;>
            simp [ResourceData.GetOk, ResourceData.GetList, hget, specAgentGroupBulkQuery,
              trimmedNonBlank, url.Values.Set, url.Values.empty, hne, hz]
    · simp only [ha, ne_eq, not_false_eq_true, if_true]

theorem resourceAgentGroupCreate_requests (lib : Lib) (c : APIClient) (d : ResourceData)
    (t : Transport) (body : String)
    (hmarshal : lib.marshal (Json.obj []) = .ok body)
    (hgroup : strings.TrimSpace (d.GetString "group_id") ≠ "")
    (hbuild : lib.newRequestErr "PUT" (agentGroupCreateURL lib c d
      (specAgentGroupBulkQuery (strings.TrimSpace (d.GetString "group_id"))
        (trimmedNonBlank (d.GetList "agents_list")) (d.GetBool "force_single_group"))) = none) :
    (resourceAgentGroupCreate lib c d).requests t =
      [((⟨"PUT", agentGroupCreateURL lib c d
          (specAgentGroupBulkQuery (strings.TrimSpace (d.GetString "group_id"))
            (trimmedNonBlank (d.GetList "agents_list")) (d.GetBool "force_single_group")),
        [], some body⟩ : Request).HeaderSet "Authorization"
          ("Bearer " ++ c.AuthToken)).HeaderSet "Content-Type" "application/json"] := by
  rw [Prog.requests_of_first _ (resourceAgentGroupCreate_atmost lib c d) t,
    resourceAgentGroupCreate_first lib c d body hmarshal hgroup hbuild]
  rfl

theorem agentGroupCreateURL_eq (lib : Lib) (c : APIClient) (d : ResourceData) (q : url.Values) :
    (strings.TrimSpace (d.GetString "agent_id") ≠ "" →
      agentGroupCreateURL lib c d q =
        c.Endpoint ++ "/agents/" ++ strings.TrimSpace (d.GetString "agent_id")
          ++ "/group/" ++ strings.TrimSpace (d.GetString "group_id")
          ++ (if d.GetBool "force_single_group" then "?force_single_group=true" else "")) ∧
    (strings.TrimSpace (d.GetString "agent_id") = "" →
      agentGroupCreateURL lib c d q = c.Endpoint ++ "/agents/group?" ++ q.Encode lib) := by
  refine ⟨fun ha => ?_, fun ha => ?_⟩
  · cases hf : d.GetBool "force_single_group" <;> simp [agentGroupCreateURL, ha, hf]
  · have e : "/agents/group?" = "/agents/group" ++ "?" := by decide
    simp [agentGroupCreateURL, ha, e, String.append_assoc]

/-- C12, as amended: `resourceAgentGroupCreate` first requires a non-blank
`group_id`: with a blank one it returns the error "group_id must not be empty"
and sends nothing. Otherwise it chooses its endpoint from `agent_id` alone.
When the trimmed `agent_id` is not empty it sends one PUT to
`{endpoint}/agents/{agent_id}/group/{group_id}`, followed by
`?force_single_group=true` exactly when the flag is set, and the request is the
same whatever `agents_list` is set to. When the trimmed `agent_id` is empty it
sends one PUT to `{endpoint}/agents/group?` followed by the encoded query that
holds `group_id`, `agents_list` (the trimmed non-blank entries joined by commas)
exactly when there is such an entry, and `force_single_group=true` exactly when
the flag is set. In each case the request is sent as soon as `json.Marshal`
encodes the empty object and `http.NewRequest` accepts the URL in question. -/
theorem resourceAgentGroupCreate_request (lib : Lib) (c : APIClient) (d : ResourceData)
    (t : Transport) (body : String)
    (hmarshal : lib.marshal (Json.obj []) = .ok body) :
    (strings.TrimSpace (d.GetString "group_id") = "" →
      (resourceAgentGroupCreate lib c d).requests t = [] ∧
      (resourceAgentGroupCreate lib c d).result t =
        (diag.Errorf "group_id must not be empty", d)) ∧
    (strings.TrimSpace (d.GetString "group_id") ≠ "" →
      strings.TrimSpace (d.GetString "agent_id") ≠ "" →
      lib.newRequestErr "PUT" (c.Endpoint ++ "/agents/"
        ++ strings.TrimSpace (d.GetString "agent_id")
        ++ "/group/" ++ strings.TrimSpace (d.GetString "group_id")
        ++ (if d.GetBool "force_single_group" then "?force_single_group=true" else ""))
        = none →
      ∃ req, (resourceAgentGroupCreate lib c d).requests t = [req] ∧
        req.Method = "PUT" ∧
        req.URL = c.Endpoint ++ "/agents/" ++ strings.TrimSpace (d.GetString "agent_id")
            ++ "/group/" ++ strings.TrimSpace (d.GetString "group_id")
            ++ (if d.GetBool "force_single_group" then "?force_single_group=true" else "") ∧
        ∀ v, (resourceAgentGroupCreate lib c (d.Set "agents_list" v)).requests t = [req]) ∧
    (strings.TrimSpace (d.GetString "group_id") ≠ "" →
      strings.TrimSpace (d.GetString "agent_id") = "" →
      lib.newRequestErr "PUT" (c.Endpoint ++ "/agents/group?" ++
        (specAgentGroupBulkQuery (strings.TrimSpace (d.GetString "group_id"))
          ((((d.GetList "agents_list").filterMap id).map strings.TrimSpace).filter
            (fun s => s ≠ ""))
          (d.GetBool "force_single_group")).Encode lib) = none →
      ∃ req, (resourceAgentGroupCreate lib c d).requests t = [req] ∧
        req.Method = "PUT" ∧
        req.URL = c.Endpoint ++ "/agents/group?" ++
          (specAgentGroupBulkQuery (strings.TrimSpace (d.GetString "group_id"))
            ((((d.GetList "agents_list").filterMap id).map strings.TrimSpace).filter
              (fun s => s ≠ ""))
            (d.GetBool "force_single_group")).Encode lib) := by
  rw [← trimmedNonBlank_eq]
  refine ⟨fun hg => ?_, fun hg ha hbuild => ?_, fun hg ha hbuild => ?_⟩
  · simp [resourceAgentGroupCreate, hg, Prog.requests, Prog.trace, Prog.result, Prog.run]
  · have hu := fun q => (agentGroupCreateURL_eq lib c d q).1 ha
    have hb := hbuild
    rw [← hu (specAgentGroupBulkQuery (strings.TrimSpace (d.GetString "group_id"))
      (trimmedNonBlank (d.GetList "agents_list")) (d.GetBool "force_single_group"))] at hb
    refine ⟨_, resourceAgentGroupCreate_requests lib c d t body hmarshal hg hb, rfl, hu _,
      fun v => ?_⟩
    have hg2 : strings.TrimSpace ((d.Set "agents_list" v).GetString "group_id") ≠ "" := by
      rw [ResourceData.GetString_Set_ne d _ _ v (by decide)]
      exact hg
    have ha2 : strings.TrimSpace ((d.Set "agents_list" v).GetString "agent_id") ≠ "" := by
      rw [ResourceData.GetString_Set_ne d _ _ v (by decide)]
      exact ha
    have hurl2 : ∀ q q2, agentGroupCreateURL lib c (d.Set "agents_list" v) q =
        agentGroupCreateURL lib c d q2 := by
      intro q q2
      rw [(agentGroupCreateURL_eq lib c _ q).1 ha2, hu q2,
        ResourceData.GetString_Set_ne d "agent_id" "agents_list" v (by decide),
        ResourceData.GetString_Set_ne d "group_id" "agents_list" v (by decide),
        ResourceData.GetBool_Set_ne d "force_single_group" "agents_list" v (by decide)]
    have hb2 := hb
    rw [← hurl2 (specAgentGroupBulkQuery
      (strings.TrimSpace ((d.Set "agents_list" v).GetString "group_id"))
      (trimmedNonBlank ((d.Set "agents_list" v).GetList "agents_list"))
      ((d.Set "agents_list" v).GetBool "force_single_group"))] at hb2
    rw [resourceAgentGroupCreate_requests lib c _ t body hmarshal hg2 hb2, hurl2]
  · have hu := (agentGroupCreateURL_eq lib c d (specAgentGroupBulkQuery
      (strings.TrimSpace (d.GetString "group_id"))
      (trimmedNonBlank (d.GetList "agents_list")) (d.GetBool "force_single_group"))).2 ha
    rw [← hu] at hbuild
    exact ⟨_, resourceAgentGroupCreate_requests lib c d t body hmarshal hg hbuild, rfl, hu⟩

/-- C12 fails as stated: with a non-blank `agent_id` and a blank `group_id`,
`resourceAgentGroupCreate` sends no request at all, although the library would
accept the URL `{endpoint}/agents/{agent_id}/group/{group_id}`. -/
theorem resourceAgentGroupCreate_blank_group_sends_nothing :
    strings.TrimSpace (sampleAgentGroupBlank.GetString "agent_id") = "001" ∧
      strictLib.marshal (Json.obj []) = .ok "payload" ∧
      strictLib.newRequestErr "PUT" (sampleClient.Endpoint ++ "/agents/"
        ++ strings.TrimSpace (sampleAgentGroupBlank.GetString "agent_id") ++ "/group/"
        ++ strings.TrimSpace (sampleAgentGroupBlank.GetString "group_id")) = none ∧
      (resourceAgentGroupCreate strictLib sampleClient sampleAgentGroupBlank).requests
        (answer ⟨200, "", none⟩) = [] ∧
      (resourceAgentGroupCreate strictLib sampleClient sampleAgentGroupBlank).result
        (answer ⟨200, "", none⟩) =
          (diag.Errorf "group_id must not be empty", sampleAgentGroupBlank) :=
  ⟨by decide, rfl, by decide, rfl, rfl⟩

theorem resourceAgentGroupCreate_request_witness :
    strictLib.marshal (Json.obj []) = .ok "payload" ∧
      strings.TrimSpace (sampleAgentGroup.GetString "group_id") ≠ "" ∧
      strictLib.newRequestErr "PUT"
        "https://wazuh.example.com:55000/agents/001/group/web?force_single_group=true" = none ∧
      ∃ req, (resourceAgentGroupCreate strictLib sampleClient sampleAgentGroup).requests
          (answer ⟨200, "", none⟩) = [req] ∧
        req.URL = "https://wazuh.example.com:55000/agents/001/group/web?force_single_group=true" := by
  obtain ⟨req, hreq, _, hurl, _⟩ :=
    (resourceAgentGroupCreate_request strictLib sampleClient sampleAgentGroup
      (answer ⟨200, "", none⟩) "payload" rfl).2.1 (by decide) (by decide) (by decide)
  exact ⟨rfl, by decide, by decide, req, hreq, hurl.trans (by decide)⟩

theorem resourceAgentGroupDeleteSend_first (lib : Lib) (c : APIClient) (d : ResourceData)
    (agentID groupID u v : String) (hu : u = v)
    (hbuild : lib.newRequestErr "DELETE" v = none) :
    (resourceAgentGroupDeleteSend lib c d agentID groupID u).first =
      some ((⟨"DELETE", v, [], none⟩ : Request).HeaderSet "Authorization"
        ("Bearer " ++ c.AuthToken)) := by
  subst hu
  simp only [resourceAgentGroupDeleteSend, http.NewRequest, hbuild, Prog.first]

theorem resourceAgentGroupDelete_bulk (lib : Lib) (c : APIClient) (d : ResourceData)
    (hagent : strings.TrimSpace (d.GetString "agent_id") = "")
    (hgroup : strings.TrimSpace (d.GetString "group_id") ≠ "") :
    (trimmedNonBlank (d.GetList "agents_list") = [] →
      ∃ msg, resourceAgentGroupDelete lib c d = .ret (diag.Errorf msg, d)) ∧
    (trimmedNonBlank (d.GetList "agents_list") ≠ [] →
      lib.newRequestErr "DELETE" (c.Endpoint ++ "/agents/group?" ++
        url.Values.Encode lib ⟨[("agents_list",
          ",".intercalate (trimmedNonBlank (d.GetList "agents_list"))),
          ("group_id", strings.TrimSpace (d.GetString "group_id"))]⟩) = none →
      (resourceAgentGroupDelete lib c d).first =
        some ((⟨"DELETE", c.Endpoint ++ "/agents/group?" ++
          url.Values.Encode lib ⟨[("agents_list",
            ",".intercalate (trimmedNonBlank (d.GetList "agents_list"))),
            ("group_id", strings.TrimSpace (d.GetString "group_id"))]⟩, [], none⟩ :
          Request).HeaderSet "Authorization" ("Bearer " ++ c.AuthToken))) := by
  have hg2 : ¬ strings.TrimSpace (d.GetString "group_id") = "" := hgroup
  have hj : ∀ l : List String, strings.Join l "," = ",".intercalate l := fun _ => rfl
  have hne : ∀ q : url.Values, q.entries ≠ [] →
      (if q.Encode lib ≠ "" then c.Endpoint ++ "/agents/group" ++ "?" ++ q.Encode lib
        else c.Endpoint ++ "/agents/group") =
      c.Endpoint ++ "/agents/group" ++ "?" ++ q.Encode lib :=
    fun q hq => if_pos (url.Values.Encode_ne_empty lib q hq)
  constructor
  · intro hids
    cases hget : d.Get "agents_list" with
    | none =>
      exact ⟨"agents_list must be provided for bulk delete when agent_id is not set",
            by simp [resourceAgentGroupDelete, hagent, hg2, ResourceData.GetOk, hget]⟩
    | some v =>
      cases v with
      | list items =>
        cases items with
        | nil =>
          exact ⟨"agents_list must be provided for bulk delete when agent_id is not set",
            by simp [resourceAgentGroupDelete, hagent, hg2, ResourceData.GetOk, hget,
            Value.isZero]⟩
        | cons a rest =>
          have hids2 : trimmedNonBlank (a :: rest) = [] := by
            simpa [ResourceData.GetList, hget] using hids
          exact ⟨"agents_list must contain at least one non-empty agent ID for bulk delete",
            by simp [resourceAgentGroupDelete, hagent, hg2, ResourceData.GetOk, hget,
              Value.isZero, hids2]⟩
      | str s =>
        cases hz : (Value.str s).isZero <;>
          exact ⟨"agents_list must be provided for bulk delete when agent_id is not set",
            by simp [resourceAgentGroupDelete, hagent, hg2, ResourceData.GetOk, hget, hz]⟩
      | int n =>
        cases hz : (Value.int n).isZero <;>
          exact ⟨"agents_list must be provided for bulk delete when agent_id is not set",
            by simp [resourceAgentGroupDelete, hagent, hg2, ResourceData.GetOk, hget, hz]⟩
      | bool b =>
        cases hz : (Value.bool b).isZero <;>
          exact ⟨"agents_list must be provided for bulk delete when agent_id is not set",
            by simp [resourceAgentGroupDelete, hagent, hg2, ResourceData.GetOk, hget, hz]⟩
      | maps m =>
        cases hz : (Value.maps m).isZero <;>
          exact ⟨"agents_list must be provided for bulk delete when agent_id is not set",
            by simp [resourceAgentGroupDelete, hagent, hg2, ResourceData.GetOk, hget, hz]⟩
      | elems m =>
        cases hz : (Value.elems m).isZero <;>
          exact ⟨"agents_list must be provided for bulk delete when agent_id is not set",
            by simp [resourceAgentGroupDelete, hagent, hg2, ResourceData.GetOk, hget, hz]⟩
  · intro hids hbuild
    cases hget : d.Get "agents_list" with
    | none => exact absurd (by simp [ResourceData.GetList, hget, trimmedNonBlank]) hids
    | some v =>
      cases v with
      | list items =>
        cases items with
        | nil => exact absurd (by simp [ResourceData.GetList, hget, trimmedNonBlank]) hids
        | cons a rest =>
          have hids2 : trimmedNonBlank (a :: rest) ≠ [] := by
            simpa [ResourceData.GetList, hget] using hids
          have hlen : ¬ (trimmedNonBlank (a :: rest)).length = 0 := by
            simpa using hids2
          have e : "/agents/group?" = "/agents/group" ++ "?" := by decide
          simp only [resourceAgentGroupDelete, hagent, hg2, if_false, ne_eq, not_true_eq_false,
            ResourceData.GetOk, hget, Value.isZero, List.isEmpty_cons, Bool.not_false,
            List.length_cons, Nat.succ_ne_zero, Nat.add_one_ne_zero, hlen]
          refine resourceAgentGroupDeleteSend_first lib c d _ _ _ _ ?_ hbuild
          simp only [ResourceData.GetList, hget, hj]
          rw [hne _ (by simp [url.Values.Set]), e, ← String.append_assoc]
          simp [url.Values.Set, url.Values.empty]
      | str s => exact absurd (by simp [ResourceData.GetList, hget, trimmedNonBlank]) hids
      | int n => exact absurd (by simp [ResourceData.GetList, hget, trimmedNonBlank]) hids
      | bool b => exact absurd (by simp [ResourceData.GetList, hget, trimmedNonBlank]) hids
      | maps m => exact absurd (by simp [ResourceData.GetList, hget, trimmedNonBlank]) hids
      | elems m => exact absurd (by simp [ResourceData.GetList, hget, trimmedNonBlank]) hids

theorem String.le_of_data_le (a b : String) (h : a.data ≤ b.data) : a ≤ b := by
  rw [String.le_iff_toList_le]
  exact h

/-- C13: bulk mode of `resourceAgentGroupDelete` (blank `agent_id`, non-blank
`group_id`). With `ids` the entries of `agents_list` trimmed, blank ones
removed: `ids` is empty exactly when `agents_list` is unset, empty or holds only
blank entries, and then Delete returns an error, sends no request and leaves the
resource ID as it was; otherwise it sends one DELETE to
`{endpoint}/agents/group?` followed by the encoded query that holds `group_id`
and `agents_list` (`ids` joined by commas), as soon as `http.NewRequest`
accepts that URL. -/
theorem resourceAgentGroupDelete_bulk_mode (lib : Lib) (c : APIClient) (d : ResourceData)
    (t : Transport)
    (hagent : strings.TrimSpace (d.GetString "agent_id") = "")
    (hgroup : strings.TrimSpace (d.GetString "group_id") ≠ "") :
    ((((d.GetList "agents_list").filterMap id).map strings.TrimSpace).filter
        (fun s => s ≠ "") = [] ↔
      ∀ s, some s ∈ d.GetList "agents_list" → strings.TrimSpace s = "") ∧
    ((((d.GetList "agents_list").filterMap id).map strings.TrimSpace).filter
        (fun s => s ≠ "") = [] →
      ((resourceAgentGroupDelete lib c d).result t).1.HasError = true ∧
        (resourceAgentGroupDelete lib c d).requests t = [] ∧
        ((resourceAgentGroupDelete lib c d).result t).2.Id = d.Id) ∧
    ((((d.GetList "agents_list").filterMap id).map strings.TrimSpace).filter
        (fun s => s ≠ "") ≠ [] →
      lib.newRequestErr "DELETE" (c.Endpoint ++ "/agents/group?" ++
        url.Values.Encode lib ⟨[("agents_list", ",".intercalate
          ((((d.GetList "agents_list").filterMap id).map strings.TrimSpace).filter
            (fun s => s ≠ ""))),
          ("group_id", strings.TrimSpace (d.GetString "group_id"))]⟩) = none →
      ∃ req, (resourceAgentGroupDelete lib c d).requests t = [req] ∧
        req.Method = "DELETE" ∧
        req.URL = c.Endpoint ++ "/agents/group?" ++
          url.Values.Encode lib ⟨[("agents_list", ",".intercalate
            ((((d.GetList "agents_list").filterMap id).map strings.TrimSpace).filter
              (fun s => s ≠ ""))),
            ("group_id", strings.TrimSpace (d.GetString "group_id"))]⟩) := by
  refine ⟨?_, ?_, ?_⟩
  · simp [List.filter_eq_nil_iff]
  · rw [← trimmedNonBlank_eq]
    intro hids
    obtain ⟨msg, hmsg⟩ := (resourceAgentGroupDelete_bulk lib c d hagent hgroup).1 hids
    rw [hmsg]
    exact ⟨rfl, rfl, rfl⟩
  · rw [← trimmedNonBlank_eq]
    intro hids hbuild
    have hfirst := (resourceAgentGroupDelete_bulk lib c d hagent hgroup).2 hids hbuild
    have hreqs := Prog.requests_of_first _ (resourceAgentGroupDelete_atmost lib c d) t
    rw [hfirst] at hreqs
    exact ⟨_, hreqs, rfl, rfl⟩

theorem resourceAgentGroupDelete_bulk_mode_witness :
    (strings.TrimSpace (sampleAgentGroupBulk.GetString "agent_id") = "" ∧
      strings.TrimSpace (sampleAgentGroupBulk.GetString "group_id") ≠ "" ∧
      ((resourceAgentGroupDelete strictLib sampleClient sampleAgentGroupBulk).result
        (answer ⟨200, "", none⟩)).1.HasError = true ∧
      (resourceAgentGroupDelete strictLib sampleClient sampleAgentGroupBulk).requests
        (answer ⟨200, "", none⟩) = []) ∧
    (strings.TrimSpace (sampleAgentGroupBulkAgents.GetString "agent_id") = "" ∧
      strings.TrimSpace (sampleAgentGroupBulkAgents.GetString "group_id") ≠ "" ∧
      ∃ req, (resourceAgentGroupDelete strictLib sampleClient sampleAgentGroupBulkAgents).requests
          (answer ⟨200, "", none⟩) = [req] ∧
        req.Method = "DELETE" ∧
        req.URL = "https://wazuh.example.com:55000/agents/group?"
          ++ "agents_list=007%2C008&group_id=web") := by
  have hle : ("agents_list" : String) ≤ "group_id" :=
    String.le_of_data_le _ _ (by decide)
  have hids : (((sampleAgentGroupBulkAgents.GetList "agents_list").filterMap id).map
      strings.TrimSpace).filter (fun s => s ≠ "") = ["007", "008"] := by decide
  have hgrp : strings.TrimSpace (sampleAgentGroupBulkAgents.GetString "group_id") = "web" := by
    decide
  have henc : url.Values.Encode strictLib
      ⟨[("agents_list", ",".intercalate ["007", "008"]), ("group_id", "web")]⟩ =
      "agents_list=007%2C008&group_id=web" := by
    simp only [url.Values.Encode, List.insertionSort, List.orderedInsert, hle, if_true]
    decide
  have hw := (resourceAgentGroupDelete_bulk_mode strictLib sampleClient
    sampleAgentGroupBulkAgents (answer ⟨200, "", none⟩) (by decide) (by decide)).2.2
  rw [hids, hgrp, henc] at hw
  obtain ⟨req, hreq, hm, hurl⟩ := hw (by decide) (by decide)
  exact ⟨⟨by decide, by decide,
    ((resourceAgentGroupDelete_bulk_mode strictLib sampleClient sampleAgentGroupBulk
      (answer ⟨200, "", none⟩) (by decide) (by decide)).2.1 (by decide)).1,
    ((resourceAgentGroupDelete_bulk_mode strictLib sampleClient sampleAgentGroupBulk
      (answer ⟨200, "", none⟩) (by decide) (by decide)).2.1 (by decide)).2.1⟩,
    by decide, by decide, req, hreq, hm, hurl.trans (by decide)⟩

theorem resourceAgentRead_answered (lib : Lib) (c : APIClient) (d : ResourceData) :
    (resourceAgentRead lib c d).StopsOn (fun _ => True) (agentReadBack lib d) := by
  unfold resourceAgentRead http.NewRequest
  dsimp only
  repeat' first
    | split
    | exact trivial
    | (refine @Prog.stops_leaf _ (fun _ => True) (agentReadBack lib d) _ _ (fun _ => ?_))
    | (intro resp h hread; cases h; done)
    | (intro resp h hread; cases h
       refine ⟨fun h4 => ?_, fun h4 hn => ?_, fun h2 hdec =>
         ⟨fun hz => ?_, fun item more he ht hi => ?_⟩⟩)
    | (intro _; beta_reduce)
    | fail
  all_goals try (simp_all [ioReadAll]; done)
  all_goals try omega
  all_goals try (simp_all [ioReadAll]; omega)
  all_goals try exact ⟨rfl, rfl⟩
  refine ⟨rfl, rfl, ?_⟩
  simp only [ioReadAll, Prod.mk.injEq] at *
  rename_i hres _ _ hb
  obtain ⟨hb1, _⟩ := hb
  subst hb1
  rw [hres] at hi
  simp only at hi
  rw [hi]
  simp [ResourceData.GetString_Set_ne, ResourceData.GetString_Set]

theorem resourceAgentRead_id (lib : Lib) (c : APIClient) (d : ResourceData) :
    (resourceAgentRead lib c d).Leaves (fun _ r =>
      r.2.Id = d.Id ∨ (r.2.Id = "" ∧ r.1.HasError = false)) := by
  unfold resourceAgentRead http.NewRequest
  dsimp only
  repeat' first
    | split
    | exact Or.inl rfl
    | exact Or.inr ⟨rfl, rfl⟩
    | (intro _; beta_reduce)
    | fail

theorem resourceAgentCreate_run (lib : Lib) (c : APIClient) (d : ResourceData) (t : Transport)
    (resp : Response) (body : String)
    (hname : strings.TrimSpace (d.GetString "name") ≠ "")
    (hmarshal : lib.marshal (Json.obj (resourceAgentCreatePayload d)) = .ok body)
    (hbuild : lib.newRequestErr "POST" (c.Endpoint ++ "/agents/insert") = none)
    (hdo : ∀ req, t [] req = .ok resp) (hread : resp.ReadErr = none)
    (h2xx : 200 ≤ resp.StatusCode ∧ resp.StatusCode ≤ 299) :
    (resourceAgentCreate lib c d).run t [] =
      if (if strings.TrimSpace (d.GetString "agent_id") = "" then
          (lib.unmarshalAgentCreate resp.Body).1.Data.ID
          else strings.TrimSpace (d.GetString "agent_id")) = "" then
        ((diag.Errorf "agent created but no ID returned by Wazuh", d),
          [((((⟨"POST", c.Endpoint ++ "/agents/insert", [], some body⟩ : Request).HeaderSet
            "Authorization" ("Bearer " ++ c.AuthToken)).HeaderSet "Content-Type"
            "application/json"), .ok resp)])
      else
        (resourceAgentRead lib c (agentCreateState d
          (if strings.TrimSpace (d.GetString "agent_id") = "" then
            (lib.unmarshalAgentCreate resp.Body).1.Data.ID
            else strings.TrimSpace (d.GetString "agent_id"))
          (lib.unmarshalAgentCreate resp.Body).1.Data.Key)).run t
          [((((⟨"POST", c.Endpoint ++ "/agents/insert", [], some body⟩ : Request).HeaderSet
            "Authorization" ("Bearer " ++ c.AuthToken)).HeaderSet "Content-Type"
            "application/json"), .ok resp)] := by
  have hn : ¬ strings.TrimSpace (d.GetString "name") = "" := hname
  have hs : ¬ (resp.StatusCode < 200 ∨ resp.StatusCode ≥ 300) := by omega
  simp only [resourceAgentCreatePayload] at hmarshal
  unfold resourceAgentCreate
  simp only [hn, if_false]
  rw [hmarshal]
  simp only [http.NewRequest, hbuild]
  simp only [Prog.run, hdo, ioReadAll, hread, hs, if_false, List.nil_append]
  generalize (if strings.TrimSpace (d.GetString "agent_id") = "" then
    (lib.unmarshalAgentCreate resp.Body).1.Data.ID
    else strings.TrimSpace (d.GetString "agent_id")) = finalID
  by_cases hfin : finalID = ""
  · simp only [hfin, if_true, Prog.run]
  · simp only [hfin, if_false, agentCreateState]

/-- C14, as amended: after a 2xx response to `POST {endpoint}/agents/insert`,
`resourceAgentCreate` settles on `finalID`, the trimmed configured `agent_id`
when that is not empty and `data.id` of the decoded response otherwise. When
`finalID` is empty (as when `json.Unmarshal` fails and leaves the struct
untouched) it returns the error "agent created but no ID returned by Wazuh"
with the resource data unchanged and sends nothing more. Otherwise it sets the
resource ID and `agent_id` to `finalID` and returns what `resourceAgentRead`
returns on that state, so that the ID it returns is `finalID` or, without error,
the empty string: the read-back clears the ID on a 404 and on a 2xx listing
without the agent, keeps `finalID` with an error on any other status outside
200..299, and keeps `finalID` and sets `agent_id` to the ID of the agent listed
otherwise. -/
theorem resourceAgentCreate_final_id (lib : Lib) (c : APIClient) (d : ResourceData)
    (t : Transport) (resp : Response) (body : String)
    (hname : strings.TrimSpace (d.GetString "name") ≠ "")
    (hmarshal : lib.marshal (Json.obj (resourceAgentCreatePayload d)) = .ok body)
    (hbuild : lib.newRequestErr "POST" (c.Endpoint ++ "/agents/insert") = none)
    (hdo : ∀ req, t [] req = .ok resp) (hread : resp.ReadErr = none)
    (h2xx : 200 ≤ resp.StatusCode ∧ resp.StatusCode ≤ 299) :
    ∃ req finalID, req.Method = "POST" ∧ req.URL = c.Endpoint ++ "/agents/insert" ∧
      req.Body = some body ∧
      (strings.TrimSpace (d.GetString "agent_id") ≠ "" →
        finalID = strings.TrimSpace (d.GetString "agent_id")) ∧
      (strings.TrimSpace (d.GetString "agent_id") = "" →
        finalID = (lib.unmarshalAgentCreate resp.Body).1.Data.ID) ∧
      (strings.TrimSpace (d.GetString "agent_id") = "" →
        ∀ err, lib.unmarshalAgentCreate resp.Body = (⟨⟨"", ""⟩, 0⟩, some err) → finalID = "") ∧
      (finalID = "" →
        (resourceAgentCreate lib c d).run t [] =
          ((diag.Errorf "agent created but no ID returned by Wazuh", d), [(req, .ok resp)])) ∧
      (finalID ≠ "" →
        (∃ d2, d2.Id = finalID ∧ d2.GetString "agent_id" = finalID ∧
          (resourceAgentCreate lib c d).run t [] =
            (resourceAgentRead lib c d2).run t [(req, .ok resp)]) ∧
        (((resourceAgentCreate lib c d).result t).2.Id = finalID ∨
          (((resourceAgentCreate lib c d).result t).2.Id = "" ∧
            ((resourceAgentCreate lib c d).result t).1.HasError = false)) ∧
        (∀ first req2 resp2 rest,
          (resourceAgentCreate lib c d).trace t = first :: (req2, .ok resp2) :: rest →
          resp2.ReadErr = none →
          (resp2.StatusCode = 404 →
            ((resourceAgentCreate lib c d).result t).1.HasError = false ∧
              ((resourceAgentCreate lib c d).result t).2.Id = "") ∧
          (resp2.StatusCode ≠ 404 → ¬ (200 ≤ resp2.StatusCode ∧ resp2.StatusCode ≤ 299) →
            ((resourceAgentCreate lib c d).result t).1.HasError = true ∧
              ((resourceAgentCreate lib c d).result t).2.Id = finalID) ∧
          ((200 ≤ resp2.StatusCode ∧ resp2.StatusCode ≤ 299) →
            (lib.unmarshalAgentRead resp2.Body).2 = none →
            (((lib.unmarshalAgentRead resp2.Body).1.Error ≠ 0 ∨
                (lib.unmarshalAgentRead resp2.Body).1.Data.TotalAffected = 0 ∨
                (lib.unmarshalAgentRead resp2.Body).1.Data.AffectedItems = []) →
              ((resourceAgentCreate lib c d).result t).1.HasError = false ∧
                ((resourceAgentCreate lib c d).result t).2.Id = "") ∧
            (∀ item more, (lib.unmarshalAgentRead resp2.Body).1.Error = 0 →
              (lib.unmarshalAgentRead resp2.Body).1.Data.TotalAffected ≠ 0 →
              (lib.unmarshalAgentRead resp2.Body).1.Data.AffectedItems = item :: more →
              ((resourceAgentCreate lib c d).result t).1.HasError = false ∧
                ((resourceAgentCreate lib c d).result t).2.Id = finalID ∧
                ((resourceAgentCreate lib c d).result t).2.GetString "agent_id" = item.ID)))) := by
  have hrun := resourceAgentCreate_run lib c d t resp body hname hmarshal hbuild hdo hread h2xx
  refine ⟨(((⟨"POST", c.Endpoint ++ "/agents/insert", [], some body⟩ : Request).HeaderSet
      "Authorization" ("Bearer " ++ c.AuthToken)).HeaderSet "Content-Type"
      "application/json"), (if strings.TrimSpace (d.GetString "agent_id") = "" then
      (lib.unmarshalAgentCreate resp.Body).1.Data.ID
      else strings.TrimSpace (d.GetString "agent_id")), rfl, rfl, rfl,
    fun ha => if_neg ha, fun ha => if_pos ha, fun ha err he => ?_, fun hfin => ?_,
    fun hfin => ?_⟩
  · rw [if_pos ha, he]
  · rw [hrun, if_pos hfin]
  · rw [if_neg hfin] at hrun
    have hid := agentCreateState_Id d (if strings.TrimSpace (d.GetString "agent_id") = "" then
      (lib.unmarshalAgentCreate resp.Body).1.Data.ID
      else strings.TrimSpace (d.GetString "agent_id"))
      (lib.unmarshalAgentCreate resp.Body).1.Data.Key
    refine ⟨⟨_, hid, agentCreateState_agent_id d _ _, hrun⟩, ?_, ?_⟩
    · obtain ⟨n, _, hq⟩ := Prog.Leaves_run t _ _
        [((((⟨"POST", c.Endpoint ++ "/agents/insert", [], some body⟩ : Request).HeaderSet
          "Authorization" ("Bearer " ++ c.AuthToken)).HeaderSet "Content-Type"
          "application/json"), .ok resp)] (resourceAgentRead_id lib c (agentCreateState d
          (if strings.TrimSpace (d.GetString "agent_id") = "" then
            (lib.unmarshalAgentCreate resp.Body).1.Data.ID
            else strings.TrimSpace (d.GetString "agent_id"))
          (lib.unmarshalAgentCreate resp.Body).1.Data.Key))
      rw [hid, ← hrun] at hq
      exact hq
    · intro first req2 resp2 rest htr hread2
      have hfirst : first = ((((⟨"POST", c.Endpoint ++ "/agents/insert", [], some body⟩ :
          Request).HeaderSet "Authorization" ("Bearer " ++ c.AuthToken)).HeaderSet
          "Content-Type" "application/json"), .ok resp) := by
        obtain ⟨ex, hex⟩ := Prog.run_log t (resourceAgentRead lib c (agentCreateState d
          (if strings.TrimSpace (d.GetString "agent_id") = "" then
            (lib.unmarshalAgentCreate resp.Body).1.Data.ID
            else strings.TrimSpace (d.GetString "agent_id"))
          (lib.unmarshalAgentCreate resp.Body).1.Data.Key))
          [((((⟨"POST", c.Endpoint ++ "/agents/insert", [], some body⟩ : Request).HeaderSet
            "Authorization" ("Bearer " ++ c.AuthToken)).HeaderSet "Content-Type"
            "application/json"), .ok resp)]
        rw [← hrun] at hex
        have h2 : (resourceAgentCreate lib c d).trace t = _ := hex
        rw [htr] at h2
        exact (List.cons.inj h2).1
      subst hfirst
      have htr2 : ((resourceAgentRead lib c (agentCreateState d
          (if strings.TrimSpace (d.GetString "agent_id") = "" then
            (lib.unmarshalAgentCreate resp.Body).1.Data.ID
            else strings.TrimSpace (d.GetString "agent_id"))
          (lib.unmarshalAgentCreate resp.Body).1.Data.Key)).run t
          [((((⟨"POST", c.Endpoint ++ "/agents/insert", [], some body⟩ : Request).HeaderSet
            "Authorization" ("Bearer " ++ c.AuthToken)).HeaderSet "Content-Type"
            "application/json"), .ok resp)]).2 =
          [((((⟨"POST", c.Endpoint ++ "/agents/insert", [], some body⟩ : Request).HeaderSet
            "Authorization" ("Bearer " ++ c.AuthToken)).HeaderSet "Content-Type"
            "application/json"), .ok resp)] ++ [] ++ (req2, .ok resp2) :: rest := by
        rw [← hrun]
        exact htr
      have hback := (Prog.StopsOn_run t _ _ (resourceAgentRead_answered lib c _) [] _ rest htr2
        trivial).2 resp2 rfl hread2
      rw [← hrun, hid] at hback
      obtain ⟨h404, hbad, hok⟩ := hback
      refine ⟨fun h => ?_, fun h hn => ?_, fun h hdec => ⟨fun hz => ?_, fun item more he ht hi => ?_⟩⟩
      · have := h404 h
        simp only [Prog.result]
        rw [this]
        exact ⟨rfl, rfl⟩
      · obtain ⟨h1, h2⟩ := hbad h hn
        simp only [Prog.result]
        rw [h2]
        exact ⟨h1, hid⟩
      · have := (hok h hdec).1 hz
        simp only [Prog.result]
        rw [this]
        exact ⟨rfl, rfl⟩
      · obtain ⟨h1, h2, h3⟩ := (hok h hdec).2 item more he ht hi
        simp only [Prog.result]
        exact ⟨by rw [h1]; rfl, h2, h3⟩

/-- C14 fails as stated: the agent `010` is inserted with a 2xx answer, the
read-back is answered with 404, and `resourceAgentCreate` returns without error
and with an empty resource ID, not with the configured `agent_id`. -/
theorem resourceAgentCreate_read_back_clears_id :
    strings.TrimSpace (sampleAgent.GetString "agent_id") = "010" ∧
      ((resourceAgentCreate strictLib sampleClient sampleAgent).trace
        (answerFirstThen ⟨200, sampleAgentInsertBody, none⟩ ⟨404, "", none⟩)).map
          (fun e => (e.1.Method, e.1.URL, e.2)) =
        [("POST", "https://wazuh.example.com:55000/agents/insert",
            .ok ⟨200, sampleAgentInsertBody, none⟩),
          ("GET", "https://wazuh.example.com:55000/agents?agents_list=010",
            .ok ⟨404, "", none⟩)] ∧
      ((resourceAgentCreate strictLib sampleClient sampleAgent).result
        (answerFirstThen ⟨200, sampleAgentInsertBody, none⟩ ⟨404, "", none⟩)).1.HasError
          = false ∧
      ((resourceAgentCreate strictLib sampleClient sampleAgent).result
        (answerFirstThen ⟨200, sampleAgentInsertBody, none⟩ ⟨404, "", none⟩)).2.Id = "" :=
  ⟨by decide, rfl, rfl, rfl⟩

theorem resourceAgentCreate_final_id_witness :
    strings.TrimSpace (sampleAgent.GetString "name") ≠ "" ∧
      strictLib.marshal (Json.obj (resourceAgentCreatePayload sampleAgent)) = .ok "payload" ∧
      strictLib.newRequestErr "POST" "https://wazuh.example.com:55000/agents/insert" = none ∧
      ((resourceAgentCreate strictLib sampleClient sampleAgent).result
        (answerFirstThen ⟨200, sampleAgentInsertBody, none⟩
          ⟨200, sampleAgentListBody, none⟩)).1.HasError = false ∧
      ((resourceAgentCreate strictLib sampleClient sampleAgent).result
        (answerFirstThen ⟨200, sampleAgentInsertBody, none⟩
          ⟨200, sampleAgentListBody, none⟩)).2.Id = "010" ∧
      ((resourceAgentCreate strictLib sampleClient sampleAgent).result
        (answerFirstThen ⟨200, sampleAgentInsertBody, none⟩
          ⟨200, sampleAgentListBody, none⟩)).2.GetString "agent_id" = "010" := by
  obtain ⟨req, finalID, _, _, _, hfin, _, _, _, hset⟩ :=
    resourceAgentCreate_final_id strictLib sampleClient sampleAgent
      (answerFirstThen ⟨200, sampleAgentInsertBody, none⟩ ⟨200, sampleAgentListBody, none⟩)
      ⟨200, sampleAgentInsertBody, none⟩ "payload" (by decide) rfl (by decide) (fun _ => rfl)
      rfl (by decide)
  have hf : finalID = "010" := (hfin (by decide)).trans (by decide)
  subst hf
  obtain ⟨h1, h2, h3⟩ := ((hset (by decide)).2.2
    ((((⟨"POST", "https://wazuh.example.com:55000/agents/insert", [], some "payload"⟩ :
      Request).HeaderSet "Authorization" "Bearer jwt").HeaderSet "Content-Type"
      "application/json"), .ok ⟨200, sampleAgentInsertBody, none⟩)
    ((⟨"GET", "https://wazuh.example.com:55000/agents?agents_list=010", [], none⟩ :
      Request).HeaderSet "Authorization" "Bearer jwt")
    ⟨200, sampleAgentListBody, none⟩ [] rfl rfl).2.2 (by decide) rfl
    |>.2 ⟨"010", "web01", "", "", "", "", "", ""⟩ [] rfl (by decide) rfl
  exact ⟨by decide, rfl, by decide, h1, h2, h3⟩

theorem rdropWhile_split (p : Char → Bool) (l : List Char) :
    ∃ post, l = l.rdropWhile p ++ post ∧ ∀ c ∈ post, p c = true := by
  induction l using List.reverseRecOn with
  | nil => exact ⟨[], by simp [List.rdropWhile], fun _ h => absurd h (List.not_mem_nil _)⟩
  | append_singleton l a ih =>
    by_cases ha : p a = true
    · obtain ⟨post, hpost, hall⟩ := ih
      refine ⟨post ++ [a], ?_, ?_⟩
      · rw [List.rdropWhile_concat_pos _ _ _ ha, ← List.append_assoc, ← hpost]
      · intro c hc
        rcases List.mem_append.mp hc with h | h
        · exact hall c h
        · rw [List.mem_singleton.mp h]; exact ha
    · exact ⟨[], by rw [List.rdropWhile_concat_neg _ _ _ ha, List.append_nil],
        fun _ h => absurd h (List.not_mem_nil _)⟩

theorem strings.TrimSpace_spec (s : String) :
    ∃ pre post : List Char, s.data = pre ++ (strings.TrimSpace s).data ++ post ∧
      (∀ c ∈ pre, unicode.IsSpace c = true) ∧ (∀ c ∈ post, unicode.IsSpace c = true) ∧
      (∀ c, (strings.TrimSpace s).data.head? = some c → unicode.IsSpace c = false) ∧
      (∀ c, (strings.TrimSpace s).data.getLast? = some c → unicode.IsSpace c = false) := by
  obtain ⟨post, hpost, hall⟩ := rdropWhile_split unicode.IsSpace (s.data.dropWhile unicode.IsSpace)
  refine ⟨s.data.takeWhile unicode.IsSpace, post, ?_, fun c hc => List.mem_takeWhile_imp hc,
    hall, fun c hc => ?_, fun c hc => ?_⟩
  · show s.data = _ ++ (s.data.dropWhile unicode.IsSpace).rdropWhile unicode.IsSpace ++ post
    rw [List.append_assoc, ← hpost, List.takeWhile_append_dropWhile]
  · have hc2 : ((s.data.dropWhile unicode.IsSpace).rdropWhile unicode.IsSpace).head? = some c := hc
    obtain ⟨t, ht⟩ : (s.data.dropWhile unicode.IsSpace).rdropWhile unicode.IsSpace <+:
        s.data.dropWhile unicode.IsSpace := List.rdropWhile_prefix unicode.IsSpace _
    cases hr : (s.data.dropWhile unicode.IsSpace).rdropWhile unicode.IsSpace with
    | nil => rw [hr] at hc2; cases hc2
    | cons x xs =>
      rw [hr] at hc2 ht
      cases hc2
      have h := List.head?_dropWhile_not unicode.IsSpace s.data
      rw [← ht] at h
      simpa using h
  · have hc2 : ((s.data.dropWhile unicode.IsSpace).rdropWhile unicode.IsSpace).getLast? = some c :=
      hc
    have hne : (s.data.dropWhile unicode.IsSpace).rdropWhile unicode.IsSpace ≠ [] := by
      intro h
      rw [h] at hc2
      cases hc2
    have h := List.rdropWhile_last_not unicode.IsSpace _ hne
    rw [List.getLast?_eq_getLast _ hne] at hc2
    cases hc2
    simpa using h

theorem splitOn_no_comma : ∀ l : List Char, ∀ p ∈ l.splitOn ',', ',' ∉ p := by
  intro l
  induction l with
  | nil => intro p hp; simp [List.splitOn, List.splitOnP_nil] at hp; subst hp; simp
  | cons x xs ih =>
    intro p hp
    by_cases hx : x = ','
    · subst hx
      rw [splitOn_cons_comma] at hp
      rcases List.mem_cons.mp hp with h | h
      · subst h; simp
      · exact ih p h
    · rw [splitOn_cons_ne x xs hx] at hp
      cases hs : xs.splitOn ',' with
      | nil => rw [hs] at hp; simp [List.modifyHead] at hp
      | cons g gs =>
        rw [hs] at hp ih
        simp only [List.modifyHead, List.mem_cons] at hp
        rcases hp with h | h
        · subst h
          intro hm
          rcases List.mem_cons.mp hm with h1 | h1
          · exact hx h1.symm
          · exact ih g (List.mem_cons_self _ _) h1
        · exact ih p (List.mem_cons_of_mem _ h)

theorem intercalate_cons_flatten (a : List Char) (as : List (List Char)) :
    [','].intercalate (a :: as) = a ++ (as.map (fun b => ',' :: b)).flatten := by
  induction as generalizing a with
  | nil => simp [List.intercalate, List.intersperse]
  | cons b bs ih =>
    have h := ih b
    simp only [List.intercalate, List.intersperse, List.flatten_cons, List.map_cons,
      List.singleton_append] at h ⊢
    rw [h]
    simp

theorem Split_spec (rest : String) :
    strings.Split rest ',' ≠ [] ∧ (∀ p ∈ strings.Split rest ',', ',' ∉ p.data) ∧
      rest = ",".intercalate (strings.Split rest ',') := by
  unfold strings.Split
  refine ⟨?_, ?_, ?_⟩
  · intro h
    exact List.splitOnP_ne_nil _ _ (List.map_eq_nil_iff.mp h)
  · intro p hp
    obtain ⟨q, hq, rfl⟩ := List.mem_map.mp hp
    exact splitOn_no_comma rest.data q hq
  · cases hs : rest.data.splitOn ',' with
    | nil => exact absurd hs (List.splitOnP_ne_nil _ _)
    | cons a as =>
      apply String.ext
      simp only [List.map_cons, String.intercalate, intercalate_go_data, List.map_map]
      have h : [','].intercalate (rest.data.splitOn ',') = rest.data :=
        List.intercalate_splitOn rest.data ','
      rw [hs, intercalate_cons_flatten] at h
      rw [← h]
      congr 2

/-- C15: `resourceRoleUserImport` fails exactly when the import ID holds no
colon. An ID with a colon is `u`, a colon and comma-free pieces joined by
commas, with no colon in `u`, and then Import sets `user_id` to `u` trimmed,
`role_ids` to the pieces, each trimmed, blank ones dropped, in order, and the
resource ID to the trimmed `u`, a bar and these role IDs joined by commas.
Trimming removes the white space at both ends and nothing else. `5:1,2,3` gives
user `5`, roles `1`, `2`, `3` and the ID `5|1,2,3`; white space around the
user, around the roles, and blank roles do not show in the result. -/
theorem resourceRoleUserImport_format (lib : Lib) (d : ResourceData) :
    ((∃ err, resourceRoleUserImport lib d = .error err) ↔ ':' ∉ d.Id.data) ∧
    (':' ∈ d.Id.data → ∃ (u : String) (pieces : List String), ':' ∉ u.data ∧ pieces ≠ [] ∧
      (∀ p ∈ pieces, ',' ∉ p.data) ∧ d.Id = u ++ ":" ++ ",".intercalate pieces) ∧
    (∀ (u : String) (pieces : List String), ':' ∉ u.data → pieces ≠ [] →
      (∀ p ∈ pieces, ',' ∉ p.data) → d.Id = u ++ ":" ++ ",".intercalate pieces →
      resourceRoleUserImport lib d = .ok
        [((d.Set "user_id" (.str (strings.TrimSpace u))).Set "role_ids"
            (.list (((pieces.map strings.TrimSpace).filter (fun s => s ≠ "")).map some))).SetId
          (strings.TrimSpace u ++ "|" ++
            ",".intercalate ((pieces.map strings.TrimSpace).filter (fun s => s ≠ "")))]) ∧
    (∀ s : String, ∃ pre post : List Char,
      s.data = pre ++ (strings.TrimSpace s).data ++ post ∧
      (∀ c ∈ pre, unicode.IsSpace c = true) ∧ (∀ c ∈ post, unicode.IsSpace c = true) ∧
      (∀ c, (strings.TrimSpace s).data.head? = some c → unicode.IsSpace c = false) ∧
      (∀ c, (strings.TrimSpace s).data.getLast? = some c → unicode.IsSpace c = false)) ∧
    resourceRoleUserImport lib { id := "5:1,2,3", attrs := [], prior := [] } = .ok
      [{ id := "5|1,2,3"
         attrs := [("role_ids", .list [some "1", some "2", some "3"]), ("user_id", .str "5")]
         prior := [] }] ∧
    resourceRoleUserImport lib { id := " 5\t: 1 ,, 2\n, ", attrs := [], prior := [] } = .ok
      [{ id := "5|1,2"
         attrs := [("role_ids", .list [some "1", some "2"]), ("user_id", .str "5")]
         prior := [] }] ∧
    resourceRoleUserImport lib { id := "5: , ", attrs := [], prior := [] } = .ok
      [{ id := "5|", attrs := [("role_ids", .list []), ("user_id", .str "5")], prior := [] }] := by
  have hspec : ∀ pieces : List String, pieces ≠ [] → (∀ p ∈ pieces, ',' ∉ p.data) →
      specImportRoleIDs (",".intercalate pieces) =
        (pieces.map strings.TrimSpace).filter (fun s => s ≠ "") := by
    intro pieces hne hfree
    unfold specImportRoleIDs
    rw [Split_intercalate pieces hne hfree]
  refine ⟨⟨fun h => ?_, fun h => ?_⟩, fun hc => ?_, fun u pieces hu hne hfree hid => ?_,
    strings.TrimSpace_spec, ?_, ?_, ?_⟩
  · intro hc
    obtain ⟨u, rest, hu, hid⟩ := exists_colon_split d.Id hc
    obtain ⟨err, he⟩ := h
    rw [resourceRoleUserImport_colon lib d u rest hu hid] at he
    cases he
  · refine ⟨"unexpected import ID format " ++ lib.quote d.Id
      ++ ", expected 'user_id:role_id1,role_id2,...'", ?_⟩
    unfold resourceRoleUserImport
    simp only [SplitN2_no_colon d.Id h, List.length_cons, List.length_nil, ne_eq]
    rfl
  · obtain ⟨u, rest, hu, hid⟩ := exists_colon_split d.Id hc
    obtain ⟨hne, hfree, hrest⟩ := Split_spec rest
    exact ⟨u, strings.Split rest ',', hu, hne, hfree, by rw [← hrest]; exact hid⟩
  · rw [resourceRoleUserImport_colon lib d u _ hu hid, hspec pieces hne hfree]
  · rw [resourceRoleUserImport_colon lib { id := "5:1,2,3", attrs := [], prior := [] }
      "5" "1,2,3" (by decide) (by decide)]
    have e : specImportRoleIDs "1,2,3" = ["1", "2", "3"] := by decide
    rw [e]
    have e2 : strings.TrimSpace "5" = "5" := by decide
    rw [e2]
    rfl
  · rw [resourceRoleUserImport_colon lib { id := " 5\t: 1 ,, 2\n, ", attrs := [], prior := [] }
      " 5\t" " 1 ,, 2\n, " (by decide) (by decide)]
    have e : specImportRoleIDs " 1 ,, 2\n, " = ["1", "2"] := by decide
    rw [e]
    have e2 : strings.TrimSpace " 5\t" = "5" := by decide
    rw [e2]
    rfl
  · rw [resourceRoleUserImport_colon lib { id := "5: , ", attrs := [], prior := [] }
      "5" " , " (by decide) (by decide)]
    have e : specImportRoleIDs " , " = [] := by decide
    rw [e]
    have e2 : strings.TrimSpace "5" = "5" := by decide
    rw [e2]
    rfl

end Wazuh
